import Mathlib

/-!
# ALTER ... CHANGE / MODIFY attribute: admissibility and migration planning

A shallow embedding of the attribute-change planning code of
`src/query/execute_schema.c` (CUBRID): the property-change ledger
(`SM_ATTR_PROP_CHG`), the type compatibility matrix
(`build_att_type_change_map`), the ledger builder (`build_attr_change_map`),
the admissibility checker (`check_att_chg_allowed`) and the escalating planner
(`check_change_attribute`).

Conventions of the embedding:

* A ledger entry is a word of bit flags: the code only ever builds it from 0
  or `ATT_CHG_PROPERTY_NOT_CHECKED` by setting and clearing flags, so it is a
  natural number with the bitwise operations of `Nat`.
* `goto not_allowed` / early `return` is `throw` in the `Except` monad.
* `assert` is compiled out (release build): it has no effect on the result.
* Enumerations whose declarations live in headers outside
  `execute_schema.c` are kept symbolic: one constructor per enumerator that the
  file names.
* Results of collaborators that are not defined in `execute_schema.c`
  (catalog lookups, domain matching, the parser) are fields of the request
  handed to the function.
-/

namespace Cubrid

/-! ## Enumerations -/

/-- The migration strategy `SM_ATTR_CHG_SOL` (lines 75-83). -/
inductive SM_ATTR_CHG_SOL where
  | SM_ATTR_CHG_NOT_NEEDED
  | SM_ATTR_CHG_ONLY_SCHEMA
  | SM_ATTR_CHG_WITH_ROW_UPDATE
  | SM_ATTR_CHG_BEST_EFFORT
  deriving DecidableEq, Repr

export SM_ATTR_CHG_SOL (SM_ATTR_CHG_NOT_NEEDED SM_ATTR_CHG_ONLY_SCHEMA
  SM_ATTR_CHG_WITH_ROW_UPDATE SM_ATTR_CHG_BEST_EFFORT)

/-- The numeric value of a strategy in the C enum (0, 1, 2, 3). -/
def SM_ATTR_CHG_SOL.toNat : SM_ATTR_CHG_SOL → Nat
  | SM_ATTR_CHG_NOT_NEEDED => 0
  | SM_ATTR_CHG_ONLY_SCHEMA => 1
  | SM_ATTR_CHG_WITH_ROW_UPDATE => 2
  | SM_ATTR_CHG_BEST_EFFORT => 3

/-! The `ATT_CHG_XXX` bit flags (lines 95-130). -/

def ATT_CHG_PROPERTY_PRESENT_OLD : Nat := 0x1
def ATT_CHG_PROPERTY_PRESENT_NEW : Nat := 0x2
def ATT_CHG_PROPERTY_LOST : Nat := 0x4
def ATT_CHG_PROPERTY_GAINED : Nat := 0x8
def ATT_CHG_PROPERTY_UNCHANGED : Nat := 0x10
def ATT_CHG_PROPERTY_DIFF : Nat := 0x20
def ATT_CHG_TYPE_PREC_INCR : Nat := 0x100
def ATT_CHG_TYPE_SET_CLS_COMPAT : Nat := 0x200
def ATT_CHG_TYPE_UPGRADE : Nat := 0x400
def ATT_CHG_TYPE_NEED_ROW_CHECK : Nat := 0x800
def ATT_CHG_TYPE_PSEUDO_UPGRADE : Nat := 0x1000
def ATT_CHG_TYPE_NOT_SUPPORTED_WITH_CFG : Nat := 0x2000
def ATT_CHG_TYPE_NOT_SUPPORTED : Nat := 0x4000
def ATT_CHG_PROPERTY_NOT_CHECKED : Nat := 0x10000

/-- Number of tracked properties (`NUM_ATT_CHG_PROP`, line 153). -/
abbrev NUM_ATT_CHG_PROP : Nat := 15

/-! Indices into the ledger array (lines 134-154). -/

abbrev P_NAME : Fin NUM_ATT_CHG_PROP := 0
abbrev P_NOT_NULL : Fin NUM_ATT_CHG_PROP := 1
abbrev P_DEFAULT_VALUE : Fin NUM_ATT_CHG_PROP := 2
abbrev P_CONSTR_CHECK : Fin NUM_ATT_CHG_PROP := 3
abbrev P_DEFFERABLE : Fin NUM_ATT_CHG_PROP := 4
abbrev P_ORDER : Fin NUM_ATT_CHG_PROP := 5
abbrev P_AUTO_INCR : Fin NUM_ATT_CHG_PROP := 6
abbrev P_CONSTR_FK : Fin NUM_ATT_CHG_PROP := 7
abbrev P_S_CONSTR_PK : Fin NUM_ATT_CHG_PROP := 8
abbrev P_M_CONSTR_PK : Fin NUM_ATT_CHG_PROP := 9
abbrev P_S_CONSTR_UNI : Fin NUM_ATT_CHG_PROP := 10
abbrev P_M_CONSTR_UNI : Fin NUM_ATT_CHG_PROP := 11
abbrev P_CONSTR_NON_UNI : Fin NUM_ATT_CHG_PROP := 12
abbrev P_TYPE : Fin NUM_ATT_CHG_PROP := 13
abbrev P_IS_PARTITION_COL : Fin NUM_ATT_CHG_PROP := 14

/-- The name space of an attribute (`SM_NAME_SPACE`). -/
inductive SM_NAME_SPACE where
  | ID_ATTRIBUTE
  | ID_SHARED_ATTRIBUTE
  | ID_CLASS_ATTRIBUTE
  | ID_METHOD
  | ID_CLASS_METHOD
  | ID_INSTANCE
  | ID_CLASS
  | ID_NULL
  deriving DecidableEq, Repr

export SM_NAME_SPACE (ID_ATTRIBUTE ID_SHARED_ATTRIBUTE ID_CLASS_ATTRIBUTE ID_NULL)

/-- The parse-tree type identifiers (`PT_TYPE_ENUM`) that `execute_schema.c`
names; `PT_TYPE_OTHER` stands for the enumerators it does not name. -/
inductive PT_TYPE_ENUM where
  | PT_TYPE_NONE
  | PT_TYPE_INTEGER
  | PT_TYPE_FLOAT
  | PT_TYPE_DOUBLE
  | PT_TYPE_SMALLINT
  | PT_TYPE_DATE
  | PT_TYPE_TIME
  | PT_TYPE_TIMESTAMP
  | PT_TYPE_DATETIME
  | PT_TYPE_MONETARY
  | PT_TYPE_NUMERIC
  | PT_TYPE_CHAR
  | PT_TYPE_VARCHAR
  | PT_TYPE_NCHAR
  | PT_TYPE_VARNCHAR
  | PT_TYPE_BIT
  | PT_TYPE_VARBIT
  | PT_TYPE_LOGICAL
  | PT_TYPE_MAYBE
  | PT_TYPE_NA
  | PT_TYPE_NULL
  | PT_TYPE_STAR
  | PT_TYPE_OBJECT
  | PT_TYPE_SET
  | PT_TYPE_MULTISET
  | PT_TYPE_SEQUENCE
  | PT_TYPE_MIDXKEY
  | PT_TYPE_COMPOUND
  | PT_TYPE_RESULTSET
  | PT_TYPE_BIGINT
  | PT_TYPE_BLOB
  | PT_TYPE_CLOB
  | PT_TYPE_ELO
  | PT_TYPE_OTHER (code : Nat)
  deriving DecidableEq, Repr

open PT_TYPE_ENUM

/-- The error codes that the attribute-change code sets or returns. Their
numeric values are declared outside `execute_schema.c`; distinct names are
distinct codes, `NO_ERROR` is the success value and `ER_OTHER` carries a code
reported by a collaborator (`er_errid ()`). -/
inductive ErrorCode where
  | NO_ERROR
  | ER_FAILED
  | ER_UNEXPECTED
  | ER_OUT_OF_VIRTUAL_MEMORY
  | ER_OBJ_TEMPLATE_INTERNAL
  | ER_IT_INCOMPATIBLE_DATATYPE
  | ER_CANNOT_HAVE_NOTNULL_DEFAULT_NULL
  | ER_SM_INVALID_INDEX_TYPE
  | ER_SM_NOT_NULL_NOT_ALLOWED
  | ER_SM_INVALID_CONSTRAINT
  | ER_ALTER_CHANGE_PARTITIONS
  | ER_ALTER_CHANGE_FK
  | ER_ALTER_CHANGE_HARD_DEFAULT_NOT_EXIST
  | ER_ALTER_CHANGE_TYPE_WITH_AUTO_INCR
  | ER_ALTER_CHANGE_TYPE_NOT_SUPP
  | ER_ALTER_CHANGE_TYPE_UPGRADE_CFG
  | ER_ALTER_CHANGE_TYPE_NEED_ROW_CHECK
  | ER_ALTER_CHANGE_TYPE_WITH_INDEX
  | ER_ALTER_CHANGE_GAIN_CONSTRAINT
  | ER_ALTER_CHANGE_MULTIPLE_PK
  | ER_ALTER_CHANGE_CLASS_HIERARCHY
  | ER_ALTER_CHANGE_WARN_NO_CHANGE
  | ER_LK_UNILATERALLY_ABORTED
  | ER_OTHER (code : Int)
  deriving DecidableEq, Repr

open ErrorCode

/-! ## The property-change ledger -/

/-- A saved constraint (`SM_CONSTRAINT_INFO`): the fields this file reads.
`constraint_type` is the numeric `DB_CONSTRAINT_TYPE`; the serialized filter
predicate and function-index expression are kept as text. The `next` pointer
is the list structure. -/
structure SM_CONSTRAINT_INFO where
  name : Option String
  att_names : List String
  asc_desc : Option (List Int)
  prefix_length : Option (List Int)
  filter_predicate : Option String
  func_index_info : Option String
  constraint_type : Int
  deriving DecidableEq, Repr

/-- The ledger `SM_ATTR_PROP_CHG` (lines 161-171). -/
structure SM_ATTR_PROP_CHG where
  p : Fin NUM_ATT_CHG_PROP → Nat
  constr_info : List SM_CONSTRAINT_INFO
  new_constr_info : List SM_CONSTRAINT_INFO
  att_id : Int
  name_space : SM_NAME_SPACE
  class_has_subclass : Bool

/-- The C assignment `a->p[i] = v`. -/
def SM_ATTR_PROP_CHG.set (a : SM_ATTR_PROP_CHG) (i : Fin NUM_ATT_CHG_PROP) (v : Nat) :
    SM_ATTR_PROP_CHG :=
  { a with p := fun j => if j = i then v else a.p j }

/-- The C expression `p & ~f` on flag words: the bits of `f` are cleared in
`p`. It is computed as `p ^ (p & f)`, the same word bit for bit
(`and_not_eq_ldiff`). -/
def and_not (p f : Nat) : Nat := p ^^^ (p &&& f)

/-- Checks that the property has the flag set: `is_att_prop_set`
(lines 14057-14061). -/
def is_att_prop_set (prop value : Nat) : Bool :=
  prop &&& value == value

/-- Marks all properties as unchecked: `reset_att_property_structure`
(lines 14072-14089). -/
def reset_att_property_structure (_a : SM_ATTR_PROP_CHG) : SM_ATTR_PROP_CHG :=
  { p := fun _ => ATT_CHG_PROPERTY_NOT_CHECKED
    constr_info := []
    new_constr_info := []
    att_id := -1
    name_space := ID_NULL
    class_has_subclass := false }

/-- True if all properties are marked as checked:
`is_att_property_structure_checked` (lines 14002-14016). The loop returns
false at the first entry that is not below `ATT_CHG_PROPERTY_NOT_CHECKED`. -/
def is_att_property_structure_checked (a : SM_ATTR_PROP_CHG) : Bool :=
  !(List.finRange NUM_ATT_CHG_PROP).any fun i =>
    decide (a.p i ≥ ATT_CHG_PROPERTY_NOT_CHECKED)

/-- Decides if the schema update is necessary: `is_att_change_needed`
(lines 14028-14047). The loop returns true at the first entry that is at
least `ATT_CHG_PROPERTY_DIFF` or lacks the UNCHANGED flag. -/
def is_att_change_needed (a : SM_ATTR_PROP_CHG) : Bool :=
  (List.finRange NUM_ATT_CHG_PROP).any fun i =>
    decide (a.p i ≥ ATT_CHG_PROPERTY_DIFF)
      || !is_att_prop_set (a.p i) ATT_CHG_PROPERTY_UNCHANGED

/-- The hard-coded default of a type, as query text, or `none` for the C
`NULL`: `get_hard_default_for_type` (lines 14249-14328). -/
def get_hard_default_for_type : PT_TYPE_ENUM → Option String
  | PT_TYPE_INTEGER | PT_TYPE_SMALLINT | PT_TYPE_MONETARY | PT_TYPE_NUMERIC
  | PT_TYPE_BIGINT | PT_TYPE_FLOAT | PT_TYPE_DOUBLE => some "0"
  | PT_TYPE_TIMESTAMP => some "1"
  | PT_TYPE_DATE => some "DATE '01/01/0001'"
  | PT_TYPE_TIME => some "TIME '00:00'"
  | PT_TYPE_DATETIME => some "DATETIME '01/01/0001 00:00'"
  | PT_TYPE_CHAR | PT_TYPE_VARCHAR => some "''"
  | PT_TYPE_VARNCHAR | PT_TYPE_NCHAR => some "N''"
  | PT_TYPE_SET | PT_TYPE_MULTISET | PT_TYPE_SEQUENCE => some "\x7b\x7d"
  | PT_TYPE_BIT | PT_TYPE_VARBIT => some "b'0'"
  | PT_TYPE_LOGICAL | PT_TYPE_NONE | PT_TYPE_MAYBE | PT_TYPE_NA | PT_TYPE_NULL
  | PT_TYPE_STAR | PT_TYPE_OBJECT | PT_TYPE_MIDXKEY | PT_TYPE_COMPOUND
  | PT_TYPE_RESULTSET | PT_TYPE_BLOB | PT_TYPE_CLOB | PT_TYPE_ELO => none
  | _ => none

/-! ## The admissibility checker -/

/-- The single argument of a logged error message: the printed type
(`pt_show_type_enum (t)`) or the attribute name. -/
inductive ErArg where
  | type_name (t : PT_TYPE_ENUM)
  | att_name (name : String)
  deriving DecidableEq, Repr

/-- What a call of `check_att_chg_allowed` produces: the returned code, the
out-parameter `new_attempt`, and the error it logged with `er_set`, if any. -/
structure CheckResult where
  error : ErrorCode
  new_attempt : Bool
  logged : Option (ErrorCode × ErArg)
  deriving DecidableEq, Repr

/-- The result type of the checks of `check_att_chg_allowed`: a denial
(`goto not_allowed`) throws the error code together with the value that
`*new_attempt` has at that point; it is true by default (line 13693) and false
where the code resets it. -/
abbrev Check := Except (ErrorCode × Bool) Unit

/-- Partitions not allowed (lines 13695-13703): the check is by value instead
of by bit. -/
def check_partitions (attr_chg_prop : SM_ATTR_PROP_CHG) : Check := do
  if attr_chg_prop.p P_IS_PARTITION_COL ≠ ATT_CHG_PROPERTY_UNCHANGED then
    throw (ER_ALTER_CHANGE_PARTITIONS, false)

/-- Foreign key not allowed (lines 13704-13712): the check is by value instead
of by bit. -/
def check_foreign_key (attr_chg_prop : SM_ATTR_PROP_CHG) : Check := do
  if attr_chg_prop.p P_CONSTR_FK ≠ ATT_CHG_PROPERTY_UNCHANGED then
    throw (ER_ALTER_CHANGE_FK, false)

/-- NOT NULL : gaining is not always allowed (lines 13720-13747). The first
argument is the system parameter `PRM_ALTER_TABLE_CHANGE_TYPE_STRICT`. -/
def check_not_null (PRM_ALTER_TABLE_CHANGE_TYPE_STRICT : Bool) (t : PT_TYPE_ENUM)
    (attr_chg_prop : SM_ATTR_PROP_CHG) : Check := do
  if is_att_prop_set (attr_chg_prop.p P_NOT_NULL) ATT_CHG_PROPERTY_GAINED then
    if t = PT_TYPE_BLOB ∨ t = PT_TYPE_CLOB then
      throw (ER_SM_NOT_NULL_NOT_ALLOWED, false)
    if attr_chg_prop.name_space = ID_CLASS_ATTRIBUTE then
      throw (ER_SM_INVALID_CONSTRAINT, false)
    if PRM_ALTER_TABLE_CHANGE_TYPE_STRICT = false then
      -- in permissive mode, make sure the hard default type exists
      if get_hard_default_for_type t = none then
        throw (ER_ALTER_CHANGE_HARD_DEFAULT_NOT_EXIST, false)

/-- Check if AUTO_INCR is gained (lines 13749-13770). -/
def check_auto_incr (attr_chg_prop : SM_ATTR_PROP_CHG) (chg_how : SM_ATTR_CHG_SOL) :
    Check := do
  if is_att_prop_set (attr_chg_prop.p P_AUTO_INCR) ATT_CHG_PROPERTY_GAINED then
    if attr_chg_prop.name_space = ID_CLASS_ATTRIBUTE
        ∨ attr_chg_prop.name_space = ID_SHARED_ATTRIBUTE then
      throw (ER_SM_INVALID_CONSTRAINT, false)
    if is_att_prop_set (attr_chg_prop.p P_TYPE) ATT_CHG_PROPERTY_DIFF then
      if chg_how = SM_ATTR_CHG_ONLY_SCHEMA then
        throw (ER_ALTER_CHANGE_TYPE_WITH_AUTO_INCR, true)

/-- Check type change (lines 13772-13859). -/
def check_type_change (attr_chg_prop : SM_ATTR_PROP_CHG) (chg_how : SM_ATTR_CHG_SOL) :
    Check :=
  if is_att_prop_set (attr_chg_prop.p P_TYPE) ATT_CHG_TYPE_NOT_SUPPORTED then
    throw (ER_ALTER_CHANGE_TYPE_NOT_SUPP, false)
  else if is_att_prop_set (attr_chg_prop.p P_TYPE) ATT_CHG_TYPE_NOT_SUPPORTED_WITH_CFG then
    throw (ER_ALTER_CHANGE_TYPE_UPGRADE_CFG, false)
  else if chg_how = SM_ATTR_CHG_ONLY_SCHEMA then
    if attr_chg_prop.name_space ≠ ID_ATTRIBUTE then
      -- allow any type change (except when not supported by config) for
      -- class and shared attributes
      pure ()
    else
      if is_att_prop_set (attr_chg_prop.p P_TYPE) ATT_CHG_TYPE_NEED_ROW_CHECK
          || is_att_prop_set (attr_chg_prop.p P_TYPE) ATT_CHG_TYPE_PSEUDO_UPGRADE then
        throw (ER_ALTER_CHANGE_TYPE_NEED_ROW_CHECK, true)
      else if is_att_prop_set (attr_chg_prop.p P_TYPE) ATT_CHG_TYPE_UPGRADE then
        throw (ER_ALTER_CHANGE_TYPE_UPGRADE_CFG, true)
      else if is_att_prop_set (attr_chg_prop.p P_TYPE) ATT_CHG_PROPERTY_DIFF
          && !(is_att_prop_set (attr_chg_prop.p P_TYPE) ATT_CHG_TYPE_PREC_INCR
               || is_att_prop_set (attr_chg_prop.p P_TYPE) ATT_CHG_TYPE_SET_CLS_COMPAT) then
        throw (ER_ALTER_CHANGE_TYPE_NOT_SUPP, true)
      else pure ()
  else if chg_how = SM_ATTR_CHG_WITH_ROW_UPDATE then
    if is_att_prop_set (attr_chg_prop.p P_TYPE) ATT_CHG_TYPE_NEED_ROW_CHECK
        || is_att_prop_set (attr_chg_prop.p P_TYPE) ATT_CHG_TYPE_PSEUDO_UPGRADE then
      throw (ER_ALTER_CHANGE_TYPE_NEED_ROW_CHECK, true)
    else pure ()
  else
    -- allow any change that is not "NOT_SUPPORTED"
    pure ()

/-- The constraints that are not allowed under a "schema only" change
(lines 13861-13919). The four local error names of lines 13683-13689 all
stand for `ER_ALTER_CHANGE_TYPE_WITH_INDEX`. -/
def check_schema_only_constraints (attr_chg_prop : SM_ATTR_PROP_CHG)
    (chg_how : SM_ATTR_CHG_SOL) : Check := do
  let ER_ALTER_CHANGE_TYPE_WITH_NON_UNIQUE := ER_ALTER_CHANGE_TYPE_WITH_INDEX
  let ER_ALTER_CHANGE_TYPE_WITH_M_UNIQUE := ER_ALTER_CHANGE_TYPE_WITH_INDEX
  let ER_ALTER_CHANGE_TYPE_WITH_S_UNIQUE := ER_ALTER_CHANGE_TYPE_WITH_INDEX
  let ER_ALTER_CHANGE_TYPE_WITH_PK := ER_ALTER_CHANGE_TYPE_WITH_INDEX
  if chg_how = SM_ATTR_CHG_ONLY_SCHEMA then
    -- CLASS and SHARED attribute are incompatible with UNIQUE, PK
    if attr_chg_prop.name_space = ID_CLASS_ATTRIBUTE
        ∨ attr_chg_prop.name_space = ID_SHARED_ATTRIBUTE then
      if is_att_prop_set (attr_chg_prop.p P_S_CONSTR_UNI) ATT_CHG_PROPERTY_PRESENT_NEW
          || is_att_prop_set (attr_chg_prop.p P_S_CONSTR_PK) ATT_CHG_PROPERTY_PRESENT_NEW then
        throw (ER_SM_INVALID_CONSTRAINT, false)
    -- cannot keep UNIQUE constr if type is changed
    if is_att_prop_set (attr_chg_prop.p P_S_CONSTR_UNI)
          (ATT_CHG_PROPERTY_PRESENT_OLD ||| ATT_CHG_PROPERTY_PRESENT_NEW)
        && is_att_prop_set (attr_chg_prop.p P_TYPE) ATT_CHG_PROPERTY_DIFF then
      throw (ER_ALTER_CHANGE_TYPE_WITH_S_UNIQUE, true)
    if is_att_prop_set (attr_chg_prop.p P_M_CONSTR_UNI) ATT_CHG_PROPERTY_PRESENT_OLD
        && is_att_prop_set (attr_chg_prop.p P_TYPE) ATT_CHG_PROPERTY_DIFF then
      throw (ER_ALTER_CHANGE_TYPE_WITH_M_UNIQUE, true)
    -- primary key not allowed to be kept when type changes
    if is_att_prop_set (attr_chg_prop.p P_S_CONSTR_PK)
          (ATT_CHG_PROPERTY_PRESENT_OLD ||| ATT_CHG_PROPERTY_PRESENT_NEW)
        && is_att_prop_set (attr_chg_prop.p P_TYPE) ATT_CHG_PROPERTY_DIFF then
      throw (ER_ALTER_CHANGE_TYPE_WITH_PK, true)
    -- non-unique index not allowed when type changes
    if is_att_prop_set (attr_chg_prop.p P_CONSTR_NON_UNI) ATT_CHG_PROPERTY_PRESENT_OLD
        && is_att_prop_set (attr_chg_prop.p P_TYPE) ATT_CHG_PROPERTY_DIFF then
      throw (ER_ALTER_CHANGE_TYPE_WITH_NON_UNIQUE, true)

/-- Check if multiple primary keys after new definition
(lines 13933-13946). -/
def check_multiple_pk (attr_chg_prop : SM_ATTR_PROP_CHG) : Check := do
  if (is_att_prop_set (attr_chg_prop.p P_S_CONSTR_PK) ATT_CHG_PROPERTY_PRESENT_OLD
        || is_att_prop_set (attr_chg_prop.p P_S_CONSTR_PK) ATT_CHG_PROPERTY_PRESENT_NEW)
      && (is_att_prop_set (attr_chg_prop.p P_M_CONSTR_PK) ATT_CHG_PROPERTY_PRESENT_OLD
        || is_att_prop_set (attr_chg_prop.p P_M_CONSTR_PK) ATT_CHG_PROPERTY_PRESENT_NEW) then
    throw (ER_ALTER_CHANGE_MULTIPLE_PK, false)

/-- Check if class has subclasses (lines 13948-13972): the only change allowed
for a class with sub-classes is the one of the DEFAULT value. -/
def check_subclasses (attr_chg_prop : SM_ATTR_PROP_CHG) : Check := do
  if attr_chg_prop.class_has_subclass
      && !(is_att_prop_set (attr_chg_prop.p P_NAME) ATT_CHG_PROPERTY_UNCHANGED
        && is_att_prop_set (attr_chg_prop.p P_ORDER) ATT_CHG_PROPERTY_UNCHANGED
        && is_att_prop_set (attr_chg_prop.p P_TYPE) ATT_CHG_PROPERTY_UNCHANGED
        && is_att_prop_set (attr_chg_prop.p P_NOT_NULL) ATT_CHG_PROPERTY_UNCHANGED
        && is_att_prop_set (attr_chg_prop.p P_CONSTR_CHECK) ATT_CHG_PROPERTY_UNCHANGED
        && is_att_prop_set (attr_chg_prop.p P_DEFFERABLE) ATT_CHG_PROPERTY_UNCHANGED
        && is_att_prop_set (attr_chg_prop.p P_AUTO_INCR) ATT_CHG_PROPERTY_UNCHANGED
        && is_att_prop_set (attr_chg_prop.p P_S_CONSTR_PK) ATT_CHG_PROPERTY_UNCHANGED
        && is_att_prop_set (attr_chg_prop.p P_S_CONSTR_UNI) ATT_CHG_PROPERTY_UNCHANGED) then
    throw (ER_ALTER_CHANGE_CLASS_HIERARCHY, false)

/-- The checks of `check_att_chg_allowed` (lines 13692-13974), block by block
in source order; the first denial ends them. -/
def check_att_chg_allowed_checks (PRM_ALTER_TABLE_CHANGE_TYPE_STRICT : Bool)
    (t : PT_TYPE_ENUM) (attr_chg_prop : SM_ATTR_PROP_CHG) (chg_how : SM_ATTR_CHG_SOL) :
    Check := do
  check_partitions attr_chg_prop
  check_foreign_key attr_chg_prop
  check_not_null PRM_ALTER_TABLE_CHANGE_TYPE_STRICT t attr_chg_prop
  check_auto_incr attr_chg_prop chg_how
  check_type_change attr_chg_prop chg_how
  check_schema_only_constraints attr_chg_prop chg_how
  check_multiple_pk attr_chg_prop
  check_subclasses attr_chg_prop

/-- Checks if the attribute change is possible: `check_att_chg_allowed`
(lines 13672-13991). On success it returns `NO_ERROR` with
`new_attempt = true` and logs nothing. On a denial (label `not_allowed`,
lines 13976-13990) the error is logged when `log_error_allowed` holds or
`new_attempt` is false; `ER_SM_NOT_NULL_NOT_ALLOWED` and
`ER_SM_INVALID_CONSTRAINT` print the type, every other code the attribute
name. -/
def check_att_chg_allowed (PRM_ALTER_TABLE_CHANGE_TYPE_STRICT : Bool) (att_name : String)
    (t : PT_TYPE_ENUM) (attr_chg_prop : SM_ATTR_PROP_CHG) (chg_how : SM_ATTR_CHG_SOL)
    (log_error_allowed : Bool) : CheckResult :=
  match check_att_chg_allowed_checks PRM_ALTER_TABLE_CHANGE_TYPE_STRICT t attr_chg_prop
      chg_how with
  | .ok _ => { error := NO_ERROR, new_attempt := true, logged := none }
  | .error (error, new_attempt) =>
    { error := error
      new_attempt := new_attempt
      logged :=
        if log_error_allowed || !new_attempt then
          if error = ER_SM_NOT_NULL_NOT_ALLOWED ∨ error = ER_SM_INVALID_CONSTRAINT then
            some (error, ErArg.type_name t)
          else
            some (error, ErArg.att_name att_name)
        else none }

/-! ## Domains and the type compatibility matrix -/

/-- The domain type identifiers (`DB_TYPE`) that `execute_schema.c` names,
the three collection types tested by `TP_IS_SET_TYPE`, and `DB_TYPE_OTHER` for
the enumerators it does not name. `DB_TYPE_SMALLINT` is `DB_TYPE_SHORT` and
`DB_TYPE_UTIME` is `DB_TYPE_TIMESTAMP`. -/
inductive DB_TYPE where
  | DB_TYPE_NULL
  | DB_TYPE_INTEGER
  | DB_TYPE_FLOAT
  | DB_TYPE_DOUBLE
  | DB_TYPE_VARCHAR
  | DB_TYPE_OBJECT
  | DB_TYPE_SET
  | DB_TYPE_MULTISET
  | DB_TYPE_SEQUENCE
  | DB_TYPE_TIME
  | DB_TYPE_TIMESTAMP
  | DB_TYPE_DATE
  | DB_TYPE_MONETARY
  | DB_TYPE_SHORT
  | DB_TYPE_NUMERIC
  | DB_TYPE_BIT
  | DB_TYPE_VARBIT
  | DB_TYPE_CHAR
  | DB_TYPE_NCHAR
  | DB_TYPE_VARNCHAR
  | DB_TYPE_BIGINT
  | DB_TYPE_DATETIME
  | DB_TYPE_BLOB
  | DB_TYPE_CLOB
  | DB_TYPE_OTHER (code : Nat)
  deriving DecidableEq, Repr

open DB_TYPE

/-- A domain (`TP_DOMAIN` / `DB_DOMAIN`): the fields this file reads.
`class_mop` is the referenced class of an object domain (an object handle,
`none` for the C `NULL`). -/
structure TP_DOMAIN where
  type : DB_TYPE
  precision : Int
  scale : Int
  class_mop : Option Nat
  deriving DecidableEq, Repr

/-- The macro `TP_DOMAIN_TYPE`. -/
def TP_DOMAIN_TYPE (d : TP_DOMAIN) : DB_TYPE := d.type

/-- Modelled from the spec: the macro `TP_IS_CHAR_BIT_TYPE` is declared outside
`execute_schema.c`; it holds for the character family and the bit family
(CHAR, VARCHAR, NCHAR, VARNCHAR, BIT, VARBIT). -/
def TP_IS_CHAR_BIT_TYPE : DB_TYPE → Bool
  | DB_TYPE_VARCHAR | DB_TYPE_CHAR | DB_TYPE_VARNCHAR | DB_TYPE_NCHAR
  | DB_TYPE_BIT | DB_TYPE_VARBIT => true
  | _ => false

/-- Modelled from the spec: the macro `QSTR_IS_FIXED_LENGTH` is declared
outside `execute_schema.c`; it holds for the fixed-length family
(CHAR, NCHAR, BIT). -/
def QSTR_IS_FIXED_LENGTH : DB_TYPE → Bool
  | DB_TYPE_CHAR | DB_TYPE_NCHAR | DB_TYPE_BIT => true
  | _ => false

/-- Modelled from the spec: the macro `TP_IS_SET_TYPE` is declared outside
`execute_schema.c`; it holds for the collection types
(SET, MULTISET, SEQUENCE). -/
def TP_IS_SET_TYPE : DB_TYPE → Bool
  | DB_TYPE_SET | DB_TYPE_MULTISET | DB_TYPE_SEQUENCE => true
  | _ => false

/-- The matching modes of `tp_domain_match` that this file uses. -/
inductive TP_MATCH where
  | TP_EXACT_MATCH
  | TP_STR_MATCH
  deriving DecidableEq, Repr

open TP_MATCH

/-- The constants, system parameter and collaborator functions that
`execute_schema.c` uses but does not define. Every function from here on takes
them as its first argument. -/
structure Env where
  /-- System parameter `PRM_ALTER_TABLE_CHANGE_TYPE_STRICT`. -/
  PRM_ALTER_TABLE_CHANGE_TYPE_STRICT : Bool
  TP_SMALLINT_PRECISION : Int
  TP_INTEGER_PRECISION : Int
  TP_BIGINT_PRECISION : Int
  TP_TIME_AS_CHAR_LENGTH : Int
  TP_DATE_AS_CHAR_LENGTH : Int
  TP_DATETIME_AS_CHAR_LENGTH : Int
  TP_TIMESTAMP_AS_CHAR_LENGTH : Int
  DB_MAX_VARCHAR_PRECISION : Int
  DB_MAX_VARNCHAR_PRECISION : Int
  TP_FLOATING_PRECISION_VALUE : Int
  /-- Identifier comparison; 0 when the two identifiers are the same. -/
  intl_identifier_casecmp : String → String → Int
  /-- Domain matching; true for a non-zero result. -/
  tp_domain_match : TP_DOMAIN → TP_DOMAIN → TP_MATCH → Bool
  /-- Collection domain compatibility; true for a non-zero result. -/
  tp_domain_compatible : TP_DOMAIN → TP_DOMAIN → Bool
  /-- The result of `db_is_subclass (sub, super)`; 0 when `sub` is not a
  subclass of `super`. -/
  db_is_subclass : Option Nat → Option Nat → Int
  /-- Conversion of a parse-tree type to a domain type. -/
  pt_type_enum_to_db : PT_TYPE_ENUM → DB_TYPE
  /-- True when an index may be built on the type. -/
  tp_valid_indextype : DB_TYPE → Bool

/-- The statement `attr_chg_properties->p[P_TYPE] |= flag`. -/
def or_type (a : SM_ATTR_PROP_CHG) (flag : Nat) : SM_ATTR_PROP_CHG :=
  a.set P_TYPE (a.p P_TYPE ||| flag)

/-- The normalisation of the requested precision at the head of
`build_att_type_change_map` (lines 12974-13017): the pair
`(req_prec, is_req_max_prec)`. -/
def req_prec_and_max (env : Env) (new_type : DB_TYPE) (req_prec : Int) : Int × Bool :=
  if new_type = DB_TYPE_VARCHAR then
    if req_prec = env.DB_MAX_VARCHAR_PRECISION then (req_prec, true)
    else if req_prec = env.TP_FLOATING_PRECISION_VALUE then
      (env.DB_MAX_VARCHAR_PRECISION, true)
    else (req_prec, false)
  else if new_type = DB_TYPE_VARNCHAR then
    if req_prec = env.DB_MAX_VARNCHAR_PRECISION then (req_prec, true)
    else if req_prec = env.TP_FLOATING_PRECISION_VALUE then
      (env.DB_MAX_VARNCHAR_PRECISION, true)
    else (req_prec, false)
  else (req_prec, false)

/-- The type-class flag that the nested `switch` of
`build_att_type_change_map` (lines 13019-13643) ORs into the type entry, for
every case but the same-class OBJECT one, which ORs nothing (`none`). -/
def type_change_flag (env : Env) (curr_domain req_domain : TP_DOMAIN) : Option Nat :=
  let MIN_DIGITS_FOR_INTEGER := env.TP_INTEGER_PRECISION
  let MIN_DIGITS_FOR_SHORT := env.TP_SMALLINT_PRECISION
  let MIN_DIGITS_FOR_BIGINT := env.TP_BIGINT_PRECISION
  let MIN_CHARS_FOR_TIME := env.TP_TIME_AS_CHAR_LENGTH
  let MIN_CHARS_FOR_DATE := env.TP_DATE_AS_CHAR_LENGTH
  let MIN_CHARS_FOR_DATETIME := env.TP_DATETIME_AS_CHAR_LENGTH
  let MIN_CHARS_FOR_TIMESTAMP := env.TP_TIMESTAMP_AS_CHAR_LENGTH
  let current_type := TP_DOMAIN_TYPE curr_domain
  let new_type := TP_DOMAIN_TYPE req_domain
  let req_prec := (req_prec_and_max env new_type req_domain.precision).1
  let is_req_max_prec := (req_prec_and_max env new_type req_domain.precision).2
  let req_scale := req_domain.scale
  let cur_prec := curr_domain.precision
  let cur_scale := curr_domain.scale
  let strict := env.PRM_ALTER_TABLE_CHANGE_TYPE_STRICT
  match current_type with
  | DB_TYPE_SHORT =>
    match new_type with
    | DB_TYPE_INTEGER | DB_TYPE_BIGINT | DB_TYPE_FLOAT | DB_TYPE_DOUBLE
    | DB_TYPE_MONETARY => some ATT_CHG_TYPE_UPGRADE
    | DB_TYPE_NUMERIC =>
      if req_prec - req_scale ≥ MIN_DIGITS_FOR_SHORT then some ATT_CHG_TYPE_UPGRADE
      else some ATT_CHG_TYPE_NEED_ROW_CHECK
    | DB_TYPE_CHAR | DB_TYPE_NCHAR | DB_TYPE_VARCHAR | DB_TYPE_VARNCHAR =>
      if req_prec ≥ MIN_DIGITS_FOR_SHORT + 1 then some ATT_CHG_TYPE_UPGRADE
      else some ATT_CHG_TYPE_NEED_ROW_CHECK
    | _ => some ATT_CHG_TYPE_NOT_SUPPORTED
  | DB_TYPE_INTEGER =>
    match new_type with
    | DB_TYPE_SHORT | DB_TYPE_FLOAT => some ATT_CHG_TYPE_NEED_ROW_CHECK
    | DB_TYPE_BIGINT | DB_TYPE_DOUBLE | DB_TYPE_MONETARY => some ATT_CHG_TYPE_UPGRADE
    | DB_TYPE_NUMERIC =>
      if req_prec - req_scale ≥ MIN_DIGITS_FOR_INTEGER then some ATT_CHG_TYPE_UPGRADE
      else some ATT_CHG_TYPE_NEED_ROW_CHECK
    | DB_TYPE_CHAR | DB_TYPE_NCHAR | DB_TYPE_VARCHAR | DB_TYPE_VARNCHAR =>
      if req_prec ≥ MIN_DIGITS_FOR_INTEGER + 1 then some ATT_CHG_TYPE_UPGRADE
      else some ATT_CHG_TYPE_NEED_ROW_CHECK
    | _ => some ATT_CHG_TYPE_NOT_SUPPORTED
  | DB_TYPE_BIGINT =>
    match new_type with
    | DB_TYPE_SHORT | DB_TYPE_INTEGER | DB_TYPE_FLOAT | DB_TYPE_DOUBLE
    | DB_TYPE_MONETARY => some ATT_CHG_TYPE_NEED_ROW_CHECK
    | DB_TYPE_NUMERIC =>
      if req_prec - req_scale ≥ MIN_DIGITS_FOR_BIGINT then some ATT_CHG_TYPE_UPGRADE
      else some ATT_CHG_TYPE_NEED_ROW_CHECK
    | DB_TYPE_CHAR | DB_TYPE_NCHAR | DB_TYPE_VARCHAR | DB_TYPE_VARNCHAR =>
      if req_prec ≥ MIN_DIGITS_FOR_BIGINT + 1 then some ATT_CHG_TYPE_UPGRADE
      else some ATT_CHG_TYPE_NEED_ROW_CHECK
    | _ => some ATT_CHG_TYPE_NOT_SUPPORTED
  | DB_TYPE_NUMERIC =>
    match new_type with
    | DB_TYPE_SHORT =>
      if cur_prec < MIN_DIGITS_FOR_SHORT ∧ cur_scale = 0 then some ATT_CHG_TYPE_UPGRADE
      else some ATT_CHG_TYPE_NEED_ROW_CHECK
    | DB_TYPE_INTEGER =>
      if cur_prec < MIN_DIGITS_FOR_INTEGER ∧ cur_scale = 0 then some ATT_CHG_TYPE_UPGRADE
      else some ATT_CHG_TYPE_NEED_ROW_CHECK
    | DB_TYPE_BIGINT =>
      if cur_prec < MIN_DIGITS_FOR_BIGINT ∧ cur_scale = 0 then some ATT_CHG_TYPE_UPGRADE
      else some ATT_CHG_TYPE_NEED_ROW_CHECK
    | DB_TYPE_FLOAT | DB_TYPE_DOUBLE | DB_TYPE_MONETARY => some ATT_CHG_TYPE_NEED_ROW_CHECK
    | DB_TYPE_CHAR | DB_TYPE_NCHAR | DB_TYPE_VARCHAR | DB_TYPE_VARNCHAR =>
      if req_prec ≥ cur_prec + 2 then some ATT_CHG_TYPE_UPGRADE
      else some ATT_CHG_TYPE_NEED_ROW_CHECK
    | _ => some ATT_CHG_TYPE_NOT_SUPPORTED
  | DB_TYPE_FLOAT =>
    match new_type with
    | DB_TYPE_SHORT | DB_TYPE_INTEGER | DB_TYPE_BIGINT | DB_TYPE_NUMERIC
    | DB_TYPE_CHAR | DB_TYPE_NCHAR => some ATT_CHG_TYPE_NEED_ROW_CHECK
    | DB_TYPE_VARCHAR | DB_TYPE_VARNCHAR =>
      if is_req_max_prec then some ATT_CHG_TYPE_UPGRADE
      else some ATT_CHG_TYPE_NEED_ROW_CHECK
    | DB_TYPE_DOUBLE | DB_TYPE_MONETARY => some ATT_CHG_TYPE_UPGRADE
    | _ => some ATT_CHG_TYPE_NOT_SUPPORTED
  | DB_TYPE_DOUBLE =>
    match new_type with
    | DB_TYPE_SHORT | DB_TYPE_INTEGER | DB_TYPE_BIGINT | DB_TYPE_NUMERIC
    | DB_TYPE_FLOAT | DB_TYPE_CHAR | DB_TYPE_NCHAR => some ATT_CHG_TYPE_NEED_ROW_CHECK
    | DB_TYPE_VARCHAR | DB_TYPE_VARNCHAR =>
      if is_req_max_prec then some ATT_CHG_TYPE_UPGRADE
      else some ATT_CHG_TYPE_NEED_ROW_CHECK
    | DB_TYPE_MONETARY => some ATT_CHG_TYPE_UPGRADE
    | _ => some ATT_CHG_TYPE_NOT_SUPPORTED
  | DB_TYPE_MONETARY =>
    match new_type with
    | DB_TYPE_SHORT | DB_TYPE_INTEGER | DB_TYPE_BIGINT | DB_TYPE_NUMERIC
    | DB_TYPE_FLOAT | DB_TYPE_CHAR | DB_TYPE_NCHAR => some ATT_CHG_TYPE_NEED_ROW_CHECK
    | DB_TYPE_VARCHAR | DB_TYPE_VARNCHAR =>
      if is_req_max_prec then some ATT_CHG_TYPE_UPGRADE
      else some ATT_CHG_TYPE_NEED_ROW_CHECK
    | DB_TYPE_DOUBLE => some ATT_CHG_TYPE_UPGRADE
    | _ => some ATT_CHG_TYPE_NOT_SUPPORTED
  | DB_TYPE_TIME =>
    match new_type with
    | DB_TYPE_CHAR | DB_TYPE_NCHAR | DB_TYPE_VARCHAR | DB_TYPE_VARNCHAR =>
      if req_prec ≥ MIN_CHARS_FOR_TIME then some ATT_CHG_TYPE_UPGRADE
      else some ATT_CHG_TYPE_NOT_SUPPORTED
    | _ => some ATT_CHG_TYPE_NOT_SUPPORTED
  | DB_TYPE_DATE =>
    match new_type with
    | DB_TYPE_DATETIME | DB_TYPE_TIMESTAMP => some ATT_CHG_TYPE_UPGRADE
    | DB_TYPE_CHAR | DB_TYPE_NCHAR | DB_TYPE_VARCHAR | DB_TYPE_VARNCHAR =>
      if req_prec ≥ MIN_CHARS_FOR_DATE then some ATT_CHG_TYPE_UPGRADE
      else some ATT_CHG_TYPE_NOT_SUPPORTED
    | _ => some ATT_CHG_TYPE_NOT_SUPPORTED
  | DB_TYPE_DATETIME =>
    match new_type with
    | DB_TYPE_TIME | DB_TYPE_DATE => some ATT_CHG_TYPE_PSEUDO_UPGRADE
    | DB_TYPE_TIMESTAMP => some ATT_CHG_TYPE_UPGRADE
    | DB_TYPE_CHAR | DB_TYPE_NCHAR | DB_TYPE_VARCHAR | DB_TYPE_VARNCHAR =>
      if req_prec ≥ MIN_CHARS_FOR_DATETIME then some ATT_CHG_TYPE_UPGRADE
      else some ATT_CHG_TYPE_NOT_SUPPORTED
    | _ => some ATT_CHG_TYPE_NOT_SUPPORTED
  | DB_TYPE_TIMESTAMP =>
    match new_type with
    | DB_TYPE_TIME | DB_TYPE_DATE => some ATT_CHG_TYPE_PSEUDO_UPGRADE
    | DB_TYPE_DATETIME => some ATT_CHG_TYPE_UPGRADE
    | DB_TYPE_CHAR | DB_TYPE_NCHAR =>
      if req_prec ≥ MIN_CHARS_FOR_TIMESTAMP then some ATT_CHG_TYPE_UPGRADE
      else some ATT_CHG_TYPE_NOT_SUPPORTED
    | DB_TYPE_VARCHAR | DB_TYPE_VARNCHAR =>
      if req_prec ≥ MIN_CHARS_FOR_TIMESTAMP then some ATT_CHG_TYPE_UPGRADE
      else some ATT_CHG_TYPE_NOT_SUPPORTED
    | _ => some ATT_CHG_TYPE_NOT_SUPPORTED
  | DB_TYPE_CHAR =>
    match new_type with
    | DB_TYPE_SHORT | DB_TYPE_INTEGER | DB_TYPE_BIGINT | DB_TYPE_NUMERIC
    | DB_TYPE_FLOAT | DB_TYPE_DOUBLE | DB_TYPE_MONETARY | DB_TYPE_DATE
    | DB_TYPE_TIME | DB_TYPE_DATETIME | DB_TYPE_TIMESTAMP =>
      some ATT_CHG_TYPE_NEED_ROW_CHECK
    | DB_TYPE_VARCHAR =>
      if req_prec ≥ cur_prec then some ATT_CHG_TYPE_UPGRADE
      else if strict = true then some ATT_CHG_TYPE_NOT_SUPPORTED_WITH_CFG
      else some ATT_CHG_TYPE_NEED_ROW_CHECK
    | _ => some ATT_CHG_TYPE_NOT_SUPPORTED
  | DB_TYPE_VARCHAR =>
    match new_type with
    | DB_TYPE_SHORT | DB_TYPE_INTEGER | DB_TYPE_BIGINT | DB_TYPE_NUMERIC
    | DB_TYPE_FLOAT | DB_TYPE_DOUBLE | DB_TYPE_MONETARY | DB_TYPE_DATE
    | DB_TYPE_TIME | DB_TYPE_DATETIME | DB_TYPE_TIMESTAMP =>
      some ATT_CHG_TYPE_NEED_ROW_CHECK
    | DB_TYPE_CHAR =>
      if req_prec ≥ cur_prec then some ATT_CHG_TYPE_UPGRADE
      else some ATT_CHG_TYPE_NEED_ROW_CHECK
    | _ => some ATT_CHG_TYPE_NOT_SUPPORTED
  | DB_TYPE_NCHAR =>
    match new_type with
    | DB_TYPE_SHORT | DB_TYPE_INTEGER | DB_TYPE_BIGINT | DB_TYPE_NUMERIC
    | DB_TYPE_FLOAT | DB_TYPE_DOUBLE | DB_TYPE_MONETARY | DB_TYPE_DATE
    | DB_TYPE_TIME | DB_TYPE_DATETIME | DB_TYPE_TIMESTAMP =>
      some ATT_CHG_TYPE_NEED_ROW_CHECK
    | DB_TYPE_VARNCHAR =>
      if req_prec ≥ cur_prec then some ATT_CHG_TYPE_UPGRADE
      else if strict = true then some ATT_CHG_TYPE_NOT_SUPPORTED_WITH_CFG
      else some ATT_CHG_TYPE_NEED_ROW_CHECK
    | _ => some ATT_CHG_TYPE_NOT_SUPPORTED
  | DB_TYPE_VARNCHAR =>
    match new_type with
    | DB_TYPE_SHORT | DB_TYPE_INTEGER | DB_TYPE_BIGINT | DB_TYPE_NUMERIC
    | DB_TYPE_FLOAT | DB_TYPE_DOUBLE | DB_TYPE_MONETARY | DB_TYPE_DATE
    | DB_TYPE_TIME | DB_TYPE_DATETIME | DB_TYPE_TIMESTAMP =>
      some ATT_CHG_TYPE_NEED_ROW_CHECK
    | DB_TYPE_NCHAR =>
      if req_prec ≥ cur_prec then some ATT_CHG_TYPE_UPGRADE
      else some ATT_CHG_TYPE_NEED_ROW_CHECK
    | _ => some ATT_CHG_TYPE_NOT_SUPPORTED
  | DB_TYPE_BIT =>
    match new_type with
    | DB_TYPE_VARBIT =>
      if req_prec ≥ cur_prec then some ATT_CHG_TYPE_UPGRADE
      else if strict = true then some ATT_CHG_TYPE_NOT_SUPPORTED_WITH_CFG
      else some ATT_CHG_TYPE_NEED_ROW_CHECK
    | _ => some ATT_CHG_TYPE_NOT_SUPPORTED
  | DB_TYPE_VARBIT =>
    match new_type with
    | DB_TYPE_BIT =>
      if req_prec ≥ cur_prec then some ATT_CHG_TYPE_UPGRADE
      else some ATT_CHG_TYPE_NEED_ROW_CHECK
    | _ => some ATT_CHG_TYPE_NOT_SUPPORTED
  | DB_TYPE_OBJECT =>
    if new_type ≠ DB_TYPE_OBJECT then some ATT_CHG_TYPE_NOT_SUPPORTED
    else if req_domain.class_mop ≠ curr_domain.class_mop then
      if env.db_is_subclass curr_domain.class_mop req_domain.class_mop = 0 then
        some ATT_CHG_TYPE_NOT_SUPPORTED
      else some ATT_CHG_TYPE_SET_CLS_COMPAT
    else
      -- same OBJECT, should have been checked earlier
      none
  | _ => some ATT_CHG_TYPE_NOT_SUPPORTED

/-- Checks the attribute type change: `build_att_type_change_map`
(lines 12959-13646). Every case of the nested `switch` ORs one flag into the
type entry (`type_change_flag`); the same-class OBJECT case clears DIFF instead
(line 13635). The function always returns `NO_ERROR`. -/
def build_att_type_change_map (env : Env) (curr_domain req_domain : TP_DOMAIN)
    (attr_chg_properties : SM_ATTR_PROP_CHG) : ErrorCode × SM_ATTR_PROP_CHG :=
  match type_change_flag env curr_domain req_domain with
  | some flag => (NO_ERROR, or_type attr_chg_properties flag)
  | none =>
    (NO_ERROR, attr_chg_properties.set P_TYPE
      (and_not (attr_chg_properties.p P_TYPE) ATT_CHG_PROPERTY_DIFF))

/-- The assertions of `build_att_type_change_map` hold on the pair of domains:
a build with assertions enabled runs through the function without a failed
`assert`. They are, in source order: a requested VARCHAR or VARNCHAR precision
that is neither the maximum nor the floating one is not negative (lines 12995,
13011); the `default` branch under a current character or bit type is not
reached with the same type (lines 13444, 13477, 13519, 13552, 13581, 13601);
both classes of an OBJECT to OBJECT change are classes (lines 13614-13615,
`db_is_class` is the collaborator called there); and the two classes differ
(`assert (false)` at line 13634). The assertion of line 13016 tests a flag
that nothing has set and always holds. -/
def build_att_type_change_map_asserts (env : Env) (db_is_class : Option Nat → Int)
    (curr_domain req_domain : TP_DOMAIN) : Bool :=
  let current_type := TP_DOMAIN_TYPE curr_domain
  let new_type := TP_DOMAIN_TYPE req_domain
  let req_prec := req_domain.precision
  let head : Bool :=
    if new_type = DB_TYPE_VARCHAR then
      if req_prec = env.DB_MAX_VARCHAR_PRECISION then true
      else if req_prec = env.TP_FLOATING_PRECISION_VALUE then true
      else decide (req_prec ≥ 0)
    else if new_type = DB_TYPE_VARNCHAR then
      if req_prec = env.DB_MAX_VARNCHAR_PRECISION then true
      else if req_prec = env.TP_FLOATING_PRECISION_VALUE then true
      else decide (req_prec ≥ 0)
    else true
  let body : Bool :=
    match current_type with
    | DB_TYPE_CHAR =>
      match new_type with
      | DB_TYPE_SHORT | DB_TYPE_INTEGER | DB_TYPE_BIGINT | DB_TYPE_NUMERIC
      | DB_TYPE_FLOAT | DB_TYPE_DOUBLE | DB_TYPE_MONETARY | DB_TYPE_DATE
      | DB_TYPE_TIME | DB_TYPE_DATETIME | DB_TYPE_TIMESTAMP | DB_TYPE_VARCHAR => true
      | _ => decide (new_type ≠ DB_TYPE_CHAR)
    | DB_TYPE_VARCHAR =>
      match new_type with
      | DB_TYPE_SHORT | DB_TYPE_INTEGER | DB_TYPE_BIGINT | DB_TYPE_NUMERIC
      | DB_TYPE_FLOAT | DB_TYPE_DOUBLE | DB_TYPE_MONETARY | DB_TYPE_DATE
      | DB_TYPE_TIME | DB_TYPE_DATETIME | DB_TYPE_TIMESTAMP | DB_TYPE_CHAR => true
      | _ => decide (new_type ≠ DB_TYPE_VARCHAR)
    | DB_TYPE_NCHAR =>
      match new_type with
      | DB_TYPE_SHORT | DB_TYPE_INTEGER | DB_TYPE_BIGINT | DB_TYPE_NUMERIC
      | DB_TYPE_FLOAT | DB_TYPE_DOUBLE | DB_TYPE_MONETARY | DB_TYPE_DATE
      | DB_TYPE_TIME | DB_TYPE_DATETIME | DB_TYPE_TIMESTAMP | DB_TYPE_VARNCHAR => true
      | _ => decide (new_type ≠ DB_TYPE_NCHAR)
    | DB_TYPE_VARNCHAR =>
      match new_type with
      | DB_TYPE_SHORT | DB_TYPE_INTEGER | DB_TYPE_BIGINT | DB_TYPE_NUMERIC
      | DB_TYPE_FLOAT | DB_TYPE_DOUBLE | DB_TYPE_MONETARY | DB_TYPE_DATE
      | DB_TYPE_TIME | DB_TYPE_DATETIME | DB_TYPE_TIMESTAMP | DB_TYPE_NCHAR => true
      | _ => decide (new_type ≠ DB_TYPE_VARNCHAR)
    | DB_TYPE_BIT =>
      match new_type with
      | DB_TYPE_VARBIT => true
      | _ => decide (new_type ≠ DB_TYPE_BIT)
    | DB_TYPE_VARBIT =>
      match new_type with
      | DB_TYPE_BIT => true
      | _ => decide (new_type ≠ DB_TYPE_VARBIT)
    | DB_TYPE_OBJECT =>
      if new_type ≠ DB_TYPE_OBJECT then true
      else
        decide (db_is_class curr_domain.class_mop ≠ 0)
          && decide (db_is_class req_domain.class_mop ≠ 0)
          && (if req_domain.class_mop ≠ curr_domain.class_mop then true
              else
                -- same OBJECT, should have been checked earlier
                false)
    | _ => true
  head && body

/-- The new types that have a `case` label of their own under the `case` of
the current type in the nested `switch` of `build_att_type_change_map`
(lines 13019-13643); every other new type takes the `default` branch. A
current type without `case` has none; OBJECT is handled by an `if` whose only
non-default branch is OBJECT. -/
def explicit_cases : DB_TYPE → List DB_TYPE
  | DB_TYPE_SHORT =>
    [DB_TYPE_INTEGER, DB_TYPE_BIGINT, DB_TYPE_FLOAT, DB_TYPE_DOUBLE, DB_TYPE_MONETARY,
      DB_TYPE_NUMERIC, DB_TYPE_CHAR, DB_TYPE_NCHAR, DB_TYPE_VARCHAR, DB_TYPE_VARNCHAR]
  | DB_TYPE_INTEGER =>
    [DB_TYPE_SHORT, DB_TYPE_FLOAT, DB_TYPE_BIGINT, DB_TYPE_DOUBLE, DB_TYPE_MONETARY,
      DB_TYPE_NUMERIC, DB_TYPE_CHAR, DB_TYPE_NCHAR, DB_TYPE_VARCHAR, DB_TYPE_VARNCHAR]
  | DB_TYPE_BIGINT =>
    [DB_TYPE_SHORT, DB_TYPE_INTEGER, DB_TYPE_FLOAT, DB_TYPE_DOUBLE, DB_TYPE_MONETARY,
      DB_TYPE_NUMERIC, DB_TYPE_CHAR, DB_TYPE_NCHAR, DB_TYPE_VARCHAR, DB_TYPE_VARNCHAR]
  | DB_TYPE_NUMERIC =>
    [DB_TYPE_SHORT, DB_TYPE_INTEGER, DB_TYPE_BIGINT, DB_TYPE_FLOAT, DB_TYPE_DOUBLE,
      DB_TYPE_MONETARY, DB_TYPE_CHAR, DB_TYPE_NCHAR, DB_TYPE_VARCHAR, DB_TYPE_VARNCHAR]
  | DB_TYPE_FLOAT =>
    [DB_TYPE_SHORT, DB_TYPE_INTEGER, DB_TYPE_BIGINT, DB_TYPE_NUMERIC, DB_TYPE_CHAR,
      DB_TYPE_NCHAR, DB_TYPE_VARCHAR, DB_TYPE_VARNCHAR, DB_TYPE_DOUBLE, DB_TYPE_MONETARY]
  | DB_TYPE_DOUBLE =>
    [DB_TYPE_SHORT, DB_TYPE_INTEGER, DB_TYPE_BIGINT, DB_TYPE_NUMERIC, DB_TYPE_FLOAT,
      DB_TYPE_CHAR, DB_TYPE_NCHAR, DB_TYPE_VARCHAR, DB_TYPE_VARNCHAR, DB_TYPE_MONETARY]
  | DB_TYPE_MONETARY =>
    [DB_TYPE_SHORT, DB_TYPE_INTEGER, DB_TYPE_BIGINT, DB_TYPE_NUMERIC, DB_TYPE_FLOAT,
      DB_TYPE_CHAR, DB_TYPE_NCHAR, DB_TYPE_VARCHAR, DB_TYPE_VARNCHAR, DB_TYPE_DOUBLE]
  | DB_TYPE_TIME => [DB_TYPE_CHAR, DB_TYPE_NCHAR, DB_TYPE_VARCHAR, DB_TYPE_VARNCHAR]
  | DB_TYPE_DATE =>
    [DB_TYPE_DATETIME, DB_TYPE_TIMESTAMP, DB_TYPE_CHAR, DB_TYPE_NCHAR, DB_TYPE_VARCHAR,
      DB_TYPE_VARNCHAR]
  | DB_TYPE_DATETIME =>
    [DB_TYPE_TIME, DB_TYPE_DATE, DB_TYPE_TIMESTAMP, DB_TYPE_CHAR, DB_TYPE_NCHAR,
      DB_TYPE_VARCHAR, DB_TYPE_VARNCHAR]
  | DB_TYPE_TIMESTAMP =>
    [DB_TYPE_TIME, DB_TYPE_DATE, DB_TYPE_DATETIME, DB_TYPE_CHAR, DB_TYPE_NCHAR,
      DB_TYPE_VARCHAR, DB_TYPE_VARNCHAR]
  | DB_TYPE_CHAR =>
    [DB_TYPE_SHORT, DB_TYPE_INTEGER, DB_TYPE_BIGINT, DB_TYPE_NUMERIC, DB_TYPE_FLOAT,
      DB_TYPE_DOUBLE, DB_TYPE_MONETARY, DB_TYPE_DATE, DB_TYPE_TIME, DB_TYPE_DATETIME,
      DB_TYPE_TIMESTAMP, DB_TYPE_VARCHAR]
  | DB_TYPE_VARCHAR =>
    [DB_TYPE_SHORT, DB_TYPE_INTEGER, DB_TYPE_BIGINT, DB_TYPE_NUMERIC, DB_TYPE_FLOAT,
      DB_TYPE_DOUBLE, DB_TYPE_MONETARY, DB_TYPE_DATE, DB_TYPE_TIME, DB_TYPE_DATETIME,
      DB_TYPE_TIMESTAMP, DB_TYPE_CHAR]
  | DB_TYPE_NCHAR =>
    [DB_TYPE_SHORT, DB_TYPE_INTEGER, DB_TYPE_BIGINT, DB_TYPE_NUMERIC, DB_TYPE_FLOAT,
      DB_TYPE_DOUBLE, DB_TYPE_MONETARY, DB_TYPE_DATE, DB_TYPE_TIME, DB_TYPE_DATETIME,
      DB_TYPE_TIMESTAMP, DB_TYPE_VARNCHAR]
  | DB_TYPE_VARNCHAR =>
    [DB_TYPE_SHORT, DB_TYPE_INTEGER, DB_TYPE_BIGINT, DB_TYPE_NUMERIC, DB_TYPE_FLOAT,
      DB_TYPE_DOUBLE, DB_TYPE_MONETARY, DB_TYPE_DATE, DB_TYPE_TIME, DB_TYPE_DATETIME,
      DB_TYPE_TIMESTAMP, DB_TYPE_NCHAR]
  | DB_TYPE_BIT => [DB_TYPE_VARBIT]
  | DB_TYPE_VARBIT => [DB_TYPE_BIT]
  | DB_TYPE_OBJECT => [DB_TYPE_OBJECT]
  | _ => []

/-- Modelled from the spec: the value ranges of the integer types are declared
outside `execute_schema.c`; they are the two's-complement 16-, 32- and 64-bit
ranges of SMALLINT, INTEGER and BIGINT, given as the pair (minimum, maximum).
The other types have none. -/
def integer_range : DB_TYPE → Option (Int × Int)
  | DB_TYPE_SHORT => some (-32768, 32767)
  | DB_TYPE_INTEGER => some (-2147483648, 2147483647)
  | DB_TYPE_BIGINT => some (-9223372036854775808, 9223372036854775807)
  | _ => none

/-! ## The request: catalog template and parse tree -/

/-- The attribute found in the class template (`SM_ATTRIBUTE`): the fields
`build_attr_change_map` reads. The four flags are the bits of `att->flags`;
the last three fields are the tests of line 12477-12479 on
`att->default_value`. -/
structure SM_ATTRIBUTE where
  name_space : SM_NAME_SPACE
  domain : TP_DOMAIN
  SM_ATTFLAG_AUTO_INCREMENT : Bool
  SM_ATTFLAG_FOREIGN_KEY : Bool
  SM_ATTFLAG_INDEX : Bool
  SM_ATTFLAG_NON_NULL : Bool
  original_value_is_null : Bool
  value_is_null : Bool
  default_expr_is_none : Bool

/-- The constraint kinds of the class (`SM_CONSTRAINT_TYPE`). -/
inductive SM_CONSTRAINT_TYPE where
  | SM_CONSTRAINT_UNIQUE
  | SM_CONSTRAINT_INDEX
  | SM_CONSTRAINT_NOT_NULL
  | SM_CONSTRAINT_REVERSE_UNIQUE
  | SM_CONSTRAINT_REVERSE_INDEX
  | SM_CONSTRAINT_PRIMARY_KEY
  | SM_CONSTRAINT_FOREIGN_KEY
  deriving DecidableEq, Repr

open SM_CONSTRAINT_TYPE

/-- A constraint of the current class (`SM_CLASS_CONSTRAINT`). `attributes`
holds `header.name` of each attribute of the constraint (`none` for a NULL
name); `has_fk_info` is `fk_info != NULL`. -/
structure SM_CLASS_CONSTRAINT where
  name : Option String
  type : SM_CONSTRAINT_TYPE
  attributes : List (Option String)
  has_fk_info : Bool
  asc_desc : Option (List Int)
  prefix_length : Option (List Int)
  filter_predicate : Option String
  func_index_info : Option String

/-- The current class of the template (`ctemplate->current`). -/
structure SM_CLASS where
  users_not_null : Bool
  constraints : List SM_CLASS_CONSTRAINT

/-- The class template (`DB_CTMPL`). `partition_of` is
`ctemplate->partition_of != NULL`; `smt_find_attribute` is the catalog lookup
by name and class-attribute flag; `do_get_partition_keycol` is the outcome of
reading the partition key column of `ctemplate->op`. -/
structure DB_CTMPL where
  current : Option SM_CLASS
  partition_of : Bool
  smt_find_attribute : String → Bool → Except ErrorCode SM_ATTRIBUTE
  do_get_partition_keycol : Except ErrorCode String

/-- The kinds of a parse-tree constraint node. -/
inductive PT_CONSTRAINT_TYPE where
  | PT_CONSTRAIN_UNKNOWN
  | PT_CONSTRAIN_PRIMARY_KEY
  | PT_CONSTRAIN_FOREIGN_KEY
  | PT_CONSTRAIN_NULL
  | PT_CONSTRAIN_NOT_NULL
  | PT_CONSTRAIN_UNIQUE
  | PT_CONSTRAIN_CHECK
  deriving DecidableEq, Repr

open PT_CONSTRAINT_TYPE

/-- A requested constraint (`PT_NODE : PT_CONSTRAINT`): its kind and the
names in the attribute list of that kind. -/
structure PT_CONSTRAINT where
  type : PT_CONSTRAINT_TYPE
  attrs : List String
  deriving DecidableEq, Repr

/-- The DEFAULT clause of an attribute definition, with the outcomes of the
parser collaborators that `get_att_default_from_def` runs on it.
`default_expr_is_none` is `default_expr == DB_DEFAULT_NONE`. -/
structure PT_DATA_DEFAULT where
  default_expr_is_none : Bool
  /-- `pt_semantic_check` reported an error or returned NULL. -/
  semantic_check_failed : Bool
  /-- Result of `pt_coerce_value`. -/
  pt_coerce_value : ErrorCode
  /-- `pt_semantic_type` reported an error or returned NULL. -/
  semantic_type_failed : Bool
  /-- `tp_value_coerce` returned `DOMAIN_COMPATIBLE`. -/
  coerce_compatible : Bool
  /-- The value computed by `pt_evaluate_tree` is the NULL value. -/
  evaluated_is_null : Bool
  /-- `pt_has_error` holds after the evaluation. -/
  evaluate_failed : Bool
  /-- The code reported by `er_errid ()` after a parser failure. -/
  er_errid : ErrorCode

/-- The attribute kinds of a definition (`attr_type`). -/
inductive PT_MISC_TYPE where
  | PT_NORMAL
  | PT_SHARED
  | PT_META_ATTR
  deriving DecidableEq, Repr

open PT_MISC_TYPE

/-- The new attribute definition (`PT_NODE : PT_ATTR_DEF`). `attr_name` is
`get_attr_name (attribute)`; `ordering_info` and `auto_increment` tell whether
the pointers are non-NULL; `pt_node_to_db_domain` is the domain built from the
definition (`none` for NULL) and `er_errid` the code then reported. -/
structure PT_ATTR_DEF where
  attr_name : String
  attr_type : PT_MISC_TYPE
  type_enum : PT_TYPE_ENUM
  data_default : Option PT_DATA_DEFAULT
  ordering_info : Bool
  auto_increment : Bool
  pt_node_to_db_domain : Option TP_DOMAIN
  er_errid : ErrorCode

/-! The numeric `DB_CONSTRAINT_TYPE` values (asserted at lines 14898-14899:
UNIQUE is 0 and FOREIGN_KEY is 6). -/

def DB_CONSTRAINT_UNIQUE : Int := 0
def DB_CONSTRAINT_INDEX : Int := 1
def DB_CONSTRAINT_NOT_NULL : Int := 2
def DB_CONSTRAINT_REVERSE_UNIQUE : Int := 3
def DB_CONSTRAINT_REVERSE_INDEX : Int := 4
def DB_CONSTRAINT_PRIMARY_KEY : Int := 5
def DB_CONSTRAINT_FOREIGN_KEY : Int := 6

/-- Modelled from the spec: `sm_save_constraint_info` is not defined in
`execute_schema.c`. It appends to the saved list an immutable copy of the
constraint's type, name, column list, ordering, prefix lengths and serialized
predicate/expression. Allocation is taken to succeed. -/
def sm_save_constraint_info (save_info : List SM_CONSTRAINT_INFO)
    (c : SM_CLASS_CONSTRAINT) : ErrorCode × List SM_CONSTRAINT_INFO :=
  (NO_ERROR, save_info ++
    [{ name := c.name
       att_names := c.attributes.filterMap id
       asc_desc := c.asc_desc
       prefix_length := c.prefix_length
       filter_predicate := c.filter_predicate
       func_index_info := c.func_index_info
       constraint_type :=
         match c.type with
         | SM_CONSTRAINT_UNIQUE => DB_CONSTRAINT_UNIQUE
         | SM_CONSTRAINT_INDEX => DB_CONSTRAINT_INDEX
         | SM_CONSTRAINT_NOT_NULL => DB_CONSTRAINT_NOT_NULL
         | SM_CONSTRAINT_REVERSE_UNIQUE => DB_CONSTRAINT_REVERSE_UNIQUE
         | SM_CONSTRAINT_REVERSE_INDEX => DB_CONSTRAINT_REVERSE_INDEX
         | SM_CONSTRAINT_PRIMARY_KEY => DB_CONSTRAINT_PRIMARY_KEY
         | SM_CONSTRAINT_FOREIGN_KEY => DB_CONSTRAINT_FOREIGN_KEY }])

/-- Saves a requested single-attribute constraint:
`save_constraint_info_from_pt_node` (lines 14967-15045). The new element is
appended at the end of the list; a constraint on more than one attribute is
refused with `ER_UNEXPECTED`. Allocation is taken to succeed. The callers pass
a node of kind PRIMARY KEY, UNIQUE or NOT NULL with a non-empty attribute list
(the C code dereferences its first name). -/
def save_constraint_info_from_pt_node (save_info : List SM_CONSTRAINT_INFO)
    (pt_constr : PT_CONSTRAINT) : ErrorCode × List SM_CONSTRAINT_INFO :=
  let constraint_type : Int :=
    match pt_constr.type with
    | PT_CONSTRAIN_PRIMARY_KEY => DB_CONSTRAINT_PRIMARY_KEY
    | PT_CONSTRAIN_UNIQUE => DB_CONSTRAINT_UNIQUE
    | PT_CONSTRAIN_NOT_NULL => DB_CONSTRAINT_NOT_NULL
    | _ => 0
  match pt_constr.attrs with
  | [original] =>
    (NO_ERROR, save_info ++
      [{ name := none
         att_names := [original]
         asc_desc := none
         prefix_length := none
         filter_predicate := none
         func_index_info := none
         constraint_type := constraint_type }])
  | _ => (ER_UNEXPECTED, save_info)

/-! ## The ledger builder -/

/-- The statement `a->p[i] |= flag`. -/
def or_p (a : SM_ATTR_PROP_CHG) (i : Fin NUM_ATT_CHG_PROP) (flag : Nat) : SM_ATTR_PROP_CHG :=
  a.set i (a.p i ||| flag)

/-- The statement `a->p[i] &= ~flag`. -/
def clear_p (a : SM_ATTR_PROP_CHG) (i : Fin NUM_ATT_CHG_PROP) (flag : Nat) :
    SM_ATTR_PROP_CHG :=
  a.set i (and_not (a.p i) flag)

/-- The inner `while` of lines 12550-12560: the attribute name occurs among
the attributes of the constraint. -/
def name_found_in_constr (env : Env) (attr_name_to_check : String)
    (sm_cls_constr : SM_CLASS_CONSTRAINT) : Bool :=
  sm_cls_constr.attributes.any fun n =>
    match n with
    | some name => env.intl_identifier_casecmp name attr_name_to_check == 0
    | none => false

/-- The loop over the constraints of the current class in
`build_attr_change_map` (lines 12542-12630): marks FK, PRIMARY KEY, non-unique
index and UNIQUE as present in the old schema and saves the constraints that
have to be recreated. It stops at the first failing save. -/
def scan_class_constraints (env : Env) (attr_name_to_check : String) :
    List SM_CLASS_CONSTRAINT → SM_ATTR_PROP_CHG → ErrorCode × SM_ATTR_PROP_CHG
  | [], a => (NO_ERROR, a)
  | sm_cls_constr :: next, a =>
    let nb_att_in_constr := sm_cls_constr.attributes.length
    if name_found_in_constr env attr_name_to_check sm_cls_constr then
      -- referenced FK
      let a := if sm_cls_constr.has_fk_info then
          or_p a P_CONSTR_FK ATT_CHG_PROPERTY_PRESENT_OLD else a
      let (a, save_constr) :=
        if sm_cls_constr.type = SM_CONSTRAINT_PRIMARY_KEY then
          if nb_att_in_constr ≥ 2 then
            (or_p a P_M_CONSTR_PK ATT_CHG_PROPERTY_PRESENT_OLD, true)
          else
            (or_p a P_S_CONSTR_PK ATT_CHG_PROPERTY_PRESENT_OLD, true)
        else if sm_cls_constr.type = SM_CONSTRAINT_INDEX then
          (or_p a P_CONSTR_NON_UNI ATT_CHG_PROPERTY_PRESENT_OLD, true)
        else if sm_cls_constr.type = SM_CONSTRAINT_UNIQUE
            ∨ sm_cls_constr.type = SM_CONSTRAINT_REVERSE_UNIQUE then
          if nb_att_in_constr ≥ 2 then
            (or_p a P_M_CONSTR_UNI ATT_CHG_PROPERTY_PRESENT_OLD, true)
          else
            (or_p a P_S_CONSTR_UNI ATT_CHG_PROPERTY_PRESENT_OLD, true)
        else (a, false)
      if save_constr then
        match sm_save_constraint_info a.constr_info sm_cls_constr with
        | (NO_ERROR, saved) =>
          scan_class_constraints env attr_name_to_check next { a with constr_info := saved }
        | (error, saved) => (error, { a with constr_info := saved })
      else scan_class_constraints env attr_name_to_check next a
    else scan_class_constraints env attr_name_to_check next a

/-- The renaming of the attribute inside the saved constraints
(lines 12643-12669); string duplication is taken to succeed. -/
def rename_in_saved_constraints (env : Env) (new_name : Option String) (attr_name : String)
    (a : SM_ATTR_PROP_CHG) : SM_ATTR_PROP_CHG :=
  match new_name with
  | some new_name =>
    if a.constr_info ≠ [] ∧ env.intl_identifier_casecmp new_name attr_name ≠ 0 then
      { a with constr_info := a.constr_info.map fun saved_constr =>
          { saved_constr with att_names := saved_constr.att_names.map fun c_name =>
              if env.intl_identifier_casecmp attr_name c_name = 0 then new_name
              else c_name } }
    else a
  | none => a

/-- The loop over the constraints of the new definition in
`build_attr_change_map` (lines 12672-12752): marks FK, PRIMARY KEY, UNIQUE,
NOT NULL (and CHECK) as present in the new definition and saves the
constraints that are not already present in the old schema. It stops at the
first failing save. -/
def scan_new_constraints (env : Env) (attr_name : String) (new_name : Option String) :
    List PT_CONSTRAINT → SM_ATTR_PROP_CHG → ErrorCode × SM_ATTR_PROP_CHG
  | [], a => (NO_ERROR, a)
  | cnstr :: next, a =>
    let attr_name_to_check :=
      if is_att_prop_set (a.p P_NAME) ATT_CHG_PROPERTY_DIFF then new_name.getD attr_name
      else attr_name
    if cnstr.type = PT_CONSTRAIN_CHECK then
      -- not supported, just mark as 'PRESENT'
      scan_new_constraints env attr_name new_name next
        (or_p a P_CONSTR_CHECK ATT_CHG_PROPERTY_PRESENT_NEW)
    else
      let sel : Option (Fin NUM_ATT_CHG_PROP × Bool) :=
        match cnstr.type with
        | PT_CONSTRAIN_FOREIGN_KEY => some (P_CONSTR_FK, false)
        | PT_CONSTRAIN_PRIMARY_KEY => some (P_S_CONSTR_PK, true)
        | PT_CONSTRAIN_UNIQUE => some (P_S_CONSTR_UNI, true)
        | PT_CONSTRAIN_NOT_NULL => some (P_NOT_NULL, true)
        | _ => none
      match sel with
      | none => scan_new_constraints env attr_name new_name next a
      | some (chg_prop_idx, save_pt_costraint) =>
        if cnstr.attrs.any fun original =>
            env.intl_identifier_casecmp attr_name_to_check original == 0 then
          if save_pt_costraint
              && !is_att_prop_set (a.p chg_prop_idx) ATT_CHG_PROPERTY_PRESENT_OLD then
            match save_constraint_info_from_pt_node a.new_constr_info cnstr with
            | (NO_ERROR, saved) =>
              scan_new_constraints env attr_name new_name next
                (or_p { a with new_constr_info := saved } chg_prop_idx
                  ATT_CHG_PROPERTY_PRESENT_NEW)
            | (error, saved) => (error, { a with new_constr_info := saved })
          else
            scan_new_constraints env attr_name new_name next
              (or_p a chg_prop_idx ATT_CHG_PROPERTY_PRESENT_NEW)
        else scan_new_constraints env attr_name new_name next a

/-- The body of the consolidation loop (lines 12790-12820) on one entry. -/
def consolidate_entry (p : Nat) : Nat :=
  let p :=
    if p &&& ATT_CHG_PROPERTY_PRESENT_OLD ≠ 0 then
      if p &&& ATT_CHG_PROPERTY_PRESENT_NEW ≠ 0 then
        p ||| ATT_CHG_PROPERTY_UNCHANGED
      else p ||| ATT_CHG_PROPERTY_LOST
    else
      if p &&& ATT_CHG_PROPERTY_PRESENT_NEW ≠ 0 then
        p ||| ATT_CHG_PROPERTY_GAINED
      else p ||| ATT_CHG_PROPERTY_UNCHANGED
  if is_att_prop_set p ATT_CHG_PROPERTY_DIFF
      && is_att_prop_set p ATT_CHG_PROPERTY_UNCHANGED then
    -- remove UNCHANGED flag if DIFF flag was already set
    and_not p ATT_CHG_PROPERTY_UNCHANGED
  else p

/-- The consolidation of the properties (lines 12784-12823): every entry is
rewritten by `consolidate_entry`. -/
def consolidate (a : SM_ATTR_PROP_CHG) : SM_ATTR_PROP_CHG :=
  { a with p := fun i => consolidate_entry (a.p i) }

/-- The special case TYPE of `build_attr_change_map` (lines 12825-12906). -/
def special_case_type (env : Env) (attr_db_domain att_domain : TP_DOMAIN)
    (a : SM_ATTR_PROP_CHG) : ErrorCode × SM_ATTR_PROP_CHG :=
  if env.tp_domain_match attr_db_domain att_domain TP_EXACT_MATCH then
    (NO_ERROR, or_p a P_TYPE ATT_CHG_PROPERTY_UNCHANGED)
  else
    -- remove "UNCHANGED" flag
    let a := clear_p a P_TYPE ATT_CHG_PROPERTY_UNCHANGED
    if TP_DOMAIN_TYPE attr_db_domain = TP_DOMAIN_TYPE att_domain
        ∧ TP_IS_CHAR_BIT_TYPE (TP_DOMAIN_TYPE attr_db_domain) = true then
      if env.tp_domain_match attr_db_domain att_domain TP_STR_MATCH then
        (NO_ERROR, or_p a P_TYPE ATT_CHG_TYPE_PREC_INCR)
      else
        let a := or_p a P_TYPE ATT_CHG_PROPERTY_DIFF
        if attr_db_domain.precision > att_domain.precision then
          (NO_ERROR, or_p a P_TYPE ATT_CHG_TYPE_UPGRADE)
        else
          if QSTR_IS_FIXED_LENGTH (TP_DOMAIN_TYPE attr_db_domain) = true
              ∧ env.PRM_ALTER_TABLE_CHANGE_TYPE_STRICT = true then
            (NO_ERROR, or_p a P_TYPE ATT_CHG_TYPE_NOT_SUPPORTED_WITH_CFG)
          else
            (NO_ERROR, or_p a P_TYPE ATT_CHG_TYPE_NEED_ROW_CHECK)
    else if TP_DOMAIN_TYPE attr_db_domain = TP_DOMAIN_TYPE att_domain
        ∧ TP_DOMAIN_TYPE attr_db_domain = DB_TYPE_NUMERIC then
      if attr_db_domain.scale = att_domain.scale
          ∧ attr_db_domain.precision > att_domain.precision then
        (NO_ERROR, or_p a P_TYPE ATT_CHG_TYPE_PREC_INCR)
      else
        (NO_ERROR, or_p a P_TYPE ATT_CHG_TYPE_NEED_ROW_CHECK)
    else if TP_IS_SET_TYPE (TP_DOMAIN_TYPE attr_db_domain) = true
        ∧ TP_IS_SET_TYPE (TP_DOMAIN_TYPE att_domain) = true then
      if env.tp_domain_compatible att_domain attr_db_domain then
        (NO_ERROR, or_p a P_TYPE ATT_CHG_TYPE_SET_CLS_COMPAT)
      else
        let a := or_p a P_TYPE ATT_CHG_TYPE_NEED_ROW_CHECK
        (NO_ERROR, or_p a P_TYPE ATT_CHG_PROPERTY_DIFF)
    else
      let a := or_p a P_TYPE ATT_CHG_PROPERTY_DIFF
      match build_att_type_change_map env att_domain attr_db_domain a with
      | (NO_ERROR, a) => (NO_ERROR, a)
      | (error, a) => (error, or_p a P_TYPE ATT_CHG_TYPE_NOT_SUPPORTED)

/-- The special cases AUTO INCREMENT, DEFAULT and UNIQUE on multiple columns
of `build_attr_change_map` (lines 12908-12945). -/
def special_cases_tail (a : SM_ATTR_PROP_CHG) : SM_ATTR_PROP_CHG :=
  -- special case : AUTO INCREMENT
  let a :=
    if is_att_prop_set (a.p P_AUTO_INCR)
        (ATT_CHG_PROPERTY_PRESENT_OLD ||| ATT_CHG_PROPERTY_PRESENT_NEW) then
      clear_p (or_p a P_AUTO_INCR ATT_CHG_PROPERTY_DIFF) P_AUTO_INCR
        ATT_CHG_PROPERTY_UNCHANGED
    else a
  -- special case : DEFAULT
  let a :=
    if is_att_prop_set (a.p P_DEFAULT_VALUE)
        (ATT_CHG_PROPERTY_PRESENT_OLD ||| ATT_CHG_PROPERTY_PRESENT_NEW) then
      clear_p (or_p a P_DEFAULT_VALUE ATT_CHG_PROPERTY_DIFF) P_DEFAULT_VALUE
        ATT_CHG_PROPERTY_UNCHANGED
    else a
  -- special case : UNIQUE on multiple columns
  if is_att_prop_set (a.p P_M_CONSTR_UNI) ATT_CHG_PROPERTY_PRESENT_OLD then
    if is_att_prop_set (a.p P_TYPE) ATT_CHG_PROPERTY_DIFF then
      clear_p (or_p a P_M_CONSTR_UNI ATT_CHG_PROPERTY_DIFF) P_M_CONSTR_UNI
        ATT_CHG_PROPERTY_UNCHANGED
    else or_p a P_M_CONSTR_UNI ATT_CHG_PROPERTY_UNCHANGED
  else a

/-- The attribute-name part of `build_attr_change_map` (lines 12421-12452):
the name is present in the old schema; with a CHANGE clause it is present in
the new definition too, and UNCHANGED or DIFF after the comparison of the two
names; with a MODIFY clause it is UNCHANGED. -/
def mark_name (env : Env) (attr_def : PT_ATTR_DEF) (attr_old_name : Option String)
    (a : SM_ATTR_PROP_CHG) : SM_ATTR_PROP_CHG :=
  let a := a.set P_NAME 0
  let a := or_p a P_NAME ATT_CHG_PROPERTY_PRESENT_OLD
  match attr_old_name with
  | some old_name =>
    let a := or_p a P_NAME ATT_CHG_PROPERTY_PRESENT_NEW
    if env.intl_identifier_casecmp old_name attr_def.attr_name = 0 then
      or_p a P_NAME ATT_CHG_PROPERTY_UNCHANGED
    else or_p a P_NAME ATT_CHG_PROPERTY_DIFF
  | none => or_p a P_NAME ATT_CHG_PROPERTY_UNCHANGED

/-- The part of `build_attr_change_map` that reads the attribute found in the
template and the clauses of the definition (lines 12470-12533). -/
def mark_attribute (attr_def : PT_ATTR_DEF) (att : SM_ATTRIBUTE) (a : SM_ATTR_PROP_CHG) :
    SM_ATTR_PROP_CHG :=
  let a := { a with name_space := att.name_space }
  -- DEFAULT value
  let a := a.set P_DEFAULT_VALUE 0
  let a := if attr_def.data_default.isSome then
      or_p a P_DEFAULT_VALUE ATT_CHG_PROPERTY_PRESENT_NEW else a
  let a := if !att.original_value_is_null || !att.value_is_null
        || !att.default_expr_is_none then
      or_p a P_DEFAULT_VALUE ATT_CHG_PROPERTY_PRESENT_OLD else a
  -- DEFFERABLE : not supported, just mark as checked
  let a := a.set P_DEFFERABLE 0
  -- ORDERING
  let a := a.set P_ORDER 0
  let a := if attr_def.ordering_info then
      or_p a P_ORDER ATT_CHG_PROPERTY_PRESENT_NEW else a
  -- AUTO INCREMENT
  let a := a.set P_AUTO_INCR 0
  let a := if attr_def.auto_increment then
      or_p a P_AUTO_INCR ATT_CHG_PROPERTY_PRESENT_NEW else a
  let a := if att.SM_ATTFLAG_AUTO_INCREMENT then
      or_p a P_AUTO_INCR ATT_CHG_PROPERTY_PRESENT_OLD else a
  -- existing FOREIGN KEY (referencing)
  let a := a.set P_CONSTR_FK 0
  let a := if att.SM_ATTFLAG_FOREIGN_KEY then
      or_p a P_CONSTR_FK ATT_CHG_PROPERTY_PRESENT_OLD else a
  -- existing PRIMARY KEY: mark as checked
  let a := a.set P_S_CONSTR_PK 0
  let a := a.set P_M_CONSTR_PK 0
  -- existing non-unique INDEX ?
  let a := a.set P_CONSTR_NON_UNI 0
  let a := if att.SM_ATTFLAG_INDEX then
      or_p a P_CONSTR_NON_UNI ATT_CHG_PROPERTY_PRESENT_OLD else a
  -- constraint : NOT NULL
  let a := a.set P_NOT_NULL 0
  let a := if att.SM_ATTFLAG_NON_NULL then
      or_p a P_NOT_NULL ATT_CHG_PROPERTY_PRESENT_OLD else a
  -- constraint CHECK : not supported, just mark as checked
  a.set P_CONSTR_CHECK 0

/-- The partition part of `build_attr_change_map` (lines 12754-12775): the
attribute is marked when it is the partition key column of the class. -/
def mark_partition_key (env : Env) (ctemplate : DB_CTMPL) (attr_name : String)
    (a : SM_ATTR_PROP_CHG) : ErrorCode × SM_ATTR_PROP_CHG :=
  let a := a.set P_IS_PARTITION_COL 0
  if ctemplate.partition_of then
    match ctemplate.do_get_partition_keycol with
    | .error error => (error, a)
    | .ok keycol =>
      if env.intl_identifier_casecmp keycol attr_name = 0 then
        (NO_ERROR, or_p a P_IS_PARTITION_COL ATT_CHG_PROPERTY_PRESENT_OLD)
      else (NO_ERROR, a)
  else (NO_ERROR, a)

/-- The end of `build_attr_change_map` (lines 12777-12946): the domain of the
definition is built, the type is marked as present on both sides, the entries
are consolidated and the special cases are applied. -/
def mark_domain_and_consolidate (env : Env) (attr_def : PT_ATTR_DEF) (att : SM_ATTRIBUTE)
    (a : SM_ATTR_PROP_CHG) : ErrorCode × SM_ATTR_PROP_CHG :=
  match attr_def.pt_node_to_db_domain with
  | none => (attr_def.er_errid, a)
  | some attr_db_domain =>
    let a := a.set P_TYPE 0
    let a := or_p a P_TYPE ATT_CHG_PROPERTY_PRESENT_NEW
    let a := or_p a P_TYPE ATT_CHG_PROPERTY_PRESENT_OLD
    -- consolidate properties
    let a := consolidate a
    -- special case : TYPE
    match special_case_type env attr_db_domain att.domain a with
    | (NO_ERROR, a) => (NO_ERROR, special_cases_tail a)
    | (error, a) => (error, a)

/-- Builds the map of changes on the attribute: `build_attr_change_map`
(lines 12404-12947). The result is the returned error code and the ledger as
the function leaves it (also on an early error return). The parts of the
function are the definitions above, in source order. -/
def build_attr_change_map (env : Env) (ctemplate : DB_CTMPL) (attr_def : PT_ATTR_DEF)
    (attr_old_name : Option String) (constraints : List PT_CONSTRAINT)
    (attr_chg_properties : SM_ATTR_PROP_CHG) : ErrorCode × SM_ATTR_PROP_CHG :=
  -- attribute name
  let a := mark_name env attr_def attr_old_name attr_chg_properties
  let new_name : Option String := attr_old_name.map fun _ => attr_def.attr_name
  let attr_name : String := attr_old_name.getD attr_def.attr_name
  -- get the attribute structure
  match ctemplate.smt_find_attribute attr_name
      (decide (attr_chg_properties.name_space = ID_CLASS_ATTRIBUTE)) with
  | .error error => (error, a)
  | .ok att =>
    let a := mark_attribute attr_def att a
    -- check for existing constraints: FK referenced, unique, non-unique idx
    match ctemplate.current with
    | none => (ER_OBJ_TEMPLATE_INTERNAL, a)
    | some current =>
      let a := a.set P_S_CONSTR_UNI 0
      let a := a.set P_M_CONSTR_UNI 0
      match scan_class_constraints env attr_name current.constraints a with
      | (NO_ERROR, a) =>
        let a := rename_in_saved_constraints env new_name attr_name a
        -- check for constraints in the new attribute definition
        match scan_new_constraints env attr_name new_name constraints a with
        | (NO_ERROR, a) =>
          -- partitions
          match mark_partition_key env ctemplate attr_name a with
          | (NO_ERROR, a) =>
            -- DOMAIN, consolidation, special cases
            mark_domain_and_consolidate env attr_def att a
          | (error, a) => (error, a)
        | (error, a) => (error, a)
      | (error, a) => (error, a)

/-- The resolution flags that an entry of the ledger carries: its bits among
UNCHANGED, GAINED, LOST and DIFF. -/
def resolution_flags (p : Nat) : Nat :=
  p &&& (ATT_CHG_PROPERTY_UNCHANGED ||| ATT_CHG_PROPERTY_GAINED ||| ATT_CHG_PROPERTY_LOST
    ||| ATT_CHG_PROPERTY_DIFF)

/-- The consolidation rule in the words of the specification: a property
absent in both the old schema and the new definition, or present in both and
equal, is UNCHANGED; present only in the new definition it is GAINED; present
only in the old schema it is LOST; present in both but differing it is
DIFF. -/
def resolution_rule (present_old present_new differing : Bool) : Nat :=
  if present_old && present_new then
    if differing then ATT_CHG_PROPERTY_DIFF else ATT_CHG_PROPERTY_UNCHANGED
  else if present_new then ATT_CHG_PROPERTY_GAINED
  else if present_old then ATT_CHG_PROPERTY_LOST
  else ATT_CHG_PROPERTY_UNCHANGED

/-! ## The planner -/

/-- Retrieves the default value from the attribute definition:
`get_att_default_from_def` (lines 14158-14236). The second component is the
out-parameter `*default_value`: `none` for NULL, otherwise `some b` where `b`
tells whether the pointed `DB_VALUE` is the NULL value (it is on entry). -/
def get_att_default_from_def (attribute_node : PT_ATTR_DEF) : ErrorCode × Option Bool :=
  match attribute_node.data_default with
  | none => (NO_ERROR, none)
  | some data_default =>
    if data_default.semantic_check_failed then (data_default.er_errid, some true)
    else
      let coerced : ErrorCode :=
        if data_default.default_expr_is_none then data_default.pt_coerce_value
        else if data_default.semantic_type_failed then data_default.er_errid
        else if !data_default.coerce_compatible then ER_IT_INCOMPATIBLE_DATATYPE
        else NO_ERROR
      if coerced ≠ NO_ERROR then (coerced, some true)
      else
        let default_value : Option Bool :=
          if data_default.default_expr_is_none then some data_default.evaluated_is_null
          else none
        if data_default.evaluate_failed then (data_default.er_errid, default_value)
        else (NO_ERROR, default_value)

/-- One call of the admissibility checker made by the planner: the strategy
and `log_error_allowed` it was called with, and what it produced. -/
structure CheckerCall where
  chg_how : SM_ATTR_CHG_SOL
  log_error_allowed : Bool
  result : CheckResult
  deriving DecidableEq, Repr

/-- What `check_change_attribute` produces: the returned code, the
out-parameter `*change_mode`, the ledger it leaves in `attr_chg_prop`, and the
calls of `check_att_chg_allowed` it made, in order. -/
structure PlanResult where
  error : ErrorCode
  change_mode : SM_ATTR_CHG_SOL
  attr_chg_prop : SM_ATTR_PROP_CHG
  checker_calls : List CheckerCall

/-- The escalation of `check_change_attribute` (lines 14843-14865): the
checker is tried at SchemaOnly, then at WithRowUpdate, then at BestEffort
(the only call that may log), as long as it denies with `new_attempt`. -/
def check_change_attribute_escalate (env : Env) (attr_name : String) (t : PT_TYPE_ENUM)
    (attr_chg_prop : SM_ATTR_PROP_CHG) : PlanResult :=
  let strict := env.PRM_ALTER_TABLE_CHANGE_TYPE_STRICT
  let r1 := check_att_chg_allowed strict attr_name t attr_chg_prop SM_ATTR_CHG_ONLY_SCHEMA false
  let c1 : CheckerCall := ⟨SM_ATTR_CHG_ONLY_SCHEMA, false, r1⟩
  if r1.error ≠ NO_ERROR ∧ r1.new_attempt = true then
    let r2 := check_att_chg_allowed strict attr_name t attr_chg_prop
      SM_ATTR_CHG_WITH_ROW_UPDATE false
    let c2 : CheckerCall := ⟨SM_ATTR_CHG_WITH_ROW_UPDATE, false, r2⟩
    if r2.error ≠ NO_ERROR ∧ r2.new_attempt = true then
      let r3 := check_att_chg_allowed strict attr_name t attr_chg_prop
        SM_ATTR_CHG_BEST_EFFORT true
      let c3 : CheckerCall := ⟨SM_ATTR_CHG_BEST_EFFORT, true, r3⟩
      ⟨r3.error, SM_ATTR_CHG_BEST_EFFORT, attr_chg_prop, [c1, c2, c3]⟩
    else ⟨r2.error, SM_ATTR_CHG_WITH_ROW_UPDATE, attr_chg_prop, [c1, c2]⟩
  else ⟨r1.error, SM_ATTR_CHG_ONLY_SCHEMA, attr_chg_prop, [c1]⟩

/-- The part of `check_change_attribute` that follows a successful
`build_attr_change_map` (lines 14773-14870): the check that the ledger is
fully resolved, the no-change shortcut, the index-type check and the
escalation. `attr_name` is the name used in messages and `attribute_node` the new
definition (the C parameter `attribute`). -/
def check_change_attribute_on_map (env : Env) (attr_name : String)
    (attribute_node : PT_ATTR_DEF) (attr_chg_prop : SM_ATTR_PROP_CHG) : PlanResult :=
  if !is_att_property_structure_checked attr_chg_prop then
    ⟨ER_UNEXPECTED, SM_ATTR_CHG_ONLY_SCHEMA, attr_chg_prop, []⟩
  else if !is_att_change_needed attr_chg_prop then
    -- just a warning : nothing to do
    ⟨NO_ERROR, SM_ATTR_CHG_NOT_NEEDED, attr_chg_prop, []⟩
  else if (is_att_prop_set (attr_chg_prop.p P_S_CONSTR_PK) ATT_CHG_PROPERTY_PRESENT_NEW
        || is_att_prop_set (attr_chg_prop.p P_S_CONSTR_PK) ATT_CHG_PROPERTY_PRESENT_OLD
        || is_att_prop_set (attr_chg_prop.p P_M_CONSTR_PK) ATT_CHG_PROPERTY_PRESENT_OLD
        || is_att_prop_set (attr_chg_prop.p P_S_CONSTR_UNI) ATT_CHG_PROPERTY_PRESENT_NEW
        || is_att_prop_set (attr_chg_prop.p P_S_CONSTR_UNI) ATT_CHG_PROPERTY_PRESENT_OLD
        || is_att_prop_set (attr_chg_prop.p P_M_CONSTR_UNI) ATT_CHG_PROPERTY_PRESENT_OLD
        || is_att_prop_set (attr_chg_prop.p P_CONSTR_NON_UNI) ATT_CHG_PROPERTY_PRESENT_OLD)
      && !env.tp_valid_indextype (env.pt_type_enum_to_db attribute_node.type_enum) then
    ⟨ER_SM_INVALID_INDEX_TYPE, SM_ATTR_CHG_ONLY_SCHEMA, attr_chg_prop, []⟩
  else
    -- check if attribute change is allowed
    check_change_attribute_escalate env attr_name attribute_node.type_enum attr_chg_prop

/-- The head of `check_change_attribute` (lines 14725-14736): the name space
is taken from the kind of the definition, and the class counts as having
subclasses when it has users that are not its partitions. The template is one
of an existing class (the C code dereferences `ctemplate->current` at
line 14733). -/
def check_change_attribute_init (ctemplate : DB_CTMPL) (attribute_node : PT_ATTR_DEF)
    (attr_chg_prop : SM_ATTR_PROP_CHG) : SM_ATTR_PROP_CHG :=
  let name_space :=
    if attribute_node.attr_type = PT_META_ATTR then ID_CLASS_ATTRIBUTE
    else if attribute_node.attr_type = PT_SHARED then ID_SHARED_ATTRIBUTE
    else ID_ATTRIBUTE
  let attr_chg_prop := { attr_chg_prop with name_space := name_space }
  -- check if class has subclasses : 'users' of class may be subclass, but
  -- also partitions of class
  let users_not_null := match ctemplate.current with
    | some current => current.users_not_null
    | none => false
  if users_not_null && !ctemplate.partition_of then
    { attr_chg_prop with class_has_subclass := true }
  else attr_chg_prop

/-- Checks if an attribute change is possible and with which strategy:
`check_change_attribute` (lines 14696-14870). `attribute_node` is the C
parameter `attribute`, `old_name_node` is the old name of a CHANGE clause
(`none` for NULL). -/
def check_change_attribute (env : Env) (ctemplate : DB_CTMPL) (attribute_node : PT_ATTR_DEF)
    (old_name_node : Option String) (constraints : List PT_CONSTRAINT)
    (attr_chg_prop : SM_ATTR_PROP_CHG) : PlanResult :=
  let change_mode := SM_ATTR_CHG_ONLY_SCHEMA
  let attr_name := attribute_node.attr_name
  let attr_chg_prop := check_change_attribute_init ctemplate attribute_node attr_chg_prop
  match get_att_default_from_def attribute_node with
  | (NO_ERROR, ptr_def) =>
    -- check if the class has a default NULL and a NOT NULL constraint
    if ptr_def = some true
        ∧ (attribute_node.data_default.map fun d => d.default_expr_is_none) = some true
        ∧ (constraints.any fun cnstr => cnstr.type = PT_CONSTRAIN_NOT_NULL) = true then
      ⟨ER_CANNOT_HAVE_NOTNULL_DEFAULT_NULL, change_mode, attr_chg_prop, []⟩
    else
      match build_attr_change_map env ctemplate attribute_node old_name_node constraints
          attr_chg_prop with
      | (NO_ERROR, attr_chg_prop) =>
        let attr_name := old_name_node.getD attr_name
        check_change_attribute_on_map env attr_name attribute_node attr_chg_prop
      | (error, attr_chg_prop) => ⟨error, change_mode, attr_chg_prop, []⟩
  | (error, _) => ⟨error, change_mode, attr_chg_prop, []⟩

/-- The index-type test of `check_change_attribute` (lines 14819-14841)
passes: no PRIMARY KEY, UNIQUE or index entry is present, or the new type can
be indexed. -/
def index_type_check_passes (env : Env) (attribute_node : PT_ATTR_DEF)
    (attr_chg_prop : SM_ATTR_PROP_CHG) : Bool :=
  !(is_att_prop_set (attr_chg_prop.p P_S_CONSTR_PK) ATT_CHG_PROPERTY_PRESENT_NEW
      || is_att_prop_set (attr_chg_prop.p P_S_CONSTR_PK) ATT_CHG_PROPERTY_PRESENT_OLD
      || is_att_prop_set (attr_chg_prop.p P_M_CONSTR_PK) ATT_CHG_PROPERTY_PRESENT_OLD
      || is_att_prop_set (attr_chg_prop.p P_S_CONSTR_UNI) ATT_CHG_PROPERTY_PRESENT_NEW
      || is_att_prop_set (attr_chg_prop.p P_S_CONSTR_UNI) ATT_CHG_PROPERTY_PRESENT_OLD
      || is_att_prop_set (attr_chg_prop.p P_M_CONSTR_UNI) ATT_CHG_PROPERTY_PRESENT_OLD
      || is_att_prop_set (attr_chg_prop.p P_CONSTR_NON_UNI) ATT_CHG_PROPERTY_PRESENT_OLD)
    || env.tp_valid_indextype (env.pt_type_enum_to_db attribute_node.type_enum)

/-! ## Presence of a property in the old schema and in the new definition

These predicates name what the two constraint loops of
`build_attr_change_map` look for; the lemmas on the loops are stated with
them. -/

/-- The constraint `c` of the current class makes the loop of lines
12542-12630 mark property `i` as present in the old schema. -/
def marks_old (env : Env) (attr_name : String) (c : SM_CLASS_CONSTRAINT)
    (i : Fin NUM_ATT_CHG_PROP) : Bool :=
  name_found_in_constr env attr_name c &&
    ((decide (i = P_CONSTR_FK) && c.has_fk_info)
    || (decide (i = P_M_CONSTR_PK) && decide (c.type = SM_CONSTRAINT_PRIMARY_KEY)
        && decide (c.attributes.length ≥ 2))
    || (decide (i = P_S_CONSTR_PK) && decide (c.type = SM_CONSTRAINT_PRIMARY_KEY)
        && !decide (c.attributes.length ≥ 2))
    || (decide (i = P_CONSTR_NON_UNI) && decide (c.type = SM_CONSTRAINT_INDEX))
    || (decide (i = P_M_CONSTR_UNI)
        && (decide (c.type = SM_CONSTRAINT_UNIQUE)
          || decide (c.type = SM_CONSTRAINT_REVERSE_UNIQUE))
        && decide (c.attributes.length ≥ 2))
    || (decide (i = P_S_CONSTR_UNI)
        && (decide (c.type = SM_CONSTRAINT_UNIQUE)
          || decide (c.type = SM_CONSTRAINT_REVERSE_UNIQUE))
        && !decide (c.attributes.length ≥ 2)))

/-- The requested constraint `c` makes the loop of lines 12672-12752 mark
property `i` as present in the new definition, when the attribute is looked up
under the name `attr_name_to_check`. -/
def marks_new (env : Env) (attr_name_to_check : String) (c : PT_CONSTRAINT)
    (i : Fin NUM_ATT_CHG_PROP) : Bool :=
  (decide (i = P_CONSTR_CHECK) && decide (c.type = PT_CONSTRAIN_CHECK))
  || ((c.attrs.any fun original =>
        env.intl_identifier_casecmp attr_name_to_check original == 0)
      && ((decide (i = P_CONSTR_FK) && decide (c.type = PT_CONSTRAIN_FOREIGN_KEY))
        || (decide (i = P_S_CONSTR_PK) && decide (c.type = PT_CONSTRAIN_PRIMARY_KEY))
        || (decide (i = P_S_CONSTR_UNI) && decide (c.type = PT_CONSTRAIN_UNIQUE))
        || (decide (i = P_NOT_NULL) && decide (c.type = PT_CONSTRAIN_NOT_NULL))))

/-! ## The mutation applicator -/

/-- The assertions of `do_change_att_schema_only` on the strategy it is called
with (lines 12192-12231): a build with assertions enabled passes them exactly
when this is true. -/
def do_change_att_schema_only_asserts (attr_chg_prop : SM_ATTR_PROP_CHG)
    (change_mode : SM_ATTR_CHG_SOL) : Bool :=
  if change_mode = SM_ATTR_CHG_ONLY_SCHEMA then
    if attr_chg_prop.name_space = ID_ATTRIBUTE then
      is_att_prop_set (attr_chg_prop.p P_TYPE) ATT_CHG_PROPERTY_UNCHANGED
        || is_att_prop_set (attr_chg_prop.p P_TYPE) ATT_CHG_TYPE_SET_CLS_COMPAT
        || is_att_prop_set (attr_chg_prop.p P_TYPE) ATT_CHG_TYPE_PREC_INCR
    else
      decide (attr_chg_prop.name_space = ID_CLASS_ATTRIBUTE
          ∨ attr_chg_prop.name_space = ID_SHARED_ATTRIBUTE)
        && (!is_att_prop_set (attr_chg_prop.p P_TYPE) ATT_CHG_TYPE_NOT_SUPPORTED_WITH_CFG
          && !is_att_prop_set (attr_chg_prop.p P_TYPE) ATT_CHG_TYPE_NOT_SUPPORTED)
  else if change_mode = SM_ATTR_CHG_WITH_ROW_UPDATE then
    is_att_prop_set (attr_chg_prop.p P_TYPE) ATT_CHG_TYPE_UPGRADE
  else
    decide (change_mode = SM_ATTR_CHG_BEST_EFFORT)
      -- this mode is needed when: a type change other than UPGRADE
      && (is_att_prop_set (attr_chg_prop.p P_TYPE) ATT_CHG_TYPE_NEED_ROW_CHECK
        || is_att_prop_set (attr_chg_prop.p P_TYPE) ATT_CHG_TYPE_PSEUDO_UPGRADE)

/-- The rank of a constraint type in `sort_constr_info_list`: the array
`constr_order` (lines 14886, 14900-14906). The array has the seven entries 0 to
`DB_CONSTRAINT_FOREIGN_KEY` and the code reads it inside that range only. -/
def constr_order (constraint_type : Int) : Int :=
  if constraint_type = DB_CONSTRAINT_UNIQUE then 2
  else if constraint_type = DB_CONSTRAINT_INDEX then 0
  else if constraint_type = DB_CONSTRAINT_NOT_NULL then 6
  else if constraint_type = DB_CONSTRAINT_REVERSE_UNIQUE then 2
  else if constraint_type = DB_CONSTRAINT_REVERSE_INDEX then 0
  else if constraint_type = DB_CONSTRAINT_PRIMARY_KEY then 4
  else if constraint_type = DB_CONSTRAINT_FOREIGN_KEY then 5
  else 0

/-- The inner loop of `sort_constr_info_list` and the relinking that follows
it (lines 14913-14947): `constr` is linked before the first element of
`sorted` whose rank is greater than its own, or at the end. Every element
visited is tested, with `constr`, to lie in the range of the array; a failed
test ends the function with `ER_UNEXPECTED`. The result is the new list and
the number of elements that precede `constr` in it. -/
def sort_constr_info_list_place (constr : SM_CONSTRAINT_INFO) :
    List SM_CONSTRAINT_INFO → Except ErrorCode (List SM_CONSTRAINT_INFO × Nat)
  | [] => .ok ([constr], 0)
  | ins :: rest =>
    if constr.constraint_type < 0 ∨ constr.constraint_type > DB_CONSTRAINT_FOREIGN_KEY
        ∨ ins.constraint_type < 0 ∨ ins.constraint_type > DB_CONSTRAINT_FOREIGN_KEY then
      .error ER_UNEXPECTED
    else if constr_order constr.constraint_type < constr_order ins.constraint_type then
      -- found = ins
      .ok (constr :: ins :: rest, 0)
    else
      -- prev = ins
      match sort_constr_info_list_place constr rest with
      | .ok (placed, k) => .ok (ins :: placed, k + 1)
      | .error error => .error error

/-- The outer loop of `sort_constr_info_list` (lines 14909-14947) on the
elements that remain to be placed. `head_pos` is the position in `sorted` of
the first element of the original list: on the error return `*orig_list` still
points to that element, so the list left to the caller is that element with
what follows it in `sorted`. -/
def sort_constr_info_list_loop :
    List SM_CONSTRAINT_INFO → List SM_CONSTRAINT_INFO → Nat →
      ErrorCode × List SM_CONSTRAINT_INFO
  | [], sorted, _ => (NO_ERROR, sorted)
  | constr :: next, sorted, head_pos =>
    match sort_constr_info_list_place constr sorted with
    | .ok (placed, k) =>
      sort_constr_info_list_loop next placed
        (if sorted ≠ [] ∧ k ≤ head_pos then head_pos + 1 else head_pos)
    | .error error => (error, sorted.drop head_pos)

/-- Sorts the list of constraints: `sort_constr_info_list`
(lines 14882-14950). The result is the returned code and the list that
`*orig_list` holds afterwards. -/
def sort_constr_info_list (orig_list : List SM_CONSTRAINT_INFO) :
    ErrorCode × List SM_CONSTRAINT_INFO :=
  match orig_list with
  | [] => (NO_ERROR, [])
  | _ :: _ => sort_constr_info_list_loop orig_list [] 0

/-- A call that `do_alter_clause_change_attribute`, `do_drop_att_constraints`
and `do_recreate_att_constraints` make to a collaborator, with the arguments
that tell the calls apart. `do_change_att_schema_only`,
`do_check_fk_constraints`, `do_recreate_func_index_constr`,
`do_recreate_filter_index_constr`, `do_run_upgrade_instances_domain` and
`do_run_update_query_for_class` are functions of `execute_schema.c` whose
bodies are not embedded: a call of one of them is recorded like a call of a
collaborator, and its returned code is taken from the world. The class handle
and the flags that are constants at the call site are left out;
`locator_fetch_class` and `do_run_upgrade_instances_domain` carry `none` for
the class itself and `some i` for its partition number `i`; the query of
`do_run_update_query_for_class` is given by the three texts printed into it.
Calls that only log a message or release memory are not recorded, except
`sm_free_constraint_info` (its argument tells the list: false for
`constr_info`, true for `new_constr_info`). -/
inductive Call where
  | db_find_class (entity_name : String)
  | er_errid
  | locator_flush_class
  | locator_fetch_class (partition : Option Nat)
  | dbt_edit_class
  | calloc (user_count : Nat)
  | tran_savepoint
  | db_set_suppress_repl_on_transaction (suppress : Bool)
  | do_change_att_schema_only (change_mode : SM_ATTR_CHG_SOL)
  | do_check_fk_constraints
  | dbt_finish_class
  | do_recreate_func_index_constr (saved_constr : SM_CONSTRAINT_INFO)
  | do_recreate_filter_index_constr (saved_constr : SM_CONSTRAINT_INFO)
  | sm_drop_constraint (constraint_type : Int) (name : Option String)
      (att_names : List String)
  | sm_add_constraint (constraint_type : Int) (name : Option String)
      (att_names : List String) (asc_desc : Option (List Int))
      (prefix_length : Option (List Int)) (filter_predicate : Option String)
      (func_index_info : Option String)
  | sm_drop_index (name : Option String)
  | sm_add_index (constraint_type : Int) (name : Option String)
      (att_names : List String) (asc_desc : Option (List Int))
      (prefix_length : Option (List Int)) (filter_predicate : Option String)
      (func_index_info : Option String)
  | do_run_upgrade_instances_domain (partition : Option Nat) (att_id : Int)
  | db_get_class_name
  | do_run_update_query_for_class (class_name : String) (att_name : Option String)
      (hard_default : Option String)
  | db_constrain_non_null (att_name : Option String)
  | db_add_constraint (constraint_type : Int) (att_names : List String)
  | dbt_abort_class
  | tran_abort_upto_savepoint
  | sm_free_constraint_info (new_constraints : Bool)
  deriving DecidableEq, Repr

/-- The collaborators of the mutation applicator. `outcome` gives the code
that the last call of a sequence of calls returns, so that the outcome of a
call may depend on everything done before it; for a call that returns a
pointer, `NO_ERROR` stands for a non-NULL result, and for `er_errid` the
outcome is the code reported. `SM_IS_CONSTRAINT_UNIQUE_FAMILY` is the macro of
that name, which is declared outside `execute_schema.c`. `ctemplate` is the
template that `dbt_edit_class` returns, `user_count` the length of the `users`
list of its class, `att_id` the attribute id that `do_change_att_schema_only`
stores in the ledger, `class_name` the name that `db_get_class_name` returns,
and `func_index_info` and `filter_predicate` the serialized expressions that
`do_recreate_func_index_constr` and `do_recreate_filter_index_constr` write
back into a saved constraint. -/
structure World where
  outcome : List Call → ErrorCode
  SM_IS_CONSTRAINT_UNIQUE_FAMILY : Int → Bool
  ctemplate : DB_CTMPL
  user_count : Nat
  att_id : Int
  class_name : String
  func_index_info : SM_CONSTRAINT_INFO → String
  filter_predicate : SM_CONSTRAINT_INFO → String

/-- A call to a collaborator after the calls `t`: the code it returns and the
sequence of calls made so far. -/
def World.call (w : World) (t : List Call) (c : Call) : ErrorCode × List Call :=
  (w.outcome (t ++ [c]), t ++ [c])

/-- Drops the constraints of the list: `do_drop_att_constraints`
(lines 14603-14634). The result is the returned code and the calls made. -/
def do_drop_att_constraints (w : World) :
    List SM_CONSTRAINT_INFO → List Call → ErrorCode × List Call
  | [], t => (NO_ERROR, t)
  | constr :: next, t =>
    if w.SM_IS_CONSTRAINT_UNIQUE_FAMILY constr.constraint_type then
      match w.call t (.sm_drop_constraint constr.constraint_type constr.name
          constr.att_names) with
      | (NO_ERROR, t) => do_drop_att_constraints w next t
      | (error, t) => (error, t)
    else if constr.constraint_type = DB_CONSTRAINT_INDEX then
      match w.call t (.sm_drop_index constr.name) with
      | (NO_ERROR, t) => do_drop_att_constraints w next t
      | (error, t) => (error, t)
    else do_drop_att_constraints w next t

/-- Creates again the constraints of the list: `do_recreate_att_constraints`
(lines 14645-14685). The result is the returned code and the calls made. -/
def do_recreate_att_constraints (w : World) :
    List SM_CONSTRAINT_INFO → List Call → ErrorCode × List Call
  | [], t => (NO_ERROR, t)
  | constr :: next, t =>
    if w.SM_IS_CONSTRAINT_UNIQUE_FAMILY constr.constraint_type then
      match w.call t (.sm_add_constraint constr.constraint_type constr.name
          constr.att_names constr.asc_desc constr.prefix_length constr.filter_predicate
          constr.func_index_info) with
      | (NO_ERROR, t) => do_recreate_att_constraints w next t
      | (error, t) => (error, t)
    else if constr.constraint_type = DB_CONSTRAINT_INDEX then
      match w.call t (.sm_add_index constr.constraint_type constr.name
          constr.att_names constr.asc_desc constr.prefix_length constr.filter_predicate
          constr.func_index_info) with
      | (NO_ERROR, t) => do_recreate_att_constraints w next t
      | (error, t) => (error, t)
    else do_recreate_att_constraints w next t

/-- The ALTER clause (`PT_NODE : PT_ALTER`) of a CHANGE or MODIFY: the name of
the class (`none` for a NULL name), the one attribute definition, the old name
of a CHANGE clause (`none` for NULL) and the constraint list. -/
structure PT_ALTER where
  entity_name : Option String
  attr_def_list : PT_ATTR_DEF
  attr_old_name : Option String
  constraint_list : List PT_CONSTRAINT

/-- The local state of `do_alter_clause_change_attribute` at the label
`exit`: the code to return, whether `ctemplate` is not NULL, `tran_saved`, the
ledger and the calls made so far. -/
structure ALTER_STATE where
  error : ErrorCode
  ctemplate_not_null : Bool
  tran_saved : Bool
  attr_chg_prop : SM_ATTR_PROP_CHG
  trace : List Call

/-- What `do_alter_clause_change_attribute` produces: the returned code, the
value of `tran_saved` at the end, and the calls made, in order. -/
structure ALTER_RESULT where
  error : ErrorCode
  tran_saved : Bool
  trace : List Call

/-- The loop of `do_alter_clause_change_attribute` that locks the partitions
(lines 11773-11788): partition `i` and the ones after it, `n` in all. -/
def lock_partitions (w : World) : Nat → Nat → List Call → ErrorCode × List Call
  | _, 0, t => (NO_ERROR, t)
  | i, n + 1, t =>
    -- force exclusive lock on class
    match w.call t (.locator_fetch_class (some i)) with
    | (NO_ERROR, t) => lock_partitions w (i + 1) n t
    | (_, t) => (ER_FAILED, t)

/-- The first part of `do_alter_clause_change_attribute` (lines 11684-11791),
up to the savepoint: the class is found and locked, its template is opened,
the change is planned and the partitions are locked. An `error` result is the
state of a `goto exit`; an `ok` result is the ledger, the strategy,
`has_partitions` and the calls made. -/
def do_alter_clause_change_attribute_plan (env : Env) (w : World) (alter : PT_ALTER) :
    Except ALTER_STATE (SM_ATTR_PROP_CHG × SM_ATTR_CHG_SOL × Bool × List Call) :=
  let attr_chg_prop := reset_att_property_structure ⟨fun _ => 0, [], [], 0, ID_NULL, false⟩
  match alter.entity_name with
  | none => .error ⟨ER_UNEXPECTED, false, false, attr_chg_prop, []⟩
  | some entity_name =>
    match w.call [] (.db_find_class entity_name) with
    | (NO_ERROR, t) =>
      match w.call t .locator_flush_class with
      | (NO_ERROR, t) =>
        -- force exclusive lock on class
        match w.call t (.locator_fetch_class none) with
        | (NO_ERROR, t) =>
          match w.call t .dbt_edit_class with
          | (NO_ERROR, t) =>
            let ctemplate := w.ctemplate
            let plan := check_change_attribute env ctemplate alter.attr_def_list
              alter.attr_old_name alter.constraint_list attr_chg_prop
            let attr_chg_prop := plan.attr_chg_prop
            let change_mode := plan.change_mode
            if plan.error ≠ NO_ERROR then
              .error ⟨plan.error, true, false, attr_chg_prop, t⟩
            else if change_mode = SM_ATTR_CHG_NOT_NEEDED then
              -- nothing to do
              .error ⟨plan.error, true, false, attr_chg_prop, t⟩
            else
              let users_not_null := match ctemplate.current with
                | some current => current.users_not_null
                | none => false
              if users_not_null && ctemplate.partition_of then
                match w.call t (.calloc w.user_count) with
                | (NO_ERROR, t) =>
                  match lock_partitions w 0 w.user_count t with
                  | (NO_ERROR, t) => .ok (attr_chg_prop, change_mode, true, t)
                  | (error, t) => .error ⟨error, true, false, attr_chg_prop, t⟩
                | (_, t) =>
                  .error ⟨ER_OUT_OF_VIRTUAL_MEMORY, true, false, attr_chg_prop, t⟩
              else .ok (attr_chg_prop, change_mode, false, t)
          | (_, t) =>
            match w.call t .er_errid with
            | (error, t) => .error ⟨error, false, false, attr_chg_prop, t⟩
        | (_, t) => .error ⟨ER_FAILED, false, false, attr_chg_prop, t⟩
      | (error, t) => .error ⟨error, false, false, attr_chg_prop, t⟩
    | (_, t) =>
      match w.call t .er_errid with
      | (error, t) => .error ⟨error, false, false, attr_chg_prop, t⟩

/-- The loop of `do_alter_clause_change_attribute` over the saved constraints
that have a function index expression or a filter predicate
(lines 11882-11946): the expressions are rebuilt and, when no row update
follows, the constraint is dropped and created again. The result is the
returned code, the saved list with the rebuilt expressions, and the calls
made. Where the constraint is dropped the C code reads
`attr_old_name->node_type` and `attr_old_name->info.name.original`
(lines 11914-11918); for a MODIFY clause `attr_old_name` is NULL and the read
is a NULL dereference, after which the function has no result: `none`. -/
def recreate_index_expressions (w : World) (alter : PT_ALTER) (is_srv_update_needed : Bool) :
    List SM_CONSTRAINT_INFO → List Call →
      Option (ErrorCode × List SM_CONSTRAINT_INFO × List Call)
  | [], t => some (NO_ERROR, [], t)
  | saved_constr :: next, t =>
    if saved_constr.func_index_info.isSome || saved_constr.filter_predicate.isSome then
      let func : ErrorCode × SM_CONSTRAINT_INFO × List Call :=
        if saved_constr.func_index_info.isSome then
          match w.call t (.do_recreate_func_index_constr saved_constr) with
          | (NO_ERROR, t) =>
            (NO_ERROR,
              { saved_constr with func_index_info := some (w.func_index_info saved_constr) },
              t)
          | (error, t) => (error, saved_constr, t)
        else (NO_ERROR, saved_constr, t)
      match func with
      | (NO_ERROR, saved_constr, t) =>
        let filter : ErrorCode × SM_CONSTRAINT_INFO × List Call :=
          if saved_constr.filter_predicate.isSome then
            match w.call t (.do_recreate_filter_index_constr saved_constr) with
            | (NO_ERROR, t) =>
              (NO_ERROR,
                { saved_constr with
                  filter_predicate := some (w.filter_predicate saved_constr) },
                t)
            | (error, t) => (error, saved_constr, t)
          else (NO_ERROR, saved_constr, t)
        match filter with
        | (NO_ERROR, saved_constr, t) =>
          if !is_srv_update_needed then
            match alter.attr_old_name with
            | none => none
            | some att_old_name =>
              match w.call t (.sm_drop_constraint saved_constr.constraint_type
                  saved_constr.name [att_old_name]) with
              | (NO_ERROR, t) =>
                match w.call t (.sm_add_constraint saved_constr.constraint_type
                    saved_constr.name saved_constr.att_names saved_constr.asc_desc
                    saved_constr.prefix_length saved_constr.filter_predicate
                    saved_constr.func_index_info) with
                | (NO_ERROR, t) =>
                  match recreate_index_expressions w alter is_srv_update_needed next t with
                  | some (error, next, t) => some (error, saved_constr :: next, t)
                  | none => none
                | (error, t) => some (error, saved_constr :: next, t)
              | (error, t) => some (error, saved_constr :: next, t)
          else
            match recreate_index_expressions w alter is_srv_update_needed next t with
            | some (error, next, t) => some (error, saved_constr :: next, t)
            | none => none
        | (error, saved_constr, t) => some (error, saved_constr :: next, t)
      | (error, saved_constr, t) => some (error, saved_constr :: next, t)
    else
      match recreate_index_expressions w alter is_srv_update_needed next t with
      | some (error, next, t) => some (error, saved_constr :: next, t)
      | none => none

/-- The loop of `do_alter_clause_change_attribute` that upgrades the rows of
the partitions (lines 11968-11978): partition `i` and the ones after it, `n`
in all. -/
def upgrade_partitions (w : World) (att_id : Int) :
    Nat → Nat → List Call → ErrorCode × List Call
  | _, 0, t => (NO_ERROR, t)
  | i, n + 1, t =>
    match w.call t (.do_run_upgrade_instances_domain (some i) att_id) with
    | (NO_ERROR, t) => upgrade_partitions w att_id (i + 1) n t
    | (error, t) => (error, t)

/-- The part of `do_alter_clause_change_attribute` that drops the saved
constraints, updates the rows, sorts the saved list and creates the
constraints again (lines 11950-12006). The result is the returned code, the
saved list and the calls made. -/
def drop_update_recreate (w : World) (is_srv_update_needed has_partitions : Bool)
    (att_id : Int) (constr_info : List SM_CONSTRAINT_INFO) (t : List Call) :
    ErrorCode × List SM_CONSTRAINT_INFO × List Call :=
  match do_drop_att_constraints w constr_info t with
  | (NO_ERROR, t) =>
    -- perform UPDATE or each row
    let update : ErrorCode × List Call :=
      if is_srv_update_needed then
        if has_partitions then upgrade_partitions w att_id 0 w.user_count t
        else w.call t (.do_run_upgrade_instances_domain none att_id)
      else (NO_ERROR, t)
    match update with
    | (NO_ERROR, t) =>
      match sort_constr_info_list constr_info with
      | (NO_ERROR, constr_info) =>
        match do_recreate_att_constraints w constr_info t with
        | (error, t) => (error, constr_info, t)
      | (error, constr_info) => (error, constr_info, t)
    | (error, t) => (error, constr_info, t)
  | (error, t) => (error, constr_info, t)

/-- The loop of `do_alter_clause_change_attribute` that adds the new
constraints (lines 12024-12091) over the sorted list. For a NOT NULL
constraint under the permissive configuration the NULL values are first
replaced by the hard default of the type. -/
def add_new_constraints (env : Env) (w : World) (alter : PT_ALTER) :
    List SM_CONSTRAINT_INFO → List Call → ErrorCode × List Call
  | [], t => (NO_ERROR, t)
  | ci :: next, t =>
    if ci.constraint_type = DB_CONSTRAINT_NOT_NULL then
      let att_name := ci.att_names.head?
      let update : ErrorCode × List Call :=
        if env.PRM_ALTER_TABLE_CHANGE_TYPE_STRICT = false then
          let hard_default := get_hard_default_for_type alter.attr_def_list.type_enum
          match w.call t .db_get_class_name with
          | (NO_ERROR, t) =>
            w.call t (.do_run_update_query_for_class w.class_name att_name hard_default)
          | (_, t) => (ER_UNEXPECTED, t)
        else (NO_ERROR, t)
      match update with
      | (NO_ERROR, t) =>
        match w.call t (.db_constrain_non_null att_name) with
        | (NO_ERROR, t) => add_new_constraints env w alter next t
        | (error, t) => (error, t)
      | (error, t) => (error, t)
    else
      match w.call t (.db_add_constraint ci.constraint_type ci.att_names) with
      | (NO_ERROR, t) => add_new_constraints env w alter next t
      | (error, t) => (error, t)

/-- The part of `do_alter_clause_change_attribute` that creates the new
constraints (lines 12008-12092): the list is sorted, then the constraints are
added in the order of the sorted list. The result is the returned code, the
list and the calls made. -/
def create_new_constraints (env : Env) (w : World) (alter : PT_ALTER)
    (new_constr_info : List SM_CONSTRAINT_INFO) (t : List Call) :
    ErrorCode × List SM_CONSTRAINT_INFO × List Call :=
  match new_constr_info with
  | [] => (NO_ERROR, new_constr_info, t)
  | _ :: _ =>
    match sort_constr_info_list new_constr_info with
    | (NO_ERROR, new_constr_info) =>
      -- add new constraints
      match add_new_constraints env w alter new_constr_info t with
      | (error, t) => (error, new_constr_info, t)
    | (error, new_constr_info) => (error, new_constr_info, t)

/-- The part of `do_alter_clause_change_attribute` that follows the schema
change and the foreign key check (lines 11826-12092): the template is
finished, the saved constraints are handled and the new ones created. `t`
holds the calls made so far. The result is the state at the label `exit`, or
`none` when the loop over the index expressions dereferences NULL. -/
def do_alter_clause_change_attribute_constraints (env : Env) (w : World) (alter : PT_ALTER)
    (attr_chg_prop : SM_ATTR_PROP_CHG) (change_mode : SM_ATTR_CHG_SOL)
    (has_partitions : Bool) (t : List Call) : Option ALTER_STATE :=
  let is_srv_update_needed : Bool :=
    (decide (change_mode = SM_ATTR_CHG_WITH_ROW_UPDATE)
        || decide (change_mode = SM_ATTR_CHG_BEST_EFFORT))
      && decide (attr_chg_prop.name_space = ID_ATTRIBUTE)
  let att_id := attr_chg_prop.att_id
  -- force schema update to server
  match w.call t .dbt_finish_class with
  | (NO_ERROR, t) =>
    -- ctemplate = NULL
    let partitions : Except ALTER_STATE (List Call) :=
      if has_partitions then
        match w.call t .dbt_edit_class with
        | (NO_ERROR, t) =>
          match w.call t .dbt_finish_class with
          | (NO_ERROR, t) => .ok t
          | (_, t) =>
            match w.call t .er_errid with
            | (error, t) => .error ⟨error, true, true, attr_chg_prop, t⟩
        | (_, t) =>
          match w.call t .er_errid with
          | (error, t) => .error ⟨error, false, true, attr_chg_prop, t⟩
      else .ok t
    match partitions with
    | .error state => some state
    | .ok t =>
      match recreate_index_expressions w alter is_srv_update_needed
          attr_chg_prop.constr_info t with
      | none => none
      | some (NO_ERROR, constr_info, t) =>
        let attr_chg_prop := { attr_chg_prop with constr_info := constr_info }
        let recreated : ErrorCode × List SM_CONSTRAINT_INFO × List Call :=
          if is_srv_update_needed
              || is_att_prop_set (attr_chg_prop.p P_TYPE) ATT_CHG_TYPE_PREC_INCR then
            drop_update_recreate w is_srv_update_needed has_partitions att_id
              attr_chg_prop.constr_info t
          else (NO_ERROR, attr_chg_prop.constr_info, t)
        match recreated with
        | (NO_ERROR, constr_info, t) =>
          let attr_chg_prop := { attr_chg_prop with constr_info := constr_info }
          -- create any new constraints
          match create_new_constraints env w alter attr_chg_prop.new_constr_info t with
          | (error, new_constr_info, t) =>
            some ⟨error, false, true,
              { attr_chg_prop with new_constr_info := new_constr_info }, t⟩
        | (error, constr_info, t) =>
          some ⟨error, false, true, { attr_chg_prop with constr_info := constr_info }, t⟩
      | some (error, constr_info, t) =>
        some ⟨error, false, true, { attr_chg_prop with constr_info := constr_info }, t⟩
  | (_, t) =>
    match w.call t .er_errid with
    | (error, t) => some ⟨error, true, true, attr_chg_prop, t⟩

/-- The second part of `do_alter_clause_change_attribute`
(lines 11792-12092), from the savepoint to the label `exit`; the result is the
state at that label, or `none` when the label is not reached. -/
def do_alter_clause_change_attribute_apply (env : Env) (w : World) (alter : PT_ALTER)
    (attr_chg_prop : SM_ATTR_PROP_CHG) (change_mode : SM_ATTR_CHG_SOL)
    (has_partitions : Bool) (t : List Call) : Option ALTER_STATE :=
  match w.call t .tran_savepoint with
  | (NO_ERROR, t) =>
    -- tran_saved = true
    match w.call t (.db_set_suppress_repl_on_transaction true) with
    | (_, t) =>
      match w.call t (.do_change_att_schema_only change_mode) with
      | (NO_ERROR, t) =>
        -- save attribute id
        let attr_chg_prop := { attr_chg_prop with att_id := w.att_id }
        -- check foreign key contraints
        match w.call t .do_check_fk_constraints with
        | (NO_ERROR, t) =>
          do_alter_clause_change_attribute_constraints env w alter attr_chg_prop change_mode
            has_partitions t
        | (error, t) => some ⟨error, true, true, attr_chg_prop, t⟩
      | (error, t) => some ⟨error, true, true, attr_chg_prop, t⟩
  | (error, t) => some ⟨error, true, false, attr_chg_prop, t⟩

/-- The label `exit` of `do_alter_clause_change_attribute`
(lines 12094-12126): an open template is aborted, the savepoint is rolled back
after an error other than a unilateral abort, the two lists are released and
the writing to the replication log is restored. -/
def do_alter_clause_change_attribute_exit (state : ALTER_STATE) : ALTER_RESULT :=
  let t := state.trace
  let t := if state.ctemplate_not_null then t ++ [Call.dbt_abort_class] else t
  let t :=
    if state.error ≠ NO_ERROR ∧ state.tran_saved = true
        ∧ state.error ≠ ER_LK_UNILATERALLY_ABORTED then
      t ++ [Call.tran_abort_upto_savepoint]
    else t
  let t :=
    if state.attr_chg_prop.constr_info ≠ [] then t ++ [Call.sm_free_constraint_info false]
    else t
  let t :=
    if state.attr_chg_prop.new_constr_info ≠ [] then
      t ++ [Call.sm_free_constraint_info true]
    else t
  -- restore writing to replication logs
  let t := t ++ [Call.db_set_suppress_repl_on_transaction false]
  ⟨state.error, state.tran_saved, t⟩

/-- Executes an ALTER CHANGE or ALTER MODIFY clause:
`do_alter_clause_change_attribute` (lines 11663-12126). The result is `none`
when the function does not return: the loop over the index expressions of the
saved constraints dereferences the NULL `attr_old_name` of a MODIFY clause
(lines 11914-11918). -/
def do_alter_clause_change_attribute (env : Env) (w : World) (alter : PT_ALTER) :
    Option ALTER_RESULT :=
  match do_alter_clause_change_attribute_plan env w alter with
  | .error state => some (do_alter_clause_change_attribute_exit state)
  | .ok (attr_chg_prop, change_mode, has_partitions, t) =>
    (do_alter_clause_change_attribute_apply env w alter attr_chg_prop change_mode
      has_partitions t).map do_alter_clause_change_attribute_exit

/-! ## Sample data

Concrete collaborators, templates and requests on which the statements below
are evaluated. -/

/-- Sample conversion of a parse-tree type to its domain type. -/
def sample_pt_type_enum_to_db : PT_TYPE_ENUM → DB_TYPE
  | PT_TYPE_INTEGER => DB_TYPE_INTEGER
  | PT_TYPE_FLOAT => DB_TYPE_FLOAT
  | PT_TYPE_DOUBLE => DB_TYPE_DOUBLE
  | PT_TYPE_SMALLINT => DB_TYPE_SHORT
  | PT_TYPE_DATE => DB_TYPE_DATE
  | PT_TYPE_TIME => DB_TYPE_TIME
  | PT_TYPE_TIMESTAMP => DB_TYPE_TIMESTAMP
  | PT_TYPE_DATETIME => DB_TYPE_DATETIME
  | PT_TYPE_MONETARY => DB_TYPE_MONETARY
  | PT_TYPE_NUMERIC => DB_TYPE_NUMERIC
  | PT_TYPE_CHAR => DB_TYPE_CHAR
  | PT_TYPE_VARCHAR => DB_TYPE_VARCHAR
  | PT_TYPE_NCHAR => DB_TYPE_NCHAR
  | PT_TYPE_VARNCHAR => DB_TYPE_VARNCHAR
  | PT_TYPE_BIT => DB_TYPE_BIT
  | PT_TYPE_VARBIT => DB_TYPE_VARBIT
  | PT_TYPE_OBJECT => DB_TYPE_OBJECT
  | PT_TYPE_SET => DB_TYPE_SET
  | PT_TYPE_MULTISET => DB_TYPE_MULTISET
  | PT_TYPE_SEQUENCE => DB_TYPE_SEQUENCE
  | PT_TYPE_BIGINT => DB_TYPE_BIGINT
  | PT_TYPE_BLOB => DB_TYPE_BLOB
  | PT_TYPE_CLOB => DB_TYPE_CLOB
  | _ => DB_TYPE_NULL

/-- Sample index-type test: numbers, strings, bit strings, dates and objects
can be indexed; collections and large objects cannot. -/
def sample_tp_valid_indextype : DB_TYPE → Bool
  | DB_TYPE_INTEGER | DB_TYPE_FLOAT | DB_TYPE_DOUBLE | DB_TYPE_VARCHAR | DB_TYPE_OBJECT
  | DB_TYPE_TIME | DB_TYPE_TIMESTAMP | DB_TYPE_DATETIME | DB_TYPE_DATE | DB_TYPE_MONETARY
  | DB_TYPE_SHORT | DB_TYPE_BIGINT | DB_TYPE_NUMERIC | DB_TYPE_BIT | DB_TYPE_VARBIT
  | DB_TYPE_CHAR | DB_TYPE_NCHAR | DB_TYPE_VARNCHAR => true
  | _ => false

/-- A sample environment: the widths and limits of a production build,
identifiers compared literally, domains matched structurally (a string match
also accepts a variable-length domain of greater precision), collections
compatible when equal, and class `n` a subclass of every class with a smaller
handle. The argument is the strict-mode setting. -/
def sample_env (strict : Bool) : Env :=
  { PRM_ALTER_TABLE_CHANGE_TYPE_STRICT := strict
    TP_SMALLINT_PRECISION := 5
    TP_INTEGER_PRECISION := 10
    TP_BIGINT_PRECISION := 19
    TP_TIME_AS_CHAR_LENGTH := 11
    TP_DATE_AS_CHAR_LENGTH := 10
    TP_DATETIME_AS_CHAR_LENGTH := 26
    TP_TIMESTAMP_AS_CHAR_LENGTH := 22
    DB_MAX_VARCHAR_PRECISION := 1073741823
    DB_MAX_VARNCHAR_PRECISION := 536870911
    TP_FLOATING_PRECISION_VALUE := -1
    intl_identifier_casecmp := fun x y => if x = y then 0 else 1
    tp_domain_match := fun d1 d2 m =>
      match m with
      | TP_EXACT_MATCH => decide (d1 = d2)
      | TP_STR_MATCH =>
        decide (d1 = d2) ||
          (decide (d1.type = d2.type) && !QSTR_IS_FIXED_LENGTH d1.type
            && decide (d1.precision ≥ d2.precision))
    tp_domain_compatible := fun d1 d2 => decide (d1 = d2)
    db_is_subclass := fun sub super =>
      match sub, super with
      | some m, some n => if n < m then 1 else 0
      | _, _ => 0
    pt_type_enum_to_db := sample_pt_type_enum_to_db
    tp_valid_indextype := sample_tp_valid_indextype }

/-- A ledger with the given entries, name space and subclass flag, and no
saved constraints. -/
def sample_ledger (p : Fin NUM_ATT_CHG_PROP → Nat) (name_space : SM_NAME_SPACE)
    (class_has_subclass : Bool) : SM_ATTR_PROP_CHG :=
  { p := p
    constr_info := []
    new_constr_info := []
    att_id := 0
    name_space := name_space
    class_has_subclass := class_has_subclass }

/-- A ledger as the caller hands it to `check_change_attribute`: freshly
reset (line 11689). -/
def fresh_ledger : SM_ATTR_PROP_CHG :=
  reset_att_property_structure (sample_ledger (fun _ => 0) ID_NULL false)

/-- A plain attribute of the given domain without default value, flags or
constraints. -/
def sample_attribute (domain : TP_DOMAIN) : SM_ATTRIBUTE :=
  { name_space := ID_ATTRIBUTE
    domain := domain
    SM_ATTFLAG_AUTO_INCREMENT := false
    SM_ATTFLAG_FOREIGN_KEY := false
    SM_ATTFLAG_INDEX := false
    SM_ATTFLAG_NON_NULL := false
    original_value_is_null := true
    value_is_null := true
    default_expr_is_none := true }

/-- A template of a class without subclasses or partitions that holds the one
attribute `att` under the name `name` and has the given constraints. -/
def sample_template (name : String) (att : SM_ATTRIBUTE)
    (constraints : List SM_CLASS_CONSTRAINT) : DB_CTMPL :=
  { current := some { users_not_null := false, constraints := constraints }
    partition_of := false
    smt_find_attribute := fun n _ => if n = name then .ok att else .error ER_FAILED
    do_get_partition_keycol := .error ER_FAILED }

/-- A template like `sample_template` of a class that has subclasses: its
`users` list is not empty and it is not a partition. -/
def sample_template_with_subclasses (name : String) (att : SM_ATTRIBUTE)
    (constraints : List SM_CLASS_CONSTRAINT) : DB_CTMPL :=
  { current := some { users_not_null := true, constraints := constraints }
    partition_of := false
    smt_find_attribute := fun n _ => if n = name then .ok att else .error ER_FAILED
    do_get_partition_keycol := .error ER_FAILED }

/-- A definition `name type` of a plain attribute with the given domain and no
DEFAULT, ordering or AUTO_INCREMENT clause. -/
def sample_definition (name : String) (type_enum : PT_TYPE_ENUM) (domain : TP_DOMAIN) :
    PT_ATTR_DEF :=
  { attr_name := name
    attr_type := PT_NORMAL
    type_enum := type_enum
    data_default := none
    ordering_info := false
    auto_increment := false
    pt_node_to_db_domain := some domain
    er_errid := ER_FAILED }

/-- A plain attribute of the given domain that has a default value (its
current and original default values are not NULL). -/
def sample_attribute_with_default (domain : TP_DOMAIN) : SM_ATTRIBUTE :=
  { sample_attribute domain with
    original_value_is_null := false
    value_is_null := false }

/-- A plain attribute of the given domain that is NOT NULL. -/
def sample_attribute_not_null (domain : TP_DOMAIN) : SM_ATTRIBUTE :=
  { sample_attribute domain with SM_ATTFLAG_NON_NULL := true }

/-- A DEFAULT clause with a constant value that is checked, coerced to the
type of the attribute and evaluated without error. -/
def sample_default : PT_DATA_DEFAULT :=
  { default_expr_is_none := true
    semantic_check_failed := false
    pt_coerce_value := NO_ERROR
    semantic_type_failed := false
    coerce_compatible := true
    evaluated_is_null := false
    evaluate_failed := false
    er_errid := ER_FAILED }

/-- A definition `name type DEFAULT value` of a plain attribute. -/
def sample_definition_with_default (name : String) (type_enum : PT_TYPE_ENUM)
    (domain : TP_DOMAIN) : PT_ATTR_DEF :=
  { sample_definition name type_enum domain with data_default := some sample_default }

/-- A constraint of the class of the given kind on the given attributes,
without foreign-key information. -/
def sample_constraint (type : SM_CONSTRAINT_TYPE) (attributes : List String) :
    SM_CLASS_CONSTRAINT :=
  { name := none
    type := type
    attributes := attributes.map some
    has_fk_info := false
    asc_desc := none
    prefix_length := none
    filter_predicate := none
    func_index_info := none }

/-- The domain of a type without precision, scale or class. -/
def simple_domain (type : DB_TYPE) : TP_DOMAIN :=
  { type := type, precision := 0, scale := 0, class_mop := none }

/-- A sample world: `SM_IS_CONSTRAINT_UNIQUE_FAMILY` holds for UNIQUE, REVERSE
UNIQUE and PRIMARY KEY, the class `t` has no partitions, and the template and
the outcomes of the calls are the given ones. -/
def sample_world (ctemplate : DB_CTMPL) (outcome : List Call → ErrorCode) : World :=
  { outcome := outcome
    SM_IS_CONSTRAINT_UNIQUE_FAMILY := fun c =>
      decide (c = DB_CONSTRAINT_UNIQUE ∨ c = DB_CONSTRAINT_REVERSE_UNIQUE
        ∨ c = DB_CONSTRAINT_PRIMARY_KEY)
    ctemplate := ctemplate
    user_count := 0
    att_id := 1
    class_name := "t"
    func_index_info := fun c => c.func_index_info.getD ""
    filter_predicate := fun c => c.filter_predicate.getD "" }

/-- A saved constraint of the given type and name on the given attributes,
with no ordering, prefix lengths, predicate or expression. -/
def sample_constraint_info (constraint_type : Int) (name : Option String)
    (att_names : List String) : SM_CONSTRAINT_INFO :=
  { name := name
    att_names := att_names
    asc_desc := none
    prefix_length := none
    filter_predicate := none
    func_index_info := none
    constraint_type := constraint_type }

/-! ## Lemmas -/

/-! ### Flag words -/

/-- Clearing flags with `and_not` is the bitwise difference `p & ~f`. -/
theorem and_not_eq_ldiff (p f : Nat) : and_not p f = Nat.ldiff p f := by
  unfold and_not
  apply Nat.eq_of_testBit_eq
  intro i
  rw [Nat.testBit_xor, Nat.testBit_and, Nat.testBit_ldiff]
  cases p.testBit i <;> cases f.testBit i <;> rfl

/-- A word that carries a flag is at least as large as the flag. -/
theorem le_of_is_att_prop_set (p f : Nat) (h : is_att_prop_set p f = true) : f ≤ p := by
  unfold is_att_prop_set at h
  have h2 : p &&& f = f := by simpa using h
  rw [← h2]
  exact Nat.and_le_left

/-! ### The admissibility checker -/

theorem Check.seq_ok_iff (x y : Check) : (do x; y) = .ok () ↔ x = .ok () ∧ y = .ok () := by
  cases x with
  | ok u => exact ⟨fun h => ⟨rfl, h⟩, fun h => h.2⟩
  | error e => exact ⟨fun h => (by cases h), fun h => (by cases h.1)⟩

theorem Check.seq_error_iff (x y : Check) (e : ErrorCode × Bool) :
    (do x; y) = .error e ↔ x = .error e ∨ (x = .ok () ∧ y = .error e) := by
  cases x with
  | ok u => exact ⟨fun h => Or.inr ⟨rfl, h⟩, fun h => h.elim (fun h => by cases h) (fun h => h.2)⟩
  | error e2 =>
    exact ⟨fun h => Or.inl h, fun h => h.elim (fun h => h) (fun h => by cases h.1)⟩

theorem check_partitions_ok_iff (a : SM_ATTR_PROP_CHG) :
    check_partitions a = .ok () ↔ a.p P_IS_PARTITION_COL = ATT_CHG_PROPERTY_UNCHANGED := by
  unfold check_partitions
  simp only [throw, throwThe, MonadExceptOf.throw, pure, Except.pure]
  by_cases h : a.p P_IS_PARTITION_COL = ATT_CHG_PROPERTY_UNCHANGED <;> simp [h]

theorem check_partitions_error_iff (a : SM_ATTR_PROP_CHG) (e : ErrorCode × Bool) :
    check_partitions a = .error e ↔
      a.p P_IS_PARTITION_COL ≠ ATT_CHG_PROPERTY_UNCHANGED ∧
      e = (ER_ALTER_CHANGE_PARTITIONS, false) := by
  unfold check_partitions
  simp only [throw, throwThe, MonadExceptOf.throw, pure, Except.pure]
  by_cases h : a.p P_IS_PARTITION_COL = ATT_CHG_PROPERTY_UNCHANGED <;> simp [h, eq_comm]

theorem check_foreign_key_ok_iff (a : SM_ATTR_PROP_CHG) :
    check_foreign_key a = .ok () ↔ a.p P_CONSTR_FK = ATT_CHG_PROPERTY_UNCHANGED := by
  unfold check_foreign_key
  simp only [throw, throwThe, MonadExceptOf.throw, pure, Except.pure]
  by_cases h : a.p P_CONSTR_FK = ATT_CHG_PROPERTY_UNCHANGED <;> simp [h]

theorem check_foreign_key_error_iff (a : SM_ATTR_PROP_CHG) (e : ErrorCode × Bool) :
    check_foreign_key a = .error e ↔
      a.p P_CONSTR_FK ≠ ATT_CHG_PROPERTY_UNCHANGED ∧ e = (ER_ALTER_CHANGE_FK, false) := by
  unfold check_foreign_key
  simp only [throw, throwThe, MonadExceptOf.throw, pure, Except.pure]
  by_cases h : a.p P_CONSTR_FK = ATT_CHG_PROPERTY_UNCHANGED <;> simp [h, eq_comm]

/-- The verdict of the NOT NULL block as a function of its tests. -/
theorem check_not_null_eq (strict : Bool) (t : PT_TYPE_ENUM) (a : SM_ATTR_PROP_CHG) :
    check_not_null strict t a =
      if is_att_prop_set (a.p P_NOT_NULL) ATT_CHG_PROPERTY_GAINED = true then
        if t = PT_TYPE_BLOB ∨ t = PT_TYPE_CLOB then .error (ER_SM_NOT_NULL_NOT_ALLOWED, false)
        else if a.name_space = ID_CLASS_ATTRIBUTE then .error (ER_SM_INVALID_CONSTRAINT, false)
        else if strict = false ∧ get_hard_default_for_type t = none then
          .error (ER_ALTER_CHANGE_HARD_DEFAULT_NOT_EXIST, false)
        else .ok ()
      else .ok () := by
  unfold check_not_null
  simp only [throw, throwThe, MonadExceptOf.throw, pure, Except.pure, bind, Except.bind]
  cases is_att_prop_set (a.p P_NOT_NULL) ATT_CHG_PROPERTY_GAINED <;> cases strict <;>
    by_cases h1 : t = PT_TYPE_BLOB ∨ t = PT_TYPE_CLOB <;>
    by_cases h3 : a.name_space = ID_CLASS_ATTRIBUTE <;>
    by_cases h4 : get_hard_default_for_type t = none <;> simp [h1, h3, h4]

/-- The verdict of the AUTO_INCREMENT block as a function of its tests. -/
theorem check_auto_incr_eq (a : SM_ATTR_PROP_CHG) (chg_how : SM_ATTR_CHG_SOL) :
    check_auto_incr a chg_how =
      if is_att_prop_set (a.p P_AUTO_INCR) ATT_CHG_PROPERTY_GAINED = true then
        if a.name_space = ID_CLASS_ATTRIBUTE ∨ a.name_space = ID_SHARED_ATTRIBUTE then
          .error (ER_SM_INVALID_CONSTRAINT, false)
        else if is_att_prop_set (a.p P_TYPE) ATT_CHG_PROPERTY_DIFF = true
            ∧ chg_how = SM_ATTR_CHG_ONLY_SCHEMA then
          .error (ER_ALTER_CHANGE_TYPE_WITH_AUTO_INCR, true)
        else .ok ()
      else .ok () := by
  unfold check_auto_incr
  simp only [throw, throwThe, MonadExceptOf.throw, pure, Except.pure, bind, Except.bind]
  cases is_att_prop_set (a.p P_AUTO_INCR) ATT_CHG_PROPERTY_GAINED <;>
    cases is_att_prop_set (a.p P_TYPE) ATT_CHG_PROPERTY_DIFF <;>
    by_cases h1 : a.name_space = ID_CLASS_ATTRIBUTE ∨ a.name_space = ID_SHARED_ATTRIBUTE <;>
    by_cases h2 : chg_how = SM_ATTR_CHG_ONLY_SCHEMA <;> simp [h1, h2]

/-- The verdict of the multiple-primary-key block. -/
theorem check_multiple_pk_eq (a : SM_ATTR_PROP_CHG) :
    check_multiple_pk a =
      if ((is_att_prop_set (a.p P_S_CONSTR_PK) ATT_CHG_PROPERTY_PRESENT_OLD
            || is_att_prop_set (a.p P_S_CONSTR_PK) ATT_CHG_PROPERTY_PRESENT_NEW)
          && (is_att_prop_set (a.p P_M_CONSTR_PK) ATT_CHG_PROPERTY_PRESENT_OLD
            || is_att_prop_set (a.p P_M_CONSTR_PK) ATT_CHG_PROPERTY_PRESENT_NEW)) = true then
        .error (ER_ALTER_CHANGE_MULTIPLE_PK, false)
      else .ok () := by
  unfold check_multiple_pk
  simp only [throw, throwThe, MonadExceptOf.throw, pure, Except.pure]

/-- The verdict of the subclass block. -/
theorem check_subclasses_eq (a : SM_ATTR_PROP_CHG) :
    check_subclasses a =
      if (a.class_has_subclass
        && !(is_att_prop_set (a.p P_NAME) ATT_CHG_PROPERTY_UNCHANGED
          && is_att_prop_set (a.p P_ORDER) ATT_CHG_PROPERTY_UNCHANGED
          && is_att_prop_set (a.p P_TYPE) ATT_CHG_PROPERTY_UNCHANGED
          && is_att_prop_set (a.p P_NOT_NULL) ATT_CHG_PROPERTY_UNCHANGED
          && is_att_prop_set (a.p P_CONSTR_CHECK) ATT_CHG_PROPERTY_UNCHANGED
          && is_att_prop_set (a.p P_DEFFERABLE) ATT_CHG_PROPERTY_UNCHANGED
          && is_att_prop_set (a.p P_AUTO_INCR) ATT_CHG_PROPERTY_UNCHANGED
          && is_att_prop_set (a.p P_S_CONSTR_PK) ATT_CHG_PROPERTY_UNCHANGED
          && is_att_prop_set (a.p P_S_CONSTR_UNI) ATT_CHG_PROPERTY_UNCHANGED)) = true then
        .error (ER_ALTER_CHANGE_CLASS_HIERARCHY, false)
      else .ok () := by
  unfold check_subclasses
  simp only [throw, throwThe, MonadExceptOf.throw, pure, Except.pure]

/-- The verdict of the schema-only constraint block as one chain of tests. -/
theorem check_schema_only_constraints_eq (a : SM_ATTR_PROP_CHG) (chg_how : SM_ATTR_CHG_SOL) :
    check_schema_only_constraints a chg_how =
      if chg_how = SM_ATTR_CHG_ONLY_SCHEMA then
        if (a.name_space = ID_CLASS_ATTRIBUTE ∨ a.name_space = ID_SHARED_ATTRIBUTE)
            ∧ (is_att_prop_set (a.p P_S_CONSTR_UNI) ATT_CHG_PROPERTY_PRESENT_NEW
              || is_att_prop_set (a.p P_S_CONSTR_PK) ATT_CHG_PROPERTY_PRESENT_NEW) = true then
          .error (ER_SM_INVALID_CONSTRAINT, false)
        else if (is_att_prop_set (a.p P_S_CONSTR_UNI)
              (ATT_CHG_PROPERTY_PRESENT_OLD ||| ATT_CHG_PROPERTY_PRESENT_NEW)
            && is_att_prop_set (a.p P_TYPE) ATT_CHG_PROPERTY_DIFF) = true then
          .error (ER_ALTER_CHANGE_TYPE_WITH_INDEX, true)
        else if (is_att_prop_set (a.p P_M_CONSTR_UNI) ATT_CHG_PROPERTY_PRESENT_OLD
            && is_att_prop_set (a.p P_TYPE) ATT_CHG_PROPERTY_DIFF) = true then
          .error (ER_ALTER_CHANGE_TYPE_WITH_INDEX, true)
        else if (is_att_prop_set (a.p P_S_CONSTR_PK)
              (ATT_CHG_PROPERTY_PRESENT_OLD ||| ATT_CHG_PROPERTY_PRESENT_NEW)
            && is_att_prop_set (a.p P_TYPE) ATT_CHG_PROPERTY_DIFF) = true then
          .error (ER_ALTER_CHANGE_TYPE_WITH_INDEX, true)
        else if (is_att_prop_set (a.p P_CONSTR_NON_UNI) ATT_CHG_PROPERTY_PRESENT_OLD
            && is_att_prop_set (a.p P_TYPE) ATT_CHG_PROPERTY_DIFF) = true then
          .error (ER_ALTER_CHANGE_TYPE_WITH_INDEX, true)
        else .ok ()
      else .ok () := by
  unfold check_schema_only_constraints
  simp only [throw, throwThe, MonadExceptOf.throw, pure, Except.pure, bind, Except.bind]
  by_cases h0 : chg_how = SM_ATTR_CHG_ONLY_SCHEMA
  · by_cases h1 : a.name_space = ID_CLASS_ATTRIBUTE ∨ a.name_space = ID_SHARED_ATTRIBUTE <;>
    cases is_att_prop_set (a.p P_S_CONSTR_UNI) ATT_CHG_PROPERTY_PRESENT_NEW <;>
    cases is_att_prop_set (a.p P_S_CONSTR_PK) ATT_CHG_PROPERTY_PRESENT_NEW <;>
    cases is_att_prop_set (a.p P_S_CONSTR_UNI)
      (ATT_CHG_PROPERTY_PRESENT_OLD ||| ATT_CHG_PROPERTY_PRESENT_NEW) <;>
    cases is_att_prop_set (a.p P_TYPE) ATT_CHG_PROPERTY_DIFF <;>
    cases is_att_prop_set (a.p P_M_CONSTR_UNI) ATT_CHG_PROPERTY_PRESENT_OLD <;>
    cases is_att_prop_set (a.p P_S_CONSTR_PK)
      (ATT_CHG_PROPERTY_PRESENT_OLD ||| ATT_CHG_PROPERTY_PRESENT_NEW) <;>
    cases is_att_prop_set (a.p P_CONSTR_NON_UNI) ATT_CHG_PROPERTY_PRESENT_OLD <;>
    simp [h0, h1]
  · simp [h0]

/-- A denial of the type block carries one of three codes. -/
theorem check_type_change_error (a : SM_ATTR_PROP_CHG) (chg_how : SM_ATTR_CHG_SOL)
    (e : ErrorCode) (na : Bool) (h : check_type_change a chg_how = .error (e, na)) :
    e = ER_ALTER_CHANGE_TYPE_NOT_SUPP ∨ e = ER_ALTER_CHANGE_TYPE_UPGRADE_CFG
      ∨ e = ER_ALTER_CHANGE_TYPE_NEED_ROW_CHECK := by
  unfold check_type_change at h
  simp only [throw, throwThe, MonadExceptOf.throw, pure, Except.pure] at h
  repeat' split at h
  all_goals first
    | (cases h; simp)
    | cases h

/-- The checks as the sequence of their blocks. -/
theorem check_att_chg_allowed_checks_eq (strict : Bool) (t : PT_TYPE_ENUM)
    (a : SM_ATTR_PROP_CHG) (chg_how : SM_ATTR_CHG_SOL) :
    check_att_chg_allowed_checks strict t a chg_how =
      (do check_partitions a
          (do check_foreign_key a
              (do check_not_null strict t a
                  (do check_auto_incr a chg_how
                      (do check_type_change a chg_how
                          (do check_schema_only_constraints a chg_how
                              (do check_multiple_pk a
                                  check_subclasses a))))))) := rfl

/-- The checks succeed exactly when every block succeeds. -/
theorem check_att_chg_allowed_checks_ok_iff (strict : Bool) (t : PT_TYPE_ENUM)
    (a : SM_ATTR_PROP_CHG) (chg_how : SM_ATTR_CHG_SOL) :
    check_att_chg_allowed_checks strict t a chg_how = .ok () ↔
      check_partitions a = .ok () ∧ check_foreign_key a = .ok () ∧
      check_not_null strict t a = .ok () ∧ check_auto_incr a chg_how = .ok () ∧
      check_type_change a chg_how = .ok () ∧
      check_schema_only_constraints a chg_how = .ok () ∧
      check_multiple_pk a = .ok () ∧ check_subclasses a = .ok () := by
  rw [check_att_chg_allowed_checks_eq]
  simp only [Check.seq_ok_iff]

/-- A denial comes from the first block that denies. -/
theorem check_att_chg_allowed_checks_error_iff (strict : Bool) (t : PT_TYPE_ENUM)
    (a : SM_ATTR_PROP_CHG) (chg_how : SM_ATTR_CHG_SOL) (e : ErrorCode × Bool) :
    check_att_chg_allowed_checks strict t a chg_how = .error e ↔
      check_partitions a = .error e ∨ (check_partitions a = .ok () ∧
      (check_foreign_key a = .error e ∨ (check_foreign_key a = .ok () ∧
      (check_not_null strict t a = .error e ∨ (check_not_null strict t a = .ok () ∧
      (check_auto_incr a chg_how = .error e ∨ (check_auto_incr a chg_how = .ok () ∧
      (check_type_change a chg_how = .error e ∨ (check_type_change a chg_how = .ok () ∧
      (check_schema_only_constraints a chg_how = .error e ∨
        (check_schema_only_constraints a chg_how = .ok () ∧
      (check_multiple_pk a = .error e ∨ (check_multiple_pk a = .ok () ∧
      check_subclasses a = .error e))))))))))))) := by
  rw [check_att_chg_allowed_checks_eq]
  simp only [Check.seq_error_iff]

/-- No denial carries the success code. -/
theorem check_att_chg_allowed_checks_error_ne (strict : Bool) (t : PT_TYPE_ENUM)
    (a : SM_ATTR_PROP_CHG) (chg_how : SM_ATTR_CHG_SOL) (e : ErrorCode) (na : Bool)
    (h : check_att_chg_allowed_checks strict t a chg_how = .error (e, na)) :
    e ≠ NO_ERROR := by
  rw [check_att_chg_allowed_checks_error_iff] at h
  rcases h with h | ⟨-, h | ⟨-, h | ⟨-, h | ⟨-, h | ⟨-, h | ⟨-, h | ⟨-, h⟩⟩⟩⟩⟩⟩⟩
  · rw [check_partitions_error_iff] at h; cases h.2; simp
  · rw [check_foreign_key_error_iff] at h; cases h.2; simp
  · rw [check_not_null_eq] at h
    repeat' split at h
    all_goals first
      | (cases h; simp)
      | cases h
  · rw [check_auto_incr_eq] at h
    repeat' split at h
    all_goals first
      | (cases h; simp)
      | cases h
  · rcases check_type_change_error a chg_how e na h with h | h | h <;> simp [h]
  · rw [check_schema_only_constraints_eq] at h
    repeat' split at h
    all_goals first
      | (cases h; simp)
      | cases h
  · rw [check_multiple_pk_eq] at h
    repeat' split at h
    all_goals first
      | (cases h; simp)
      | cases h
  · rw [check_subclasses_eq] at h
    repeat' split at h
    all_goals first
      | (cases h; simp)
      | cases h

/-- The checker returns `NO_ERROR` exactly when its checks succeed. -/
theorem check_att_chg_allowed_no_error_iff (strict : Bool) (att_name : String)
    (t : PT_TYPE_ENUM) (a : SM_ATTR_PROP_CHG) (chg_how : SM_ATTR_CHG_SOL) (log : Bool) :
    (check_att_chg_allowed strict att_name t a chg_how log).error = NO_ERROR ↔
      check_att_chg_allowed_checks strict t a chg_how = .ok () := by
  unfold check_att_chg_allowed
  cases h : check_att_chg_allowed_checks strict t a chg_how with
  | ok u => simp
  | error e =>
    obtain ⟨e, na⟩ := e
    simp
    exact check_att_chg_allowed_checks_error_ne strict t a chg_how e na h

/-- The code and `new_attempt` returned on a denial are the ones thrown. -/
theorem check_att_chg_allowed_of_error (strict : Bool) (att_name : String)
    (t : PT_TYPE_ENUM) (a : SM_ATTR_PROP_CHG) (chg_how : SM_ATTR_CHG_SOL) (log : Bool)
    (e : ErrorCode) (na : Bool)
    (h : check_att_chg_allowed_checks strict t a chg_how = .error (e, na)) :
    (check_att_chg_allowed strict att_name t a chg_how log).error = e ∧
      (check_att_chg_allowed strict att_name t a chg_how log).new_attempt = na := by
  unfold check_att_chg_allowed
  rw [h]
  exact ⟨rfl, rfl⟩

/-- On success the checker returns `NO_ERROR`, leaves `new_attempt` true and
logs nothing. -/
theorem check_att_chg_allowed_of_ok (strict : Bool) (att_name : String)
    (t : PT_TYPE_ENUM) (a : SM_ATTR_PROP_CHG) (chg_how : SM_ATTR_CHG_SOL) (log : Bool)
    (h : check_att_chg_allowed_checks strict t a chg_how = .ok ()) :
    check_att_chg_allowed strict att_name t a chg_how log = ⟨NO_ERROR, true, none⟩ := by
  unfold check_att_chg_allowed
  rw [h]

/-! ### The planner -/

/-- The checks end with the partition or foreign-key denial whenever one of
the two entries is not exactly UNCHANGED. -/
theorem check_att_chg_allowed_checks_hard_deny (strict : Bool) (t : PT_TYPE_ENUM)
    (a : SM_ATTR_PROP_CHG) (chg_how : SM_ATTR_CHG_SOL)
    (h : a.p P_IS_PARTITION_COL ≠ ATT_CHG_PROPERTY_UNCHANGED
      ∨ a.p P_CONSTR_FK ≠ ATT_CHG_PROPERTY_UNCHANGED) :
    check_att_chg_allowed_checks strict t a chg_how =
      .error (if a.p P_IS_PARTITION_COL ≠ ATT_CHG_PROPERTY_UNCHANGED
        then ER_ALTER_CHANGE_PARTITIONS else ER_ALTER_CHANGE_FK, false) := by
  rw [check_att_chg_allowed_checks_error_iff]
  by_cases hp : a.p P_IS_PARTITION_COL = ATT_CHG_PROPERTY_UNCHANGED
  · have hf : a.p P_CONSTR_FK ≠ ATT_CHG_PROPERTY_UNCHANGED := h.resolve_left (fun x => x hp)
    refine Or.inr ⟨(check_partitions_ok_iff a).2 hp, Or.inl ?_⟩
    rw [check_foreign_key_error_iff]
    simp [hp, hf]
  · refine Or.inl ?_
    rw [check_partitions_error_iff]
    simp [hp]

/-- The escalation stops after its first call when that call denies without
`new_attempt`. -/
theorem check_change_attribute_escalate_stop (env : Env) (attr_name : String)
    (t : PT_TYPE_ENUM) (a : SM_ATTR_PROP_CHG)
    (h : (check_att_chg_allowed env.PRM_ALTER_TABLE_CHANGE_TYPE_STRICT attr_name t a
      SM_ATTR_CHG_ONLY_SCHEMA false).new_attempt = false) :
    check_change_attribute_escalate env attr_name t a =
      ⟨(check_att_chg_allowed env.PRM_ALTER_TABLE_CHANGE_TYPE_STRICT attr_name t a
          SM_ATTR_CHG_ONLY_SCHEMA false).error, SM_ATTR_CHG_ONLY_SCHEMA, a,
        [⟨SM_ATTR_CHG_ONLY_SCHEMA, false,
          check_att_chg_allowed env.PRM_ALTER_TABLE_CHANGE_TYPE_STRICT attr_name t a
            SM_ATTR_CHG_ONLY_SCHEMA false⟩]⟩ := by
  unfold check_change_attribute_escalate
  simp [h]

/-- The returned code and `new_attempt` depend neither on `log_error_allowed`
nor on the attribute name. -/
theorem check_att_chg_allowed_verdict_indep (strict : Bool) (n1 n2 : String)
    (t : PT_TYPE_ENUM) (a : SM_ATTR_PROP_CHG) (m : SM_ATTR_CHG_SOL) (l1 l2 : Bool) :
    (check_att_chg_allowed strict n1 t a m l1).error
        = (check_att_chg_allowed strict n2 t a m l2).error ∧
      (check_att_chg_allowed strict n1 t a m l1).new_attempt
        = (check_att_chg_allowed strict n2 t a m l2).new_attempt := by
  unfold check_att_chg_allowed
  cases check_att_chg_allowed_checks strict t a m with
  | ok u => exact ⟨rfl, rfl⟩
  | error e => exact ⟨rfl, rfl⟩

/-- When the ledger is resolved, a change is needed and the index-type test
passes, `check_change_attribute` is its escalation. -/
theorem check_change_attribute_on_map_eq_escalate (env : Env) (attr_name : String)
    (attribute_node : PT_ATTR_DEF) (a : SM_ATTR_PROP_CHG)
    (hchecked : is_att_property_structure_checked a = true)
    (hneeded : is_att_change_needed a = true)
    (hindex : index_type_check_passes env attribute_node a = true) :
    check_change_attribute_on_map env attr_name attribute_node a =
      check_change_attribute_escalate env attr_name attribute_node.type_enum a := by
  unfold check_change_attribute_on_map
  unfold index_type_check_passes at hindex
  simp only [Bool.or_eq_true, Bool.not_eq_true'] at hindex
  rcases hindex with h | h <;> simp [hchecked, hneeded, h]

/-- The outcome of the escalation as a function of the three verdicts. -/
theorem check_change_attribute_escalate_cases (env : Env) (attr_name : String)
    (t : PT_TYPE_ENUM) (a : SM_ATTR_PROP_CHG) :
    let sol := fun m l =>
      check_att_chg_allowed env.PRM_ALTER_TABLE_CHANGE_TYPE_STRICT attr_name t a m l
    let r := check_change_attribute_escalate env attr_name t a
    (((sol SM_ATTR_CHG_ONLY_SCHEMA false).error = NO_ERROR
        ∨ (sol SM_ATTR_CHG_ONLY_SCHEMA false).new_attempt = false) ∧
      r.error = (sol SM_ATTR_CHG_ONLY_SCHEMA false).error ∧
      r.change_mode = SM_ATTR_CHG_ONLY_SCHEMA) ∨
    (((sol SM_ATTR_CHG_ONLY_SCHEMA false).error ≠ NO_ERROR
        ∧ (sol SM_ATTR_CHG_ONLY_SCHEMA false).new_attempt = true) ∧
      ((sol SM_ATTR_CHG_WITH_ROW_UPDATE false).error = NO_ERROR
        ∨ (sol SM_ATTR_CHG_WITH_ROW_UPDATE false).new_attempt = false) ∧
      r.error = (sol SM_ATTR_CHG_WITH_ROW_UPDATE false).error ∧
      r.change_mode = SM_ATTR_CHG_WITH_ROW_UPDATE) ∨
    (((sol SM_ATTR_CHG_ONLY_SCHEMA false).error ≠ NO_ERROR
        ∧ (sol SM_ATTR_CHG_ONLY_SCHEMA false).new_attempt = true) ∧
      ((sol SM_ATTR_CHG_WITH_ROW_UPDATE false).error ≠ NO_ERROR
        ∧ (sol SM_ATTR_CHG_WITH_ROW_UPDATE false).new_attempt = true) ∧
      r.error = (sol SM_ATTR_CHG_BEST_EFFORT true).error ∧
      r.change_mode = SM_ATTR_CHG_BEST_EFFORT) := by
  intro sol r
  show _ ∨ _ ∨ _
  simp only [r, sol]
  unfold check_change_attribute_escalate
  by_cases h1 : (check_att_chg_allowed env.PRM_ALTER_TABLE_CHANGE_TYPE_STRICT attr_name t a
      SM_ATTR_CHG_ONLY_SCHEMA false).error = NO_ERROR
  · simp [h1]
  · cases h1n : (check_att_chg_allowed env.PRM_ALTER_TABLE_CHANGE_TYPE_STRICT attr_name t a
      SM_ATTR_CHG_ONLY_SCHEMA false).new_attempt
    · simp [h1, h1n]
    · by_cases h2 : (check_att_chg_allowed env.PRM_ALTER_TABLE_CHANGE_TYPE_STRICT attr_name t a
          SM_ATTR_CHG_WITH_ROW_UPDATE false).error = NO_ERROR
      · simp [h1, h1n, h2]
      · cases h2n : (check_att_chg_allowed env.PRM_ALTER_TABLE_CHANGE_TYPE_STRICT attr_name
            t a SM_ATTR_CHG_WITH_ROW_UPDATE false).new_attempt
        · simp [h1, h1n, h2, h2n]
        · simp [h1, h1n, h2, h2n]

/-- A statement about all strategies is one about the four of them. -/
theorem SM_ATTR_CHG_SOL.forall_iff (P : SM_ATTR_CHG_SOL → Prop) :
    (∀ m, P m) ↔ P SM_ATTR_CHG_NOT_NEEDED ∧ P SM_ATTR_CHG_ONLY_SCHEMA
      ∧ P SM_ATTR_CHG_WITH_ROW_UPDATE ∧ P SM_ATTR_CHG_BEST_EFFORT :=
  ⟨fun h => ⟨h _, h _, h _, h _⟩, fun h m => by
    cases m
    · exact h.1
    · exact h.2.1
    · exact h.2.2.1
    · exact h.2.2.2⟩

/-- The ledger needs no change exactly when every entry carries UNCHANGED and
is below DIFF. -/
theorem is_att_change_needed_eq_false_iff (a : SM_ATTR_PROP_CHG) :
    is_att_change_needed a = false ↔
      ∀ i : Fin NUM_ATT_CHG_PROP,
        is_att_prop_set (a.p i) ATT_CHG_PROPERTY_UNCHANGED = true
          ∧ a.p i < ATT_CHG_PROPERTY_DIFF := by
  unfold is_att_change_needed
  rw [List.any_eq_false]
  constructor
  · intro h i
    have := h i (List.mem_finRange i)
    simp only [Bool.or_eq_true, decide_eq_true_eq, Bool.not_eq_true', not_or, not_le,
      Bool.not_eq_false] at this
    exact ⟨this.2, this.1⟩
  · intro h i _
    simp only [Bool.or_eq_true, decide_eq_true_eq, Bool.not_eq_true', not_or, not_le,
      Bool.not_eq_false]
    exact ⟨(h i).2, (h i).1⟩

/-- A ledger that needs no change is resolved. -/
theorem is_att_property_structure_checked_of_not_needed (a : SM_ATTR_PROP_CHG)
    (h : is_att_change_needed a = false) : is_att_property_structure_checked a = true := by
  rw [is_att_change_needed_eq_false_iff] at h
  unfold is_att_property_structure_checked
  rw [Bool.not_eq_true', List.any_eq_false]
  intro i _
  have := (h i).2
  simp only [decide_eq_true_eq, not_le]
  unfold ATT_CHG_PROPERTY_DIFF at this
  unfold ATT_CHG_PROPERTY_NOT_CHECKED
  omega

/-- Once the default value is read without the NOT NULL / DEFAULT NULL
conflict and `build_attr_change_map` succeeds, `check_change_attribute` is
`check_change_attribute_on_map` on the ledger built. -/
theorem check_change_attribute_eq_on_map (env : Env) (ctemplate : DB_CTMPL)
    (attribute_node : PT_ATTR_DEF) (old_name_node : Option String)
    (constraints : List PT_CONSTRAINT) (a0 L : SM_ATTR_PROP_CHG) (ptr_def : Option Bool)
    (hdef : get_att_default_from_def attribute_node = (NO_ERROR, ptr_def))
    (hnn : ¬(ptr_def = some true
        ∧ (attribute_node.data_default.map fun d => d.default_expr_is_none) = some true
        ∧ (constraints.any fun cnstr => cnstr.type = PT_CONSTRAIN_NOT_NULL) = true))
    (hbuild : build_attr_change_map env ctemplate attribute_node old_name_node constraints
        (check_change_attribute_init ctemplate attribute_node a0) = (NO_ERROR, L)) :
    check_change_attribute env ctemplate attribute_node old_name_node constraints a0 =
      check_change_attribute_on_map env (old_name_node.getD attribute_node.attr_name)
        attribute_node L := by
  unfold check_change_attribute
  simp only [hdef]
  rw [if_neg hnn]
  simp only [hbuild]

/-- The escalation leaves the ledger as it is. -/
theorem check_change_attribute_escalate_ledger (env : Env) (attr_name : String)
    (t : PT_TYPE_ENUM) (a : SM_ATTR_PROP_CHG) :
    (check_change_attribute_escalate env attr_name t a).attr_chg_prop = a := by
  unfold check_change_attribute_escalate
  simp only
  split
  · split <;> rfl
  · rfl

/-- The escalation never answers NotNeeded. -/
theorem check_change_attribute_escalate_mode (env : Env) (attr_name : String)
    (t : PT_TYPE_ENUM) (a : SM_ATTR_PROP_CHG) :
    (check_change_attribute_escalate env attr_name t a).change_mode
      ≠ SM_ATTR_CHG_NOT_NEEDED := by
  unfold check_change_attribute_escalate
  simp only
  split
  · split <;> simp
  · simp

/-- The verdict of the type block at SchemaOnly on a plain attribute. -/
theorem check_type_change_only_schema (a : SM_ATTR_PROP_CHG)
    (hns : a.name_space = ID_ATTRIBUTE) :
    check_type_change a SM_ATTR_CHG_ONLY_SCHEMA =
      if is_att_prop_set (a.p P_TYPE) ATT_CHG_TYPE_NOT_SUPPORTED = true then
        .error (ER_ALTER_CHANGE_TYPE_NOT_SUPP, false)
      else if is_att_prop_set (a.p P_TYPE) ATT_CHG_TYPE_NOT_SUPPORTED_WITH_CFG = true then
        .error (ER_ALTER_CHANGE_TYPE_UPGRADE_CFG, false)
      else if (is_att_prop_set (a.p P_TYPE) ATT_CHG_TYPE_NEED_ROW_CHECK
          || is_att_prop_set (a.p P_TYPE) ATT_CHG_TYPE_PSEUDO_UPGRADE) = true then
        .error (ER_ALTER_CHANGE_TYPE_NEED_ROW_CHECK, true)
      else if is_att_prop_set (a.p P_TYPE) ATT_CHG_TYPE_UPGRADE = true then
        .error (ER_ALTER_CHANGE_TYPE_UPGRADE_CFG, true)
      else if (is_att_prop_set (a.p P_TYPE) ATT_CHG_PROPERTY_DIFF
          && !(is_att_prop_set (a.p P_TYPE) ATT_CHG_TYPE_PREC_INCR
               || is_att_prop_set (a.p P_TYPE) ATT_CHG_TYPE_SET_CLS_COMPAT)) = true then
        .error (ER_ALTER_CHANGE_TYPE_NOT_SUPP, true)
      else .ok () := by
  unfold check_type_change
  simp only [throw, throwThe, MonadExceptOf.throw, pure, Except.pure, hns, ne_eq,
    not_true_eq_false, if_true, if_false]

/-- The verdict of the type block at SchemaOnly on a class or shared
attribute. -/
theorem check_type_change_only_schema_not_plain (a : SM_ATTR_PROP_CHG)
    (hns : a.name_space ≠ ID_ATTRIBUTE) :
    check_type_change a SM_ATTR_CHG_ONLY_SCHEMA =
      if is_att_prop_set (a.p P_TYPE) ATT_CHG_TYPE_NOT_SUPPORTED = true then
        .error (ER_ALTER_CHANGE_TYPE_NOT_SUPP, false)
      else if is_att_prop_set (a.p P_TYPE) ATT_CHG_TYPE_NOT_SUPPORTED_WITH_CFG = true then
        .error (ER_ALTER_CHANGE_TYPE_UPGRADE_CFG, false)
      else .ok () := by
  unfold check_type_change
  simp only [throw, throwThe, MonadExceptOf.throw, pure, Except.pure, hns, ne_eq,
    not_false_eq_true, if_true]

/-- The verdict of the type block at WithRowUpdate. -/
theorem check_type_change_with_row_update (a : SM_ATTR_PROP_CHG) :
    check_type_change a SM_ATTR_CHG_WITH_ROW_UPDATE =
      if is_att_prop_set (a.p P_TYPE) ATT_CHG_TYPE_NOT_SUPPORTED = true then
        .error (ER_ALTER_CHANGE_TYPE_NOT_SUPP, false)
      else if is_att_prop_set (a.p P_TYPE) ATT_CHG_TYPE_NOT_SUPPORTED_WITH_CFG = true then
        .error (ER_ALTER_CHANGE_TYPE_UPGRADE_CFG, false)
      else if (is_att_prop_set (a.p P_TYPE) ATT_CHG_TYPE_NEED_ROW_CHECK
          || is_att_prop_set (a.p P_TYPE) ATT_CHG_TYPE_PSEUDO_UPGRADE) = true then
        .error (ER_ALTER_CHANGE_TYPE_NEED_ROW_CHECK, true)
      else .ok () := by
  unfold check_type_change
  simp only [throw, throwThe, MonadExceptOf.throw, pure, Except.pure, reduceCtorEq, if_false,
    if_true]

/-- The verdict of the type block at BestEffort. -/
theorem check_type_change_best_effort (a : SM_ATTR_PROP_CHG) :
    check_type_change a SM_ATTR_CHG_BEST_EFFORT =
      if is_att_prop_set (a.p P_TYPE) ATT_CHG_TYPE_NOT_SUPPORTED = true then
        .error (ER_ALTER_CHANGE_TYPE_NOT_SUPP, false)
      else if is_att_prop_set (a.p P_TYPE) ATT_CHG_TYPE_NOT_SUPPORTED_WITH_CFG = true then
        .error (ER_ALTER_CHANGE_TYPE_UPGRADE_CFG, false)
      else .ok () := by
  unfold check_type_change
  simp only [throw, throwThe, MonadExceptOf.throw, pure, Except.pure, reduceCtorEq, if_false,
    if_true]

/-- The type block denies at every strategy a type entry that carries one of
the two not-supported flags. -/
theorem check_type_change_not_supported (a : SM_ATTR_PROP_CHG) (chg_how : SM_ATTR_CHG_SOL) :
    (is_att_prop_set (a.p P_TYPE) ATT_CHG_TYPE_NOT_SUPPORTED = true →
      check_type_change a chg_how = .error (ER_ALTER_CHANGE_TYPE_NOT_SUPP, false)) ∧
    (is_att_prop_set (a.p P_TYPE) ATT_CHG_TYPE_NOT_SUPPORTED = false →
      is_att_prop_set (a.p P_TYPE) ATT_CHG_TYPE_NOT_SUPPORTED_WITH_CFG = true →
      check_type_change a chg_how = .error (ER_ALTER_CHANGE_TYPE_UPGRADE_CFG, false)) := by
  unfold check_type_change
  simp only [throw, throwThe, MonadExceptOf.throw, pure, Except.pure]
  constructor
  · intro h; simp [h]
  · intro h1 h2; simp [h1, h2]

/-- Outside SchemaOnly the schema-only constraint block accepts. -/
theorem check_schema_only_constraints_other (a : SM_ATTR_PROP_CHG) (chg_how : SM_ATTR_CHG_SOL)
    (h : chg_how ≠ SM_ATTR_CHG_ONLY_SCHEMA) :
    check_schema_only_constraints a chg_how = .ok () := by
  rw [check_schema_only_constraints_eq]
  simp [h]

/-- A denial that leaves `new_attempt` true outside SchemaOnly is the
NEED_ROW_CHECK denial of the type block at WithRowUpdate. -/
theorem check_att_chg_allowed_checks_retry (strict : Bool) (t : PT_TYPE_ENUM)
    (a : SM_ATTR_PROP_CHG) (chg_how : SM_ATTR_CHG_SOL) (e : ErrorCode)
    (hm : chg_how ≠ SM_ATTR_CHG_ONLY_SCHEMA)
    (h : check_att_chg_allowed_checks strict t a chg_how = .error (e, true)) :
    chg_how = SM_ATTR_CHG_WITH_ROW_UPDATE ∧ e = ER_ALTER_CHANGE_TYPE_NEED_ROW_CHECK ∧
      (is_att_prop_set (a.p P_TYPE) ATT_CHG_TYPE_NEED_ROW_CHECK = true
        ∨ is_att_prop_set (a.p P_TYPE) ATT_CHG_TYPE_PSEUDO_UPGRADE = true) := by
  rw [check_att_chg_allowed_checks_error_iff] at h
  rcases h with h | ⟨-, h | ⟨-, h | ⟨-, h | ⟨-, h | ⟨-, h | ⟨-, h | ⟨-, h⟩⟩⟩⟩⟩⟩⟩
  · rw [check_partitions_error_iff] at h; simp at h
  · rw [check_foreign_key_error_iff] at h; simp at h
  · rw [check_not_null_eq] at h
    repeat' split at h
    all_goals simp at h
  · rw [check_auto_incr_eq] at h
    repeat' split at h
    all_goals simp_all
  · cases chg_how
    · unfold check_type_change at h
      simp only [throw, throwThe, MonadExceptOf.throw, pure, Except.pure, reduceCtorEq,
        if_false] at h
      repeat' split at h
      all_goals simp at h
    · exact absurd rfl hm
    · rw [check_type_change_with_row_update] at h
      repeat' split at h
      all_goals simp_all
    · rw [check_type_change_best_effort] at h
      repeat' split at h
      all_goals simp at h
  · rw [check_schema_only_constraints_other a chg_how hm] at h; cases h
  · rw [check_multiple_pk_eq] at h
    repeat' split at h
    all_goals simp at h
  · rw [check_subclasses_eq] at h
    repeat' split at h
    all_goals simp at h

/-- The NEED_ROW_CHECK denial always leaves `new_attempt` true. -/
theorem check_att_chg_allowed_checks_need_row_check (strict : Bool) (t : PT_TYPE_ENUM)
    (a : SM_ATTR_PROP_CHG) (chg_how : SM_ATTR_CHG_SOL) (na : Bool)
    (h : check_att_chg_allowed_checks strict t a chg_how
      = .error (ER_ALTER_CHANGE_TYPE_NEED_ROW_CHECK, na)) : na = true := by
  rw [check_att_chg_allowed_checks_error_iff] at h
  rcases h with h | ⟨-, h | ⟨-, h | ⟨-, h | ⟨-, h | ⟨-, h | ⟨-, h | ⟨-, h⟩⟩⟩⟩⟩⟩⟩
  · rw [check_partitions_error_iff] at h; simp at h
  · rw [check_foreign_key_error_iff] at h; simp at h
  · rw [check_not_null_eq] at h
    repeat' split at h
    all_goals simp at h
  · rw [check_auto_incr_eq] at h
    repeat' split at h
    all_goals simp at h
  · unfold check_type_change at h
    simp only [throw, throwThe, MonadExceptOf.throw, pure, Except.pure] at h
    repeat' split at h
    all_goals simp_all
  · rw [check_schema_only_constraints_eq] at h
    repeat' split at h
    all_goals simp at h
  · rw [check_multiple_pk_eq] at h
    repeat' split at h
    all_goals simp at h
  · rw [check_subclasses_eq] at h
    repeat' split at h
    all_goals simp at h

/-- A plain attribute whose type entry carries NEED_ROW_CHECK or
PSEUDO_UPGRADE is refused by the type block at SchemaOnly and at
WithRowUpdate. -/
theorem check_type_change_row_check_denied (a : SM_ATTR_PROP_CHG)
    (hty : is_att_prop_set (a.p P_TYPE) ATT_CHG_TYPE_NEED_ROW_CHECK = true
      ∨ is_att_prop_set (a.p P_TYPE) ATT_CHG_TYPE_PSEUDO_UPGRADE = true) :
    (a.name_space = ID_ATTRIBUTE → check_type_change a SM_ATTR_CHG_ONLY_SCHEMA ≠ .ok ()) ∧
      check_type_change a SM_ATTR_CHG_WITH_ROW_UPDATE ≠ .ok () := by
  constructor
  · intro hns
    rw [check_type_change_only_schema a hns]
    rcases hty with h | h <;> (repeat' split) <;> simp_all
  · rw [check_type_change_with_row_update]
    rcases hty with h | h <;> (repeat' split) <;> simp_all

/-- A denial reported with `new_attempt = true` is a thrown retryable
denial. -/
theorem check_att_chg_allowed_retry_iff (strict : Bool) (att_name : String)
    (t : PT_TYPE_ENUM) (a : SM_ATTR_PROP_CHG) (chg_how : SM_ATTR_CHG_SOL) (log : Bool) :
    ((check_att_chg_allowed strict att_name t a chg_how log).error ≠ NO_ERROR ∧
      (check_att_chg_allowed strict att_name t a chg_how log).new_attempt = true) ↔
    check_att_chg_allowed_checks strict t a chg_how =
      .error ((check_att_chg_allowed strict att_name t a chg_how log).error, true) := by
  unfold check_att_chg_allowed
  cases h : check_att_chg_allowed_checks strict t a chg_how with
  | ok u => simp
  | error e =>
    obtain ⟨e, na⟩ := e
    have := check_att_chg_allowed_checks_error_ne strict t a chg_how e na h
    simp [this]

/-- A successful escalation on a plain attribute ends at BestEffort exactly
when the type entry carries NEED_ROW_CHECK or PSEUDO_UPGRADE. -/
theorem check_change_attribute_escalate_best_effort_iff (env : Env) (attr_name : String)
    (t : PT_TYPE_ENUM) (a : SM_ATTR_PROP_CHG) (hns : a.name_space = ID_ATTRIBUTE)
    (hok : (check_change_attribute_escalate env attr_name t a).error = NO_ERROR) :
    (check_change_attribute_escalate env attr_name t a).change_mode = SM_ATTR_CHG_BEST_EFFORT ↔
      (is_att_prop_set (a.p P_TYPE) ATT_CHG_TYPE_NEED_ROW_CHECK = true
        ∨ is_att_prop_set (a.p P_TYPE) ATT_CHG_TYPE_PSEUDO_UPGRADE = true) := by
  have hcases := check_change_attribute_escalate_cases env attr_name t a
  simp only at hcases
  rcases hcases with ⟨-, he, hm⟩ | ⟨-, -, he, hm⟩ | ⟨-, h2, -, hm⟩
  · rw [hm]
    rw [he, check_att_chg_allowed_no_error_iff, check_att_chg_allowed_checks_ok_iff] at hok
    have hty := hok.2.2.2.2.1
    constructor
    · intro h; cases h
    · intro h
      exact absurd hty ((check_type_change_row_check_denied a h).1 hns)
  · rw [hm]
    rw [he, check_att_chg_allowed_no_error_iff, check_att_chg_allowed_checks_ok_iff] at hok
    have hty := hok.2.2.2.2.1
    constructor
    · intro h; cases h
    · intro h
      exact absurd hty (check_type_change_row_check_denied a h).2
  · rw [hm]
    rw [check_att_chg_allowed_retry_iff] at h2
    have := check_att_chg_allowed_checks_retry _ t a SM_ATTR_CHG_WITH_ROW_UPDATE _
      (by simp) h2
    exact ⟨fun _ => this.2.2, fun _ => rfl⟩

/-- When the checker denies at every strategy, the escalation fails. -/
theorem check_change_attribute_escalate_error (env : Env) (attr_name : String)
    (t : PT_TYPE_ENUM) (a : SM_ATTR_PROP_CHG)
    (h : ∀ m l, (check_att_chg_allowed env.PRM_ALTER_TABLE_CHANGE_TYPE_STRICT attr_name t a
      m l).error ≠ NO_ERROR) :
    (check_change_attribute_escalate env attr_name t a).error ≠ NO_ERROR := by
  have hcases := check_change_attribute_escalate_cases env attr_name t a
  simp only at hcases
  rcases hcases with ⟨-, he, -⟩ | ⟨-, -, he, -⟩ | ⟨-, -, he, -⟩ <;> rw [he] <;> exact h _ _

/-- A ledger with an entry that is at least DIFF needs a change. -/
theorem is_att_change_needed_of_ge (a : SM_ATTR_PROP_CHG) (i : Fin NUM_ATT_CHG_PROP)
    (h : ATT_CHG_PROPERTY_DIFF ≤ a.p i) : is_att_change_needed a = true := by
  unfold is_att_change_needed
  rw [List.any_eq_true]
  exact ⟨i, List.mem_finRange _, by simp [h]⟩

/-! ### The ledger builder -/

/-- The entries of the ledger after `a->p[j] |= flag`. -/
theorem or_p_p (a : SM_ATTR_PROP_CHG) (j i : Fin NUM_ATT_CHG_PROP) (flag : Nat) :
    (or_p a j flag).p i = if i = j then a.p i ||| flag else a.p i := by
  unfold or_p SM_ATTR_PROP_CHG.set
  by_cases h : i = j
  · subst h; simp
  · simp [h]

/-- The entries of the ledger after a conditional `a->p[j] |= flag`. -/
theorem ite_or_p_p (b : Bool) (a : SM_ATTR_PROP_CHG) (j i : Fin NUM_ATT_CHG_PROP)
    (flag : Nat) :
    (if b = true then or_p a j flag else a).p i
      = a.p i ||| (if (b && decide (i = j)) = true then flag else 0) := by
  cases b <;> by_cases h : i = j <;> simp [or_p_p, h]

/-- Two conditional ORs of the same flag are one. -/
theorem or_ite_or_ite (x flag : Nat) (b c : Bool) :
    (x ||| (if b = true then flag else 0)) ||| (if c = true then flag else 0)
      = x ||| (if (b || c) = true then flag else 0) := by
  cases b <;> cases c <;> simp [Nat.or_assoc]

/-- What one round of the loop over the constraints of the class does to the
entries: the constraint's marks are ORed in as `PRESENT_OLD`. -/
theorem scan_class_constraints_round (env : Env) (attr_name : String)
    (c : SM_CLASS_CONSTRAINT) (a : SM_ATTR_PROP_CHG) (j : Fin NUM_ATT_CHG_PROP)
    (hj : ∀ i, marks_old env attr_name c i
      = ((c.has_fk_info && decide (i = P_CONSTR_FK)) || decide (i = j)))
    (i : Fin NUM_ATT_CHG_PROP) :
    (or_p (if c.has_fk_info = true then or_p a P_CONSTR_FK ATT_CHG_PROPERTY_PRESENT_OLD
        else a) j ATT_CHG_PROPERTY_PRESENT_OLD).p i
      = a.p i ||| (if marks_old env attr_name c i = true
          then ATT_CHG_PROPERTY_PRESENT_OLD else 0) := by
  rw [hj i, or_p_p, ite_or_p_p, ← or_ite_or_ite]
  by_cases h : i = j <;> simp [h]

/-- One round of the loop over the constraints of the class: if the round
continues with a ledger `a2` that differs from `a` by the marks of `c`, the
description of the whole loop follows from the one of the remaining rounds. -/
theorem scan_class_constraints_step (env : Env) (attr_name : String)
    (c : SM_CLASS_CONSTRAINT) (rest : List SM_CLASS_CONSTRAINT) (a a2 : SM_ATTR_PROP_CHG)
    (hp : ∀ i, a2.p i = a.p i ||| (if marks_old env attr_name c i = true
        then ATT_CHG_PROPERTY_PRESENT_OLD else 0))
    (hns : a2.name_space = a.name_space)
    (hsub : a2.class_has_subclass = a.class_has_subclass)
    (hnew : a2.new_constr_info = a.new_constr_info)
    (ih : (scan_class_constraints env attr_name rest a2).1 = NO_ERROR ∧
      (∀ i, (scan_class_constraints env attr_name rest a2).2.p i =
        a2.p i ||| (if rest.any (fun c => marks_old env attr_name c i)
          then ATT_CHG_PROPERTY_PRESENT_OLD else 0)) ∧
      (scan_class_constraints env attr_name rest a2).2.name_space = a2.name_space ∧
      (scan_class_constraints env attr_name rest a2).2.class_has_subclass
        = a2.class_has_subclass ∧
      (scan_class_constraints env attr_name rest a2).2.new_constr_info
        = a2.new_constr_info) :
    (scan_class_constraints env attr_name rest a2).1 = NO_ERROR ∧
      (∀ i, (scan_class_constraints env attr_name rest a2).2.p i =
        a.p i ||| (if (c :: rest).any (fun c => marks_old env attr_name c i)
          then ATT_CHG_PROPERTY_PRESENT_OLD else 0)) ∧
      (scan_class_constraints env attr_name rest a2).2.name_space = a.name_space ∧
      (scan_class_constraints env attr_name rest a2).2.class_has_subclass
        = a.class_has_subclass ∧
      (scan_class_constraints env attr_name rest a2).2.new_constr_info
        = a.new_constr_info := by
  refine ⟨ih.1, ?_, ih.2.2.1.trans hns, ih.2.2.2.1.trans hsub, ih.2.2.2.2.trans hnew⟩
  intro i
  rw [ih.2.1 i, hp i, List.any_cons, or_ite_or_ite]

/-- The loop over the constraints of the current class never fails; it ORs
`PRESENT_OLD` into the entries marked by some constraint of the class and
touches nothing else but the saved constraints. -/
theorem scan_class_constraints_spec (env : Env) (attr_name : String)
    (cs : List SM_CLASS_CONSTRAINT) (a : SM_ATTR_PROP_CHG) :
    (scan_class_constraints env attr_name cs a).1 = NO_ERROR ∧
      (∀ i, (scan_class_constraints env attr_name cs a).2.p i =
        a.p i ||| (if cs.any (fun c => marks_old env attr_name c i)
          then ATT_CHG_PROPERTY_PRESENT_OLD else 0)) ∧
      (scan_class_constraints env attr_name cs a).2.name_space = a.name_space ∧
      (scan_class_constraints env attr_name cs a).2.class_has_subclass
        = a.class_has_subclass ∧
      (scan_class_constraints env attr_name cs a).2.new_constr_info = a.new_constr_info := by
  induction cs generalizing a with
  | nil => simp [scan_class_constraints]
  | cons c rest ih =>
    unfold scan_class_constraints
    by_cases hf : name_found_in_constr env attr_name c = true
    · simp only [hf, if_true]
      cases htype : c.type <;> by_cases hlen : c.attributes.length ≥ 2 <;>
        simp only [htype, hlen, sm_save_constraint_info, reduceCtorEq, if_true, if_false,
          or_false, false_or, or_true, true_or, Bool.false_eq_true] <;>
        refine scan_class_constraints_step env attr_name c rest a _ ?_ ?_ ?_ ?_ (ih _)
      all_goals first
        | rfl
        | (cases c.has_fk_info <;> rfl)
        | (intro i
           exact scan_class_constraints_round env attr_name c a _
             (by intro k; simp [marks_old, hf, htype, hlen, Bool.and_comm]) i)
        | (intro i
           rw [ite_or_p_p]
           simp [marks_old, hf, htype, hlen, Bool.and_comm])
    · simp only [hf, Bool.false_eq_true, if_false]
      refine scan_class_constraints_step env attr_name c rest a a ?_ rfl rfl rfl (ih a)
      intro i
      simp [marks_old, hf]

/-- Setting PRESENT_NEW does not change whether PRESENT_OLD is set. -/
theorem is_att_prop_set_or_new_old (x : Nat) :
    is_att_prop_set (x ||| ATT_CHG_PROPERTY_PRESENT_NEW) ATT_CHG_PROPERTY_PRESENT_OLD
      = is_att_prop_set x ATT_CHG_PROPERTY_PRESENT_OLD := by
  unfold is_att_prop_set ATT_CHG_PROPERTY_PRESENT_NEW ATT_CHG_PROPERTY_PRESENT_OLD
  have : (x ||| 2) &&& 1 = x &&& 1 := by
    apply Nat.eq_of_testBit_eq
    intro i
    simp only [Nat.testBit_and, Nat.testBit_or]
    cases i with
    | zero => simp
    | succ n => simp [Nat.testBit_succ]
  rw [this]

/-- One round of the loop over the requested constraints: if the round
continues with a ledger `a2` that differs from `a` by the mark of `c`, the
description of the whole loop follows from the one of the remaining rounds. -/
theorem scan_new_constraints_step (env : Env) (attr_name : String) (new_name : Option String)
    (c : PT_CONSTRAINT) (rest : List PT_CONSTRAINT) (a a2 : SM_ATTR_PROP_CHG)
    (hp : ∀ i, a2.p i = a.p i ||| (if marks_new env
        (if is_att_prop_set (a.p P_NAME) ATT_CHG_PROPERTY_DIFF = true
          then new_name.getD attr_name else attr_name) c i = true
        then ATT_CHG_PROPERTY_PRESENT_NEW else 0))
    (hname : a2.p P_NAME = a.p P_NAME)
    (hns : a2.name_space = a.name_space)
    (hsub : a2.class_has_subclass = a.class_has_subclass)
    (ih : (∀ i, (scan_new_constraints env attr_name new_name rest a2).2.p i =
        a2.p i ||| (if rest.any (fun c => marks_new env
            (if is_att_prop_set (a2.p P_NAME) ATT_CHG_PROPERTY_DIFF = true
              then new_name.getD attr_name else attr_name) c i)
          then ATT_CHG_PROPERTY_PRESENT_NEW else 0)) ∧
      (scan_new_constraints env attr_name new_name rest a2).2.name_space = a2.name_space ∧
      (scan_new_constraints env attr_name new_name rest a2).2.class_has_subclass
        = a2.class_has_subclass) :
    (∀ i, (scan_new_constraints env attr_name new_name rest a2).2.p i =
        a.p i ||| (if (c :: rest).any (fun c => marks_new env
            (if is_att_prop_set (a.p P_NAME) ATT_CHG_PROPERTY_DIFF = true
              then new_name.getD attr_name else attr_name) c i)
          then ATT_CHG_PROPERTY_PRESENT_NEW else 0)) ∧
      (scan_new_constraints env attr_name new_name rest a2).2.name_space = a.name_space ∧
      (scan_new_constraints env attr_name new_name rest a2).2.class_has_subclass
        = a.class_has_subclass := by
  refine ⟨?_, ih.2.1.trans hns, ih.2.2.trans hsub⟩
  intro i
  rw [ih.1 i, hp i, hname, List.any_cons]
  generalize (rest.any fun c => marks_new env _ c i) = r
  generalize marks_new env _ c i = m
  cases r <;> cases m <;> simp [Nat.or_assoc]

/-- The loop over the requested constraints, when it does not fail, ORs
`PRESENT_NEW` into the entries marked by some requested constraint and touches
nothing else but the saved constraints. -/
theorem scan_new_constraints_spec (env : Env) (attr_name : String) (new_name : Option String)
    (cs : List PT_CONSTRAINT) (a : SM_ATTR_PROP_CHG)
    (h : (scan_new_constraints env attr_name new_name cs a).1 = NO_ERROR) :
    (∀ i, (scan_new_constraints env attr_name new_name cs a).2.p i =
        a.p i ||| (if cs.any (fun c => marks_new env
            (if is_att_prop_set (a.p P_NAME) ATT_CHG_PROPERTY_DIFF = true
              then new_name.getD attr_name else attr_name) c i)
          then ATT_CHG_PROPERTY_PRESENT_NEW else 0)) ∧
      (scan_new_constraints env attr_name new_name cs a).2.name_space = a.name_space ∧
      (scan_new_constraints env attr_name new_name cs a).2.class_has_subclass
        = a.class_has_subclass := by
  induction cs generalizing a with
  | nil => simp [scan_new_constraints]
  | cons c rest ih =>
    unfold scan_new_constraints at h ⊢
    simp only at h ⊢
    cases htype : c.type
    case PT_CONSTRAIN_CHECK =>
      simp only [htype, if_true] at h ⊢
      refine scan_new_constraints_step env attr_name new_name c rest a
            (or_p a P_CONSTR_CHECK ATT_CHG_PROPERTY_PRESENT_NEW) ?_ ?_ rfl rfl (ih _ h)
      · intro i
        simp only [or_p_p, marks_new, htype]
        split_ifs <;> simp_all
      · rw [or_p_p, if_neg (by decide)]
    case PT_CONSTRAIN_UNKNOWN =>
      simp only [htype, reduceCtorEq, if_false] at h ⊢
      refine scan_new_constraints_step env attr_name new_name c rest a a ?_ rfl rfl rfl
        (ih _ h)
      intro i
      simp [marks_new, htype]
    case PT_CONSTRAIN_NULL =>
      simp only [htype, reduceCtorEq, if_false] at h ⊢
      refine scan_new_constraints_step env attr_name new_name c rest a a ?_ rfl rfl rfl
        (ih _ h)
      intro i
      simp [marks_new, htype]
    case PT_CONSTRAIN_FOREIGN_KEY =>
      simp only [htype, reduceCtorEq, if_false] at h ⊢
      by_cases hm : (c.attrs.any fun original =>
          env.intl_identifier_casecmp (if is_att_prop_set (a.p P_NAME) ATT_CHG_PROPERTY_DIFF = true
            then new_name.getD attr_name else attr_name) original == 0) = true
      · simp only [hm, if_true] at h ⊢
        simp only [Bool.false_and, Bool.false_eq_true, if_false] at h ⊢
        refine scan_new_constraints_step env attr_name new_name c rest a
            (or_p a P_CONSTR_FK ATT_CHG_PROPERTY_PRESENT_NEW) ?_ ?_ rfl rfl (ih _ h)
        · intro i
          simp only [or_p_p, marks_new, htype, hm]
          split_ifs <;> simp_all
        · rw [or_p_p, if_neg (by decide)]
      · simp only [hm, Bool.false_eq_true, if_false] at h ⊢
        refine scan_new_constraints_step env attr_name new_name c rest a a ?_ rfl rfl rfl
          (ih _ h)
        intro i
        simp [marks_new, htype, hm]
    case PT_CONSTRAIN_PRIMARY_KEY =>
      simp only [htype, reduceCtorEq, if_false] at h ⊢
      by_cases hm : (c.attrs.any fun original =>
          env.intl_identifier_casecmp (if is_att_prop_set (a.p P_NAME) ATT_CHG_PROPERTY_DIFF = true
            then new_name.getD attr_name else attr_name) original == 0) = true
      · simp only [hm, if_true] at h ⊢
        by_cases hs : is_att_prop_set (a.p P_S_CONSTR_PK) ATT_CHG_PROPERTY_PRESENT_OLD = true
        · simp only [hs, Bool.not_true, Bool.and_false, Bool.false_eq_true, if_false] at h ⊢
          refine scan_new_constraints_step env attr_name new_name c rest a
            (or_p a P_S_CONSTR_PK ATT_CHG_PROPERTY_PRESENT_NEW) ?_ ?_ rfl rfl (ih _ h)
          · intro i
            simp only [or_p_p, marks_new, htype, hm]
            split_ifs <;> simp_all
          · rw [or_p_p, if_neg (by decide)]
        · simp only [hs, Bool.not_false, Bool.and_true, Bool.true_and, if_true] at h ⊢
          unfold save_constraint_info_from_pt_node at h ⊢
          rcases hattrs : c.attrs with _ | ⟨x, _ | ⟨y, l⟩⟩
          · simp [hattrs] at h
          · simp only [hattrs] at h ⊢
            refine scan_new_constraints_step env attr_name new_name c rest a _ ?_ ?_ rfl rfl
              (ih _ h)
            · intro i
              simp only [or_p_p, marks_new, htype, hm, hattrs]
              rw [hattrs] at hm
              split_ifs <;> simp_all
            · rw [or_p_p, if_neg (by decide)]
          · simp [hattrs] at h
      · simp only [hm, Bool.false_eq_true, if_false] at h ⊢
        refine scan_new_constraints_step env attr_name new_name c rest a a ?_ rfl rfl rfl
          (ih _ h)
        intro i
        simp [marks_new, htype, hm]
    case PT_CONSTRAIN_UNIQUE =>
      simp only [htype, reduceCtorEq, if_false] at h ⊢
      by_cases hm : (c.attrs.any fun original =>
          env.intl_identifier_casecmp (if is_att_prop_set (a.p P_NAME) ATT_CHG_PROPERTY_DIFF = true
            then new_name.getD attr_name else attr_name) original == 0) = true
      · simp only [hm, if_true] at h ⊢
        by_cases hs : is_att_prop_set (a.p P_S_CONSTR_UNI) ATT_CHG_PROPERTY_PRESENT_OLD = true
        · simp only [hs, Bool.not_true, Bool.and_false, Bool.false_eq_true, if_false] at h ⊢
          refine scan_new_constraints_step env attr_name new_name c rest a
            (or_p a P_S_CONSTR_UNI ATT_CHG_PROPERTY_PRESENT_NEW) ?_ ?_ rfl rfl (ih _ h)
          · intro i
            simp only [or_p_p, marks_new, htype, hm]
            split_ifs <;> simp_all
          · rw [or_p_p, if_neg (by decide)]
        · simp only [hs, Bool.not_false, Bool.and_true, Bool.true_and, if_true] at h ⊢
          unfold save_constraint_info_from_pt_node at h ⊢
          rcases hattrs : c.attrs with _ | ⟨x, _ | ⟨y, l⟩⟩
          · simp [hattrs] at h
          · simp only [hattrs] at h ⊢
            refine scan_new_constraints_step env attr_name new_name c rest a _ ?_ ?_ rfl rfl
              (ih _ h)
            · intro i
              simp only [or_p_p, marks_new, htype, hm, hattrs]
              rw [hattrs] at hm
              split_ifs <;> simp_all
            · rw [or_p_p, if_neg (by decide)]
          · simp [hattrs] at h
      · simp only [hm, Bool.false_eq_true, if_false] at h ⊢
        refine scan_new_constraints_step env attr_name new_name c rest a a ?_ rfl rfl rfl
          (ih _ h)
        intro i
        simp [marks_new, htype, hm]
    case PT_CONSTRAIN_NOT_NULL =>
      simp only [htype, reduceCtorEq, if_false] at h ⊢
      by_cases hm : (c.attrs.any fun original =>
          env.intl_identifier_casecmp (if is_att_prop_set (a.p P_NAME) ATT_CHG_PROPERTY_DIFF = true
            then new_name.getD attr_name else attr_name) original == 0) = true
      · simp only [hm, if_true] at h ⊢
        by_cases hs : is_att_prop_set (a.p P_NOT_NULL) ATT_CHG_PROPERTY_PRESENT_OLD = true
        · simp only [hs, Bool.not_true, Bool.and_false, Bool.false_eq_true, if_false] at h ⊢
          refine scan_new_constraints_step env attr_name new_name c rest a
            (or_p a P_NOT_NULL ATT_CHG_PROPERTY_PRESENT_NEW) ?_ ?_ rfl rfl (ih _ h)
          · intro i
            simp only [or_p_p, marks_new, htype, hm]
            split_ifs <;> simp_all
          · rw [or_p_p, if_neg (by decide)]
        · simp only [hs, Bool.not_false, Bool.and_true, Bool.true_and, if_true] at h ⊢
          unfold save_constraint_info_from_pt_node at h ⊢
          rcases hattrs : c.attrs with _ | ⟨x, _ | ⟨y, l⟩⟩
          · simp [hattrs] at h
          · simp only [hattrs] at h ⊢
            refine scan_new_constraints_step env attr_name new_name c rest a _ ?_ ?_ rfl rfl
              (ih _ h)
            · intro i
              simp only [or_p_p, marks_new, htype, hm, hattrs]
              rw [hattrs] at hm
              split_ifs <;> simp_all
            · rw [or_p_p, if_neg (by decide)]
          · simp [hattrs] at h
      · simp only [hm, Bool.false_eq_true, if_false] at h ⊢
        refine scan_new_constraints_step env attr_name new_name c rest a a ?_ rfl rfl rfl
          (ih _ h)
        intro i
        simp [marks_new, htype, hm]

/-- Marking an entry as present in the new definition leaves every
`PRESENT_OLD` test as it was. -/
theorem or_p_new_old (a : SM_ATTR_PROP_CHG) (j i : Fin NUM_ATT_CHG_PROP) :
    is_att_prop_set ((or_p a j ATT_CHG_PROPERTY_PRESENT_NEW).p i) ATT_CHG_PROPERTY_PRESENT_OLD
      = is_att_prop_set (a.p i) ATT_CHG_PROPERTY_PRESENT_OLD := by
  rw [or_p_p]
  split_ifs
  · exact is_att_prop_set_or_new_old _
  · rfl

/-- The loop over the requested constraints does not fail when every entry
that a requested PRIMARY KEY, UNIQUE or NOT NULL constraint on the attribute
marks is already present in the old schema: no constraint is saved then. -/
theorem scan_new_constraints_no_error (env : Env) (attr_name : String)
    (new_name : Option String) (cs : List PT_CONSTRAINT) (a : SM_ATTR_PROP_CHG)
    (hold : ∀ i, (i = P_S_CONSTR_PK ∨ i = P_S_CONSTR_UNI ∨ i = P_NOT_NULL) →
      cs.any (fun c => marks_new env
        (if is_att_prop_set (a.p P_NAME) ATT_CHG_PROPERTY_DIFF = true
          then new_name.getD attr_name else attr_name) c i) = true →
      is_att_prop_set (a.p i) ATT_CHG_PROPERTY_PRESENT_OLD = true) :
    (scan_new_constraints env attr_name new_name cs a).1 = NO_ERROR := by
  induction cs generalizing a with
  | nil => rfl
  | cons c rest ih =>
    have keep : ∀ j, j ≠ P_NAME → (scan_new_constraints env attr_name new_name rest
        (or_p a j ATT_CHG_PROPERTY_PRESENT_NEW)).1 = NO_ERROR := by
      intro j hj
      apply ih
      intro i hi hany
      rw [or_p_new_old]
      apply hold i hi
      have hn : (or_p a j ATT_CHG_PROPERTY_PRESENT_NEW).p P_NAME = a.p P_NAME := by
        rw [or_p_p, if_neg (Ne.symm hj)]
      rw [hn] at hany
      rw [List.any_cons, hany, Bool.or_true]
    have skip : (scan_new_constraints env attr_name new_name rest a).1 = NO_ERROR := by
      apply ih
      intro i hi hany
      apply hold i hi
      rw [List.any_cons, hany, Bool.or_true]
    unfold scan_new_constraints
    simp only
    cases htype : c.type
    case PT_CONSTRAIN_CHECK =>
      simp only [htype, if_true]
      exact keep _ (by decide)
    case PT_CONSTRAIN_UNKNOWN =>
      simp only [htype, reduceCtorEq, if_false]
      exact skip
    case PT_CONSTRAIN_NULL =>
      simp only [htype, reduceCtorEq, if_false]
      exact skip
    case PT_CONSTRAIN_FOREIGN_KEY =>
      simp only [htype, reduceCtorEq, if_false, Bool.false_and, Bool.false_eq_true]
      by_cases hm : (c.attrs.any fun original =>
          env.intl_identifier_casecmp (if is_att_prop_set (a.p P_NAME) ATT_CHG_PROPERTY_DIFF = true
            then new_name.getD attr_name else attr_name) original == 0) = true
      · simp only [hm, if_true]
        exact keep _ (by decide)
      · simp only [hm, Bool.false_eq_true, if_false]
        exact skip
    case PT_CONSTRAIN_PRIMARY_KEY =>
      simp only [htype, reduceCtorEq, if_false]
      by_cases hm : (c.attrs.any fun original =>
          env.intl_identifier_casecmp (if is_att_prop_set (a.p P_NAME) ATT_CHG_PROPERTY_DIFF = true
            then new_name.getD attr_name else attr_name) original == 0) = true
      · have hs : is_att_prop_set (a.p P_S_CONSTR_PK) ATT_CHG_PROPERTY_PRESENT_OLD = true := by
          apply hold P_S_CONSTR_PK (by simp)
          rw [List.any_cons]
          simp [marks_new, htype, hm]
        simp only [hm, hs, if_true, Bool.not_true, Bool.and_false, Bool.false_eq_true, if_false]
        exact keep _ (by decide)
      · simp only [hm, Bool.false_eq_true, if_false]
        exact skip
    case PT_CONSTRAIN_UNIQUE =>
      simp only [htype, reduceCtorEq, if_false]
      by_cases hm : (c.attrs.any fun original =>
          env.intl_identifier_casecmp (if is_att_prop_set (a.p P_NAME) ATT_CHG_PROPERTY_DIFF = true
            then new_name.getD attr_name else attr_name) original == 0) = true
      · have hs : is_att_prop_set (a.p P_S_CONSTR_UNI) ATT_CHG_PROPERTY_PRESENT_OLD = true := by
          apply hold P_S_CONSTR_UNI (by simp)
          rw [List.any_cons]
          simp [marks_new, htype, hm]
        simp only [hm, hs, if_true, Bool.not_true, Bool.and_false, Bool.false_eq_true, if_false]
        exact keep _ (by decide)
      · simp only [hm, Bool.false_eq_true, if_false]
        exact skip
    case PT_CONSTRAIN_NOT_NULL =>
      simp only [htype, reduceCtorEq, if_false]
      by_cases hm : (c.attrs.any fun original =>
          env.intl_identifier_casecmp (if is_att_prop_set (a.p P_NAME) ATT_CHG_PROPERTY_DIFF = true
            then new_name.getD attr_name else attr_name) original == 0) = true
      · have hs : is_att_prop_set (a.p P_NOT_NULL) ATT_CHG_PROPERTY_PRESENT_OLD = true := by
          apply hold P_NOT_NULL (by simp)
          rw [List.any_cons]
          simp [marks_new, htype, hm]
        simp only [hm, hs, if_true, Bool.not_true, Bool.and_false, Bool.false_eq_true, if_false]
        exact keep _ (by decide)
      · simp only [hm, Bool.false_eq_true, if_false]
        exact skip

/-- The entries of the ledger after `a->p[j] = v`. -/
theorem set_p (a : SM_ATTR_PROP_CHG) (j i : Fin NUM_ATT_CHG_PROP) (v : Nat) :
    (a.set j v).p i = if i = j then v else a.p i := rfl

/-- The entries of the ledger after both branches of a conditional. -/
theorem ite_p (b : Bool) (x y : SM_ATTR_PROP_CHG) (i : Fin NUM_ATT_CHG_PROP) :
    (if b = true then x else y).p i = if b = true then x.p i else y.p i := by
  cases b <;> rfl

/-- The fifteen entries of the ledger. -/
theorem index_cases (i : Fin NUM_ATT_CHG_PROP) :
    i = P_NAME ∨ i = P_NOT_NULL ∨ i = P_DEFAULT_VALUE ∨ i = P_CONSTR_CHECK ∨ i = P_DEFFERABLE
      ∨ i = P_ORDER ∨ i = P_AUTO_INCR ∨ i = P_CONSTR_FK ∨ i = P_S_CONSTR_PK
      ∨ i = P_M_CONSTR_PK ∨ i = P_S_CONSTR_UNI ∨ i = P_M_CONSTR_UNI ∨ i = P_CONSTR_NON_UNI
      ∨ i = P_TYPE ∨ i = P_IS_PARTITION_COL := by
  revert i
  decide

/-- The entries of the ledger after the part that reads the attribute and the
clauses of the definition. -/
theorem mark_attribute_p (attr_def : PT_ATTR_DEF) (att : SM_ATTRIBUTE) (a : SM_ATTR_PROP_CHG)
    (i : Fin NUM_ATT_CHG_PROP) :
    (mark_attribute attr_def att a).p i =
      if i = P_DEFAULT_VALUE then
        (if attr_def.data_default.isSome = true then ATT_CHG_PROPERTY_PRESENT_NEW else 0)
        ||| (if (!att.original_value_is_null || !att.value_is_null
              || !att.default_expr_is_none) = true then ATT_CHG_PROPERTY_PRESENT_OLD else 0)
      else if i = P_ORDER then
        (if attr_def.ordering_info = true then ATT_CHG_PROPERTY_PRESENT_NEW else 0)
      else if i = P_AUTO_INCR then
        (if attr_def.auto_increment = true then ATT_CHG_PROPERTY_PRESENT_NEW else 0)
        ||| (if att.SM_ATTFLAG_AUTO_INCREMENT = true then ATT_CHG_PROPERTY_PRESENT_OLD else 0)
      else if i = P_CONSTR_FK then
        (if att.SM_ATTFLAG_FOREIGN_KEY = true then ATT_CHG_PROPERTY_PRESENT_OLD else 0)
      else if i = P_CONSTR_NON_UNI then
        (if att.SM_ATTFLAG_INDEX = true then ATT_CHG_PROPERTY_PRESENT_OLD else 0)
      else if i = P_NOT_NULL then
        (if att.SM_ATTFLAG_NON_NULL = true then ATT_CHG_PROPERTY_PRESENT_OLD else 0)
      else if i = P_DEFFERABLE ∨ i = P_S_CONSTR_PK ∨ i = P_M_CONSTR_PK ∨ i = P_CONSTR_CHECK
        then 0
      else a.p i := by
  unfold mark_attribute
  simp only [set_p, ite_or_p_p]
  rcases index_cases i with h | h | h | h | h | h | h | h | h | h | h | h | h | h | h <;>
    subst h <;>
    simp [P_NAME, P_NOT_NULL, P_DEFAULT_VALUE, P_CONSTR_CHECK, P_DEFFERABLE, P_ORDER,
      P_AUTO_INCR, P_CONSTR_FK, P_S_CONSTR_PK, P_M_CONSTR_PK, P_S_CONSTR_UNI, P_M_CONSTR_UNI,
      P_CONSTR_NON_UNI, P_TYPE, P_IS_PARTITION_COL]

/-- The entries of the ledger after the attribute-name part. -/
theorem mark_name_p (env : Env) (attr_def : PT_ATTR_DEF) (attr_old_name : Option String)
    (a : SM_ATTR_PROP_CHG) (i : Fin NUM_ATT_CHG_PROP) :
    (mark_name env attr_def attr_old_name a).p i =
      if i = P_NAME then
        match attr_old_name with
        | some old_name =>
          if env.intl_identifier_casecmp old_name attr_def.attr_name = 0 then
            ATT_CHG_PROPERTY_PRESENT_OLD ||| ATT_CHG_PROPERTY_PRESENT_NEW
              ||| ATT_CHG_PROPERTY_UNCHANGED
          else
            ATT_CHG_PROPERTY_PRESENT_OLD ||| ATT_CHG_PROPERTY_PRESENT_NEW
              ||| ATT_CHG_PROPERTY_DIFF
        | none => ATT_CHG_PROPERTY_PRESENT_OLD ||| ATT_CHG_PROPERTY_UNCHANGED
      else a.p i := by
  unfold mark_name
  cases attr_old_name with
  | none =>
    simp only [or_p_p, set_p]
    split_ifs <;> simp
  | some old_name =>
    simp only
    split_ifs <;> simp_all [or_p_p, set_p]

/-- The partition part on an attribute that is not the partition key: the
entry is set to 0. -/
theorem mark_partition_key_not_key (env : Env) (ctemplate : DB_CTMPL) (attr_name : String)
    (a : SM_ATTR_PROP_CHG)
    (hpart : ctemplate.partition_of = true →
      ∃ keycol, ctemplate.do_get_partition_keycol = .ok keycol
        ∧ env.intl_identifier_casecmp keycol attr_name ≠ 0) :
    mark_partition_key env ctemplate attr_name a = (NO_ERROR, a.set P_IS_PARTITION_COL 0) := by
  unfold mark_partition_key
  cases hpo : ctemplate.partition_of
  · simp
  · obtain ⟨keycol, hk, hc⟩ := hpart hpo
    simp [hk, hc]

/-- The end of `build_attr_change_map` for a definition whose domain matches
the current one exactly: the type entry gets UNCHANGED on top of the
consolidated entries and the remaining special cases follow. -/
theorem mark_domain_and_consolidate_exact (env : Env) (attr_def : PT_ATTR_DEF)
    (att : SM_ATTRIBUTE) (a : SM_ATTR_PROP_CHG) (d : TP_DOMAIN)
    (hdom : attr_def.pt_node_to_db_domain = some d)
    (hmatch : env.tp_domain_match d att.domain TP_EXACT_MATCH = true) :
    mark_domain_and_consolidate env attr_def att a =
      (NO_ERROR, special_cases_tail (or_p (consolidate
        (or_p (or_p (a.set P_TYPE 0) P_TYPE ATT_CHG_PROPERTY_PRESENT_NEW) P_TYPE
          ATT_CHG_PROPERTY_PRESENT_OLD)) P_TYPE ATT_CHG_PROPERTY_UNCHANGED)) := by
  unfold mark_domain_and_consolidate special_case_type
  simp [hdom, hmatch]

/-- The entries of the ledger after clearing a flag: `a->p[j] &= ~flag`. -/
theorem clear_p_p (a : SM_ATTR_PROP_CHG) (j i : Fin NUM_ATT_CHG_PROP) (flag : Nat) :
    (clear_p a j flag).p i = if i = j then and_not (a.p i) flag else a.p i := by
  unfold clear_p
  rw [set_p]
  split_ifs with h
  · rw [h]
  · rfl

/-- The entries of the ledger after the consolidation. -/
theorem consolidate_p (a : SM_ATTR_PROP_CHG) (i : Fin NUM_ATT_CHG_PROP) :
    (consolidate a).p i = consolidate_entry (a.p i) := rfl

/-- The entries of the ledger after the special cases AUTO INCREMENT, DEFAULT
and UNIQUE on multiple columns. -/
theorem special_cases_tail_p (a : SM_ATTR_PROP_CHG) (i : Fin NUM_ATT_CHG_PROP) :
    (special_cases_tail a).p i =
      if i = P_AUTO_INCR ∨ i = P_DEFAULT_VALUE then
        if is_att_prop_set (a.p i)
            (ATT_CHG_PROPERTY_PRESENT_OLD ||| ATT_CHG_PROPERTY_PRESENT_NEW) = true then
          and_not (a.p i ||| ATT_CHG_PROPERTY_DIFF) ATT_CHG_PROPERTY_UNCHANGED
        else a.p i
      else if i = P_M_CONSTR_UNI then
        if is_att_prop_set (a.p i) ATT_CHG_PROPERTY_PRESENT_OLD = true then
          if is_att_prop_set (a.p P_TYPE) ATT_CHG_PROPERTY_DIFF = true then
            and_not (a.p i ||| ATT_CHG_PROPERTY_DIFF) ATT_CHG_PROPERTY_UNCHANGED
          else a.p i ||| ATT_CHG_PROPERTY_UNCHANGED
        else a.p i
      else a.p i := by
  unfold special_cases_tail
  simp only [ite_p, clear_p_p, or_p_p]
  rcases index_cases i with h | h | h | h | h | h | h | h | h | h | h | h | h | h | h <;>
    subst h <;>
    simp [P_NAME, P_NOT_NULL, P_DEFAULT_VALUE, P_CONSTR_CHECK, P_DEFFERABLE, P_ORDER,
      P_AUTO_INCR, P_CONSTR_FK, P_S_CONSTR_PK, P_M_CONSTR_PK, P_S_CONSTR_UNI, P_M_CONSTR_UNI,
      P_CONSTR_NON_UNI, P_TYPE, P_IS_PARTITION_COL]

/-- The renaming inside the saved constraints leaves the entries as they
are. -/
theorem rename_in_saved_constraints_p (env : Env) (new_name : Option String)
    (attr_name : String) (a : SM_ATTR_PROP_CHG) :
    (rename_in_saved_constraints env new_name attr_name a).p = a.p := by
  unfold rename_in_saved_constraints
  cases new_name with
  | none => rfl
  | some n =>
    simp only
    split_ifs <;> rfl

/-- No constraint of the class marks an entry other than FK, PRIMARY KEY,
UNIQUE and non-unique index as present in the old schema. -/
theorem any_marks_old_eq_false (env : Env) (attr_name : String)
    (cs : List SM_CLASS_CONSTRAINT) (i : Fin NUM_ATT_CHG_PROP)
    (h : i ≠ P_CONSTR_FK ∧ i ≠ P_M_CONSTR_PK ∧ i ≠ P_S_CONSTR_PK ∧ i ≠ P_CONSTR_NON_UNI
      ∧ i ≠ P_M_CONSTR_UNI ∧ i ≠ P_S_CONSTR_UNI) :
    (cs.any fun c => marks_old env attr_name c i) = false := by
  rw [List.any_eq_false]
  intro c _
  simp [marks_old, h.1, h.2.1, h.2.2.1, h.2.2.2.1, h.2.2.2.2.1, h.2.2.2.2.2]

/-- No requested constraint marks an entry other than CHECK, FK, single-column
PRIMARY KEY and UNIQUE, and NOT NULL as present in the new definition. -/
theorem any_marks_new_eq_false (env : Env) (attr_name : String)
    (cs : List PT_CONSTRAINT) (i : Fin NUM_ATT_CHG_PROP)
    (h : i ≠ P_CONSTR_CHECK ∧ i ≠ P_CONSTR_FK ∧ i ≠ P_S_CONSTR_PK ∧ i ≠ P_S_CONSTR_UNI
      ∧ i ≠ P_NOT_NULL) :
    (cs.any fun c => marks_new env attr_name c i) = false := by
  rw [List.any_eq_false]
  intro c _
  simp [marks_new, h.1, h.2.1, h.2.2.1, h.2.2.2.1, h.2.2.2.2]

/-- A request that restates the current attribute: same name, exactly matching
domain, no default value, AUTO_INCREMENT, ordering clause or CHECK constraint,
no non-unique index, multi-column primary key or partition key on the
attribute, and NOT NULL, foreign key, single-column PRIMARY KEY and UNIQUE
requested exactly when present. `build_attr_change_map` succeeds on it with a
ledger that needs no change. -/
theorem build_attr_change_map_same_definition (env : Env) (ctemplate : DB_CTMPL)
    (attr_def : PT_ATTR_DEF) (attr_old_name : Option String)
    (constraints : List PT_CONSTRAINT) (a : SM_ATTR_PROP_CHG)
    (att : SM_ATTRIBUTE) (cls : SM_CLASS) (d : TP_DOMAIN)
    (hfind : ctemplate.smt_find_attribute (attr_old_name.getD attr_def.attr_name)
        (decide (a.name_space = ID_CLASS_ATTRIBUTE)) = .ok att)
    (hcur : ctemplate.current = some cls)
    (hname : ∀ old_name, attr_old_name = some old_name →
        env.intl_identifier_casecmp old_name attr_def.attr_name = 0)
    (hdom : attr_def.pt_node_to_db_domain = some d)
    (hmatch : env.tp_domain_match d att.domain TP_EXACT_MATCH = true)
    (hdef_new : attr_def.data_default = none)
    (hdef_old : att.original_value_is_null = true ∧ att.value_is_null = true
        ∧ att.default_expr_is_none = true)
    (hai : attr_def.auto_increment = false ∧ att.SM_ATTFLAG_AUTO_INCREMENT = false)
    (hord : attr_def.ordering_info = false)
    (hpart : ctemplate.partition_of = true →
        ∃ keycol, ctemplate.do_get_partition_keycol = .ok keycol
          ∧ env.intl_identifier_casecmp keycol (attr_old_name.getD attr_def.attr_name) ≠ 0)
    (hidx : att.SM_ATTFLAG_INDEX = false
        ∧ (cls.constraints.any fun c => marks_old env
            (attr_old_name.getD attr_def.attr_name) c P_CONSTR_NON_UNI) = false)
    (hmpk : (cls.constraints.any fun c => marks_old env
            (attr_old_name.getD attr_def.attr_name) c P_M_CONSTR_PK) = false)
    (hchk : (constraints.any fun c => marks_new env
            (attr_old_name.getD attr_def.attr_name) c P_CONSTR_CHECK) = false)
    (hnn : (constraints.any fun c => marks_new env
            (attr_old_name.getD attr_def.attr_name) c P_NOT_NULL) = att.SM_ATTFLAG_NON_NULL)
    (hfk : (constraints.any fun c => marks_new env
            (attr_old_name.getD attr_def.attr_name) c P_CONSTR_FK)
          = (att.SM_ATTFLAG_FOREIGN_KEY || cls.constraints.any fun c => marks_old env
            (attr_old_name.getD attr_def.attr_name) c P_CONSTR_FK))
    (hpk : (constraints.any fun c => marks_new env
            (attr_old_name.getD attr_def.attr_name) c P_S_CONSTR_PK)
          = cls.constraints.any fun c => marks_old env
            (attr_old_name.getD attr_def.attr_name) c P_S_CONSTR_PK)
    (huni : (constraints.any fun c => marks_new env
            (attr_old_name.getD attr_def.attr_name) c P_S_CONSTR_UNI)
          = cls.constraints.any fun c => marks_old env
            (attr_old_name.getD attr_def.attr_name) c P_S_CONSTR_UNI) :
    ∃ L, build_attr_change_map env ctemplate attr_def attr_old_name constraints a
        = (NO_ERROR, L) ∧ is_att_change_needed L = false := by
  generalize hn : attr_old_name.getD attr_def.attr_name = n at *
  unfold build_attr_change_map
  simp only [hn, hfind, hcur]
  -- the loop over the constraints of the class
  generalize hA2 : ((mark_attribute attr_def att
    (mark_name env attr_def attr_old_name a)).set P_S_CONSTR_UNI 0).set P_M_CONSTR_UNI 0 = A2
  have hsc := scan_class_constraints_spec env n cls.constraints A2
  rcases hsc3 : scan_class_constraints env n cls.constraints A2 with ⟨e3, A3⟩
  rw [hsc3] at hsc
  obtain ⟨he3, hp3, -, -, -⟩ := hsc
  simp only at he3 hp3
  subst he3
  simp only
  -- the entries before the loop over the requested constraints
  generalize hA4 : rename_in_saved_constraints env
    (Option.map (fun _ => attr_def.attr_name) attr_old_name) n A3 = A4
  have hp4 : ∀ i, A4.p i = A3.p i := by
    intro i
    rw [← hA4, rename_in_saved_constraints_p]
  have hname4 : A4.p P_NAME = ATT_CHG_PROPERTY_PRESENT_OLD ||| ATT_CHG_PROPERTY_UNCHANGED
      ∨ A4.p P_NAME = ATT_CHG_PROPERTY_PRESENT_OLD ||| ATT_CHG_PROPERTY_PRESENT_NEW
        ||| ATT_CHG_PROPERTY_UNCHANGED := by
    rw [hp4, hp3, any_marks_old_eq_false env n _ P_NAME (by decide), ← hA2]
    simp only [set_p, mark_attribute_p, mark_name_p]
    cases attr_old_name with
    | none => left; simp +decide
    | some old_name => right; simp +decide [hname old_name rfl]
  have hdiff4 : is_att_prop_set (A4.p P_NAME) ATT_CHG_PROPERTY_DIFF = false := by
    rcases hname4 with h | h <;> rw [h] <;> decide
  -- the loop over the requested constraints
  have hold4 : ∀ i, A4.p i = A2.p i ||| if (cls.constraints.any fun c =>
      marks_old env n c i) = true then ATT_CHG_PROPERTY_PRESENT_OLD else 0 := by
    intro i
    rw [hp4, hp3]
  have hne := scan_new_constraints_no_error env n
    (Option.map (fun _ => attr_def.attr_name) attr_old_name) constraints A4 (by
      rw [hdiff4]
      simp only [Bool.false_eq_true, if_false]
      intro i hi hany
      rw [hold4, ← hA2]
      rcases hi with h | h | h <;> subst h
      · rw [hpk] at hany
        rw [hany]
        simp +decide [set_p, mark_attribute_p, is_att_prop_set, ATT_CHG_PROPERTY_PRESENT_OLD]
      · rw [huni] at hany
        rw [hany]
        simp +decide [set_p, mark_attribute_p, is_att_prop_set, ATT_CHG_PROPERTY_PRESENT_OLD]
      · rw [hnn] at hany
        simp +decide [set_p, mark_attribute_p, is_att_prop_set, ATT_CHG_PROPERTY_PRESENT_OLD,
          hany, any_marks_old_eq_false])
  have hsn := scan_new_constraints_spec env n
    (Option.map (fun _ => attr_def.attr_name) attr_old_name) constraints A4 hne
  rcases hsn5 : scan_new_constraints env n
    (Option.map (fun _ => attr_def.attr_name) attr_old_name) constraints A4 with ⟨e5, A5⟩
  rw [hsn5] at hne hsn
  obtain ⟨hp5, -, -⟩ := hsn
  simp only at hne hp5
  subst hne
  rw [hdiff4] at hp5
  simp only [Bool.false_eq_true, if_false] at hp5
  simp only
  rw [mark_partition_key_not_key env ctemplate n A5 hpart]
  simp only
  rw [mark_domain_and_consolidate_exact env attr_def att _ d hdom hmatch]
  refine ⟨_, rfl, ?_⟩
  rw [is_att_change_needed_eq_false_iff]
  intro i
  subst hA2
  have hnone : attr_old_name = none ∨ ∃ old_name, attr_old_name = some old_name
      ∧ env.intl_identifier_casecmp old_name attr_def.attr_name = 0 := by
    cases attr_old_name with
    | none => exact Or.inl rfl
    | some old_name => exact Or.inr ⟨old_name, rfl, hname old_name rfl⟩
  rcases index_cases i with h | h | h | h | h | h | h | h | h | h | h | h | h | h | h <;>
    subst h <;>
    simp +decide only [special_cases_tail_p, or_p_p, consolidate_p, set_p, hp5, hold4,
      mark_attribute_p, mark_name_p, any_marks_old_eq_false, any_marks_new_eq_false,
      hidx.1, hidx.2, hmpk, hchk, hnn, hfk, hpk, huni, hdef_new, hdef_old.1, hdef_old.2.1,
      hdef_old.2.2, hai.1, hai.2, hord, if_true, if_false, Bool.false_eq_true, or_true,
      true_or, or_false, false_or, Option.isSome_none, Bool.not_true, Bool.or_self]
  · rcases hnone with h | ⟨old_name, h, hc⟩ <;> subst h
    · simp only
      decide
    · simp only [hc, if_true]
      decide
  · cases att.SM_ATTFLAG_NON_NULL <;> decide
  · generalize (cls.constraints.any fun c => marks_old env n c P_CONSTR_FK) = b
    cases att.SM_ATTFLAG_FOREIGN_KEY <;> cases b <;> decide
  · generalize (cls.constraints.any fun c => marks_old env n c P_S_CONSTR_PK) = b
    cases b <;> decide
  · generalize (cls.constraints.any fun c => marks_old env n c P_S_CONSTR_UNI) = b
    cases b <;> decide
  · generalize (cls.constraints.any fun c => marks_old env n c P_M_CONSTR_UNI) = b
    cases b <;> decide

/-- The head of `check_change_attribute` makes the ledger one of a class
attribute exactly for a definition of kind `PT_META_ATTR`. -/
theorem check_change_attribute_init_name_space (ctemplate : DB_CTMPL)
    (attribute_node : PT_ATTR_DEF) (a : SM_ATTR_PROP_CHG) :
    decide ((check_change_attribute_init ctemplate attribute_node a).name_space
        = ID_CLASS_ATTRIBUTE)
      = decide (attribute_node.attr_type = PT_META_ATTR) := by
  unfold check_change_attribute_init
  cases attribute_node.attr_type <;> simp only [] <;> split_ifs <;> simp_all

/-- On a ledger that needs no change the part of `check_change_attribute`
after the builder answers NotNeeded without calling the checker. -/
theorem check_change_attribute_on_map_not_needed (env : Env) (attr_name : String)
    (attribute_node : PT_ATTR_DEF) (L : SM_ATTR_PROP_CHG)
    (h : is_att_change_needed L = false) :
    check_change_attribute_on_map env attr_name attribute_node L
      = ⟨NO_ERROR, SM_ATTR_CHG_NOT_NEEDED, L, []⟩ := by
  have hc := is_att_property_structure_checked_of_not_needed L h
  unfold check_change_attribute_on_map
  simp [h, hc]

/-! ### Provenance of the denials -/

/-- The checker returns an error code with a value of `new_attempt` exactly
when its checks end with that denial. -/
theorem check_att_chg_allowed_denial_iff (strict : Bool) (att_name : String)
    (t : PT_TYPE_ENUM) (a : SM_ATTR_PROP_CHG) (chg_how : SM_ATTR_CHG_SOL) (log : Bool)
    (e : ErrorCode) (na : Bool) (he : e ≠ NO_ERROR) :
    ((check_att_chg_allowed strict att_name t a chg_how log).error = e ∧
      (check_att_chg_allowed strict att_name t a chg_how log).new_attempt = na) ↔
      check_att_chg_allowed_checks strict t a chg_how = .error (e, na) := by
  unfold check_att_chg_allowed
  cases h : check_att_chg_allowed_checks strict t a chg_how with
  | ok u =>
    simp only [reduceCtorEq, iff_false, not_and]
    intro h2
    exact absurd h2.symm he
  | error x =>
    obtain ⟨e2, na2⟩ := x
    simp

/-- The checker returns an error code exactly when its checks end with a
denial that carries it. -/
theorem check_att_chg_allowed_error_iff (strict : Bool) (att_name : String)
    (t : PT_TYPE_ENUM) (a : SM_ATTR_PROP_CHG) (chg_how : SM_ATTR_CHG_SOL) (log : Bool)
    (e : ErrorCode) (he : e ≠ NO_ERROR) :
    (check_att_chg_allowed strict att_name t a chg_how log).error = e ↔
      ∃ na, check_att_chg_allowed_checks strict t a chg_how = .error (e, na) := by
  constructor
  · intro h
    exact ⟨_, (check_att_chg_allowed_denial_iff strict att_name t a chg_how log e _ he).1
      ⟨h, rfl⟩⟩
  · rintro ⟨na, h⟩
    exact ((check_att_chg_allowed_denial_iff strict att_name t a chg_how log e na he).2 h).1

/-- A denial of the NOT NULL block carries one of three codes and resets
`new_attempt`. -/
theorem check_not_null_error (strict : Bool) (t : PT_TYPE_ENUM) (a : SM_ATTR_PROP_CHG)
    (e : ErrorCode) (na : Bool) (h : check_not_null strict t a = .error (e, na)) :
    (e = ER_SM_NOT_NULL_NOT_ALLOWED ∨ e = ER_SM_INVALID_CONSTRAINT
      ∨ e = ER_ALTER_CHANGE_HARD_DEFAULT_NOT_EXIST) ∧ na = false := by
  rw [check_not_null_eq] at h
  repeat' split at h
  all_goals first
    | (cases h; simp)
    | cases h

/-- A denial of the AUTO_INCREMENT block carries one of two codes. -/
theorem check_auto_incr_error (a : SM_ATTR_PROP_CHG) (chg_how : SM_ATTR_CHG_SOL)
    (e : ErrorCode) (na : Bool) (h : check_auto_incr a chg_how = .error (e, na)) :
    (e = ER_SM_INVALID_CONSTRAINT ∧ na = false)
      ∨ (e = ER_ALTER_CHANGE_TYPE_WITH_AUTO_INCR ∧ na = true) := by
  rw [check_auto_incr_eq] at h
  repeat' split at h
  all_goals first
    | (cases h; simp)
    | cases h

/-- A denial of the schema-only constraint block carries one of two codes. -/
theorem check_schema_only_constraints_error (a : SM_ATTR_PROP_CHG)
    (chg_how : SM_ATTR_CHG_SOL) (e : ErrorCode) (na : Bool)
    (h : check_schema_only_constraints a chg_how = .error (e, na)) :
    (e = ER_SM_INVALID_CONSTRAINT ∧ na = false)
      ∨ (e = ER_ALTER_CHANGE_TYPE_WITH_INDEX ∧ na = true) := by
  rw [check_schema_only_constraints_eq] at h
  repeat' split at h
  all_goals first
    | (cases h; simp)
    | cases h

/-- A denial of the multiple-primary-key block carries its code and resets
`new_attempt`. -/
theorem check_multiple_pk_error (a : SM_ATTR_PROP_CHG) (e : ErrorCode) (na : Bool)
    (h : check_multiple_pk a = .error (e, na)) :
    e = ER_ALTER_CHANGE_MULTIPLE_PK ∧ na = false := by
  rw [check_multiple_pk_eq] at h
  split at h
  · cases h; simp
  · cases h

/-- A denial of the subclass block carries its code and resets
`new_attempt`. -/
theorem check_subclasses_error (a : SM_ATTR_PROP_CHG) (e : ErrorCode) (na : Bool)
    (h : check_subclasses a = .error (e, na)) :
    e = ER_ALTER_CHANGE_CLASS_HIERARCHY ∧ na = false := by
  rw [check_subclasses_eq] at h
  split at h
  · cases h; simp
  · cases h

/-- The hard-default denial comes from the NOT NULL block only. -/
theorem check_att_chg_allowed_checks_hard_default_iff (strict : Bool) (t : PT_TYPE_ENUM)
    (a : SM_ATTR_PROP_CHG) (chg_how : SM_ATTR_CHG_SOL) (na : Bool) :
    check_att_chg_allowed_checks strict t a chg_how
        = .error (ER_ALTER_CHANGE_HARD_DEFAULT_NOT_EXIST, na) ↔
      check_partitions a = .ok () ∧ check_foreign_key a = .ok () ∧
      check_not_null strict t a = .error (ER_ALTER_CHANGE_HARD_DEFAULT_NOT_EXIST, na) := by
  rw [check_att_chg_allowed_checks_error_iff]
  constructor
  · rintro (h | ⟨h1, h | ⟨h2, h | ⟨-, h | ⟨-, h | ⟨-, h | ⟨-, h | ⟨-, h⟩⟩⟩⟩⟩⟩⟩)
    · rw [check_partitions_error_iff] at h; cases h.2
    · rw [check_foreign_key_error_iff] at h; cases h.2
    · exact ⟨h1, h2, h⟩
    · rcases check_auto_incr_error _ _ _ _ h with h | h <;> cases h.1
    · rcases check_type_change_error _ _ _ _ h with h | h | h <;> cases h
    · rcases check_schema_only_constraints_error _ _ _ _ h with h | h <;> cases h.1
    · cases (check_multiple_pk_error _ _ _ h).1
    · cases (check_subclasses_error _ _ _ h).1
  · rintro ⟨h1, h2, h3⟩
    exact Or.inr ⟨h1, Or.inr ⟨h2, Or.inl h3⟩⟩

/-- The types without a hard default are the ones outside the twenty for
which `get_hard_default_for_type` returns a text. -/
theorem get_hard_default_for_type_eq_none_iff (t : PT_TYPE_ENUM) :
    get_hard_default_for_type t = none ↔
      t ∉ [PT_TYPE_INTEGER, PT_TYPE_SMALLINT, PT_TYPE_BIGINT, PT_TYPE_NUMERIC, PT_TYPE_FLOAT,
        PT_TYPE_DOUBLE, PT_TYPE_MONETARY, PT_TYPE_TIMESTAMP, PT_TYPE_DATE, PT_TYPE_TIME,
        PT_TYPE_DATETIME, PT_TYPE_CHAR, PT_TYPE_VARCHAR, PT_TYPE_NCHAR, PT_TYPE_VARNCHAR,
        PT_TYPE_SET, PT_TYPE_MULTISET, PT_TYPE_SEQUENCE, PT_TYPE_BIT, PT_TYPE_VARBIT] := by
  cases t <;> simp [get_hard_default_for_type]

/-- Under permissive configuration, with partition-key and foreign-key
entries UNCHANGED and NOT NULL gained on an attribute that is not a class
attribute, of a type other than BLOB and CLOB, the checks end with the
hard-default denial exactly when the type has no hard default. -/
theorem check_att_chg_allowed_checks_hard_default_permissive (t : PT_TYPE_ENUM)
    (a : SM_ATTR_PROP_CHG) (chg_how : SM_ATTR_CHG_SOL) (na : Bool)
    (hpart : a.p P_IS_PARTITION_COL = ATT_CHG_PROPERTY_UNCHANGED)
    (hfk : a.p P_CONSTR_FK = ATT_CHG_PROPERTY_UNCHANGED)
    (hnn : is_att_prop_set (a.p P_NOT_NULL) ATT_CHG_PROPERTY_GAINED = true)
    (hns : a.name_space ≠ ID_CLASS_ATTRIBUTE)
    (ht : t ≠ PT_TYPE_BLOB ∧ t ≠ PT_TYPE_CLOB) :
    check_att_chg_allowed_checks false t a chg_how
        = .error (ER_ALTER_CHANGE_HARD_DEFAULT_NOT_EXIST, na) ↔
      (get_hard_default_for_type t = none ∧ na = false) := by
  have hblock : check_not_null false t a
      = .error (ER_ALTER_CHANGE_HARD_DEFAULT_NOT_EXIST, na) ↔
        (get_hard_default_for_type t = none ∧ na = false) := by
    rw [check_not_null_eq]
    by_cases hd : get_hard_default_for_type t = none <;> cases na <;>
      simp [hnn, ht.1, ht.2, hns, hd]
  rw [check_att_chg_allowed_checks_hard_default_iff, hblock]
  simp [(check_partitions_ok_iff a).2 hpart, (check_foreign_key_ok_iff a).2 hfk]

/-- Under strict configuration the checks never end with the hard-default
denial. -/
theorem check_att_chg_allowed_checks_hard_default_strict (t : PT_TYPE_ENUM)
    (a : SM_ATTR_PROP_CHG) (chg_how : SM_ATTR_CHG_SOL) (na : Bool) :
    check_att_chg_allowed_checks true t a chg_how
      ≠ .error (ER_ALTER_CHANGE_HARD_DEFAULT_NOT_EXIST, na) := by
  intro h2
  have h3 := ((check_att_chg_allowed_checks_hard_default_iff true t a chg_how na).1 h2).2.2
  rw [check_not_null_eq] at h3
  repeat' split at h3
  all_goals first
    | (rename_i hs; exact absurd hs.1 (by decide))
    | cases h3

/-- The blocks of the checker do not read the default-value entry: two
ledgers that differ only there get the same verdict. -/
theorem check_att_chg_allowed_checks_default_indep (strict : Bool) (t : PT_TYPE_ENUM)
    (a b : SM_ATTR_PROP_CHG) (chg_how : SM_ATTR_CHG_SOL)
    (hsame : ∀ i, i ≠ P_DEFAULT_VALUE → a.p i = b.p i)
    (hns : a.name_space = b.name_space)
    (hsub : a.class_has_subclass = b.class_has_subclass) :
    check_att_chg_allowed_checks strict t a chg_how
      = check_att_chg_allowed_checks strict t b chg_how := by
  unfold check_att_chg_allowed_checks check_partitions check_foreign_key check_not_null
    check_auto_incr check_type_change check_schema_only_constraints check_multiple_pk
    check_subclasses
  rw [hsame P_IS_PARTITION_COL (by decide), hsame P_CONSTR_FK (by decide),
    hsame P_NOT_NULL (by decide), hsame P_AUTO_INCR (by decide), hsame P_TYPE (by decide),
    hsame P_S_CONSTR_UNI (by decide), hsame P_S_CONSTR_PK (by decide),
    hsame P_M_CONSTR_UNI (by decide), hsame P_M_CONSTR_PK (by decide),
    hsame P_CONSTR_NON_UNI (by decide), hsame P_NAME (by decide), hsame P_ORDER (by decide),
    hsame P_CONSTR_CHECK (by decide), hsame P_DEFFERABLE (by decide), hns, hsub]

/-- The multiple-primary-key block denies whenever a single-column and a
multi-column primary key are both present. -/
theorem check_multiple_pk_of_both (a : SM_ATTR_PROP_CHG)
    (hs : is_att_prop_set (a.p P_S_CONSTR_PK) ATT_CHG_PROPERTY_PRESENT_OLD = true
      ∨ is_att_prop_set (a.p P_S_CONSTR_PK) ATT_CHG_PROPERTY_PRESENT_NEW = true)
    (hm : is_att_prop_set (a.p P_M_CONSTR_PK) ATT_CHG_PROPERTY_PRESENT_OLD = true
      ∨ is_att_prop_set (a.p P_M_CONSTR_PK) ATT_CHG_PROPERTY_PRESENT_NEW = true) :
    check_multiple_pk a = .error (ER_ALTER_CHANGE_MULTIPLE_PK, false) := by
  rw [check_multiple_pk_eq]
  rcases hs with hs | hs <;> rcases hm with hm | hm <;> simp [hs, hm]

/-- A ledger with an entry that lacks UNCHANGED needs a change. -/
theorem is_att_change_needed_of_not_unchanged (a : SM_ATTR_PROP_CHG)
    (i : Fin NUM_ATT_CHG_PROP)
    (h : is_att_prop_set (a.p i) ATT_CHG_PROPERTY_UNCHANGED = false) :
    is_att_change_needed a = true := by
  unfold is_att_change_needed
  rw [List.any_eq_true]
  exact ⟨i, List.mem_finRange _, by simp [h]⟩

/-- When the checker denies at every strategy, the part of
`check_change_attribute` after the builder grants no strategy: it returns an
error unless it takes the no-change shortcut. -/
theorem check_change_attribute_on_map_of_denied (env : Env) (attr_name : String)
    (attribute_node : PT_ATTR_DEF) (a : SM_ATTR_PROP_CHG)
    (h : ∀ m l, (check_att_chg_allowed env.PRM_ALTER_TABLE_CHANGE_TYPE_STRICT attr_name
      attribute_node.type_enum a m l).error ≠ NO_ERROR) :
    ((check_change_attribute_on_map env attr_name attribute_node a).error = NO_ERROR →
        (check_change_attribute_on_map env attr_name attribute_node a).change_mode
          = SM_ATTR_CHG_NOT_NEEDED ∧ is_att_change_needed a = false) ∧
      (is_att_change_needed a = true →
        (check_change_attribute_on_map env attr_name attribute_node a).error ≠ NO_ERROR) := by
  have hesc := check_change_attribute_escalate_error env attr_name
    attribute_node.type_enum a h
  unfold check_change_attribute_on_map
  cases hn : is_att_change_needed a
  · split
    · simp
    · simp
  · split
    · simp
    · simp only [Bool.not_true, Bool.false_eq_true, if_false]
      split
      · simp
      · exact ⟨fun h2 => absurd h2 hesc, fun _ => hesc⟩

/-! ### The subclass and AUTO_INCREMENT blocks -/

/-- A word below a non-zero flag does not carry it. -/
theorem is_att_prop_set_of_lt (p f : Nat) (h : p < f) : is_att_prop_set p f = false := by
  cases hs : is_att_prop_set p f
  · rfl
  · exact absurd (le_of_is_att_prop_set p f hs) (by omega)

/-- The subclass block denies a ledger of a class with subclasses in which one
of the nine entries it reads lacks UNCHANGED. -/
theorem check_subclasses_of_changed (a : SM_ATTR_PROP_CHG)
    (hsub : a.class_has_subclass = true) (i : Fin NUM_ATT_CHG_PROP)
    (hi : i ∈ [P_NAME, P_ORDER, P_TYPE, P_NOT_NULL, P_CONSTR_CHECK, P_DEFFERABLE,
      P_AUTO_INCR, P_S_CONSTR_PK, P_S_CONSTR_UNI])
    (h : is_att_prop_set (a.p i) ATT_CHG_PROPERTY_UNCHANGED = false) :
    check_subclasses a = .error (ER_ALTER_CHANGE_CLASS_HIERARCHY, false) := by
  rw [check_subclasses_eq]
  simp only [List.mem_cons, List.mem_singleton, List.not_mem_nil, or_false] at hi
  rcases hi with rfl | rfl | rfl | rfl | rfl | rfl | rfl | rfl | rfl <;> simp [hsub, h]

/-- The subclass block passes when the class has no subclasses or the nine
entries it reads carry UNCHANGED. -/
theorem check_subclasses_ok (a : SM_ATTR_PROP_CHG)
    (h : a.class_has_subclass = true →
      ∀ i ∈ [P_NAME, P_ORDER, P_TYPE, P_NOT_NULL, P_CONSTR_CHECK, P_DEFFERABLE,
        P_AUTO_INCR, P_S_CONSTR_PK, P_S_CONSTR_UNI],
      is_att_prop_set (a.p i) ATT_CHG_PROPERTY_UNCHANGED = true) :
    check_subclasses a = .ok () := by
  rw [check_subclasses_eq]
  cases hsub : a.class_has_subclass
  · simp
  · have h2 := h hsub
    simp [h2 P_NAME (by simp), h2 P_ORDER (by simp), h2 P_TYPE (by simp),
      h2 P_NOT_NULL (by simp), h2 P_CONSTR_CHECK (by simp), h2 P_DEFFERABLE (by simp),
      h2 P_AUTO_INCR (by simp), h2 P_S_CONSTR_PK (by simp), h2 P_S_CONSTR_UNI (by simp)]

/-- The type block passes at every strategy on a type entry below DIFF. -/
theorem check_type_change_of_lt (a : SM_ATTR_PROP_CHG) (chg_how : SM_ATTR_CHG_SOL)
    (h : a.p P_TYPE < ATT_CHG_PROPERTY_DIFF) : check_type_change a chg_how = .ok () := by
  have h1 := is_att_prop_set_of_lt (a.p P_TYPE) ATT_CHG_TYPE_NOT_SUPPORTED
    (lt_trans h (by decide))
  have h2 := is_att_prop_set_of_lt (a.p P_TYPE) ATT_CHG_TYPE_NOT_SUPPORTED_WITH_CFG
    (lt_trans h (by decide))
  have h3 := is_att_prop_set_of_lt (a.p P_TYPE) ATT_CHG_TYPE_NEED_ROW_CHECK
    (lt_trans h (by decide))
  have h4 := is_att_prop_set_of_lt (a.p P_TYPE) ATT_CHG_TYPE_PSEUDO_UPGRADE
    (lt_trans h (by decide))
  have h5 := is_att_prop_set_of_lt (a.p P_TYPE) ATT_CHG_TYPE_UPGRADE
    (lt_trans h (by decide))
  have h6 := is_att_prop_set_of_lt (a.p P_TYPE) ATT_CHG_PROPERTY_DIFF h
  unfold check_type_change
  simp only [h1, h2, h3, h4, h5, h6, Bool.false_eq_true, if_false, Bool.or_self,
    Bool.false_and, pure, Except.pure]
  split_ifs <;> rfl

/-- The checks pass at SchemaOnly on a ledger in which only the default value
may be changed: partition-key and foreign-key entries exactly UNCHANGED, every
entry but the default-value one carrying UNCHANGED, below DIFF and without
GAINED, not both primary keys present, and no single-column UNIQUE or PRIMARY
KEY in the new definition of a class or shared attribute. -/
theorem check_att_chg_allowed_checks_default_only (strict : Bool) (t : PT_TYPE_ENUM)
    (a : SM_ATTR_PROP_CHG)
    (hpart : a.p P_IS_PARTITION_COL = ATT_CHG_PROPERTY_UNCHANGED)
    (hfk : a.p P_CONSTR_FK = ATT_CHG_PROPERTY_UNCHANGED)
    (hrest : ∀ i, i ≠ P_DEFAULT_VALUE →
      is_att_prop_set (a.p i) ATT_CHG_PROPERTY_UNCHANGED = true
        ∧ a.p i < ATT_CHG_PROPERTY_DIFF
        ∧ is_att_prop_set (a.p i) ATT_CHG_PROPERTY_GAINED = false)
    (hpk : check_multiple_pk a = .ok ())
    (hcls : a.name_space = ID_ATTRIBUTE
      ∨ (is_att_prop_set (a.p P_S_CONSTR_UNI) ATT_CHG_PROPERTY_PRESENT_NEW = false
        ∧ is_att_prop_set (a.p P_S_CONSTR_PK) ATT_CHG_PROPERTY_PRESENT_NEW = false)) :
    check_att_chg_allowed_checks strict t a SM_ATTR_CHG_ONLY_SCHEMA = .ok () := by
  rw [check_att_chg_allowed_checks_ok_iff]
  have hdiff := is_att_prop_set_of_lt (a.p P_TYPE) ATT_CHG_PROPERTY_DIFF
    (hrest P_TYPE (by decide)).2.1
  refine ⟨(check_partitions_ok_iff a).2 hpart, (check_foreign_key_ok_iff a).2 hfk, ?_, ?_,
    check_type_change_of_lt a _ (hrest P_TYPE (by decide)).2.1, ?_, hpk, ?_⟩
  · rw [check_not_null_eq]
    simp [(hrest P_NOT_NULL (by decide)).2.2]
  · rw [check_auto_incr_eq]
    simp [(hrest P_AUTO_INCR (by decide)).2.2]
  · rw [check_schema_only_constraints_eq]
    rcases hcls with h | ⟨h1, h2⟩
    · simp [h, hdiff]
    · simp [h1, h2, hdiff]
  · apply check_subclasses_ok
    intro _ i hi
    refine (hrest i ?_).1
    simp only [List.mem_cons, List.mem_singleton, List.not_mem_nil, or_false] at hi
    rcases hi with rfl | rfl | rfl | rfl | rfl | rfl | rfl | rfl | rfl <;> decide

/-- The denial for a type change together with a gained AUTO_INCREMENT comes
from the AUTO_INCREMENT block only. -/
theorem check_att_chg_allowed_checks_auto_incr_iff (strict : Bool) (t : PT_TYPE_ENUM)
    (a : SM_ATTR_PROP_CHG) (chg_how : SM_ATTR_CHG_SOL) (na : Bool) :
    check_att_chg_allowed_checks strict t a chg_how
        = .error (ER_ALTER_CHANGE_TYPE_WITH_AUTO_INCR, na) ↔
      check_partitions a = .ok () ∧ check_foreign_key a = .ok () ∧
      check_not_null strict t a = .ok () ∧
      check_auto_incr a chg_how = .error (ER_ALTER_CHANGE_TYPE_WITH_AUTO_INCR, na) := by
  rw [check_att_chg_allowed_checks_error_iff]
  constructor
  · rintro (h | ⟨h1, h | ⟨h2, h | ⟨h3, h | ⟨-, h | ⟨-, h | ⟨-, h | ⟨-, h⟩⟩⟩⟩⟩⟩⟩)
    · rw [check_partitions_error_iff] at h; cases h.2
    · rw [check_foreign_key_error_iff] at h; cases h.2
    · rcases (check_not_null_error _ _ _ _ _ h).1 with h | h | h <;> cases h
    · exact ⟨h1, h2, h3, h⟩
    · rcases check_type_change_error _ _ _ _ h with h | h | h <;> cases h
    · rcases check_schema_only_constraints_error _ _ _ _ h with h | h <;> cases h.1
    · cases (check_multiple_pk_error _ _ _ h).1
    · cases (check_subclasses_error _ _ _ h).1
  · rintro ⟨h1, h2, h3, h4⟩
    exact Or.inr ⟨h1, Or.inr ⟨h2, Or.inr ⟨h3, Or.inl h4⟩⟩⟩

/-- The AUTO_INCREMENT block denies a type change exactly at SchemaOnly, when
AUTO_INCREMENT is gained on an attribute that is neither a class nor a shared
one and the type entry has DIFF; it leaves `new_attempt` true. -/
theorem check_auto_incr_type_iff (a : SM_ATTR_PROP_CHG) (chg_how : SM_ATTR_CHG_SOL)
    (na : Bool) :
    check_auto_incr a chg_how = .error (ER_ALTER_CHANGE_TYPE_WITH_AUTO_INCR, na) ↔
      chg_how = SM_ATTR_CHG_ONLY_SCHEMA ∧
      is_att_prop_set (a.p P_AUTO_INCR) ATT_CHG_PROPERTY_GAINED = true ∧
      a.name_space ≠ ID_CLASS_ATTRIBUTE ∧ a.name_space ≠ ID_SHARED_ATTRIBUTE ∧
      is_att_prop_set (a.p P_TYPE) ATT_CHG_PROPERTY_DIFF = true ∧ na = true := by
  rw [check_auto_incr_eq]
  cases is_att_prop_set (a.p P_AUTO_INCR) ATT_CHG_PROPERTY_GAINED <;>
    cases is_att_prop_set (a.p P_TYPE) ATT_CHG_PROPERTY_DIFF <;>
    by_cases h1 : a.name_space = ID_CLASS_ATTRIBUTE <;>
    by_cases h2 : a.name_space = ID_SHARED_ATTRIBUTE <;>
    by_cases h3 : chg_how = SM_ATTR_CHG_ONLY_SCHEMA <;> cases na <;> simp [h1, h2, h3]

/-! ### Class and shared attributes -/

/-- A word that lacks PRESENT_OLD lacks the pair PRESENT_OLD | PRESENT_NEW. -/
theorem is_att_prop_set_old_new_of_old (p : Nat)
    (h : is_att_prop_set p ATT_CHG_PROPERTY_PRESENT_OLD = false) :
    is_att_prop_set p (ATT_CHG_PROPERTY_PRESENT_OLD ||| ATT_CHG_PROPERTY_PRESENT_NEW)
      = false := by
  cases hs : is_att_prop_set p (ATT_CHG_PROPERTY_PRESENT_OLD ||| ATT_CHG_PROPERTY_PRESENT_NEW)
  · rfl
  · exfalso
    unfold is_att_prop_set ATT_CHG_PROPERTY_PRESENT_OLD ATT_CHG_PROPERTY_PRESENT_NEW at *
    simp only [beq_iff_eq, beq_eq_false_iff_ne, ne_eq] at h hs
    apply h
    have h3 : (1 ||| 2 : Nat) = 3 := by decide
    rw [h3] at hs
    have e : (3 &&& 1 : Nat) = 1 := by decide
    have : p &&& 1 = (p &&& 3) &&& 1 := by
      rw [Nat.and_assoc, e]
    rw [this, hs, e]

/-- The schema-only constraint block passes at SchemaOnly when none of the
entries for UNIQUE, PRIMARY KEY and the non-unique index is present on either
side. -/
theorem check_schema_only_constraints_of_absent (a : SM_ATTR_PROP_CHG)
    (chg_how : SM_ATTR_CHG_SOL)
    (hidx : ∀ i ∈ [P_S_CONSTR_UNI, P_M_CONSTR_UNI, P_S_CONSTR_PK, P_M_CONSTR_PK,
        P_CONSTR_NON_UNI],
      is_att_prop_set (a.p i) ATT_CHG_PROPERTY_PRESENT_OLD = false
        ∧ is_att_prop_set (a.p i) ATT_CHG_PROPERTY_PRESENT_NEW = false) :
    check_schema_only_constraints a chg_how = .ok () := by
  rw [check_schema_only_constraints_eq]
  have h1 := hidx P_S_CONSTR_UNI (by simp)
  have h2 := hidx P_M_CONSTR_UNI (by simp)
  have h3 := hidx P_S_CONSTR_PK (by simp)
  have h5 := hidx P_CONSTR_NON_UNI (by simp)
  simp [h1.1, h1.2, h2.1, h3.1, h3.2, h5.1, is_att_prop_set_old_new_of_old _ h1.1,
    is_att_prop_set_old_new_of_old _ h3.1]

/-- The checks pass at SchemaOnly on an attribute that is not a plain one when
no block other than the type block denies and the type entry lacks the two
not-supported flags. -/
theorem check_att_chg_allowed_checks_not_plain (strict : Bool) (t : PT_TYPE_ENUM)
    (a : SM_ATTR_PROP_CHG)
    (hns : a.name_space ≠ ID_ATTRIBUTE)
    (hpart : a.p P_IS_PARTITION_COL = ATT_CHG_PROPERTY_UNCHANGED)
    (hfk : a.p P_CONSTR_FK = ATT_CHG_PROPERTY_UNCHANGED)
    (hnn : check_not_null strict t a = .ok ())
    (hai : is_att_prop_set (a.p P_AUTO_INCR) ATT_CHG_PROPERTY_GAINED = false)
    (hidx : ∀ i ∈ [P_S_CONSTR_UNI, P_M_CONSTR_UNI, P_S_CONSTR_PK, P_M_CONSTR_PK,
        P_CONSTR_NON_UNI],
      is_att_prop_set (a.p i) ATT_CHG_PROPERTY_PRESENT_OLD = false
        ∧ is_att_prop_set (a.p i) ATT_CHG_PROPERTY_PRESENT_NEW = false)
    (hsub : check_subclasses a = .ok ())
    (hns1 : is_att_prop_set (a.p P_TYPE) ATT_CHG_TYPE_NOT_SUPPORTED = false)
    (hns2 : is_att_prop_set (a.p P_TYPE) ATT_CHG_TYPE_NOT_SUPPORTED_WITH_CFG = false) :
    check_att_chg_allowed_checks strict t a SM_ATTR_CHG_ONLY_SCHEMA = .ok () := by
  rw [check_att_chg_allowed_checks_ok_iff]
  refine ⟨(check_partitions_ok_iff a).2 hpart, (check_foreign_key_ok_iff a).2 hfk, hnn, ?_,
    ?_, check_schema_only_constraints_of_absent a _ hidx, ?_, hsub⟩
  · rw [check_auto_incr_eq]
    simp [hai]
  · rw [check_type_change_only_schema_not_plain a hns]
    simp [hns1, hns2]
  · rw [check_multiple_pk_eq]
    simp [(hidx P_S_CONSTR_PK (by simp)).1, (hidx P_S_CONSTR_PK (by simp)).2]

/-! ### The type compatibility matrix -/

set_option maxHeartbeats 4000000 in
/-- The nested `switch` ORs nothing exactly for two OBJECT domains of the same
class; in every other case it ORs one of the flags SET_CLS_COMPAT, UPGRADE,
NEED_ROW_CHECK, PSEUDO_UPGRADE, NOT_SUPPORTED_WITH_CFG and NOT_SUPPORTED. -/
theorem type_change_flag_cases (env : Env) (curr_domain req_domain : TP_DOMAIN) :
    (curr_domain.type = DB_TYPE_OBJECT ∧ req_domain.type = DB_TYPE_OBJECT
        ∧ req_domain.class_mop = curr_domain.class_mop
        ∧ type_change_flag env curr_domain req_domain = none) ∨
    (¬(curr_domain.type = DB_TYPE_OBJECT ∧ req_domain.type = DB_TYPE_OBJECT
        ∧ req_domain.class_mop = curr_domain.class_mop) ∧
      ∃ flag ∈ [ATT_CHG_TYPE_SET_CLS_COMPAT, ATT_CHG_TYPE_UPGRADE,
          ATT_CHG_TYPE_NEED_ROW_CHECK, ATT_CHG_TYPE_PSEUDO_UPGRADE,
          ATT_CHG_TYPE_NOT_SUPPORTED_WITH_CFG, ATT_CHG_TYPE_NOT_SUPPORTED],
        type_change_flag env curr_domain req_domain = some flag) := by
  obtain ⟨ct, cp, cs, cm⟩ := curr_domain
  obtain ⟨rt, rp, rs, rm⟩ := req_domain
  cases ct <;> cases rt <;> simp only [type_change_flag, TP_DOMAIN_TYPE] <;>
    first
    | (right; refine ⟨by simp, ?_⟩; simp; done)
    | (right; refine ⟨by simp, ?_⟩; split_ifs <;> simp; done)
    | skip
  by_cases h : rm = cm
  · left
    simp [h]
  · right
    refine ⟨by simp [h], ?_⟩
    by_cases h2 : env.db_is_subclass cm rm = 0 <;> simp [h, h2]

set_option maxHeartbeats 4000000 in
/-- The assertions of `build_att_type_change_map` hold exactly when a requested
VARCHAR or VARNCHAR precision is the maximum one, the floating one or not
negative, a current character or bit type is not changed to itself, and two
OBJECT domains refer to two different classes. -/
theorem build_att_type_change_map_asserts_iff (env : Env) (db_is_class : Option Nat → Int)
    (curr_domain req_domain : TP_DOMAIN) :
    build_att_type_change_map_asserts env db_is_class curr_domain req_domain = true ↔
      (req_domain.type = DB_TYPE_VARCHAR →
        req_domain.precision = env.DB_MAX_VARCHAR_PRECISION
          ∨ req_domain.precision = env.TP_FLOATING_PRECISION_VALUE
          ∨ 0 ≤ req_domain.precision) ∧
      (req_domain.type = DB_TYPE_VARNCHAR →
        req_domain.precision = env.DB_MAX_VARNCHAR_PRECISION
          ∨ req_domain.precision = env.TP_FLOATING_PRECISION_VALUE
          ∨ 0 ≤ req_domain.precision) ∧
      (curr_domain.type ∈ [DB_TYPE_CHAR, DB_TYPE_VARCHAR, DB_TYPE_NCHAR, DB_TYPE_VARNCHAR,
          DB_TYPE_BIT, DB_TYPE_VARBIT] → req_domain.type ≠ curr_domain.type) ∧
      (curr_domain.type = DB_TYPE_OBJECT → req_domain.type = DB_TYPE_OBJECT →
        db_is_class curr_domain.class_mop ≠ 0 ∧ db_is_class req_domain.class_mop ≠ 0
          ∧ req_domain.class_mop ≠ curr_domain.class_mop) := by
  obtain ⟨ct, cp, cs, cm⟩ := curr_domain
  obtain ⟨rt, rp, rs, rm⟩ := req_domain
  cases ct <;> cases rt <;>
    (simp [build_att_type_change_map_asserts, TP_DOMAIN_TYPE]; try tauto)

/-- A single-bit flag is set in a word exactly when the bit is. -/
theorem is_att_prop_set_two_pow (y k : Nat) : is_att_prop_set y (2 ^ k) = y.testBit k := by
  unfold is_att_prop_set
  rw [Nat.and_two_pow]
  have h : (2 : Nat) ^ k ≠ 0 := by positivity
  cases y.testBit k
  · simp [h.symm]
  · simp

/-- After a single-bit flag is ORed into a word that lies below another
single-bit flag, the latter is set exactly when it is the flag ORed. -/
theorem is_att_prop_set_or_two_pow (x j k : Nat) (hx : x < 2 ^ k) :
    is_att_prop_set (x ||| 2 ^ j) (2 ^ k) = decide (2 ^ k = 2 ^ j) := by
  rw [is_att_prop_set_two_pow, Nat.testBit_or, Nat.testBit_lt_two_pow hx, Nat.testBit_two_pow]
  by_cases h : j = k
  · subst h
    simp
  · have h2 : (2 : Nat) ^ k ≠ 2 ^ j := fun e =>
      h (Nat.pow_right_injective (le_refl 2) e).symm
    simp [h, h2]

/-- The seven type-class flags are single bits from bit 8 on. -/
theorem type_class_flag_two_pow (g : Nat)
    (hg : g ∈ [ATT_CHG_TYPE_PREC_INCR, ATT_CHG_TYPE_SET_CLS_COMPAT, ATT_CHG_TYPE_UPGRADE,
      ATT_CHG_TYPE_NEED_ROW_CHECK, ATT_CHG_TYPE_PSEUDO_UPGRADE,
      ATT_CHG_TYPE_NOT_SUPPORTED_WITH_CFG, ATT_CHG_TYPE_NOT_SUPPORTED]) :
    ∃ k, 8 ≤ k ∧ g = 2 ^ k := by
  simp only [List.mem_cons, List.mem_singleton, List.not_mem_nil, or_false] at hg
  rcases hg with rfl | rfl | rfl | rfl | rfl | rfl | rfl
  · exact ⟨8, by decide, rfl⟩
  · exact ⟨9, by decide, rfl⟩
  · exact ⟨10, by decide, rfl⟩
  · exact ⟨11, by decide, rfl⟩
  · exact ⟨12, by decide, rfl⟩
  · exact ⟨13, by decide, rfl⟩
  · exact ⟨14, by decide, rfl⟩

/-- After one of the seven type-class flags is ORed into a type entry that
carried none of them (an entry below PREC_INCR), the entry carries that flag
and no other of the seven. -/
theorem is_att_prop_set_or_type_class_flag (x flag g : Nat)
    (hx : x < ATT_CHG_TYPE_PREC_INCR)
    (hflag : flag ∈ [ATT_CHG_TYPE_PREC_INCR, ATT_CHG_TYPE_SET_CLS_COMPAT,
      ATT_CHG_TYPE_UPGRADE, ATT_CHG_TYPE_NEED_ROW_CHECK, ATT_CHG_TYPE_PSEUDO_UPGRADE,
      ATT_CHG_TYPE_NOT_SUPPORTED_WITH_CFG, ATT_CHG_TYPE_NOT_SUPPORTED])
    (hg : g ∈ [ATT_CHG_TYPE_PREC_INCR, ATT_CHG_TYPE_SET_CLS_COMPAT,
      ATT_CHG_TYPE_UPGRADE, ATT_CHG_TYPE_NEED_ROW_CHECK, ATT_CHG_TYPE_PSEUDO_UPGRADE,
      ATT_CHG_TYPE_NOT_SUPPORTED_WITH_CFG, ATT_CHG_TYPE_NOT_SUPPORTED]) :
    is_att_prop_set (x ||| flag) g = decide (g = flag) := by
  obtain ⟨j, -, rfl⟩ := type_class_flag_two_pow flag hflag
  obtain ⟨k, hk, rfl⟩ := type_class_flag_two_pow g hg
  apply is_att_prop_set_or_two_pow
  have h8 : ATT_CHG_TYPE_PREC_INCR = 2 ^ 8 := rfl
  rw [h8] at hx
  exact lt_of_lt_of_le hx (Nat.pow_le_pow_right (by decide) hk)

/-- The type entry after `build_att_type_change_map` ORed a flag. -/
theorem or_type_p_type (a : SM_ATTR_PROP_CHG) (flag : Nat) :
    (or_type a flag).p P_TYPE = a.p P_TYPE ||| flag := rfl

set_option maxHeartbeats 4000000 in
/-- A new type without `case` label of its own under the current type takes a
`default` branch, which ORs NOT_SUPPORTED. -/
theorem type_change_flag_default (env : Env) (curr_domain req_domain : TP_DOMAIN)
    (h : req_domain.type ∉ explicit_cases curr_domain.type) :
    type_change_flag env curr_domain req_domain = some ATT_CHG_TYPE_NOT_SUPPORTED := by
  obtain ⟨ct, cp, cs, cm⟩ := curr_domain
  obtain ⟨rt, rp, rs, rm⟩ := req_domain
  cases ct <;> cases rt <;>
    first
    | rfl
    | (exfalso; revert h; simp [explicit_cases])

/-- A current type other than the eighteen that have a `case` label has no
explicit case. -/
theorem explicit_cases_eq_nil (t : DB_TYPE)
    (h : t ∉ [DB_TYPE_SHORT, DB_TYPE_INTEGER, DB_TYPE_BIGINT, DB_TYPE_NUMERIC,
      DB_TYPE_FLOAT, DB_TYPE_DOUBLE, DB_TYPE_MONETARY, DB_TYPE_TIME, DB_TYPE_DATE,
      DB_TYPE_DATETIME, DB_TYPE_TIMESTAMP, DB_TYPE_CHAR, DB_TYPE_VARCHAR, DB_TYPE_NCHAR,
      DB_TYPE_VARNCHAR, DB_TYPE_BIT, DB_TYPE_VARBIT, DB_TYPE_OBJECT]) :
    explicit_cases t = [] := by
  cases t <;> first | rfl | (exfalso; revert h; simp)

/-! ### Numeric conversions of the matrix -/

/-- The requested precision is normalised for a VARCHAR or VARNCHAR request
only. -/
theorem req_prec_and_max_other (env : Env) (new_type : DB_TYPE) (req_prec : Int)
    (h1 : new_type ≠ DB_TYPE_VARCHAR) (h2 : new_type ≠ DB_TYPE_VARNCHAR) :
    req_prec_and_max env new_type req_prec = (req_prec, false) := by
  unfold req_prec_and_max
  simp [h1, h2]

/-- The class of an integer type changed to NUMERIC. -/
theorem type_change_flag_integer_to_numeric (env : Env) (cp cs : Int) (cm : Option Nat)
    (rp rs : Int) (rm : Option Nat) :
    type_change_flag env ⟨DB_TYPE_SHORT, cp, cs, cm⟩ ⟨DB_TYPE_NUMERIC, rp, rs, rm⟩
        = (if rp - rs ≥ env.TP_SMALLINT_PRECISION then some ATT_CHG_TYPE_UPGRADE
          else some ATT_CHG_TYPE_NEED_ROW_CHECK) ∧
      type_change_flag env ⟨DB_TYPE_INTEGER, cp, cs, cm⟩ ⟨DB_TYPE_NUMERIC, rp, rs, rm⟩
        = (if rp - rs ≥ env.TP_INTEGER_PRECISION then some ATT_CHG_TYPE_UPGRADE
          else some ATT_CHG_TYPE_NEED_ROW_CHECK) ∧
      type_change_flag env ⟨DB_TYPE_BIGINT, cp, cs, cm⟩ ⟨DB_TYPE_NUMERIC, rp, rs, rm⟩
        = (if rp - rs ≥ env.TP_BIGINT_PRECISION then some ATT_CHG_TYPE_UPGRADE
          else some ATT_CHG_TYPE_NEED_ROW_CHECK) :=
  ⟨rfl, rfl, rfl⟩

/-- The class of NUMERIC changed to an integer type. -/
theorem type_change_flag_numeric_to_integer (env : Env) (cp cs : Int) (cm : Option Nat)
    (rp rs : Int) (rm : Option Nat) :
    type_change_flag env ⟨DB_TYPE_NUMERIC, cp, cs, cm⟩ ⟨DB_TYPE_SHORT, rp, rs, rm⟩
        = (if cp < env.TP_SMALLINT_PRECISION ∧ cs = 0 then some ATT_CHG_TYPE_UPGRADE
          else some ATT_CHG_TYPE_NEED_ROW_CHECK) ∧
      type_change_flag env ⟨DB_TYPE_NUMERIC, cp, cs, cm⟩ ⟨DB_TYPE_INTEGER, rp, rs, rm⟩
        = (if cp < env.TP_INTEGER_PRECISION ∧ cs = 0 then some ATT_CHG_TYPE_UPGRADE
          else some ATT_CHG_TYPE_NEED_ROW_CHECK) ∧
      type_change_flag env ⟨DB_TYPE_NUMERIC, cp, cs, cm⟩ ⟨DB_TYPE_BIGINT, rp, rs, rm⟩
        = (if cp < env.TP_BIGINT_PRECISION ∧ cs = 0 then some ATT_CHG_TYPE_UPGRADE
          else some ATT_CHG_TYPE_NEED_ROW_CHECK) :=
  ⟨rfl, rfl, rfl⟩

/-- A case of the nested `switch` that ORs one of two flags according to a
test: the result of `build_att_type_change_map` and when which flag is ORed. -/
theorem build_att_type_change_map_of_ite (env : Env) (curr_domain req_domain : TP_DOMAIN)
    (a : SM_ATTR_PROP_CHG) (p : Prop) [Decidable p] (x y : Nat) (hxy : x ≠ y)
    (h : type_change_flag env curr_domain req_domain = if p then some x else some y) :
    build_att_type_change_map env curr_domain req_domain a
        = (NO_ERROR, or_type a (if p then x else y)) ∧
      (type_change_flag env curr_domain req_domain = some x ↔ p) ∧
      (type_change_flag env curr_domain req_domain = some y ↔ ¬p) := by
  unfold build_att_type_change_map
  rw [h]
  by_cases hp : p <;> simp [hp, hxy, hxy.symm]

/-- The powers of ten grow with the exponent. -/
theorem ten_pow_le_of_le (m : Nat) (n : Int) (h : (m : Int) ≤ n) :
    (10 : Int) ^ m ≤ 10 ^ n.toNat := by
  apply pow_le_pow_right₀ (by norm_num)
  omega

/-- The powers of ten up to a bound on the exponent. -/
theorem ten_pow_le_of_lt (m : Nat) (n : Int) (h : n < (m : Int) + 1) :
    (10 : Int) ^ n.toNat ≤ 10 ^ m := by
  apply pow_le_pow_right₀ (by norm_num)
  omega

/-! ### Character and temporal conversions of the matrix -/

/-- The requested precision is replaced only when it is the floating-precision
value. -/
theorem req_prec_and_max_fst (env : Env) (new_type : DB_TYPE) (req_prec : Int)
    (h : req_prec ≠ env.TP_FLOATING_PRECISION_VALUE) :
    (req_prec_and_max env new_type req_prec).1 = req_prec := by
  unfold req_prec_and_max
  split_ifs <;> simp_all

/-! ### Precision changes within a character or bit family -/

/-- A flag that has just been ORed into a word is set in it. -/
theorem is_att_prop_set_or_self (x f : Nat) : is_att_prop_set (x ||| f) f = true := by
  unfold is_att_prop_set
  have : (x ||| f) &&& f = f := by
    apply Nat.eq_of_testBit_eq
    intro i
    simp only [Nat.testBit_and, Nat.testBit_or]
    cases x.testBit i <;> cases f.testBit i <;> rfl
  rw [this]
  simp

/-- The type block denies at every strategy a type entry that carries
NOT_SUPPORTED_WITH_CFG. -/
theorem check_att_chg_allowed_of_not_supported_with_cfg (strict : Bool) (attr_name : String)
    (t : PT_TYPE_ENUM) (L : SM_ATTR_PROP_CHG) (m : SM_ATTR_CHG_SOL) (l : Bool)
    (h : is_att_prop_set (L.p P_TYPE) ATT_CHG_TYPE_NOT_SUPPORTED_WITH_CFG = true) :
    (check_att_chg_allowed strict attr_name t L m l).error ≠ NO_ERROR := by
  intro hok
  rw [check_att_chg_allowed_no_error_iff, check_att_chg_allowed_checks_ok_iff] at hok
  have hty := hok.2.2.2.2.1
  cases hns : is_att_prop_set (L.p P_TYPE) ATT_CHG_TYPE_NOT_SUPPORTED
  · rw [(check_type_change_not_supported L m).2 hns h] at hty
    cases hty
  · rw [(check_type_change_not_supported L m).1 hns] at hty
    cases hty

/-- The nested `switch` never ORs PREC_INCR: that flag is set by the caller
only. -/
theorem type_change_flag_ne_prec_incr (env : Env) (curr_domain req_domain : TP_DOMAIN) :
    type_change_flag env curr_domain req_domain ≠ some ATT_CHG_TYPE_PREC_INCR := by
  rcases type_change_flag_cases env curr_domain req_domain with h | ⟨-, flag, hmem, hflag⟩
  · rw [h.2.2.2]
    simp
  · rw [hflag]
    simp only [List.mem_cons, List.mem_singleton, List.not_mem_nil, or_false] at hmem
    rcases hmem with rfl | rfl | rfl | rfl | rfl | rfl <;> decide

/-- The class of a change across the fixed/variable divide of a character or
bit family, as a function of the requested precision after normalisation. -/
theorem type_change_flag_fixed_variable (env : Env) (cp cs : Int) (cm : Option Nat)
    (rp rs : Int) (rm : Option Nat) :
    (type_change_flag env ⟨DB_TYPE_CHAR, cp, cs, cm⟩ ⟨DB_TYPE_VARCHAR, rp, rs, rm⟩
        = if (req_prec_and_max env DB_TYPE_VARCHAR rp).1 ≥ cp then some ATT_CHG_TYPE_UPGRADE
          else if env.PRM_ALTER_TABLE_CHANGE_TYPE_STRICT = true
            then some ATT_CHG_TYPE_NOT_SUPPORTED_WITH_CFG
          else some ATT_CHG_TYPE_NEED_ROW_CHECK) ∧
      (type_change_flag env ⟨DB_TYPE_NCHAR, cp, cs, cm⟩ ⟨DB_TYPE_VARNCHAR, rp, rs, rm⟩
        = if (req_prec_and_max env DB_TYPE_VARNCHAR rp).1 ≥ cp
          then some ATT_CHG_TYPE_UPGRADE
          else if env.PRM_ALTER_TABLE_CHANGE_TYPE_STRICT = true
            then some ATT_CHG_TYPE_NOT_SUPPORTED_WITH_CFG
          else some ATT_CHG_TYPE_NEED_ROW_CHECK) ∧
      (type_change_flag env ⟨DB_TYPE_BIT, cp, cs, cm⟩ ⟨DB_TYPE_VARBIT, rp, rs, rm⟩
        = if rp ≥ cp then some ATT_CHG_TYPE_UPGRADE
          else if env.PRM_ALTER_TABLE_CHANGE_TYPE_STRICT = true
            then some ATT_CHG_TYPE_NOT_SUPPORTED_WITH_CFG
          else some ATT_CHG_TYPE_NEED_ROW_CHECK) ∧
      (type_change_flag env ⟨DB_TYPE_VARCHAR, cp, cs, cm⟩ ⟨DB_TYPE_CHAR, rp, rs, rm⟩
        = if rp ≥ cp then some ATT_CHG_TYPE_UPGRADE
          else some ATT_CHG_TYPE_NEED_ROW_CHECK) ∧
      (type_change_flag env ⟨DB_TYPE_VARNCHAR, cp, cs, cm⟩ ⟨DB_TYPE_NCHAR, rp, rs, rm⟩
        = if rp ≥ cp then some ATT_CHG_TYPE_UPGRADE
          else some ATT_CHG_TYPE_NEED_ROW_CHECK) ∧
      (type_change_flag env ⟨DB_TYPE_VARBIT, cp, cs, cm⟩ ⟨DB_TYPE_BIT, rp, rs, rm⟩
        = if rp ≥ cp then some ATT_CHG_TYPE_UPGRADE
          else some ATT_CHG_TYPE_NEED_ROW_CHECK) :=
  ⟨rfl, rfl, rfl, rfl, rfl, rfl⟩

/-! ### The entries of a built ledger -/

/-- The matrix never fails, touches the type entry only, and turns a type
entry DIFF that is present on both sides (0x23) into that word with one of the
six class flags, or into 0x3 for two OBJECT domains of the same class. -/
theorem build_att_type_change_map_entries (env : Env) (curr req : TP_DOMAIN)
    (a : SM_ATTR_PROP_CHG) (h0 : a.p P_TYPE = 0x23) :
    (build_att_type_change_map env curr req a).1 = NO_ERROR ∧
      (∀ i, i ≠ P_TYPE → (build_att_type_change_map env curr req a).2.p i = a.p i) ∧
      (build_att_type_change_map env curr req a).2.p P_TYPE ∈
        [0x3, 0x223, 0x423, 0x823, 0x1023, 0x2023, 0x4023] := by
  unfold build_att_type_change_map
  rcases type_change_flag_cases env curr req with ⟨-, -, -, h⟩ | ⟨-, flag, hf, h⟩
  · rw [h]
    refine ⟨rfl, ?_, ?_⟩
    · intro i hi
      show (a.set P_TYPE _).p i = a.p i
      rw [set_p, if_neg hi]
    · show (a.set P_TYPE _).p P_TYPE ∈ _
      rw [set_p, if_pos rfl, h0]
      decide
  · rw [h]
    refine ⟨rfl, ?_, ?_⟩
    · intro i hi
      show (or_type a flag).p i = a.p i
      unfold or_type
      rw [set_p, if_neg hi]
    · show (or_type a flag).p P_TYPE ∈ _
      rw [or_type_p_type, h0]
      clear h
      revert flag
      decide

/-- The special case TYPE never fails, touches the type entry only, and turns
a type entry that is present on both sides and UNCHANGED (0x13, as the
consolidation leaves it) into UNCHANGED for an exact match of the domains and
otherwise into one of ten words without UNCHANGED. -/
theorem special_case_type_entries (env : Env) (d ad : TP_DOMAIN) (a : SM_ATTR_PROP_CHG)
    (h0 : a.p P_TYPE = 0x13) :
    (special_case_type env d ad a).1 = NO_ERROR ∧
      (∀ i, i ≠ P_TYPE → (special_case_type env d ad a).2.p i = a.p i) ∧
      ((env.tp_domain_match d ad TP_EXACT_MATCH = true
          ∧ (special_case_type env d ad a).2.p P_TYPE = 0x13) ∨
        (env.tp_domain_match d ad TP_EXACT_MATCH = false
          ∧ (special_case_type env d ad a).2.p P_TYPE ∈
            [0x103, 0x423, 0x2023, 0x823, 0x803, 0x203, 0x3, 0x223, 0x1023, 0x4023])) := by
  have hb := build_att_type_change_map_entries env ad d
    (or_p (clear_p a P_TYPE ATT_CHG_PROPERTY_UNCHANGED) P_TYPE ATT_CHG_PROPERTY_DIFF) (by
      rw [or_p_p, if_pos rfl, clear_p_p, if_pos rfl, h0]
      decide)
  unfold special_case_type
  by_cases hm : env.tp_domain_match d ad TP_EXACT_MATCH = true
  · rw [if_pos hm]
    refine ⟨rfl, ?_, Or.inl ⟨hm, ?_⟩⟩
    · intro i hi
      show (or_p _ _ _).p i = _
      rw [or_p_p, if_neg hi]
    · show (or_p _ _ _).p P_TYPE = _
      rw [or_p_p, if_pos rfl, h0]
      decide
  · rw [if_neg hm]
    rw [Bool.not_eq_true] at hm
    simp only
    split_ifs
    all_goals first
      | (refine ⟨rfl, ?_, Or.inr ⟨hm, ?_⟩⟩
         · intro i hi
           simp only [or_p_p, clear_p_p, if_neg hi]
         · simp only [or_p_p, clear_p_p, if_true, h0]
           decide)
      | skip
    rcases hbm : build_att_type_change_map env ad d
      (or_p (clear_p a P_TYPE ATT_CHG_PROPERTY_UNCHANGED) P_TYPE ATT_CHG_PROPERTY_DIFF)
      with ⟨e, B⟩
    rw [hbm] at hb
    obtain ⟨he, hi, ht⟩ := hb
    simp only at he hi ht
    subst he
    refine ⟨rfl, ?_, Or.inr ⟨hm, ?_⟩⟩
    · intro i hne
      show B.p i = _
      rw [hi i hne, or_p_p, if_neg hne, clear_p_p, if_neg hne]
    · show B.p P_TYPE ∈ _
      revert ht
      generalize B.p P_TYPE = T
      intro ht
      simp only [List.mem_cons, List.mem_singleton, List.not_mem_nil, or_false] at ht ⊢
      omega

/-- Two words below 4 have their OR below 4. -/
theorem or_le_three (x y : Nat) (hx : x ≤ 3) (hy : y ≤ 3) : x ||| y ≤ 3 := by
  have := Nat.or_lt_two_pow (n := 2) (x := x) (y := y) (by omega) (by omega)
  omega

/-- The name entry after the parts that read the name and the attribute: 0x11
under MODIFY, 0x13 under CHANGE to the same name and 0x23 under CHANGE to
another name. -/
theorem mark_attribute_mark_name_p_name (env : Env) (attr_def : PT_ATTR_DEF)
    (att : SM_ATTRIBUTE) (attr_old_name : Option String) (a : SM_ATTR_PROP_CHG) :
    (mark_attribute attr_def att (mark_name env attr_def attr_old_name a)).p P_NAME =
      attr_old_name.elim 0x11 (fun old_name =>
        if env.intl_identifier_casecmp old_name attr_def.attr_name = 0 then 0x13 else 0x23) := by
  rw [mark_attribute_p, if_neg (by decide), if_neg (by decide), if_neg (by decide),
    if_neg (by decide), if_neg (by decide), if_neg (by decide), if_neg (by decide),
    mark_name_p, if_pos rfl]
  cases attr_old_name with
  | none => rfl
  | some old_name =>
    simp only [Option.elim]
    split_ifs <;> rfl

/-- A successful run of `build_attr_change_map`, when a failing collaborator
reports an error code, found the attribute and the class, built the domain of
the definition and went through every stage: before the type entry is set and
the entries are consolidated, the name entry is 0x11 under MODIFY, 0x13 under
CHANGE to the same name and 0x23 under CHANGE to another name, the
multi-column UNIQUE entry holds at most PRESENT_OLD, and every entry other
than name and type holds presence flags only. -/
theorem build_attr_change_map_stages (env : Env) (ctemplate : DB_CTMPL)
    (attr_def : PT_ATTR_DEF) (attr_old_name : Option String)
    (constraints : List PT_CONSTRAINT) (a L : SM_ATTR_PROP_CHG)
    (hfind : ∀ n b e, ctemplate.smt_find_attribute n b = .error e → e ≠ NO_ERROR)
    (hkey : ∀ e, ctemplate.do_get_partition_keycol = .error e → e ≠ NO_ERROR)
    (h : build_attr_change_map env ctemplate attr_def attr_old_name constraints a
      = (NO_ERROR, L)) :
    ∃ att A,
      ctemplate.smt_find_attribute (attr_old_name.getD attr_def.attr_name)
        (decide (a.name_space = ID_CLASS_ATTRIBUTE)) = .ok att ∧
      (∀ i, i ≠ P_NAME → i ≠ P_TYPE → A.p i ≤ 3) ∧
      A.p P_M_CONSTR_UNI ≤ 1 ∧
      A.p P_NAME = attr_old_name.elim 0x11 (fun old_name =>
        if env.intl_identifier_casecmp old_name attr_def.attr_name = 0 then 0x13 else 0x23) ∧
      mark_domain_and_consolidate env attr_def att A = (NO_ERROR, L) := by
  generalize hn : attr_old_name.getD attr_def.attr_name = n at *
  unfold build_attr_change_map at h
  simp only [hn] at h
  cases hfa : ctemplate.smt_find_attribute n (decide (a.name_space = ID_CLASS_ATTRIBUTE)) with
  | error e =>
    rw [hfa] at h
    simp only [Prod.mk.injEq] at h
    exact absurd h.1 (hfind _ _ _ hfa)
  | ok att =>
    rw [hfa] at h
    simp only at h
    cases hcur : ctemplate.current with
    | none =>
      rw [hcur] at h
      simp at h
    | some cls =>
      rw [hcur] at h
      simp only at h
      generalize hA2 : ((mark_attribute attr_def att
        (mark_name env attr_def attr_old_name a)).set P_S_CONSTR_UNI 0).set P_M_CONSTR_UNI 0
        = A2 at h
      have hsc := scan_class_constraints_spec env n cls.constraints A2
      rcases hsc3 : scan_class_constraints env n cls.constraints A2 with ⟨e3, A3⟩
      rw [hsc3] at hsc h
      obtain ⟨he3, hp3, -, -, -⟩ := hsc
      simp only at he3 hp3
      subst he3
      simp only at h
      generalize hA4 : rename_in_saved_constraints env
        (Option.map (fun _ => attr_def.attr_name) attr_old_name) n A3 = A4 at h
      have hp4 : ∀ i, A4.p i = A3.p i := by
        intro i
        rw [← hA4, rename_in_saved_constraints_p]
      rcases hsn5 : scan_new_constraints env n
        (Option.map (fun _ => attr_def.attr_name) attr_old_name) constraints A4 with ⟨e5, A5⟩
      rw [hsn5] at h
      have he5 : e5 = NO_ERROR := by
        cases e5 <;> first | rfl | (simp at h)
      subst he5
      simp only at h
      have hsn := scan_new_constraints_spec env n
        (Option.map (fun _ => attr_def.attr_name) attr_old_name) constraints A4 (by rw [hsn5])
      rw [hsn5] at hsn
      obtain ⟨hp5, -, -⟩ := hsn
      simp only at hp5
      rcases hmk : mark_partition_key env ctemplate n A5 with ⟨e6, A6⟩
      rw [hmk] at h
      have he6 : e6 = NO_ERROR := by
        cases e6 <;> first | rfl | (simp at h)
      subst he6
      simp only at h
      have hp6 : (∀ i, i ≠ P_IS_PARTITION_COL → A6.p i = A5.p i)
          ∧ A6.p P_IS_PARTITION_COL ≤ 3 := by
        unfold mark_partition_key at hmk
        cases hpo : ctemplate.partition_of
        · rw [hpo] at hmk
          simp only [Bool.false_eq_true, if_false, Prod.mk.injEq, true_and] at hmk
          subst hmk
          refine ⟨fun i hi => by rw [set_p, if_neg hi], ?_⟩
          rw [set_p, if_pos rfl]
          decide
        · rw [hpo] at hmk
          simp only [if_true] at hmk
          cases hk : ctemplate.do_get_partition_keycol with
          | error e =>
            rw [hk] at hmk
            simp only [Prod.mk.injEq] at hmk
            exact absurd hmk.1 (hkey e hk)
          | ok keycol =>
            rw [hk] at hmk
            simp only at hmk
            split_ifs at hmk
            · simp only [Prod.mk.injEq, true_and] at hmk
              subst hmk
              refine ⟨fun i hi => by rw [or_p_p, if_neg hi, set_p, if_neg hi], ?_⟩
              rw [or_p_p, if_pos rfl, set_p, if_pos rfl]
              decide
            · simp only [Prod.mk.injEq, true_and] at hmk
              subst hmk
              refine ⟨fun i hi => by rw [set_p, if_neg hi], ?_⟩
              rw [set_p, if_pos rfl]
              decide
      obtain ⟨hp6, hpart6⟩ := hp6
      have hA2p : ∀ i, A2.p i = if i = P_M_CONSTR_UNI ∨ i = P_S_CONSTR_UNI then 0
          else (mark_attribute attr_def att (mark_name env attr_def attr_old_name a)).p i := by
        intro i
        rw [← hA2, set_p, set_p]
        split_ifs <;> simp_all
      have hflag : ∀ (b : Bool) (f : Nat), f ≤ 3 → (if b = true then f else 0) ≤ 3 := by
        intro b f hf
        split_ifs
        · exact hf
        · omega
      refine ⟨att, A6, rfl, ?_, ?_, ?_, h⟩
      · intro i hname htype
        by_cases hpc : i = P_IS_PARTITION_COL
        · rw [hpc]
          exact hpart6
        rw [hp6 i hpc, hp5, hp4, hp3]
        refine or_le_three _ _ (or_le_three _ _ ?_ (hflag _ _ (by decide)))
          (hflag _ _ (by decide))
        rw [hA2p, mark_attribute_p]
        rcases index_cases i with h | h | h | h | h | h | h | h | h | h | h | h | h | h | h <;>
          subst h <;>
          first
          | exact absurd rfl hname
          | exact absurd rfl htype
          | exact absurd rfl hpc
          | (simp only [Fin.isValue, Fin.reduceEq, if_true, if_false, or_false, false_or,
              or_true, true_or, reduceIte]
             first
             | exact Nat.zero_le _
             | exact hflag _ _ (by decide)
             | exact or_le_three _ _ (hflag _ _ (by decide)) (hflag _ _ (by decide)))
      · rw [hp6 _ (by decide), hp5 P_M_CONSTR_UNI, hp4 P_M_CONSTR_UNI, hp3 P_M_CONSTR_UNI,
          hA2p P_M_CONSTR_UNI, if_pos (Or.inl rfl),
          any_marks_new_eq_false env _ constraints P_M_CONSTR_UNI (by decide)]
        simp only [Bool.false_eq_true, if_false]
        split_ifs <;> decide
      · rw [hp6 _ (by decide), hp5 P_NAME, hp4 P_NAME, hp3 P_NAME, hA2p P_NAME,
          if_neg (by decide), mark_attribute_mark_name_p_name,
          any_marks_new_eq_false env _ constraints P_NAME (by decide),
          any_marks_old_eq_false env n _ P_NAME (by decide)]
        simp only [Bool.false_eq_true, if_false, Nat.or_zero]

/-- The consolidation of an entry that holds presence flags only. -/
theorem consolidate_entry_presence :
    ∀ x < 4, consolidate_entry x = [0x10, 0x5, 0xA, 0x13].getD x 0 := by
  decide

/-- The special case of AUTO_INCREMENT and DEFAULT on a consolidated entry
that held presence flags only. -/
theorem special_case_both_presence :
    ∀ x < 4,
      (if is_att_prop_set (consolidate_entry x)
          (ATT_CHG_PROPERTY_PRESENT_OLD ||| ATT_CHG_PROPERTY_PRESENT_NEW) = true then
        and_not (consolidate_entry x ||| ATT_CHG_PROPERTY_DIFF) ATT_CHG_PROPERTY_UNCHANGED
      else consolidate_entry x) = [0x10, 0x5, 0xA, 0x23].getD x 0 := by
  decide

/-- The special case of UNIQUE on multiple columns on a consolidated entry
that held at most PRESENT_OLD. -/
theorem special_case_multi_unique_presence :
    ∀ x < 2, ∀ b : Bool,
      (if is_att_prop_set (consolidate_entry x) ATT_CHG_PROPERTY_PRESENT_OLD = true then
        if b = true then
          and_not (consolidate_entry x ||| ATT_CHG_PROPERTY_DIFF) ATT_CHG_PROPERTY_UNCHANGED
        else consolidate_entry x ||| ATT_CHG_PROPERTY_UNCHANGED
      else consolidate_entry x) = if x = 0 then 0x10 else if b = true then 0x25 else 0x15 := by
  decide

/-- The entries of the ledger after a successful run of
`build_attr_change_map`, when a failing collaborator reports an error code.
The name entry is 0x15 under MODIFY, 0x13 under CHANGE to the same name and
0x23 under CHANGE to another name; AUTO_INCREMENT and DEFAULT are 0x10, 0x5,
0xA or 0x23; UNIQUE on multiple columns is 0x10 when absent and else 0x25 or
0x15 as the type entry has DIFF or not; the type entry is 0x13 for an exact
match of the domains and else one of ten words without UNCHANGED; every other
entry is 0x10, 0x5, 0xA or 0x13. -/
theorem build_attr_change_map_entries (env : Env) (ctemplate : DB_CTMPL)
    (attr_def : PT_ATTR_DEF) (attr_old_name : Option String)
    (constraints : List PT_CONSTRAINT) (a L : SM_ATTR_PROP_CHG)
    (hfind : ∀ n b e, ctemplate.smt_find_attribute n b = .error e → e ≠ NO_ERROR)
    (hkey : ∀ e, ctemplate.do_get_partition_keycol = .error e → e ≠ NO_ERROR)
    (hdom : attr_def.pt_node_to_db_domain = none → attr_def.er_errid ≠ NO_ERROR)
    (h : build_attr_change_map env ctemplate attr_def attr_old_name constraints a
      = (NO_ERROR, L)) :
    ∃ att d,
      ctemplate.smt_find_attribute (attr_old_name.getD attr_def.attr_name)
        (decide (a.name_space = ID_CLASS_ATTRIBUTE)) = .ok att ∧
      attr_def.pt_node_to_db_domain = some d ∧
      L.p P_NAME = attr_old_name.elim 0x15 (fun old_name =>
        if env.intl_identifier_casecmp old_name attr_def.attr_name = 0 then 0x13 else 0x23) ∧
      (∀ i, i ≠ P_NAME → i ≠ P_TYPE → i ≠ P_M_CONSTR_UNI → i ≠ P_AUTO_INCR →
        i ≠ P_DEFAULT_VALUE → L.p i ∈ [0x10, 0x5, 0xA, 0x13]) ∧
      L.p P_AUTO_INCR ∈ [0x10, 0x5, 0xA, 0x23] ∧
      L.p P_DEFAULT_VALUE ∈ [0x10, 0x5, 0xA, 0x23] ∧
      (L.p P_M_CONSTR_UNI = 0x10 ∨
        (L.p P_M_CONSTR_UNI = 0x25
          ∧ is_att_prop_set (L.p P_TYPE) ATT_CHG_PROPERTY_DIFF = true) ∨
        (L.p P_M_CONSTR_UNI = 0x15
          ∧ is_att_prop_set (L.p P_TYPE) ATT_CHG_PROPERTY_DIFF = false)) ∧
      ((env.tp_domain_match d att.domain TP_EXACT_MATCH = true ∧ L.p P_TYPE = 0x13) ∨
        (env.tp_domain_match d att.domain TP_EXACT_MATCH = false ∧ L.p P_TYPE ∈
          [0x103, 0x423, 0x2023, 0x823, 0x803, 0x203, 0x3, 0x223, 0x1023, 0x4023])) := by
  obtain ⟨att, A, hatt, hA, hmuni, hname, hm⟩ :=
    build_attr_change_map_stages env ctemplate attr_def attr_old_name constraints a L
      hfind hkey h
  unfold mark_domain_and_consolidate at hm
  cases hd : attr_def.pt_node_to_db_domain with
  | none =>
    rw [hd] at hm
    simp only [Prod.mk.injEq] at hm
    exact absurd hm.1 (hdom hd)
  | some d =>
    rw [hd] at hm
    simp only at hm
    generalize hA0 : consolidate (or_p (or_p (A.set P_TYPE 0) P_TYPE
      ATT_CHG_PROPERTY_PRESENT_NEW) P_TYPE ATT_CHG_PROPERTY_PRESENT_OLD) = A0 at hm
    have hA0p : ∀ i, A0.p i = if i = P_TYPE then 0x13 else consolidate_entry (A.p i) := by
      intro i
      rw [← hA0, consolidate_p, or_p_p, or_p_p, set_p]
      split_ifs
      · decide
      · rfl
    have hst := special_case_type_entries env d att.domain A0 (by rw [hA0p, if_pos rfl])
    rcases hs : special_case_type env d att.domain A0 with ⟨e1, A1⟩
    rw [hs] at hst hm
    obtain ⟨he1, hA1, hT⟩ := hst
    simp only at he1 hA1 hT
    subst he1
    simp only [Prod.mk.injEq, true_and] at hm
    subst hm
    have hgen : ∀ i, i ≠ P_TYPE → A1.p i = consolidate_entry (A.p i) := by
      intro i hi
      rw [hA1 i hi, hA0p, if_neg hi]
    have htype : (special_cases_tail A1).p P_TYPE = A1.p P_TYPE := by
      rw [special_cases_tail_p, if_neg (by decide), if_neg (by decide)]
    refine ⟨att, d, hatt, rfl, ?_, ?_, ?_, ?_, ?_, ?_⟩
    · rw [special_cases_tail_p, if_neg (by decide), if_neg (by decide), hgen _ (by decide),
        hname]
      cases attr_old_name with
      | none =>
        simp only [Option.elim]
        decide
      | some old_name =>
        simp only [Option.elim]
        split_ifs <;> decide
    · intro i h1 h2 h3 h4 h5
      have hx := hA i h1 h2
      rw [special_cases_tail_p, if_neg (by simp [h4, h5]), if_neg h3, hgen i h2,
        consolidate_entry_presence _ (by omega)]
      generalize A.p i = x at hx
      interval_cases x <;> decide
    · have hx := hA P_AUTO_INCR (by decide) (by decide)
      rw [special_cases_tail_p, if_pos (Or.inl rfl), hgen _ (by decide),
        special_case_both_presence _ (by omega)]
      generalize A.p P_AUTO_INCR = x at hx
      interval_cases x <;> decide
    · have hx := hA P_DEFAULT_VALUE (by decide) (by decide)
      rw [special_cases_tail_p, if_pos (Or.inr rfl), hgen _ (by decide),
        special_case_both_presence _ (by omega)]
      generalize A.p P_DEFAULT_VALUE = x at hx
      interval_cases x <;> decide
    · rw [htype, special_cases_tail_p, if_neg (by decide), if_pos rfl, hgen _ (by decide),
        special_case_multi_unique_presence _ (by omega)]
      generalize A.p P_M_CONSTR_UNI = x at hmuni
      cases hb : is_att_prop_set (A1.p P_TYPE) ATT_CHG_PROPERTY_DIFF <;>
        interval_cases x <;> simp
    · rw [htype]
      exact hT

/-- What `check_att_chg_allowed` logs: nothing when it accepts, and when it
denies the returned error, with its argument, exactly if `log_error_allowed`
holds or `new_attempt` is false. -/
theorem check_att_chg_allowed_logged (strict : Bool) (att_name : String)
    (t : PT_TYPE_ENUM) (a : SM_ATTR_PROP_CHG) (chg_how : SM_ATTR_CHG_SOL) (log : Bool) :
    ((check_att_chg_allowed strict att_name t a chg_how log).error = NO_ERROR →
      (check_att_chg_allowed strict att_name t a chg_how log).logged = none) ∧
    ((check_att_chg_allowed strict att_name t a chg_how log).error ≠ NO_ERROR →
      (log = true ∨ (check_att_chg_allowed strict att_name t a chg_how log).new_attempt
          = false) →
      ∃ arg, (check_att_chg_allowed strict att_name t a chg_how log).logged
        = some ((check_att_chg_allowed strict att_name t a chg_how log).error, arg)) ∧
    ((check_att_chg_allowed strict att_name t a chg_how log).error ≠ NO_ERROR →
      ¬(log = true ∨ (check_att_chg_allowed strict att_name t a chg_how log).new_attempt
          = false) →
      (check_att_chg_allowed strict att_name t a chg_how log).logged = none) := by
  cases h : check_att_chg_allowed_checks strict t a chg_how with
  | ok u =>
    cases u
    rw [check_att_chg_allowed_of_ok strict att_name t a chg_how log h]
    simp
  | error e =>
    obtain ⟨e, na⟩ := e
    have hne := check_att_chg_allowed_checks_error_ne strict t a chg_how e na h
    unfold check_att_chg_allowed
    rw [h]
    simp only
    refine ⟨fun h0 => absurd h0 hne, ?_, ?_⟩
    · intro _ hl
      have hc : (log || !na) = true := by
        rcases hl with hl | hl <;> simp [hl]
      rw [hc]
      simp only [if_true]
      split_ifs
      · exact ⟨_, rfl⟩
      · exact ⟨_, rfl⟩
    · intro _ hl
      have hc : (log || !na) = false := by
        cases log <;> cases na <;> simp at hl ⊢
      rw [hc]
      simp

/-- The planner made no checker call, or its result is the one of the
escalation on the ledger it leaves. -/
theorem check_change_attribute_calls (env : Env) (ctemplate : DB_CTMPL)
    (attribute_node : PT_ATTR_DEF) (old_name_node : Option String)
    (constraints : List PT_CONSTRAINT) (a : SM_ATTR_PROP_CHG) :
    (check_change_attribute env ctemplate attribute_node old_name_node constraints
        a).checker_calls = [] ∨
      ∃ L, check_change_attribute env ctemplate attribute_node old_name_node constraints a
        = check_change_attribute_escalate env
            (old_name_node.getD attribute_node.attr_name) attribute_node.type_enum L := by
  unfold check_change_attribute
  rcases get_att_default_from_def attribute_node with ⟨e0, pd⟩
  by_cases he0 : e0 = NO_ERROR
  · subst he0
    simp only
    split_ifs
    · exact Or.inl rfl
    · rcases build_attr_change_map env ctemplate attribute_node old_name_node constraints
        (check_change_attribute_init ctemplate attribute_node a) with ⟨e1, L1⟩
      by_cases he1 : e1 = NO_ERROR
      · subst he1
        simp only
        unfold check_change_attribute_on_map
        split_ifs
        · exact Or.inl rfl
        · exact Or.inl rfl
        · exact Or.inl rfl
        · exact Or.inr ⟨L1, rfl⟩
      · left
        cases e1 <;> first | exact absurd rfl he1 | rfl
  · left
    cases e0 <;> first | exact absurd rfl he0 | rfl

/-- The escalation logs nothing when it ends with an acceptance; when it ends
with a denial, its last call logged the returned error. Every call it records
is the call of the checker at the recorded strategy and logging flag. -/
theorem check_change_attribute_escalate_logged (env : Env) (attr_name : String)
    (t : PT_TYPE_ENUM) (a : SM_ATTR_PROP_CHG) :
    ((check_change_attribute_escalate env attr_name t a).error = NO_ERROR →
      ∀ c ∈ (check_change_attribute_escalate env attr_name t a).checker_calls,
        c.result.logged = none) ∧
    ((check_change_attribute_escalate env attr_name t a).error ≠ NO_ERROR →
      ∃ last arg, (check_change_attribute_escalate env attr_name t a).checker_calls.getLast?
          = some last
        ∧ last.result.error = (check_change_attribute_escalate env attr_name t a).error
        ∧ last.result.logged
          = some ((check_change_attribute_escalate env attr_name t a).error, arg)) ∧
    (∀ c ∈ (check_change_attribute_escalate env attr_name t a).checker_calls,
      c.result = check_att_chg_allowed env.PRM_ALTER_TABLE_CHANGE_TYPE_STRICT attr_name t a
        c.chg_how c.log_error_allowed) := by
  have l1 := check_att_chg_allowed_logged env.PRM_ALTER_TABLE_CHANGE_TYPE_STRICT attr_name t a
    SM_ATTR_CHG_ONLY_SCHEMA false
  have l2 := check_att_chg_allowed_logged env.PRM_ALTER_TABLE_CHANGE_TYPE_STRICT attr_name t a
    SM_ATTR_CHG_WITH_ROW_UPDATE false
  have l3 := check_att_chg_allowed_logged env.PRM_ALTER_TABLE_CHANGE_TYPE_STRICT attr_name t a
    SM_ATTR_CHG_BEST_EFFORT true
  unfold check_change_attribute_escalate
  simp only
  by_cases h1 : (check_att_chg_allowed env.PRM_ALTER_TABLE_CHANGE_TYPE_STRICT attr_name t a
      SM_ATTR_CHG_ONLY_SCHEMA false).error ≠ NO_ERROR
    ∧ (check_att_chg_allowed env.PRM_ALTER_TABLE_CHANGE_TYPE_STRICT attr_name t a
      SM_ATTR_CHG_ONLY_SCHEMA false).new_attempt = true
  · rw [if_pos h1]
    have n1 := l1.2.2 h1.1 (by simp [h1.2])
    by_cases h2 : (check_att_chg_allowed env.PRM_ALTER_TABLE_CHANGE_TYPE_STRICT attr_name t a
        SM_ATTR_CHG_WITH_ROW_UPDATE false).error ≠ NO_ERROR
      ∧ (check_att_chg_allowed env.PRM_ALTER_TABLE_CHANGE_TYPE_STRICT attr_name t a
        SM_ATTR_CHG_WITH_ROW_UPDATE false).new_attempt = true
    · rw [if_pos h2]
      have n2 := l2.2.2 h2.1 (by simp [h2.2])
      refine ⟨?_, ?_, ?_⟩
      · intro h0 c hc
        simp only [List.mem_cons, List.mem_singleton, List.not_mem_nil, or_false] at hc
        rcases hc with rfl | rfl | rfl
        · exact n1
        · exact n2
        · exact l3.1 h0
      · intro hne
        obtain ⟨arg, harg⟩ := l3.2.1 hne (Or.inl rfl)
        exact ⟨_, arg, rfl, rfl, harg⟩
      · intro c hc
        simp only [List.mem_cons, List.mem_singleton, List.not_mem_nil, or_false] at hc
        rcases hc with rfl | rfl | rfl <;> rfl
    · rw [if_neg h2]
      refine ⟨?_, ?_, ?_⟩
      · intro h0 c hc
        simp only [List.mem_cons, List.mem_singleton, List.not_mem_nil, or_false] at hc
        rcases hc with rfl | rfl
        · exact n1
        · exact l2.1 h0
      · intro hne
        have hna : (check_att_chg_allowed env.PRM_ALTER_TABLE_CHANGE_TYPE_STRICT attr_name t a
            SM_ATTR_CHG_WITH_ROW_UPDATE false).new_attempt = false := by
          by_contra hc
          exact h2 ⟨hne, by simpa using hc⟩
        obtain ⟨arg, harg⟩ := l2.2.1 hne (Or.inr hna)
        exact ⟨_, arg, rfl, rfl, harg⟩
      · intro c hc
        simp only [List.mem_cons, List.mem_singleton, List.not_mem_nil, or_false] at hc
        rcases hc with rfl | rfl <;> rfl
  · rw [if_neg h1]
    refine ⟨?_, ?_, ?_⟩
    · intro h0 c hc
      simp only [List.mem_singleton] at hc
      subst hc
      exact l1.1 h0
    · intro hne
      have hna : (check_att_chg_allowed env.PRM_ALTER_TABLE_CHANGE_TYPE_STRICT attr_name t a
          SM_ATTR_CHG_ONLY_SCHEMA false).new_attempt = false := by
        by_contra hc
        exact h1 ⟨hne, by simpa using hc⟩
      obtain ⟨arg, harg⟩ := l1.2.1 hne (Or.inr hna)
      exact ⟨_, arg, rfl, rfl, harg⟩
    · intro c hc
      simp only [List.mem_singleton] at hc
      subst hc
      rfl

/-! ### The sort of the saved constraints -/

/-- The inner loop of `sort_constr_info_list` on constraint types inside the
range of the rank array: it does not fail and splits the sorted list in two,
the elements of rank up to the one of `constr` and, from the first element of
greater rank on, the rest; `constr` is linked between them. -/
theorem sort_constr_info_list_place_spec (constr : SM_CONSTRAINT_INFO)
    (sorted : List SM_CONSTRAINT_INFO)
    (hc : 0 ≤ constr.constraint_type ∧ constr.constraint_type ≤ DB_CONSTRAINT_FOREIGN_KEY)
    (hs : ∀ c ∈ sorted, 0 ≤ c.constraint_type ∧ c.constraint_type ≤ DB_CONSTRAINT_FOREIGN_KEY) :
    ∃ l1 l2, sorted = l1 ++ l2 ∧
      sort_constr_info_list_place constr sorted = .ok (l1 ++ constr :: l2, l1.length) ∧
      (∀ c ∈ l1, constr_order c.constraint_type ≤ constr_order constr.constraint_type) ∧
      (∀ c, l2.head? = some c →
        constr_order constr.constraint_type < constr_order c.constraint_type) := by
  induction sorted with
  | nil => exact ⟨[], [], rfl, rfl, by simp, by simp⟩
  | cons ins rest ih =>
    have hins := hs ins (List.mem_cons_self _ _)
    have hrange : ¬(constr.constraint_type < 0
        ∨ constr.constraint_type > DB_CONSTRAINT_FOREIGN_KEY
        ∨ ins.constraint_type < 0 ∨ ins.constraint_type > DB_CONSTRAINT_FOREIGN_KEY) := by
      omega
    unfold sort_constr_info_list_place
    rw [if_neg hrange]
    by_cases hlt : constr_order constr.constraint_type < constr_order ins.constraint_type
    · rw [if_pos hlt]
      refine ⟨[], ins :: rest, rfl, rfl, by simp, ?_⟩
      intro c hhead
      simp only [List.head?_cons, Option.some.injEq] at hhead
      subst hhead
      exact hlt
    · rw [if_neg hlt]
      obtain ⟨l1, l2, hsplit, hplace, h1, h2⟩ :=
        ih (fun c hmem => hs c (List.mem_cons_of_mem _ hmem))
      refine ⟨ins :: l1, l2, by rw [hsplit]; rfl, ?_, ?_, h2⟩
      · rw [hplace]
        rfl
      · intro c hmem
        rcases List.mem_cons.mp hmem with rfl | hmem
        · omega
        · exact h1 c hmem

/-- The outer loop of `sort_constr_info_list` on constraint types inside the
range of the rank array, started on a list sorted by rank: it does not fail,
and its result is a permutation of the two lists, sorted by rank, in which the
elements of every rank are those of the sorted list followed by those of the
remaining one, in their order. -/
theorem sort_constr_info_list_loop_spec (remaining : List SM_CONSTRAINT_INFO) :
    ∀ (sorted : List SM_CONSTRAINT_INFO) (head_pos : Nat),
    (∀ c ∈ remaining,
      0 ≤ c.constraint_type ∧ c.constraint_type ≤ DB_CONSTRAINT_FOREIGN_KEY) →
    (∀ c ∈ sorted, 0 ≤ c.constraint_type ∧ c.constraint_type ≤ DB_CONSTRAINT_FOREIGN_KEY) →
    sorted.Pairwise (fun x y =>
      constr_order x.constraint_type ≤ constr_order y.constraint_type) →
    ∃ s, sort_constr_info_list_loop remaining sorted head_pos = (NO_ERROR, s) ∧
      s.Perm (sorted ++ remaining) ∧
      s.Pairwise (fun x y =>
        constr_order x.constraint_type ≤ constr_order y.constraint_type) ∧
      ∀ k : Int, s.filter (fun c => decide (constr_order c.constraint_type = k)) =
        sorted.filter (fun c => decide (constr_order c.constraint_type = k)) ++
          remaining.filter (fun c => decide (constr_order c.constraint_type = k)) := by
  induction remaining with
  | nil =>
    intro sorted head_pos _ _ hsorted
    exact ⟨sorted, rfl, by simp, hsorted, by simp⟩
  | cons constr next ih =>
    intro sorted head_pos hr hs hsorted
    obtain ⟨l1, l2, hsplit, hplace, h1, h2⟩ :=
      sort_constr_info_list_place_spec constr sorted (hr constr (List.mem_cons_self _ _)) hs
    subst hsplit
    rw [List.pairwise_append] at hsorted
    obtain ⟨hp1, hp2, hp12⟩ := hsorted
    have hl2 : ∀ c ∈ l2,
        constr_order constr.constraint_type < constr_order c.constraint_type := by
      cases l2 with
      | nil => simp
      | cons b l2 =>
        intro c hmem
        have hb := h2 b rfl
        rcases List.mem_cons.mp hmem with rfl | hmem
        · exact hb
        · have := (List.pairwise_cons.mp hp2).1 c hmem
          omega
    have hplaced : (l1 ++ constr :: l2).Pairwise (fun x y =>
        constr_order x.constraint_type ≤ constr_order y.constraint_type) := by
      rw [List.pairwise_append]
      refine ⟨hp1, List.pairwise_cons.mpr ⟨fun c hmem => le_of_lt (hl2 c hmem), hp2⟩, ?_⟩
      intro x hx y hy
      rcases List.mem_cons.mp hy with rfl | hy
      · exact h1 x hx
      · exact hp12 x hx y hy
    have hrange : ∀ c ∈ l1 ++ constr :: l2,
        0 ≤ c.constraint_type ∧ c.constraint_type ≤ DB_CONSTRAINT_FOREIGN_KEY := by
      intro c hmem
      rcases List.mem_append.mp hmem with hmem | hmem
      · exact hs c (List.mem_append_left _ hmem)
      · rcases List.mem_cons.mp hmem with rfl | hmem
        · exact hr _ (List.mem_cons_self _ _)
        · exact hs c (List.mem_append_right _ hmem)
    obtain ⟨s, hloop, hperm, hpair, hfilter⟩ :=
      ih (l1 ++ constr :: l2)
        (if l1 ++ l2 ≠ [] ∧ l1.length ≤ head_pos then head_pos + 1 else head_pos)
        (fun c hmem => hr c (List.mem_cons_of_mem _ hmem)) hrange hplaced
    refine ⟨s, ?_, ?_, hpair, ?_⟩
    · unfold sort_constr_info_list_loop
      rw [hplace]
      exact hloop
    · refine hperm.trans ?_
      simp only [List.append_assoc, List.cons_append]
      exact List.Perm.append_left l1 List.perm_middle.symm
    · intro k
      rw [hfilter k]
      simp only [List.filter_append, List.filter_cons, List.append_assoc]
      by_cases hk : constr_order constr.constraint_type = k
      · have hempty : l2.filter (fun c => decide (constr_order c.constraint_type = k)) = [] := by
          rw [List.filter_eq_nil_iff]
          intro c hmem
          have := hl2 c hmem
          simp only [decide_eq_true_eq]
          omega
        simp [hk, hempty]
      · simp [hk]

/-- On constraint types inside the range of the rank array,
`sort_constr_info_list` returns `NO_ERROR` with a permutation of the list that
is sorted by rank and keeps the order of the elements of every rank. -/
theorem sort_constr_info_list_spec (orig_list : List SM_CONSTRAINT_INFO)
    (hrange : ∀ c ∈ orig_list,
      0 ≤ c.constraint_type ∧ c.constraint_type ≤ DB_CONSTRAINT_FOREIGN_KEY) :
    (sort_constr_info_list orig_list).1 = NO_ERROR ∧
    (sort_constr_info_list orig_list).2.Perm orig_list ∧
    (sort_constr_info_list orig_list).2.Pairwise (fun x y =>
      constr_order x.constraint_type ≤ constr_order y.constraint_type) ∧
    (∀ k : Int,
      (sort_constr_info_list orig_list).2.filter
          (fun c => decide (constr_order c.constraint_type = k)) =
        orig_list.filter (fun c => decide (constr_order c.constraint_type = k))) := by
  refine ⟨?_, ?_, ?_, ?_⟩
  all_goals
    cases orig_list with
    | nil => simp [sort_constr_info_list]
    | cons c rest =>
      obtain ⟨s, hloop, hperm, hpair, hfilter⟩ :=
        sort_constr_info_list_loop_spec (c :: rest) [] 0 hrange (by simp) List.Pairwise.nil
      have e : sort_constr_info_list (c :: rest) = (NO_ERROR, s) := by
        simp only [sort_constr_info_list, hloop]
      first
        | (rw [e]; done)
        | (rw [e]; simpa using hperm)
        | (rw [e]; exact hpair)
        | (rw [e]; intro k; simpa using hfilter k)

/-! ### The strategy WithRowUpdate -/

/-- A denial at SchemaOnly that leaves `new_attempt` true reads a type entry
with DIFF, NEED_ROW_CHECK, PSEUDO_UPGRADE or UPGRADE. -/
theorem check_att_chg_allowed_checks_retry_only_schema (strict : Bool) (t : PT_TYPE_ENUM)
    (a : SM_ATTR_PROP_CHG) (e : ErrorCode)
    (h : check_att_chg_allowed_checks strict t a SM_ATTR_CHG_ONLY_SCHEMA = .error (e, true)) :
    is_att_prop_set (a.p P_TYPE) ATT_CHG_PROPERTY_DIFF = true
      ∨ is_att_prop_set (a.p P_TYPE) ATT_CHG_TYPE_NEED_ROW_CHECK = true
      ∨ is_att_prop_set (a.p P_TYPE) ATT_CHG_TYPE_PSEUDO_UPGRADE = true
      ∨ is_att_prop_set (a.p P_TYPE) ATT_CHG_TYPE_UPGRADE = true := by
  rw [check_att_chg_allowed_checks_error_iff] at h
  rcases h with h | ⟨-, h | ⟨-, h | ⟨-, h | ⟨-, h | ⟨-, h | ⟨-, h | ⟨-, h⟩⟩⟩⟩⟩⟩⟩
  · rw [check_partitions_error_iff] at h; simp at h
  · rw [check_foreign_key_error_iff] at h; simp at h
  · rw [check_not_null_eq] at h
    repeat' split at h
    all_goals simp at h
  · rw [check_auto_incr_eq] at h
    repeat' split at h
    all_goals simp_all
  · unfold check_type_change at h
    simp only [throw, throwThe, MonadExceptOf.throw, pure, Except.pure, if_true] at h
    repeat' split at h
    all_goals first
      | (simp_all; done)
      | (simp_all; tauto)
  · rw [check_schema_only_constraints_eq] at h
    repeat' split at h
    all_goals simp_all
  · rw [check_multiple_pk_eq] at h
    repeat' split at h
    all_goals simp at h
  · rw [check_subclasses_eq] at h
    repeat' split at h
    all_goals simp at h

/-- When the planner ends at a strategy other than SchemaOnly and NotNeeded,
the ledger was built without error and the result is the one of the
escalation on it. -/
theorem check_change_attribute_of_mode (env : Env) (ctemplate : DB_CTMPL)
    (attribute_node : PT_ATTR_DEF) (old_name_node : Option String)
    (constraints : List PT_CONSTRAINT) (a : SM_ATTR_PROP_CHG)
    (h : (check_change_attribute env ctemplate attribute_node old_name_node constraints
        a).change_mode ≠ SM_ATTR_CHG_ONLY_SCHEMA)
    (h2 : (check_change_attribute env ctemplate attribute_node old_name_node constraints
        a).change_mode ≠ SM_ATTR_CHG_NOT_NEEDED) :
    ∃ L, build_attr_change_map env ctemplate attribute_node old_name_node constraints
          (check_change_attribute_init ctemplate attribute_node a) = (NO_ERROR, L) ∧
      check_change_attribute env ctemplate attribute_node old_name_node constraints a
        = check_change_attribute_escalate env
            (old_name_node.getD attribute_node.attr_name) attribute_node.type_enum L := by
  unfold check_change_attribute at h h2 ⊢
  generalize get_att_default_from_def attribute_node = g at h h2 ⊢
  obtain ⟨e0, pd⟩ := g
  by_cases he0 : e0 = NO_ERROR
  · subst he0
    simp only at h h2 ⊢
    split_ifs at h h2 ⊢
    · exact absurd rfl h
    · generalize hb : build_attr_change_map env ctemplate attribute_node old_name_node
        constraints (check_change_attribute_init ctemplate attribute_node a) = b at h h2 ⊢
      obtain ⟨e1, L1⟩ := b
      by_cases he1 : e1 = NO_ERROR
      · subst he1
        simp only at h h2 ⊢
        unfold check_change_attribute_on_map at h h2 ⊢
        split_ifs at h h2 ⊢
        · exact absurd rfl h
        · exact absurd rfl h2
        · exact absurd rfl h
        · exact ⟨L1, rfl, rfl⟩
      · exfalso
        cases e1 <;> first | exact he1 rfl | exact h rfl
  · exfalso
    cases e0 <;> first | exact he0 rfl | exact h rfl

/-! ### The calls of the drop and recreate pair -/

/-- A call that returned `NO_ERROR` extends the calls made by itself. -/
theorem World.call_ok (w : World) (t t2 : List Call) (c : Call)
    (h : w.call t c = (NO_ERROR, t2)) : t2 = t ++ [c] := by
  unfold World.call at h
  exact (Prod.mk.inj h).2.symm

/-- The calls made so far after a call. -/
theorem World.call_snd (w : World) (t : List Call) (c : Call) :
    (w.call t c).2 = t ++ [c] := rfl

/-- A successful `do_drop_att_constraints` has dropped, in the order of the
list, every constraint of the unique family with `sm_drop_constraint` and
every non-unique index with `sm_drop_index`, and made no other call. -/
theorem do_drop_att_constraints_ok (w : World) (l : List SM_CONSTRAINT_INFO) :
    ∀ t t2 : List Call, do_drop_att_constraints w l t = (NO_ERROR, t2) →
    t2 = t ++ (l.filter fun c => w.SM_IS_CONSTRAINT_UNIQUE_FAMILY c.constraint_type
          || decide (c.constraint_type = DB_CONSTRAINT_INDEX)).map fun c =>
        if w.SM_IS_CONSTRAINT_UNIQUE_FAMILY c.constraint_type = true then
          Call.sm_drop_constraint c.constraint_type c.name c.att_names
        else Call.sm_drop_index c.name := by
  induction l with
  | nil =>
    intro t t2 h
    simp only [do_drop_att_constraints, Prod.mk.injEq, true_and] at h
    simp [h]
  | cons constr next ih =>
    intro t t2 h
    unfold do_drop_att_constraints at h
    by_cases hu : w.SM_IS_CONSTRAINT_UNIQUE_FAMILY constr.constraint_type = true
    · rw [if_pos hu] at h
      split at h
      · rename_i t3 hcall
        rw [ih _ _ h, World.call_ok w _ _ _ hcall]
        simp [hu]
      · rename_i e t3 hne hcall
        simp only [Prod.mk.injEq] at h
        exact absurd h.1 hne
    · rw [if_neg hu] at h
      by_cases hi : constr.constraint_type = DB_CONSTRAINT_INDEX
      · rw [if_pos hi] at h
        split at h
        · rename_i t3 hcall
          rw [ih _ _ h, World.call_ok w _ _ _ hcall]
          have hu2 := hu
          rw [hi] at hu2
          simp [hu2, hi]
        · rename_i e t3 hne hcall
          simp only [Prod.mk.injEq] at h
          exact absurd h.1 hne
      · rw [if_neg hi] at h
        rw [ih _ _ h]
        simp [hu, hi]

/-- A successful `do_recreate_att_constraints` has created, in the order of
the list, every constraint of the unique family with `sm_add_constraint` and
every non-unique index with `sm_add_index`, each with the type, name, column
names, ordering, prefix lengths, predicate and expression of the list element,
and made no other call. -/
theorem do_recreate_att_constraints_ok (w : World) (l : List SM_CONSTRAINT_INFO) :
    ∀ t t2 : List Call, do_recreate_att_constraints w l t = (NO_ERROR, t2) →
    t2 = t ++ (l.filter fun c => w.SM_IS_CONSTRAINT_UNIQUE_FAMILY c.constraint_type
          || decide (c.constraint_type = DB_CONSTRAINT_INDEX)).map fun c =>
        if w.SM_IS_CONSTRAINT_UNIQUE_FAMILY c.constraint_type = true then
          Call.sm_add_constraint c.constraint_type c.name c.att_names c.asc_desc
            c.prefix_length c.filter_predicate c.func_index_info
        else
          Call.sm_add_index c.constraint_type c.name c.att_names c.asc_desc
            c.prefix_length c.filter_predicate c.func_index_info := by
  induction l with
  | nil =>
    intro t t2 h
    simp only [do_recreate_att_constraints, Prod.mk.injEq, true_and] at h
    simp [h]
  | cons constr next ih =>
    intro t t2 h
    unfold do_recreate_att_constraints at h
    by_cases hu : w.SM_IS_CONSTRAINT_UNIQUE_FAMILY constr.constraint_type = true
    · rw [if_pos hu] at h
      split at h
      · rename_i t3 hcall
        rw [ih _ _ h, World.call_ok w _ _ _ hcall]
        simp [hu]
      · rename_i e t3 hne hcall
        simp only [Prod.mk.injEq] at h
        exact absurd h.1 hne
    · rw [if_neg hu] at h
      by_cases hi : constr.constraint_type = DB_CONSTRAINT_INDEX
      · rw [if_pos hi] at h
        split at h
        · rename_i t3 hcall
          rw [ih _ _ h, World.call_ok w _ _ _ hcall]
          have hu2 := hu
          rw [hi] at hu2
          simp [hu2, hi]
        · rename_i e t3 hne hcall
          simp only [Prod.mk.injEq] at h
          exact absurd h.1 hne
      · rw [if_neg hi] at h
        rw [ih _ _ h]
        simp [hu, hi]

/-- The loop that upgrades the rows of the partitions only adds calls. -/
theorem upgrade_partitions_extends (w : World) (att_id : Int) (n : Nat) :
    ∀ (i : Nat) (t : List Call), ∃ ext, (upgrade_partitions w att_id i n t).2 = t ++ ext := by
  induction n with
  | zero =>
    intro i t
    exact ⟨[], by simp [upgrade_partitions]⟩
  | succ n ih =>
    intro i t
    unfold upgrade_partitions
    split
    · rename_i t3 hcall
      obtain ⟨ext, hext⟩ := ih (i + 1) t3
      rw [hext, World.call_ok w _ _ _ hcall]
      exact ⟨Call.do_run_upgrade_instances_domain (some i) att_id :: ext, by simp⟩
    · rename_i e t3 hne hcall
      have := World.call_snd w t (Call.do_run_upgrade_instances_domain (some i) att_id)
      rw [hcall] at this
      exact ⟨_, this⟩

/-! ### The creation of the new constraints -/

/-- A successful run of the loop that adds the new constraints has made, for
each element of the list in turn, the calls that create it: for a NOT NULL
constraint `db_constrain_non_null`, preceded under the permissive
configuration by the reading of the class name and the update of the NULL
values, and for any other constraint `db_add_constraint`. -/
theorem add_new_constraints_ok (env : Env) (w : World) (alter : PT_ALTER)
    (l : List SM_CONSTRAINT_INFO) :
    ∀ t t2 : List Call, add_new_constraints env w alter l t = (NO_ERROR, t2) →
    t2 = t ++ l.flatMap fun ci =>
      if ci.constraint_type = DB_CONSTRAINT_NOT_NULL then
        (if env.PRM_ALTER_TABLE_CHANGE_TYPE_STRICT = false then
          [Call.db_get_class_name,
            Call.do_run_update_query_for_class w.class_name ci.att_names.head?
              (get_hard_default_for_type alter.attr_def_list.type_enum)]
        else []) ++ [Call.db_constrain_non_null ci.att_names.head?]
      else [Call.db_add_constraint ci.constraint_type ci.att_names] := by
  induction l with
  | nil =>
    intro t t2 h
    simp only [add_new_constraints, Prod.mk.injEq, true_and] at h
    simp [h]
  | cons ci next ih =>
    intro t t2 h
    unfold add_new_constraints at h
    by_cases hnn : ci.constraint_type = DB_CONSTRAINT_NOT_NULL
    · rw [if_pos hnn] at h
      simp only at h
      by_cases hstrict : env.PRM_ALTER_TABLE_CHANGE_TYPE_STRICT = false
      · rw [if_pos hstrict] at h
        split at h
        · rename_i t3 hupdate
          split at hupdate
          · rename_i t4 hname
            split at h
            · rename_i t5 hcall
              rw [ih _ _ h, World.call_ok w _ _ _ hcall, World.call_ok w _ _ _ hupdate,
                World.call_ok w _ _ _ hname]
              simp [hnn, hstrict]
            · rename_i e t5 hne hcall
              simp only [Prod.mk.injEq] at h
              exact absurd h.1 hne
          · simp at hupdate
        · rename_i e t3 hne hupdate
          simp only [Prod.mk.injEq] at h
          exact absurd h.1 hne
      · rw [if_neg hstrict] at h
        simp only at h
        split at h
        · rename_i t3 hcall
          rw [ih _ _ h, World.call_ok w _ _ _ hcall]
          simp [hnn, hstrict]
        · rename_i e t3 hne hcall
          simp only [Prod.mk.injEq] at h
          exact absurd h.1 hne
    · rw [if_neg hnn] at h
      split at h
      · rename_i t3 hcall
        rw [ih _ _ h, World.call_ok w _ _ _ hcall]
        simp [hnn]
      · rename_i e t3 hne hcall
        simp only [Prod.mk.injEq] at h
        exact absurd h.1 hne

/-- A list of NOT NULL, UNIQUE and PRIMARY KEY constraints that is sorted by
rank consists of its UNIQUE constraints, then its PRIMARY KEY constraints,
then its NOT NULL constraints. -/
theorem sorted_new_constraints (s : List SM_CONSTRAINT_INFO)
    (htypes : ∀ c ∈ s, c.constraint_type = DB_CONSTRAINT_NOT_NULL
      ∨ c.constraint_type = DB_CONSTRAINT_UNIQUE
      ∨ c.constraint_type = DB_CONSTRAINT_PRIMARY_KEY)
    (hsorted : s.Pairwise fun x y =>
      constr_order x.constraint_type ≤ constr_order y.constraint_type) :
    s = s.filter (fun c => decide (c.constraint_type = DB_CONSTRAINT_UNIQUE))
      ++ s.filter (fun c => decide (c.constraint_type = DB_CONSTRAINT_PRIMARY_KEY))
      ++ s.filter (fun c => decide (c.constraint_type = DB_CONSTRAINT_NOT_NULL)) := by
  induction s with
  | nil => rfl
  | cons x s ih =>
    obtain ⟨hx, hs⟩ := List.pairwise_cons.mp hsorted
    have ih2 := ih (fun c hc => htypes c (List.mem_cons_of_mem _ hc)) hs
    have hu : constr_order DB_CONSTRAINT_UNIQUE = 2 := by decide
    have hpk : constr_order DB_CONSTRAINT_PRIMARY_KEY = 4 := by decide
    have hnn : constr_order DB_CONSTRAINT_NOT_NULL = 6 := by decide
    have e1 : DB_CONSTRAINT_NOT_NULL ≠ DB_CONSTRAINT_UNIQUE := by decide
    have e2 : DB_CONSTRAINT_NOT_NULL ≠ DB_CONSTRAINT_PRIMARY_KEY := by decide
    have e3 : DB_CONSTRAINT_UNIQUE ≠ DB_CONSTRAINT_PRIMARY_KEY := by decide
    rcases htypes x (List.mem_cons_self _ _) with h | h | h
    · have hrest : ∀ y ∈ s, y.constraint_type = DB_CONSTRAINT_NOT_NULL := by
        intro y hy
        have hle := hx y hy
        rw [h, hnn] at hle
        rcases htypes y (List.mem_cons_of_mem _ hy) with g | g | g
        · exact g
        · rw [g, hu] at hle
          omega
        · rw [g, hpk] at hle
          omega
      have f1 : s.filter (fun c => decide (c.constraint_type = DB_CONSTRAINT_UNIQUE)) = [] := by
        rw [List.filter_eq_nil_iff]
        intro y hy
        simp [hrest y hy, e1]
      have f2 : s.filter (fun c => decide (c.constraint_type = DB_CONSTRAINT_PRIMARY_KEY))
          = [] := by
        rw [List.filter_eq_nil_iff]
        intro y hy
        simp [hrest y hy, e2]
      rw [f1, f2] at ih2
      simp only [List.filter_cons, h, e1, e2, decide_False, decide_True, if_true,
        Bool.false_eq_true, if_false, f1, f2, List.nil_append] at ih2 ⊢
      rw [← ih2]
    · simp only [List.filter_cons, h, e1.symm, e3, decide_False, decide_True, if_true,
        Bool.false_eq_true, if_false, List.cons_append] at ih2 ⊢
      rw [← ih2]
    · have hrest : ∀ y ∈ s, y.constraint_type ≠ DB_CONSTRAINT_UNIQUE := by
        intro y hy g
        have hle := hx y hy
        rw [h, hpk, g, hu] at hle
        omega
      have f1 : s.filter (fun c => decide (c.constraint_type = DB_CONSTRAINT_UNIQUE)) = [] := by
        rw [List.filter_eq_nil_iff]
        intro y hy
        simp [hrest y hy]
      rw [f1] at ih2
      simp only [List.filter_cons, h, e2.symm, e3.symm, decide_False, decide_True, if_true,
        Bool.false_eq_true, if_false, f1, List.nil_append, List.cons_append] at ih2 ⊢
      rw [← ih2]

/-! ### The calls that never roll back -/

/-- A call other than `x` adds no `x` to the calls made. -/
theorem World.call_not_mem (w : World) (t t2 : List Call) (c x : Call) (e : ErrorCode)
    (h : w.call t c = (e, t2)) (hx : x ∉ t) (hc : x ≠ c) : x ∉ t2 := by
  unfold World.call at h
  rw [← (Prod.mk.inj h).2]
  simp [hx, hc]

/-- The loop that locks the partitions calls neither `tran_savepoint` nor
`tran_abort_upto_savepoint`. -/
theorem lock_partitions_not_mem (w : World) (x : Call)
    (hx : x = Call.tran_savepoint ∨ x = Call.tran_abort_upto_savepoint) (n : Nat) :
    ∀ (i : Nat) (t : List Call), x ∉ t → x ∉ (lock_partitions w i n t).2 := by
  induction n with
  | zero =>
    intro i t h
    exact h
  | succ n ih =>
    intro i t h
    unfold lock_partitions
    split
    · rename_i t3 hcall
      exact ih _ _ (World.call_not_mem w _ _ _ x _ hcall h (by rcases hx with rfl | rfl <;> simp))
    · rename_i e t3 hne hcall
      exact World.call_not_mem w _ _ _ x _ hcall h (by rcases hx with rfl | rfl <;> simp)

/-- The loop that upgrades the rows of the partitions does not call
`tran_abort_upto_savepoint`. -/
theorem upgrade_partitions_not_mem (w : World) (att_id : Int) (n : Nat) :
    ∀ (i : Nat) (t : List Call), Call.tran_abort_upto_savepoint ∉ t →
      Call.tran_abort_upto_savepoint ∉ (upgrade_partitions w att_id i n t).2 := by
  induction n with
  | zero =>
    intro i t h
    exact h
  | succ n ih =>
    intro i t h
    unfold upgrade_partitions
    split
    · rename_i t3 hcall
      exact ih _ _ (World.call_not_mem w _ _ _ _ _ hcall h (by simp))
    · rename_i e t3 hne hcall
      exact World.call_not_mem w _ _ _ _ _ hcall h (by simp)

/-- `do_drop_att_constraints` does not call `tran_abort_upto_savepoint`. -/
theorem do_drop_att_constraints_not_mem (w : World) (l : List SM_CONSTRAINT_INFO) :
    ∀ t : List Call, Call.tran_abort_upto_savepoint ∉ t →
      Call.tran_abort_upto_savepoint ∉ (do_drop_att_constraints w l t).2 := by
  induction l with
  | nil =>
    intro t h
    exact h
  | cons constr next ih =>
    intro t h
    unfold do_drop_att_constraints
    split_ifs
    · split
      · rename_i t3 hcall
        exact ih _ (World.call_not_mem w _ _ _ _ _ hcall h (by simp))
      · rename_i e t3 hne hcall
        exact World.call_not_mem w _ _ _ _ _ hcall h (by simp)
    · split
      · rename_i t3 hcall
        exact ih _ (World.call_not_mem w _ _ _ _ _ hcall h (by simp))
      · rename_i e t3 hne hcall
        exact World.call_not_mem w _ _ _ _ _ hcall h (by simp)
    · exact ih _ h

/-- `do_recreate_att_constraints` does not call
`tran_abort_upto_savepoint`. -/
theorem do_recreate_att_constraints_not_mem (w : World) (l : List SM_CONSTRAINT_INFO) :
    ∀ t : List Call, Call.tran_abort_upto_savepoint ∉ t →
      Call.tran_abort_upto_savepoint ∉ (do_recreate_att_constraints w l t).2 := by
  induction l with
  | nil =>
    intro t h
    exact h
  | cons constr next ih =>
    intro t h
    unfold do_recreate_att_constraints
    split_ifs
    · split
      · rename_i t3 hcall
        exact ih _ (World.call_not_mem w _ _ _ _ _ hcall h (by simp))
      · rename_i e t3 hne hcall
        exact World.call_not_mem w _ _ _ _ _ hcall h (by simp)
    · split
      · rename_i t3 hcall
        exact ih _ (World.call_not_mem w _ _ _ _ _ hcall h (by simp))
      · rename_i e t3 hne hcall
        exact World.call_not_mem w _ _ _ _ _ hcall h (by simp)
    · exact ih _ h

/-- The loop that adds the new constraints does not call
`tran_abort_upto_savepoint`. -/
theorem add_new_constraints_not_mem (env : Env) (w : World) (alter : PT_ALTER)
    (l : List SM_CONSTRAINT_INFO) :
    ∀ (t : List Call) (e : ErrorCode) (t2 : List Call),
      add_new_constraints env w alter l t = (e, t2) →
      Call.tran_abort_upto_savepoint ∉ t → Call.tran_abort_upto_savepoint ∉ t2 := by
  induction l with
  | nil =>
    intro t e t2 h hx
    simp only [add_new_constraints, Prod.mk.injEq] at h
    rw [← h.2]
    exact hx
  | cons ci next ih =>
    intro t e t2 h hx
    unfold add_new_constraints at h
    by_cases hnn : ci.constraint_type = DB_CONSTRAINT_NOT_NULL
    · rw [if_pos hnn] at h
      simp only at h
      by_cases hstrict : env.PRM_ALTER_TABLE_CHANGE_TYPE_STRICT = false
      · rw [if_pos hstrict] at h
        split at h
        · rename_i t3 hupdate
          split at hupdate
          · rename_i t4 hname
            have h4 := World.call_not_mem w _ _ _ _ _ hname hx (by simp)
            have h3 := World.call_not_mem w _ _ _ _ _ hupdate h4 (by simp)
            split at h
            · rename_i t5 hcall
              exact ih _ _ _ h (World.call_not_mem w _ _ _ _ _ hcall h3 (by simp))
            · rename_i e5 t5 hne hcall
              rw [← (Prod.mk.inj h).2]
              exact World.call_not_mem w _ _ _ _ _ hcall h3 (by simp)
          · simp at hupdate
        · rename_i e3 t3 hne hupdate
          rw [← (Prod.mk.inj h).2]
          split at hupdate
          · rename_i t4 hname
            have h4 := World.call_not_mem w _ _ _ _ _ hname hx (by simp)
            exact World.call_not_mem w _ _ _ _ _ hupdate h4 (by simp)
          · rename_i e4 t4 hne4 hname
            rw [← (Prod.mk.inj hupdate).2]
            exact World.call_not_mem w _ _ _ _ _ hname hx (by simp)
      · rw [if_neg hstrict] at h
        simp only at h
        split at h
        · rename_i t3 hcall
          exact ih _ _ _ h (World.call_not_mem w _ _ _ _ _ hcall hx (by simp))
        · rename_i e3 t3 hne hcall
          rw [← (Prod.mk.inj h).2]
          exact World.call_not_mem w _ _ _ _ _ hcall hx (by simp)
    · rw [if_neg hnn] at h
      split at h
      · rename_i t3 hcall
        exact ih _ _ _ h (World.call_not_mem w _ _ _ _ _ hcall hx (by simp))
      · rename_i e3 t3 hne hcall
        rw [← (Prod.mk.inj h).2]
        exact World.call_not_mem w _ _ _ _ _ hcall hx (by simp)

/-- The part that drops the saved constraints, updates the rows and creates
the constraints again does not call `tran_abort_upto_savepoint`. -/
theorem drop_update_recreate_not_mem (w : World) (is_srv_update_needed has_partitions : Bool)
    (att_id : Int) (constr_info : List SM_CONSTRAINT_INFO) (t : List Call) (e : ErrorCode)
    (l2 : List SM_CONSTRAINT_INFO) (t2 : List Call)
    (h : drop_update_recreate w is_srv_update_needed has_partitions att_id constr_info t
      = (e, l2, t2))
    (hx : Call.tran_abort_upto_savepoint ∉ t) : Call.tran_abort_upto_savepoint ∉ t2 := by
  unfold drop_update_recreate at h
  split at h
  · rename_i t1 hdrop
    have h1 : Call.tran_abort_upto_savepoint ∉ t1 := by
      have := do_drop_att_constraints_not_mem w constr_info t hx
      rw [hdrop] at this
      exact this
    simp only [] at h
    split at h
    · rename_i t3 hupdate
      have h3 : Call.tran_abort_upto_savepoint ∉ t3 := by
        split_ifs at hupdate
        · have := upgrade_partitions_not_mem w att_id w.user_count 0 t1 h1
          rw [hupdate] at this
          exact this
        · exact World.call_not_mem w _ _ _ _ _ hupdate h1 (by simp)
        · rw [← (Prod.mk.inj hupdate).2]
          exact h1
      split at h
      · rename_i sorted hsort
        rw [← (Prod.mk.inj (Prod.mk.inj h).2).2]
        exact do_recreate_att_constraints_not_mem w sorted t3 h3
      · rename_i es sorted hne hsort
        rw [← (Prod.mk.inj (Prod.mk.inj h).2).2]
        exact h3
    · rename_i eu t3 hne hupdate
      rw [← (Prod.mk.inj (Prod.mk.inj h).2).2]
      split_ifs at hupdate
      · have := upgrade_partitions_not_mem w att_id w.user_count 0 t1 h1
        rw [hupdate] at this
        exact this
      · exact World.call_not_mem w _ _ _ _ _ hupdate h1 (by simp)
      · rw [← (Prod.mk.inj hupdate).2]
        exact h1
  · rename_i ed t1 hne hdrop
    rw [← (Prod.mk.inj (Prod.mk.inj h).2).2]
    have := do_drop_att_constraints_not_mem w constr_info t hx
    rw [hdrop] at this
    exact this

/-- The part that creates the new constraints does not call
`tran_abort_upto_savepoint`. -/
theorem create_new_constraints_not_mem (env : Env) (w : World) (alter : PT_ALTER)
    (new_constr_info : List SM_CONSTRAINT_INFO) (t : List Call)
    (hx : Call.tran_abort_upto_savepoint ∉ t) :
    Call.tran_abort_upto_savepoint ∉
      (create_new_constraints env w alter new_constr_info t).2.2 := by
  unfold create_new_constraints
  split
  · exact hx
  · split
    · exact add_new_constraints_not_mem env w alter _ t _ _ rfl hx
    · exact hx

/-- The first part of `do_alter_clause_change_attribute` calls neither
`tran_savepoint` nor `tran_abort_upto_savepoint`; it jumps to the label `exit`
with `tran_saved` unset, and it goes on to the savepoint only when
`check_change_attribute` returned `NO_ERROR` and a strategy other than
`SM_ATTR_CHG_NOT_NEEDED`. -/
theorem do_alter_clause_change_attribute_plan_spec (env : Env) (w : World)
    (alter : PT_ALTER) :
    (∀ state, do_alter_clause_change_attribute_plan env w alter = .error state →
      state.tran_saved = false ∧ Call.tran_abort_upto_savepoint ∉ state.trace
        ∧ Call.tran_savepoint ∉ state.trace)
    ∧ (∀ attr_chg_prop change_mode has_partitions t,
      do_alter_clause_change_attribute_plan env w alter
        = .ok (attr_chg_prop, change_mode, has_partitions, t) →
      Call.tran_abort_upto_savepoint ∉ t ∧ Call.tran_savepoint ∉ t
        ∧ (check_change_attribute env w.ctemplate alter.attr_def_list alter.attr_old_name
            alter.constraint_list
            (reset_att_property_structure ⟨fun _ => 0, [], [], 0, ID_NULL, false⟩)).error
          = NO_ERROR
        ∧ (check_change_attribute env w.ctemplate alter.attr_def_list alter.attr_old_name
            alter.constraint_list
            (reset_att_property_structure ⟨fun _ => 0, [], [], 0, ID_NULL, false⟩)).change_mode
          = change_mode
        ∧ change_mode ≠ SM_ATTR_CHG_NOT_NEEDED) := by
  have hlock : ∀ (t e t2), lock_partitions w 0 w.user_count t = (e, t2) →
      Call.tran_abort_upto_savepoint ∉ t ∧ Call.tran_savepoint ∉ t →
      Call.tran_abort_upto_savepoint ∉ t2 ∧ Call.tran_savepoint ∉ t2 := by
    intro t e t2 h hx
    have h1 := lock_partitions_not_mem w _ (Or.inr rfl) w.user_count 0 t hx.1
    have h2 := lock_partitions_not_mem w _ (Or.inl rfl) w.user_count 0 t hx.2
    rw [h] at h1 h2
    exact ⟨h1, h2⟩
  have hcall : ∀ (t : List Call) (c : Call) (e t2), w.call t c = (e, t2) →
      Call.tran_abort_upto_savepoint ≠ c → Call.tran_savepoint ≠ c →
      Call.tran_abort_upto_savepoint ∉ t ∧ Call.tran_savepoint ∉ t →
      Call.tran_abort_upto_savepoint ∉ t2 ∧ Call.tran_savepoint ∉ t2 := by
    intro t c e t2 h hc1 hc2 hx
    exact ⟨World.call_not_mem w _ _ _ _ _ h hx.1 hc1, World.call_not_mem w _ _ _ _ _ h hx.2 hc2⟩
  have h0 : Call.tran_abort_upto_savepoint ∉ ([] : List Call)
      ∧ Call.tran_savepoint ∉ ([] : List Call) := by simp
  constructor
  · intro state h
    unfold do_alter_clause_change_attribute_plan at h
    simp only [] at h
    split at h
    · cases h
      exact ⟨rfl, h0⟩
    · split at h
      · rename_i t1 hfind
        have h1 := hcall _ _ _ _ hfind (by simp) (by simp) h0
        split at h
        · rename_i t2 hflush
          have h2 := hcall _ _ _ _ hflush (by simp) (by simp) h1
          split at h
          · rename_i t3 hfetch
            have h3 := hcall _ _ _ _ hfetch (by simp) (by simp) h2
            split at h
            · rename_i t4 hedit
              have h4 := hcall _ _ _ _ hedit (by simp) (by simp) h3
              split_ifs at h
              · cases h
                exact ⟨rfl, h4⟩
              · cases h
                exact ⟨rfl, h4⟩
              · split at h
                · rename_i t5 hcalloc
                  have h5 := hcall _ _ _ _ hcalloc (by simp) (by simp) h4
                  split at h
                  · cases h
                  · rename_i e6 t6 hne hl
                    cases h
                    exact ⟨rfl, hlock _ _ _ hl h5⟩
                · rename_i e5 t5 hne hcalloc
                  cases h
                  exact ⟨rfl, hcall _ _ _ _ hcalloc (by simp) (by simp) h4⟩
            · rename_i e4 t4 hne hedit
              have h4 := hcall _ _ _ _ hedit (by simp) (by simp) h3
              cases h
              exact ⟨rfl, hcall _ _ _ _ rfl (by simp) (by simp) h4⟩
          · rename_i e3 t3 hne hfetch
            cases h
            exact ⟨rfl, hcall _ _ _ _ hfetch (by simp) (by simp) h2⟩
        · rename_i e2 t2 hne hflush
          cases h
          exact ⟨rfl, hcall _ _ _ _ hflush (by simp) (by simp) h1⟩
      · rename_i e1 t1 hne hfind
        have h1 := hcall _ _ _ _ hfind (by simp) (by simp) h0
        cases h
        exact ⟨rfl, hcall _ _ _ _ rfl (by simp) (by simp) h1⟩
  · intro attr_chg_prop change_mode has_partitions t h
    unfold do_alter_clause_change_attribute_plan at h
    simp only [] at h
    split at h
    · cases h
    · split at h
      · rename_i t1 hfind
        have h1 := hcall _ _ _ _ hfind (by simp) (by simp) h0
        split at h
        · rename_i t2 hflush
          have h2 := hcall _ _ _ _ hflush (by simp) (by simp) h1
          split at h
          · rename_i t3 hfetch
            have h3 := hcall _ _ _ _ hfetch (by simp) (by simp) h2
            split at h
            · rename_i t4 hedit
              have h4 := hcall _ _ _ _ hedit (by simp) (by simp) h3
              split_ifs at h with herr hmode hparts
              · split at h
                · rename_i t5 hcalloc
                  have h5 := hcall _ _ _ _ hcalloc (by simp) (by simp) h4
                  split at h
                  · rename_i t6 hl
                    cases h
                    exact ⟨(hlock _ _ _ hl h5).1, (hlock _ _ _ hl h5).2, not_not.mp herr, rfl,
                      hmode⟩
                  · cases h
                · cases h
              · cases h
                exact ⟨h4.1, h4.2, not_not.mp herr, rfl, hmode⟩
            · cases h
          · cases h
        · cases h
      · cases h

/-- The label `exit` keeps the code and `tran_saved`, and it adds
`tran_abort_upto_savepoint` to the calls exactly when the code is an error
other than `ER_LK_UNILATERALLY_ABORTED` and `tran_saved` is set. -/
theorem do_alter_clause_change_attribute_exit_spec (state : ALTER_STATE)
    (hx : Call.tran_abort_upto_savepoint ∉ state.trace) :
    (do_alter_clause_change_attribute_exit state).error = state.error
    ∧ (do_alter_clause_change_attribute_exit state).tran_saved = state.tran_saved
    ∧ (Call.tran_abort_upto_savepoint ∈ (do_alter_clause_change_attribute_exit state).trace
      ↔ state.tran_saved = true ∧ state.error ≠ NO_ERROR
        ∧ state.error ≠ ER_LK_UNILATERALLY_ABORTED)
    ∧ (do_alter_clause_change_attribute_exit state).trace.count Call.tran_abort_upto_savepoint
      ≤ 1 := by
  refine ⟨rfl, rfl, ?_, ?_⟩
  · unfold do_alter_clause_change_attribute_exit
    simp only []
    split_ifs <;> simp_all
  · unfold do_alter_clause_change_attribute_exit
    simp only []
    split_ifs <;> simp_all [List.count_eq_zero_of_not_mem]

/-- The loop over the index expressions of the saved constraints does not call
`tran_abort_upto_savepoint`. -/
theorem recreate_index_expressions_not_mem (w : World) (alter : PT_ALTER)
    (is_srv_update_needed : Bool) (l : List SM_CONSTRAINT_INFO) :
    ∀ (t : List Call) (e : ErrorCode) (l2 : List SM_CONSTRAINT_INFO) (t2 : List Call),
      recreate_index_expressions w alter is_srv_update_needed l t = some (e, l2, t2) →
      Call.tran_abort_upto_savepoint ∉ t → Call.tran_abort_upto_savepoint ∉ t2 := by
  induction l with
  | nil =>
    intro t e l2 t2 h hx
    simp only [recreate_index_expressions, Option.some.injEq, Prod.mk.injEq] at h
    rw [← h.2.2]
    exact hx
  | cons saved_constr next ih =>
    intro t e l2 t2 h hx
    unfold recreate_index_expressions at h
    by_cases hc : (saved_constr.func_index_info.isSome
        || saved_constr.filter_predicate.isSome) = true
    · rw [if_pos hc] at h
      simp only [] at h
      split at h
      · rename_i c1 t1 hfunc
        have h1 : Call.tran_abort_upto_savepoint ∉ t1 := by
          split_ifs at hfunc
          · split at hfunc
            · rename_i t0 hcall
              rw [← (Prod.mk.inj (Prod.mk.inj hfunc).2).2]
              exact World.call_not_mem w _ _ _ _ _ hcall hx (by simp)
            · rename_i e0 t0 hne hcall
              exact absurd (Prod.mk.inj hfunc).1 hne
          · rw [← (Prod.mk.inj (Prod.mk.inj hfunc).2).2]
            exact hx
        split at h
        · rename_i c2 t2a hfilter
          have h2 : Call.tran_abort_upto_savepoint ∉ t2a := by
            split_ifs at hfilter
            · split at hfilter
              · rename_i t0 hcall
                rw [← (Prod.mk.inj (Prod.mk.inj hfilter).2).2]
                exact World.call_not_mem w _ _ _ _ _ hcall h1 (by simp)
              · rename_i e0 t0 hne hcall
                exact absurd (Prod.mk.inj hfilter).1 hne
            · rw [← (Prod.mk.inj (Prod.mk.inj hfilter).2).2]
              exact h1
          split_ifs at h
          · split at h
            · cases h
            · rename_i att_old_name hold
              split at h
              · rename_i t3 hdrop
                have h3 := World.call_not_mem w _ _ _ _ _ hdrop h2 (by simp)
                split at h
                · rename_i t4 hadd
                  have h4 := World.call_not_mem w _ _ _ _ _ hadd h3 (by simp)
                  split at h
                  · rename_i er nr tr hr
                    simp only [Option.some.injEq, Prod.mk.injEq] at h
                    rw [← h.2.2]
                    exact ih _ _ _ _ hr h4
                  · cases h
                · rename_i e4 t4 hne hadd
                  simp only [Option.some.injEq, Prod.mk.injEq] at h
                  rw [← h.2.2]
                  exact World.call_not_mem w _ _ _ _ _ hadd h3 (by simp)
              · rename_i e3 t3 hne hdrop
                simp only [Option.some.injEq, Prod.mk.injEq] at h
                rw [← h.2.2]
                exact World.call_not_mem w _ _ _ _ _ hdrop h2 (by simp)
          · split at h
            · rename_i er nr tr hr
              simp only [Option.some.injEq, Prod.mk.injEq] at h
              rw [← h.2.2]
              exact ih _ _ _ _ hr h2
            · cases h
        · rename_i e2 c2 t2a hne hfilter
          simp only [Option.some.injEq, Prod.mk.injEq] at h
          rw [← h.2.2]
          split_ifs at hfilter
          · split at hfilter
            · rename_i t0 hcall
              exact absurd (Prod.mk.inj hfilter).1.symm hne
            · rename_i e0 t0 hne0 hcall
              rw [← (Prod.mk.inj (Prod.mk.inj hfilter).2).2]
              exact World.call_not_mem w _ _ _ _ _ hcall h1 (by simp)
          · exact absurd (Prod.mk.inj hfilter).1.symm hne
      · rename_i e1 c1 t1 hne hfunc
        simp only [Option.some.injEq, Prod.mk.injEq] at h
        rw [← h.2.2]
        split_ifs at hfunc
        · split at hfunc
          · rename_i t0 hcall
            exact absurd (Prod.mk.inj hfunc).1.symm hne
          · rename_i e0 t0 hne0 hcall
            rw [← (Prod.mk.inj (Prod.mk.inj hfunc).2).2]
            exact World.call_not_mem w _ _ _ _ _ hcall hx (by simp)
        · exact absurd (Prod.mk.inj hfunc).1.symm hne
    · rw [if_neg hc] at h
      split at h
      · rename_i er nr tr hr
        simp only [Option.some.injEq, Prod.mk.injEq] at h
        rw [← h.2.2]
        exact ih _ _ _ _ hr hx
      · cases h

/-- The loop over the index expressions of the saved constraints has a result
unless it reads the old name of a MODIFY clause: it has one for a CHANGE
clause, when a row update follows, and when no saved constraint has a function
index expression or a filter predicate. -/
theorem recreate_index_expressions_returns (w : World) (alter : PT_ALTER)
    (is_srv_update_needed : Bool) (l : List SM_CONSTRAINT_INFO) :
    (alter.attr_old_name ≠ none ∨ is_srv_update_needed = true
      ∨ ∀ c ∈ l, c.func_index_info = none ∧ c.filter_predicate = none) →
    ∀ t : List Call,
      (recreate_index_expressions w alter is_srv_update_needed l t).isSome = true := by
  induction l with
  | nil =>
    intro _ t
    rfl
  | cons saved_constr next ih =>
    intro hyp t
    have hnext : alter.attr_old_name ≠ none ∨ is_srv_update_needed = true
        ∨ ∀ c ∈ next, c.func_index_info = none ∧ c.filter_predicate = none := by
      rcases hyp with h | h | h
      · exact Or.inl h
      · exact Or.inr (Or.inl h)
      · exact Or.inr (Or.inr fun c hc => h c (List.mem_cons_of_mem _ hc))
    have hih := ih hnext
    unfold recreate_index_expressions
    by_cases hc : (saved_constr.func_index_info.isSome
        || saved_constr.filter_predicate.isSome) = true
    · rw [if_pos hc]
      simp only []
      split
      · split
        · split_ifs with hsrv
          · split
            · rename_i hold
              rcases hyp with h | h | h
              · exact absurd hold h
              · rw [h] at hsrv
                cases hsrv
              · have := h saved_constr (List.mem_cons_self _ _)
                rw [this.1, this.2] at hc
                cases hc
            · split
              · split
                · split
                  · rfl
                  · rename_i hr
                    have h2 := congrArg Option.isSome hr
                    rw [hih] at h2
                    cases h2
                · rfl
              · rfl
          · split
            · rfl
            · rename_i hr
              have h2 := congrArg Option.isSome hr
              rw [hih] at h2
              cases h2
        · rfl
      · rfl
    · rw [if_neg hc]
      split
      · rfl
      · rename_i hr
        have h2 := congrArg Option.isSome hr
        rw [hih] at h2
        cases h2

/-- The part of `do_alter_clause_change_attribute` that follows the schema
change does not call `tran_abort_upto_savepoint`, and leaves `tran_saved`
set. -/
theorem do_alter_clause_change_attribute_constraints_not_mem (env : Env) (w : World)
    (alter : PT_ALTER) (attr_chg_prop : SM_ATTR_PROP_CHG) (change_mode : SM_ATTR_CHG_SOL)
    (has_partitions : Bool) (t : List Call) (state : ALTER_STATE)
    (h : do_alter_clause_change_attribute_constraints env w alter attr_chg_prop change_mode
      has_partitions t = some state)
    (hx : Call.tran_abort_upto_savepoint ∉ t) :
    Call.tran_abort_upto_savepoint ∉ state.trace ∧ state.tran_saved = true := by
  unfold do_alter_clause_change_attribute_constraints at h
  simp only [] at h
  split at h
  · rename_i t1 hfinish
    have h1 := World.call_not_mem w _ _ _ _ _ hfinish hx (by simp)
    split at h
    · rename_i st hpart
      cases h
      split_ifs at hpart
      split at hpart
      · rename_i t2 hedit
        have h2 := World.call_not_mem w _ _ _ _ _ hedit h1 (by simp)
        split at hpart
        · cases hpart
        · rename_i e3 t3 hne hfin2
          have h3 := World.call_not_mem w _ _ _ _ _ hfin2 h2 (by simp)
          cases hpart
          exact ⟨by simp [World.call, h3], rfl⟩
      · rename_i e2 t2 hne hedit
        have h2 := World.call_not_mem w _ _ _ _ _ hedit h1 (by simp)
        cases hpart
        exact ⟨by simp [World.call, h2], rfl⟩
    · rename_i t2 hpart
      have h2 : Call.tran_abort_upto_savepoint ∉ t2 := by
        split_ifs at hpart
        · split at hpart
          · rename_i t3 hedit
            have h3 := World.call_not_mem w _ _ _ _ _ hedit h1 (by simp)
            split at hpart
            · rename_i t4 hfin2
              cases hpart
              exact World.call_not_mem w _ _ _ _ _ hfin2 h3 (by simp)
            · cases hpart
          · cases hpart
        · cases hpart
          exact h1
      split at h
      · cases h
      · rename_i l3 t3 hrecr
        have h3 := recreate_index_expressions_not_mem w alter _ _ _ _ _ _ hrecr h2
        split at h
        · rename_i l4 t4 hdur
          have h4 : Call.tran_abort_upto_savepoint ∉ t4 := by
            split_ifs at hdur
            · exact drop_update_recreate_not_mem w _ _ _ _ _ _ _ _ hdur h3
            · rw [← (Prod.mk.inj (Prod.mk.inj hdur).2).2]
              exact h3
          cases h
          exact ⟨create_new_constraints_not_mem env w alter _ t4 h4, rfl⟩
        · rename_i e4 l4 t4 hne hdur
          cases h
          refine ⟨?_, rfl⟩
          split_ifs at hdur
          · exact drop_update_recreate_not_mem w _ _ _ _ _ _ _ _ hdur h3
          · rw [← (Prod.mk.inj (Prod.mk.inj hdur).2).2]
            exact h3
      · rename_i e3 l3 t3 hne hrecr
        cases h
        exact ⟨recreate_index_expressions_not_mem w alter _ _ _ _ _ _ hrecr h2, rfl⟩
  · rename_i e1 t1 hne hfinish
    have h1 := World.call_not_mem w _ _ _ _ _ hfinish hx (by simp)
    cases h
    exact ⟨by simp [World.call, h1], rfl⟩

/-- The part of `do_alter_clause_change_attribute` that follows the schema
change reaches the label `exit` unless the loop over the index expressions
reads the old name of a MODIFY clause. -/
theorem do_alter_clause_change_attribute_constraints_returns (env : Env) (w : World)
    (alter : PT_ALTER) (attr_chg_prop : SM_ATTR_PROP_CHG) (change_mode : SM_ATTR_CHG_SOL)
    (has_partitions : Bool) (t : List Call)
    (h : do_alter_clause_change_attribute_constraints env w alter attr_chg_prop change_mode
      has_partitions t = none) :
    alter.attr_old_name = none
      ∧ ((decide (change_mode = SM_ATTR_CHG_WITH_ROW_UPDATE)
            || decide (change_mode = SM_ATTR_CHG_BEST_EFFORT))
          && decide (attr_chg_prop.name_space = ID_ATTRIBUTE)) = false
      ∧ ∃ c ∈ attr_chg_prop.constr_info,
        c.func_index_info ≠ none ∨ c.filter_predicate ≠ none := by
  unfold do_alter_clause_change_attribute_constraints at h
  simp only [] at h
  split at h
  · split at h
    · cases h
    · rename_i t2 hpart
      split at h
      · rename_i hr
        by_contra hcon
        have hret := recreate_index_expressions_returns w alter
          ((decide (change_mode = SM_ATTR_CHG_WITH_ROW_UPDATE)
              || decide (change_mode = SM_ATTR_CHG_BEST_EFFORT))
            && decide (attr_chg_prop.name_space = ID_ATTRIBUTE))
          attr_chg_prop.constr_info (by
            by_contra hno
            apply hcon
            push_neg at hno
            refine ⟨hno.1, by simpa using hno.2.1, ?_⟩
            obtain ⟨c, hc, hc2⟩ := hno.2.2
            refine ⟨c, hc, ?_⟩
            by_contra hboth
            push_neg at hboth
            exact absurd hboth.2 (hc2 hboth.1)) t2
        rw [hr] at hret
        cases hret
      · split at h
        · cases h
        · cases h
      · cases h
  · cases h

/-- The second part of `do_alter_clause_change_attribute` does not call
`tran_abort_upto_savepoint`, and it leaves `tran_saved` set exactly when
`tran_savepoint` returned `NO_ERROR`. -/
theorem do_alter_clause_change_attribute_apply_spec (env : Env) (w : World)
    (alter : PT_ALTER) (attr_chg_prop : SM_ATTR_PROP_CHG) (change_mode : SM_ATTR_CHG_SOL)
    (has_partitions : Bool) (t : List Call) (state : ALTER_STATE)
    (h : do_alter_clause_change_attribute_apply env w alter attr_chg_prop change_mode
      has_partitions t = some state)
    (hx : Call.tran_abort_upto_savepoint ∉ t) :
    Call.tran_abort_upto_savepoint ∉ state.trace
      ∧ (state.tran_saved = true ↔ w.outcome (t ++ [Call.tran_savepoint]) = NO_ERROR) := by
  unfold do_alter_clause_change_attribute_apply at h
  split at h
  · rename_i t1 hsave
    have h1 := World.call_not_mem w _ _ _ _ _ hsave hx (by simp)
    have ho : w.outcome (t ++ [Call.tran_savepoint]) = NO_ERROR := (Prod.mk.inj hsave).1
    simp only [ho, iff_true]
    split at h
    rename_i es t2 hsup
    have h2 := World.call_not_mem w _ _ _ _ _ hsup h1 (by simp)
    split at h
    · rename_i t3 hschema
      have h3 := World.call_not_mem w _ _ _ _ _ hschema h2 (by simp)
      simp only [] at h
      split at h
      · rename_i t4 hfk
        have h4 := World.call_not_mem w _ _ _ _ _ hfk h3 (by simp)
        exact do_alter_clause_change_attribute_constraints_not_mem env w alter _ _ _ _ _ h h4
      · rename_i e4 t4 hne hfk
        cases h
        exact ⟨World.call_not_mem w _ _ _ _ _ hfk h3 (by simp), rfl⟩
    · rename_i e3 t3 hne hschema
      cases h
      exact ⟨World.call_not_mem w _ _ _ _ _ hschema h2 (by simp), rfl⟩
  · rename_i e1 t1 hne hsave
    have ho : w.outcome (t ++ [Call.tran_savepoint]) = e1 := (Prod.mk.inj hsave).1
    cases h
    refine ⟨World.call_not_mem w _ _ _ _ _ hsave hx (by simp), ?_⟩
    rw [ho]
    simp only [Bool.false_eq_true, false_iff]
    exact hne

/-- The second part of `do_alter_clause_change_attribute` reaches the label
`exit` unless the loop over the index expressions reads the old name of a
MODIFY clause; that happens only after `tran_savepoint` returned
`NO_ERROR`. -/
theorem do_alter_clause_change_attribute_apply_returns (env : Env) (w : World)
    (alter : PT_ALTER) (attr_chg_prop : SM_ATTR_PROP_CHG) (change_mode : SM_ATTR_CHG_SOL)
    (has_partitions : Bool) (t : List Call)
    (h : do_alter_clause_change_attribute_apply env w alter attr_chg_prop change_mode
      has_partitions t = none) :
    w.outcome (t ++ [Call.tran_savepoint]) = NO_ERROR
      ∧ alter.attr_old_name = none
      ∧ ((decide (change_mode = SM_ATTR_CHG_WITH_ROW_UPDATE)
            || decide (change_mode = SM_ATTR_CHG_BEST_EFFORT))
          && decide (attr_chg_prop.name_space = ID_ATTRIBUTE)) = false
      ∧ ∃ c ∈ attr_chg_prop.constr_info,
        c.func_index_info ≠ none ∨ c.filter_predicate ≠ none := by
  unfold do_alter_clause_change_attribute_apply at h
  split at h
  · rename_i t1 hsave
    refine ⟨(Prod.mk.inj hsave).1, ?_⟩
    split at h
    split at h
    · simp only [] at h
      split at h
      · have hret := do_alter_clause_change_attribute_constraints_returns env w alter _ _ _ _ h
        exact hret
      · cases h
    · cases h
  · cases h

/-! ## The claims -/

/-- C1: for every strategy, new type, name space, configuration and ledger, a
partition-key entry that is not exactly `ATT_CHG_PROPERTY_UNCHANGED` makes
`check_att_chg_allowed` return `ER_ALTER_CHANGE_PARTITIONS` with
`new_attempt = false`; otherwise a foreign-key entry that is not exactly
`ATT_CHG_PROPERTY_UNCHANGED` makes it return `ER_ALTER_CHANGE_FK` with
`new_attempt = false`. The escalation of `check_change_attribute` then makes
exactly one checker call, at SchemaOnly, and returns that error; and whatever
path `check_change_attribute` takes after building such a ledger, it makes at
most one checker call and grants no strategy. -/
theorem check_att_chg_allowed_hard_deny (env : Env) (strict : Bool) (att_name : String)
    (t : PT_TYPE_ENUM) (a : SM_ATTR_PROP_CHG) (chg_how : SM_ATTR_CHG_SOL)
    (log_error_allowed : Bool) (attribute_node : PT_ATTR_DEF)
    (h : a.p P_IS_PARTITION_COL ≠ ATT_CHG_PROPERTY_UNCHANGED
      ∨ a.p P_CONSTR_FK ≠ ATT_CHG_PROPERTY_UNCHANGED) :
    (check_att_chg_allowed strict att_name t a chg_how log_error_allowed).error =
        (if a.p P_IS_PARTITION_COL ≠ ATT_CHG_PROPERTY_UNCHANGED
          then ER_ALTER_CHANGE_PARTITIONS else ER_ALTER_CHANGE_FK) ∧
      (check_att_chg_allowed strict att_name t a chg_how log_error_allowed).new_attempt
        = false ∧
      (check_change_attribute_escalate env att_name t a).error =
        (if a.p P_IS_PARTITION_COL ≠ ATT_CHG_PROPERTY_UNCHANGED
          then ER_ALTER_CHANGE_PARTITIONS else ER_ALTER_CHANGE_FK) ∧
      (check_change_attribute_escalate env att_name t a).error ≠ NO_ERROR ∧
      (check_change_attribute_escalate env att_name t a).change_mode
        = SM_ATTR_CHG_ONLY_SCHEMA ∧
      (check_change_attribute_escalate env att_name t a).checker_calls.map
        (fun c => c.chg_how) = [SM_ATTR_CHG_ONLY_SCHEMA] ∧
      (check_change_attribute_on_map env att_name attribute_node a).checker_calls.length
        ≤ 1 ∧
      ((check_change_attribute_on_map env att_name attribute_node a).error = NO_ERROR →
        (check_change_attribute_on_map env att_name attribute_node a).change_mode
          = SM_ATTR_CHG_NOT_NEEDED) := by
  have hc := fun s ty c =>
    check_att_chg_allowed_checks_hard_deny s ty a c h
  have h1 := check_att_chg_allowed_of_error strict att_name t a chg_how log_error_allowed
    _ _ (hc strict t chg_how)
  have h2 := fun ty => check_att_chg_allowed_of_error env.PRM_ALTER_TABLE_CHANGE_TYPE_STRICT
    att_name ty a SM_ATTR_CHG_ONLY_SCHEMA false _ _ (hc _ ty _)
  have h3 := fun ty => check_change_attribute_escalate_stop env att_name ty a (h2 ty).2
  have hne : (if a.p P_IS_PARTITION_COL ≠ ATT_CHG_PROPERTY_UNCHANGED
      then ER_ALTER_CHANGE_PARTITIONS else ER_ALTER_CHANGE_FK) ≠ NO_ERROR := by
    split <;> simp
  refine ⟨h1.1, h1.2, ?_, ?_, ?_, ?_, ?_, ?_⟩
  · rw [h3]; exact (h2 t).1
  · rw [h3]; show (check_att_chg_allowed _ _ _ _ _ _).error ≠ _; rw [(h2 t).1]; exact hne
  · rw [h3]
  · rw [h3]; rfl
  · unfold check_change_attribute_on_map
    split
    · simp
    · split
      · simp
      · split
        · simp
        · rw [h3]; simp
  · unfold check_change_attribute_on_map
    split
    · simp
    · split
      · simp
      · split
        · simp
        · rw [h3]
          intro h4
          have : (check_att_chg_allowed env.PRM_ALTER_TABLE_CHANGE_TYPE_STRICT att_name
            attribute_node.type_enum a SM_ATTR_CHG_ONLY_SCHEMA false).error = NO_ERROR := h4
          rw [(h2 _).1] at this
          exact absurd this hne

/-- C1 (witness): a plain attribute that is the partition key (entry
`PRESENT_OLD | LOST`), everything else unchanged, new type INTEGER. -/
theorem check_att_chg_allowed_hard_deny_witness :
    (sample_ledger (fun i => if i = P_IS_PARTITION_COL then 0x5 else 0x10) ID_ATTRIBUTE
        false).p P_IS_PARTITION_COL ≠ ATT_CHG_PROPERTY_UNCHANGED ∧
      (check_att_chg_allowed false "a" PT_TYPE_INTEGER
        (sample_ledger (fun i => if i = P_IS_PARTITION_COL then 0x5 else 0x10) ID_ATTRIBUTE
          false) SM_ATTR_CHG_BEST_EFFORT true).error = ER_ALTER_CHANGE_PARTITIONS ∧
      (check_change_attribute_escalate (sample_env false) "a" PT_TYPE_INTEGER
        (sample_ledger (fun i => if i = P_IS_PARTITION_COL then 0x5 else 0x10) ID_ATTRIBUTE
          false)).checker_calls.map (fun c => c.chg_how) = [SM_ATTR_CHG_ONLY_SCHEMA] :=
  have h := check_att_chg_allowed_hard_deny (sample_env false) false "a" PT_TYPE_INTEGER
    (sample_ledger (fun i => if i = P_IS_PARTITION_COL then 0x5 else 0x10) ID_ATTRIBUTE false)
    SM_ATTR_CHG_BEST_EFFORT true
    (sample_definition "a" PT_TYPE_INTEGER (simple_domain DB_TYPE_INTEGER))
    (Or.inl (by decide))
  ⟨by decide, h.1, h.2.2.2.2.2.1⟩

/-- C2 (amended): for every resolved ledger for which a change is needed and
whose index-type test passes, `check_change_attribute` returns `NO_ERROR` with
`change_mode = M` exactly when `check_att_chg_allowed` succeeds at `M` and
denies with `new_attempt = true` at every strategy weaker than `M`; otherwise
it returns the error of the first call denied with `new_attempt = false`, or
of the BestEffort call. It never returns `NO_ERROR` with a mode at which the
checker denies, never skips a weaker strategy at which the checker would
succeed, and never answers NotNeeded. -/
theorem check_change_attribute_escalation (env : Env) (attr_name : String)
    (attribute_node : PT_ATTR_DEF) (a : SM_ATTR_PROP_CHG) (log : Bool)
    (hchecked : is_att_property_structure_checked a = true)
    (hneeded : is_att_change_needed a = true)
    (hindex : index_type_check_passes env attribute_node a = true) :
    let sol := fun m => check_att_chg_allowed env.PRM_ALTER_TABLE_CHANGE_TYPE_STRICT
      attr_name attribute_node.type_enum a m log
    let r := check_change_attribute_on_map env attr_name attribute_node a
    (∀ M : SM_ATTR_CHG_SOL, (r.error = NO_ERROR ∧ r.change_mode = M) ↔
      (M ≠ SM_ATTR_CHG_NOT_NEEDED ∧ (sol M).error = NO_ERROR ∧
        ∀ W : SM_ATTR_CHG_SOL, W ≠ SM_ATTR_CHG_NOT_NEEDED → W.toNat < M.toNat →
          (sol W).error ≠ NO_ERROR ∧ (sol W).new_attempt = true)) ∧
    (r.error ≠ NO_ERROR →
      r.change_mode ≠ SM_ATTR_CHG_NOT_NEEDED ∧ r.error = (sol r.change_mode).error ∧
      ((sol r.change_mode).new_attempt = false ∨ r.change_mode = SM_ATTR_CHG_BEST_EFFORT) ∧
      ∀ W : SM_ATTR_CHG_SOL, W ≠ SM_ATTR_CHG_NOT_NEEDED → W.toNat < r.change_mode.toNat →
        (sol W).error ≠ NO_ERROR ∧ (sol W).new_attempt = true) ∧
    (r.error = NO_ERROR → (sol r.change_mode).error = NO_ERROR) ∧
    (r.error = NO_ERROR →
      ∀ W : SM_ATTR_CHG_SOL, W ≠ SM_ATTR_CHG_NOT_NEEDED → W.toNat < r.change_mode.toNat →
        (sol W).error ≠ NO_ERROR) ∧
    r.change_mode ≠ SM_ATTR_CHG_NOT_NEEDED := by
  intro sol r
  have hr : r = check_change_attribute_escalate env attr_name attribute_node.type_enum a :=
    check_change_attribute_on_map_eq_escalate env attr_name attribute_node a hchecked hneeded
      hindex
  have hi := fun m l => check_att_chg_allowed_verdict_indep
    env.PRM_ALTER_TABLE_CHANGE_TYPE_STRICT attr_name attr_name attribute_node.type_enum a m l log
  have hcases := check_change_attribute_escalate_cases env attr_name attribute_node.type_enum a
  simp only [(hi _ _).1, (hi _ _).2, ← hr] at hcases
  have e1 : ∀ m, sol m = check_att_chg_allowed env.PRM_ALTER_TABLE_CHANGE_TYPE_STRICT
      attr_name attribute_node.type_enum a m log := fun _ => rfl
  simp only [← e1] at hcases
  simp only [SM_ATTR_CHG_SOL.forall_iff, SM_ATTR_CHG_SOL.toNat]
  rcases hcases with ⟨h1, he, hm⟩ | ⟨h1, h2, he, hm⟩ | ⟨h1, h2, he, hm⟩
  · rw [he, hm]
    rcases h1 with h1 | h1 <;> simp [h1]
  · rw [he, hm]
    rcases h2 with h2 | h2 <;> simp [h1, h2]
  · rw [he, hm]
    simp [h1, h2]

/-- C2 (witness): the ledger of INTEGER to BIGINT on an unconstrained plain
attribute (type entry `PRESENT_OLD | PRESENT_NEW | DIFF | UPGRADE`). -/
theorem check_change_attribute_escalation_witness :
    is_att_property_structure_checked
        (sample_ledger (fun i => if i = P_TYPE then 0x423 else 0x10) ID_ATTRIBUTE false)
        = true ∧
      is_att_change_needed
        (sample_ledger (fun i => if i = P_TYPE then 0x423 else 0x10) ID_ATTRIBUTE false)
        = true ∧
      index_type_check_passes (sample_env false)
        (sample_definition "a" PT_TYPE_BIGINT (simple_domain DB_TYPE_BIGINT))
        (sample_ledger (fun i => if i = P_TYPE then 0x423 else 0x10) ID_ATTRIBUTE false)
        = true ∧
      (check_change_attribute_on_map (sample_env false) "a"
        (sample_definition "a" PT_TYPE_BIGINT (simple_domain DB_TYPE_BIGINT))
        (sample_ledger (fun i => if i = P_TYPE then 0x423 else 0x10) ID_ATTRIBUTE
          false)).change_mode ≠ SM_ATTR_CHG_NOT_NEEDED :=
  ⟨by decide, by decide, by decide,
    (check_change_attribute_escalation (sample_env false) "a"
      (sample_definition "a" PT_TYPE_BIGINT (simple_domain DB_TYPE_BIGINT))
      (sample_ledger (fun i => if i = P_TYPE then 0x423 else 0x10) ID_ATTRIBUTE false)
      false (by decide) (by decide) (by decide)).2.2.2.2⟩

/-- C2 (counterexample): `MODIFY s SET UNIQUE` on a SET column without
constraints. The ledger that `check_change_attribute` builds needs a change
(UNIQUE is gained) and the checker accepts it at SchemaOnly, the weakest
strategy; yet `check_change_attribute` does not return `NO_ERROR`: the
index-type test of lines 14819-14841 rejects the request with
`ER_SM_INVALID_INDEX_TYPE` before any checker call. -/
theorem check_change_attribute_index_type_gate :
    is_att_change_needed
        (check_change_attribute (sample_env false)
          (sample_template "s" (sample_attribute (simple_domain DB_TYPE_SET)) [])
          (sample_definition "s" PT_TYPE_SET (simple_domain DB_TYPE_SET)) none
          [⟨PT_CONSTRAIN_UNIQUE, ["s"]⟩] fresh_ledger).attr_chg_prop = true ∧
      (check_att_chg_allowed false "s" PT_TYPE_SET
        (check_change_attribute (sample_env false)
          (sample_template "s" (sample_attribute (simple_domain DB_TYPE_SET)) [])
          (sample_definition "s" PT_TYPE_SET (simple_domain DB_TYPE_SET)) none
          [⟨PT_CONSTRAIN_UNIQUE, ["s"]⟩] fresh_ledger).attr_chg_prop
        SM_ATTR_CHG_ONLY_SCHEMA false).error = NO_ERROR ∧
      (check_change_attribute (sample_env false)
          (sample_template "s" (sample_attribute (simple_domain DB_TYPE_SET)) [])
          (sample_definition "s" PT_TYPE_SET (simple_domain DB_TYPE_SET)) none
          [⟨PT_CONSTRAIN_UNIQUE, ["s"]⟩] fresh_ledger).error = ER_SM_INVALID_INDEX_TYPE ∧
      (check_change_attribute (sample_env false)
          (sample_template "s" (sample_attribute (simple_domain DB_TYPE_SET)) [])
          (sample_definition "s" PT_TYPE_SET (simple_domain DB_TYPE_SET)) none
          [⟨PT_CONSTRAIN_UNIQUE, ["s"]⟩] fresh_ledger).checker_calls = [] := by
  decide

/-- C3: `is_att_change_needed` returns false exactly when each of the 15
ledger entries has the UNCHANGED bit set and a value below
`ATT_CHG_PROPERTY_DIFF`; in exactly that case `check_change_attribute`, on the
ledger it has built, returns `NO_ERROR` with `change_mode =
SM_ATTR_CHG_NOT_NEEDED` without calling the admissibility checker, and in every
other case the returned mode is not NotNeeded. On every path of the whole
function a NotNeeded answer comes with `NO_ERROR`, no checker call and a
ledger that needs no change. -/
theorem check_change_attribute_not_needed (env : Env) (attr_name : String)
    (attribute_node : PT_ATTR_DEF) (a : SM_ATTR_PROP_CHG) :
    (is_att_change_needed a = false ↔
      ∀ i : Fin NUM_ATT_CHG_PROP,
        is_att_prop_set (a.p i) ATT_CHG_PROPERTY_UNCHANGED = true
          ∧ a.p i < ATT_CHG_PROPERTY_DIFF) ∧
    (is_att_change_needed a = false ↔
      (check_change_attribute_on_map env attr_name attribute_node a).change_mode
        = SM_ATTR_CHG_NOT_NEEDED) ∧
    ((check_change_attribute_on_map env attr_name attribute_node a).change_mode
        = SM_ATTR_CHG_NOT_NEEDED →
      (check_change_attribute_on_map env attr_name attribute_node a).error = NO_ERROR ∧
      (check_change_attribute_on_map env attr_name attribute_node a).checker_calls = []) ∧
    (∀ (ctemplate : DB_CTMPL) (old_name_node : Option String)
        (constraints : List PT_CONSTRAINT) (a0 : SM_ATTR_PROP_CHG),
      (check_change_attribute env ctemplate attribute_node old_name_node constraints
          a0).change_mode = SM_ATTR_CHG_NOT_NEEDED →
        (check_change_attribute env ctemplate attribute_node old_name_node constraints
          a0).error = NO_ERROR ∧
        (check_change_attribute env ctemplate attribute_node old_name_node constraints
          a0).checker_calls = [] ∧
        is_att_change_needed (check_change_attribute env ctemplate attribute_node
          old_name_node constraints a0).attr_chg_prop = false) := by
  have key : ∀ (n : String) (L : SM_ATTR_PROP_CHG),
      (is_att_change_needed L = false ↔
        (check_change_attribute_on_map env n attribute_node L).change_mode
          = SM_ATTR_CHG_NOT_NEEDED) ∧
      ((check_change_attribute_on_map env n attribute_node L).change_mode
          = SM_ATTR_CHG_NOT_NEEDED →
        (check_change_attribute_on_map env n attribute_node L).error = NO_ERROR ∧
        (check_change_attribute_on_map env n attribute_node L).checker_calls = [] ∧
        (check_change_attribute_on_map env n attribute_node L).attr_chg_prop = L) := by
    intro n L
    cases hn : is_att_change_needed L
    · have hc := is_att_property_structure_checked_of_not_needed L hn
      unfold check_change_attribute_on_map
      simp [hn, hc]
    · unfold check_change_attribute_on_map
      have hm := check_change_attribute_escalate_mode env n attribute_node.type_enum L
      simp only [hn]
      split
      · simp
      · split
        · rename_i h; simp at h
        · split
          · simp
          · simp [hm]
  refine ⟨is_att_change_needed_eq_false_iff a, (key attr_name a).1, ?_, ?_⟩
  · intro h
    exact ⟨((key attr_name a).2 h).1, ((key attr_name a).2 h).2.1⟩
  · intro ctemplate old_name_node constraints a0
    unfold check_change_attribute
    simp only
    split
    · split
      · simp
      · split
        · intro h
          have h2 := (key _ _).2 h
          refine ⟨h2.1, h2.2.1, ?_⟩
          rw [h2.2.2]
          exact (key _ _).1.2 h
        · simp
    · simp

/-- C4 (amended): for every request that restates the current attribute in
every property the ledger tracks, where neither side has a default value or
AUTO_INCREMENT: the attribute is found under the same name (MODIFY, or CHANGE
with a name equal under the identifier comparison), the domain of the
definition matches the current one exactly, the definition has no DEFAULT,
AUTO_INCREMENT or ordering clause and no CHECK constraint, the attribute has no
default value, AUTO_INCREMENT, non-unique index or multi-column primary key and
is not the partition key, and NOT NULL, foreign key, single-column PRIMARY KEY
and single-column UNIQUE are requested exactly when present in the class. Then
`build_attr_change_map` succeeds, the ledger it produces makes
`is_att_change_needed` false, and `check_change_attribute` returns `NO_ERROR`
with `SM_ATTR_CHG_NOT_NEEDED`, that ledger and no checker call. -/
theorem check_change_attribute_same_definition (env : Env) (ctemplate : DB_CTMPL)
    (attribute_node : PT_ATTR_DEF) (old_name_node : Option String)
    (constraints : List PT_CONSTRAINT) (a : SM_ATTR_PROP_CHG)
    (att : SM_ATTRIBUTE) (cls : SM_CLASS) (d : TP_DOMAIN)
    (hfind : ctemplate.smt_find_attribute (old_name_node.getD attribute_node.attr_name)
        (decide (attribute_node.attr_type = PT_META_ATTR)) = .ok att)
    (hcur : ctemplate.current = some cls)
    (hname : ∀ old_name, old_name_node = some old_name →
        env.intl_identifier_casecmp old_name attribute_node.attr_name = 0)
    (hdom : attribute_node.pt_node_to_db_domain = some d)
    (hmatch : env.tp_domain_match d att.domain TP_EXACT_MATCH = true)
    (hdef_new : attribute_node.data_default = none)
    (hdef_old : att.original_value_is_null = true ∧ att.value_is_null = true
        ∧ att.default_expr_is_none = true)
    (hai : attribute_node.auto_increment = false ∧ att.SM_ATTFLAG_AUTO_INCREMENT = false)
    (hord : attribute_node.ordering_info = false)
    (hpart : ctemplate.partition_of = true →
        ∃ keycol, ctemplate.do_get_partition_keycol = .ok keycol
          ∧ env.intl_identifier_casecmp keycol
              (old_name_node.getD attribute_node.attr_name) ≠ 0)
    (hidx : att.SM_ATTFLAG_INDEX = false
        ∧ (cls.constraints.any fun c => marks_old env
            (old_name_node.getD attribute_node.attr_name) c P_CONSTR_NON_UNI) = false)
    (hmpk : (cls.constraints.any fun c => marks_old env
            (old_name_node.getD attribute_node.attr_name) c P_M_CONSTR_PK) = false)
    (hchk : (constraints.any fun c => marks_new env
            (old_name_node.getD attribute_node.attr_name) c P_CONSTR_CHECK) = false)
    (hnn : (constraints.any fun c => marks_new env
            (old_name_node.getD attribute_node.attr_name) c P_NOT_NULL)
          = att.SM_ATTFLAG_NON_NULL)
    (hfk : (constraints.any fun c => marks_new env
            (old_name_node.getD attribute_node.attr_name) c P_CONSTR_FK)
          = (att.SM_ATTFLAG_FOREIGN_KEY || cls.constraints.any fun c => marks_old env
            (old_name_node.getD attribute_node.attr_name) c P_CONSTR_FK))
    (hpk : (constraints.any fun c => marks_new env
            (old_name_node.getD attribute_node.attr_name) c P_S_CONSTR_PK)
          = cls.constraints.any fun c => marks_old env
            (old_name_node.getD attribute_node.attr_name) c P_S_CONSTR_PK)
    (huni : (constraints.any fun c => marks_new env
            (old_name_node.getD attribute_node.attr_name) c P_S_CONSTR_UNI)
          = cls.constraints.any fun c => marks_old env
            (old_name_node.getD attribute_node.attr_name) c P_S_CONSTR_UNI) :
    (build_attr_change_map env ctemplate attribute_node old_name_node constraints
        (check_change_attribute_init ctemplate attribute_node a)).1 = NO_ERROR ∧
      is_att_change_needed
        (build_attr_change_map env ctemplate attribute_node old_name_node constraints
          (check_change_attribute_init ctemplate attribute_node a)).2 = false ∧
      (check_change_attribute env ctemplate attribute_node old_name_node constraints
        a).error = NO_ERROR ∧
      (check_change_attribute env ctemplate attribute_node old_name_node constraints
        a).change_mode = SM_ATTR_CHG_NOT_NEEDED ∧
      (check_change_attribute env ctemplate attribute_node old_name_node constraints
        a).attr_chg_prop =
          (build_attr_change_map env ctemplate attribute_node old_name_node constraints
            (check_change_attribute_init ctemplate attribute_node a)).2 ∧
      (check_change_attribute env ctemplate attribute_node old_name_node constraints
        a).checker_calls = [] := by
  rw [← check_change_attribute_init_name_space ctemplate attribute_node a] at hfind
  obtain ⟨L, hb, hL⟩ := build_attr_change_map_same_definition env ctemplate attribute_node
    old_name_node constraints (check_change_attribute_init ctemplate attribute_node a)
    att cls d hfind hcur hname hdom hmatch hdef_new hdef_old hai hord hpart hidx hmpk hchk
    hnn hfk hpk huni
  have hdef : get_att_default_from_def attribute_node = (NO_ERROR, none) := by
    unfold get_att_default_from_def
    rw [hdef_new]
  rw [check_change_attribute_eq_on_map env ctemplate attribute_node old_name_node
    constraints a L none hdef (by simp) hb, hb,
    check_change_attribute_on_map_not_needed env _ attribute_node L hL]
  exact ⟨rfl, hL, rfl, rfl, rfl, rfl⟩

/-- C4 (amended), on `CHANGE a a INTEGER NOT NULL UNIQUE` for an INTEGER
attribute `a` that is NOT NULL and has a UNIQUE constraint of its own and a
UNIQUE constraint shared with `b`: the planner answers NotNeeded. -/
theorem check_change_attribute_same_definition_witness :
    (check_change_attribute (sample_env false)
        (sample_template "a" (sample_attribute_not_null (simple_domain DB_TYPE_INTEGER))
          [sample_constraint SM_CONSTRAINT_UNIQUE ["a"],
            sample_constraint SM_CONSTRAINT_UNIQUE ["a", "b"]])
        (sample_definition "a" PT_TYPE_INTEGER (simple_domain DB_TYPE_INTEGER)) (some "a")
        [⟨PT_CONSTRAIN_NOT_NULL, ["a"]⟩, ⟨PT_CONSTRAIN_UNIQUE, ["a"]⟩]
        fresh_ledger).error = NO_ERROR ∧
      (check_change_attribute (sample_env false)
        (sample_template "a" (sample_attribute_not_null (simple_domain DB_TYPE_INTEGER))
          [sample_constraint SM_CONSTRAINT_UNIQUE ["a"],
            sample_constraint SM_CONSTRAINT_UNIQUE ["a", "b"]])
        (sample_definition "a" PT_TYPE_INTEGER (simple_domain DB_TYPE_INTEGER)) (some "a")
        [⟨PT_CONSTRAIN_NOT_NULL, ["a"]⟩, ⟨PT_CONSTRAIN_UNIQUE, ["a"]⟩]
        fresh_ledger).change_mode = SM_ATTR_CHG_NOT_NEEDED ∧
      (check_change_attribute (sample_env false)
        (sample_template "a" (sample_attribute_not_null (simple_domain DB_TYPE_INTEGER))
          [sample_constraint SM_CONSTRAINT_UNIQUE ["a"],
            sample_constraint SM_CONSTRAINT_UNIQUE ["a", "b"]])
        (sample_definition "a" PT_TYPE_INTEGER (simple_domain DB_TYPE_INTEGER)) (some "a")
        [⟨PT_CONSTRAIN_NOT_NULL, ["a"]⟩, ⟨PT_CONSTRAIN_UNIQUE, ["a"]⟩]
        fresh_ledger).checker_calls = [] ∧
      is_att_change_needed (check_change_attribute (sample_env false)
        (sample_template "a" (sample_attribute_not_null (simple_domain DB_TYPE_INTEGER))
          [sample_constraint SM_CONSTRAINT_UNIQUE ["a"],
            sample_constraint SM_CONSTRAINT_UNIQUE ["a", "b"]])
        (sample_definition "a" PT_TYPE_INTEGER (simple_domain DB_TYPE_INTEGER)) (some "a")
        [⟨PT_CONSTRAIN_NOT_NULL, ["a"]⟩, ⟨PT_CONSTRAIN_UNIQUE, ["a"]⟩]
        fresh_ledger).attr_chg_prop = false :=
  have h := check_change_attribute_same_definition (sample_env false)
    (sample_template "a" (sample_attribute_not_null (simple_domain DB_TYPE_INTEGER))
          [sample_constraint SM_CONSTRAINT_UNIQUE ["a"],
            sample_constraint SM_CONSTRAINT_UNIQUE ["a", "b"]])
    (sample_definition "a" PT_TYPE_INTEGER (simple_domain DB_TYPE_INTEGER)) (some "a")
    [⟨PT_CONSTRAIN_NOT_NULL, ["a"]⟩, ⟨PT_CONSTRAIN_UNIQUE, ["a"]⟩] fresh_ledger
    (sample_attribute_not_null (simple_domain DB_TYPE_INTEGER))
    ⟨false, [sample_constraint SM_CONSTRAINT_UNIQUE ["a"],
      sample_constraint SM_CONSTRAINT_UNIQUE ["a", "b"]]⟩
    (simple_domain DB_TYPE_INTEGER)
    rfl rfl (by intro old_name h; cases h; decide) rfl (by decide) rfl ⟨rfl, rfl, rfl⟩
    ⟨rfl, rfl⟩ rfl (fun h => absurd h (by decide)) ⟨rfl, by decide⟩ (by decide) (by decide)
    (by decide) (by decide) (by decide) (by decide)
  ⟨h.2.2.1, h.2.2.2.1, h.2.2.2.2.2, h.2.2.2.2.1 ▸ h.2.1⟩

/-- C4 (counterexample): `MODIFY a INTEGER DEFAULT v` on an INTEGER attribute
`a` that already has a default value, with nothing else on either side. Name,
domain and every other tracked property are the same; the builder never
compares the two default values: a default present on both sides is recorded
as DIFF (lines 12922-12932), so the ledger needs a change and the planner
answers SchemaOnly, not NotNeeded. -/
theorem check_change_attribute_default_restated :
    (build_attr_change_map (sample_env false)
        (sample_template "a" (sample_attribute_with_default (simple_domain DB_TYPE_INTEGER))
          [])
        (sample_definition_with_default "a" PT_TYPE_INTEGER (simple_domain DB_TYPE_INTEGER))
        none []
        (check_change_attribute_init
          (sample_template "a" (sample_attribute_with_default (simple_domain DB_TYPE_INTEGER))
          [])
          (sample_definition_with_default "a" PT_TYPE_INTEGER (simple_domain DB_TYPE_INTEGER))
          fresh_ledger)).1 = NO_ERROR ∧
      (build_attr_change_map (sample_env false)
        (sample_template "a" (sample_attribute_with_default (simple_domain DB_TYPE_INTEGER))
          [])
        (sample_definition_with_default "a" PT_TYPE_INTEGER (simple_domain DB_TYPE_INTEGER))
        none []
        (check_change_attribute_init
          (sample_template "a" (sample_attribute_with_default (simple_domain DB_TYPE_INTEGER))
          [])
          (sample_definition_with_default "a" PT_TYPE_INTEGER (simple_domain DB_TYPE_INTEGER))
          fresh_ledger)).2.p P_DEFAULT_VALUE
        = ATT_CHG_PROPERTY_PRESENT_OLD ||| ATT_CHG_PROPERTY_PRESENT_NEW
          ||| ATT_CHG_PROPERTY_DIFF ∧
      is_att_change_needed (build_attr_change_map (sample_env false)
        (sample_template "a" (sample_attribute_with_default (simple_domain DB_TYPE_INTEGER))
          [])
        (sample_definition_with_default "a" PT_TYPE_INTEGER (simple_domain DB_TYPE_INTEGER))
        none []
        (check_change_attribute_init
          (sample_template "a" (sample_attribute_with_default (simple_domain DB_TYPE_INTEGER))
          [])
          (sample_definition_with_default "a" PT_TYPE_INTEGER (simple_domain DB_TYPE_INTEGER))
          fresh_ledger)).2 = true ∧
      (check_change_attribute (sample_env false)
        (sample_template "a" (sample_attribute_with_default (simple_domain DB_TYPE_INTEGER))
          [])
        (sample_definition_with_default "a" PT_TYPE_INTEGER (simple_domain DB_TYPE_INTEGER))
        none []
        fresh_ledger).error = NO_ERROR ∧
      (check_change_attribute (sample_env false)
        (sample_template "a" (sample_attribute_with_default (simple_domain DB_TYPE_INTEGER))
          [])
        (sample_definition_with_default "a" PT_TYPE_INTEGER (simple_domain DB_TYPE_INTEGER))
        none []
        fresh_ledger).change_mode = SM_ATTR_CHG_ONLY_SCHEMA := by
  decide

/-- C5: for every plain-attribute ledger, whenever `check_change_attribute`
succeeds with a mode other than NotNeeded, the mode is BestEffort if and only
if the type entry carries `ATT_CHG_TYPE_NEED_ROW_CHECK` or
`ATT_CHG_TYPE_PSEUDO_UPGRADE`. In particular `check_att_chg_allowed` never
returns `NO_ERROR` at SchemaOnly or at WithRowUpdate for such a type entry, and
its denial for that type class (`ER_ALTER_CHANGE_TYPE_NEED_ROW_CHECK`) always
leaves `new_attempt = true`; it is the verdict of the type block at both
levels when the entry carries no not-supported flag. -/
theorem check_change_attribute_best_effort_iff (env : Env) (strict : Bool)
    (attr_name : String) (attribute_node : PT_ATTR_DEF) (t : PT_TYPE_ENUM)
    (a : SM_ATTR_PROP_CHG) (log : Bool) (hns : a.name_space = ID_ATTRIBUTE) :
    ((check_change_attribute_on_map env attr_name attribute_node a).error = NO_ERROR →
      (check_change_attribute_on_map env attr_name attribute_node a).change_mode
        ≠ SM_ATTR_CHG_NOT_NEEDED →
      ((check_change_attribute_on_map env attr_name attribute_node a).change_mode
          = SM_ATTR_CHG_BEST_EFFORT ↔
        (is_att_prop_set (a.p P_TYPE) ATT_CHG_TYPE_NEED_ROW_CHECK = true
          ∨ is_att_prop_set (a.p P_TYPE) ATT_CHG_TYPE_PSEUDO_UPGRADE = true))) ∧
    ((is_att_prop_set (a.p P_TYPE) ATT_CHG_TYPE_NEED_ROW_CHECK = true
        ∨ is_att_prop_set (a.p P_TYPE) ATT_CHG_TYPE_PSEUDO_UPGRADE = true) →
      (check_att_chg_allowed strict attr_name t a SM_ATTR_CHG_ONLY_SCHEMA log).error
        ≠ NO_ERROR ∧
      (check_att_chg_allowed strict attr_name t a SM_ATTR_CHG_WITH_ROW_UPDATE log).error
        ≠ NO_ERROR) ∧
    (∀ m : SM_ATTR_CHG_SOL,
      (check_att_chg_allowed strict attr_name t a m log).error
          = ER_ALTER_CHANGE_TYPE_NEED_ROW_CHECK →
        (check_att_chg_allowed strict attr_name t a m log).new_attempt = true) ∧
    ((is_att_prop_set (a.p P_TYPE) ATT_CHG_TYPE_NEED_ROW_CHECK = true
        ∨ is_att_prop_set (a.p P_TYPE) ATT_CHG_TYPE_PSEUDO_UPGRADE = true) →
      is_att_prop_set (a.p P_TYPE) ATT_CHG_TYPE_NOT_SUPPORTED = false →
      is_att_prop_set (a.p P_TYPE) ATT_CHG_TYPE_NOT_SUPPORTED_WITH_CFG = false →
      check_type_change a SM_ATTR_CHG_ONLY_SCHEMA
          = .error (ER_ALTER_CHANGE_TYPE_NEED_ROW_CHECK, true) ∧
        check_type_change a SM_ATTR_CHG_WITH_ROW_UPDATE
          = .error (ER_ALTER_CHANGE_TYPE_NEED_ROW_CHECK, true)) := by
  refine ⟨?_, ?_, ?_, ?_⟩
  · unfold check_change_attribute_on_map
    split
    · simp
    · split
      · simp
      · split
        · simp
        · intro hok _
          exact check_change_attribute_escalate_best_effort_iff env attr_name _ a hns hok
  · intro hty
    constructor
    · intro h
      rw [check_att_chg_allowed_no_error_iff, check_att_chg_allowed_checks_ok_iff] at h
      exact (check_type_change_row_check_denied a hty).1 hns h.2.2.2.2.1
    · intro h
      rw [check_att_chg_allowed_no_error_iff, check_att_chg_allowed_checks_ok_iff] at h
      exact (check_type_change_row_check_denied a hty).2 h.2.2.2.2.1
  · intro m h
    cases hc : check_att_chg_allowed_checks strict t a m with
    | ok u =>
      rw [check_att_chg_allowed_of_ok strict attr_name t a m log hc] at h
      cases h
    | error e =>
      obtain ⟨e, na⟩ := e
      have h2 := check_att_chg_allowed_of_error strict attr_name t a m log e na hc
      rw [h2.1] at h
      subst h
      rw [h2.2]
      exact check_att_chg_allowed_checks_need_row_check strict t a m na hc
  · intro hty h1 h2
    rw [check_type_change_only_schema a hns, check_type_change_with_row_update]
    rcases hty with h | h <;> simp [h1, h2, h]

/-- C5 (witness): the ledger of BIGINT to INTEGER on an unconstrained plain
attribute (type entry `PRESENT_OLD | PRESENT_NEW | DIFF | NEED_ROW_CHECK`); the
planner ends at BestEffort. -/
theorem check_change_attribute_best_effort_iff_witness :
    (sample_ledger (fun i => if i = P_TYPE then 0x823 else 0x10) ID_ATTRIBUTE false).name_space
        = ID_ATTRIBUTE ∧
      (check_change_attribute_on_map (sample_env false) "a"
        (sample_definition "a" PT_TYPE_INTEGER (simple_domain DB_TYPE_INTEGER))
        (sample_ledger (fun i => if i = P_TYPE then 0x823 else 0x10) ID_ATTRIBUTE
          false)).change_mode = SM_ATTR_CHG_BEST_EFFORT :=
  ⟨rfl, ((check_change_attribute_best_effort_iff (sample_env false) false "a"
      (sample_definition "a" PT_TYPE_INTEGER (simple_domain DB_TYPE_INTEGER)) PT_TYPE_INTEGER
      (sample_ledger (fun i => if i = P_TYPE then 0x823 else 0x10) ID_ATTRIBUTE false)
      false rfl).1 (by decide) (by decide)).2 (Or.inl (by decide))⟩

/-- C6: for every plain-attribute ledger whose type entry is
`PRESENT_OLD | PRESENT_NEW | DIFF | UPGRADE`, with partition-key and
foreign-key entries UNCHANGED, NOT NULL and AUTO_INCREMENT not gained, no
single/multi primary-key conflict and no subclasses, `check_att_chg_allowed`
denies SchemaOnly (`ER_ALTER_CHANGE_TYPE_UPGRADE_CFG`) with `new_attempt = true`
and accepts WithRowUpdate, so `check_change_attribute`, on such a ledger that
is resolved and whose new type may carry the indexes present, returns
`NO_ERROR` with WithRowUpdate after exactly these two checker calls. -/
theorem check_change_attribute_upgrade (env : Env) (strict : Bool) (attr_name : String)
    (attribute_node : PT_ATTR_DEF) (t : PT_TYPE_ENUM) (a : SM_ATTR_PROP_CHG) (log : Bool)
    (hns : a.name_space = ID_ATTRIBUTE)
    (hty : a.p P_TYPE = ATT_CHG_PROPERTY_PRESENT_OLD ||| ATT_CHG_PROPERTY_PRESENT_NEW
      ||| ATT_CHG_PROPERTY_DIFF ||| ATT_CHG_TYPE_UPGRADE)
    (hpart : a.p P_IS_PARTITION_COL = ATT_CHG_PROPERTY_UNCHANGED)
    (hfk : a.p P_CONSTR_FK = ATT_CHG_PROPERTY_UNCHANGED)
    (hnn : is_att_prop_set (a.p P_NOT_NULL) ATT_CHG_PROPERTY_GAINED = false)
    (hai : is_att_prop_set (a.p P_AUTO_INCR) ATT_CHG_PROPERTY_GAINED = false)
    (hpk : ((is_att_prop_set (a.p P_S_CONSTR_PK) ATT_CHG_PROPERTY_PRESENT_OLD
          || is_att_prop_set (a.p P_S_CONSTR_PK) ATT_CHG_PROPERTY_PRESENT_NEW)
        && (is_att_prop_set (a.p P_M_CONSTR_PK) ATT_CHG_PROPERTY_PRESENT_OLD
          || is_att_prop_set (a.p P_M_CONSTR_PK) ATT_CHG_PROPERTY_PRESENT_NEW)) = false)
    (hsub : a.class_has_subclass = false) :
    (check_att_chg_allowed strict attr_name t a SM_ATTR_CHG_ONLY_SCHEMA log).error
        = ER_ALTER_CHANGE_TYPE_UPGRADE_CFG ∧
      (check_att_chg_allowed strict attr_name t a SM_ATTR_CHG_ONLY_SCHEMA log).new_attempt
        = true ∧
      check_att_chg_allowed strict attr_name t a SM_ATTR_CHG_WITH_ROW_UPDATE log
        = ⟨NO_ERROR, true, none⟩ ∧
      (is_att_property_structure_checked a = true →
        index_type_check_passes env attribute_node a = true →
        (check_change_attribute_on_map env attr_name attribute_node a).error = NO_ERROR ∧
        (check_change_attribute_on_map env attr_name attribute_node a).change_mode
          = SM_ATTR_CHG_WITH_ROW_UPDATE ∧
        (check_change_attribute_on_map env attr_name attribute_node a).checker_calls.map
          (fun c => c.chg_how) = [SM_ATTR_CHG_ONLY_SCHEMA, SM_ATTR_CHG_WITH_ROW_UPDATE]) := by
  have f1 : is_att_prop_set (a.p P_TYPE) ATT_CHG_TYPE_NOT_SUPPORTED = false := by
    rw [hty]; decide
  have f2 : is_att_prop_set (a.p P_TYPE) ATT_CHG_TYPE_NOT_SUPPORTED_WITH_CFG = false := by
    rw [hty]; decide
  have f3 : is_att_prop_set (a.p P_TYPE) ATT_CHG_TYPE_NEED_ROW_CHECK = false := by
    rw [hty]; decide
  have f4 : is_att_prop_set (a.p P_TYPE) ATT_CHG_TYPE_PSEUDO_UPGRADE = false := by
    rw [hty]; decide
  have f5 : is_att_prop_set (a.p P_TYPE) ATT_CHG_TYPE_UPGRADE = true := by
    rw [hty]; decide
  have f6 : a.p P_TYPE ≥ ATT_CHG_PROPERTY_DIFF := by
    rw [hty]; decide
  have g1 := (check_partitions_ok_iff a).2 hpart
  have g2 := (check_foreign_key_ok_iff a).2 hfk
  have g3 : ∀ s ty, check_not_null s ty a = .ok () := by
    intro s ty; rw [check_not_null_eq]; simp [hnn]
  have g4 : ∀ m, check_auto_incr a m = .ok () := by
    intro m; rw [check_auto_incr_eq]; simp [hai]
  have g5 : check_type_change a SM_ATTR_CHG_ONLY_SCHEMA
      = .error (ER_ALTER_CHANGE_TYPE_UPGRADE_CFG, true) := by
    rw [check_type_change_only_schema a hns]; simp [f1, f2, f3, f4, f5]
  have g6 : check_type_change a SM_ATTR_CHG_WITH_ROW_UPDATE = .ok () := by
    rw [check_type_change_with_row_update]; simp [f1, f2, f3, f4]
  have g7 : check_multiple_pk a = .ok () := by
    rw [check_multiple_pk_eq]; simp only [hpk]; simp
  have g8 : check_subclasses a = .ok () := by
    rw [check_subclasses_eq]; simp [hsub]
  have so : ∀ s ty, check_att_chg_allowed_checks s ty a SM_ATTR_CHG_ONLY_SCHEMA
      = .error (ER_ALTER_CHANGE_TYPE_UPGRADE_CFG, true) := by
    intro s ty
    rw [check_att_chg_allowed_checks_error_iff]
    exact Or.inr ⟨g1, Or.inr ⟨g2, Or.inr ⟨g3 s ty, Or.inr ⟨g4 _, Or.inl g5⟩⟩⟩⟩
  have wru : ∀ s ty, check_att_chg_allowed_checks s ty a SM_ATTR_CHG_WITH_ROW_UPDATE
      = .ok () := by
    intro s ty
    rw [check_att_chg_allowed_checks_ok_iff]
    exact ⟨g1, g2, g3 s ty, g4 _, g6,
      check_schema_only_constraints_other a _ (by simp), g7, g8⟩
  have r1 := fun s n ty l =>
    check_att_chg_allowed_of_error s n ty a SM_ATTR_CHG_ONLY_SCHEMA l _ _ (so s ty)
  have r2 := fun s n ty l =>
    check_att_chg_allowed_of_ok s n ty a SM_ATTR_CHG_WITH_ROW_UPDATE l (wru s ty)
  refine ⟨(r1 _ _ _ _).1, (r1 _ _ _ _).2, r2 _ _ _ _, ?_⟩
  intro hchecked hindex
  have hneeded : is_att_change_needed a = true := by
    unfold is_att_change_needed
    rw [List.any_eq_true]
    exact ⟨P_TYPE, List.mem_finRange _, by simp [f6]⟩
  rw [check_change_attribute_on_map_eq_escalate env attr_name attribute_node a hchecked
    hneeded hindex]
  unfold check_change_attribute_escalate
  simp [(r1 _ _ _ _).1, (r1 _ _ _ _).2, r2]

/-- C6 (witness): the two scenarios, run through `check_change_attribute` from
a fresh ledger. INTEGER to BIGINT on an attribute without constraints, and
INTEGER to VARCHAR(20) on an attribute `a` covered by a UNIQUE constraint on
`(a, b)`: both ledgers get the type entry `0x423`, and the planner answers
WithRowUpdate. The theorem is applied to the second ledger. -/
theorem check_change_attribute_upgrade_witness :
    ((check_change_attribute (sample_env false)
        (sample_template "a" (sample_attribute (simple_domain DB_TYPE_INTEGER)) [])
        (sample_definition "a" PT_TYPE_BIGINT (simple_domain DB_TYPE_BIGINT)) none []
        fresh_ledger).error = NO_ERROR ∧
      (check_change_attribute (sample_env false)
        (sample_template "a" (sample_attribute (simple_domain DB_TYPE_INTEGER)) [])
        (sample_definition "a" PT_TYPE_BIGINT (simple_domain DB_TYPE_BIGINT)) none []
        fresh_ledger).change_mode = SM_ATTR_CHG_WITH_ROW_UPDATE ∧
      (check_change_attribute (sample_env false)
        (sample_template "a" (sample_attribute (simple_domain DB_TYPE_INTEGER)) [])
        (sample_definition "a" PT_TYPE_BIGINT (simple_domain DB_TYPE_BIGINT)) none []
        fresh_ledger).attr_chg_prop.p P_TYPE = 0x423) ∧
    ((check_change_attribute (sample_env false)
        (sample_template "a" (sample_attribute (simple_domain DB_TYPE_INTEGER))
          [⟨some "u_a_b", SM_CONSTRAINT_UNIQUE, [some "a", some "b"], false, none, none,
            none, none⟩])
        (sample_definition "a" PT_TYPE_VARCHAR ⟨DB_TYPE_VARCHAR, 20, 0, none⟩) none []
        fresh_ledger).attr_chg_prop.p P_TYPE = 0x423 ∧
      (check_change_attribute (sample_env false)
        (sample_template "a" (sample_attribute (simple_domain DB_TYPE_INTEGER))
          [⟨some "u_a_b", SM_CONSTRAINT_UNIQUE, [some "a", some "b"], false, none, none,
            none, none⟩])
        (sample_definition "a" PT_TYPE_VARCHAR ⟨DB_TYPE_VARCHAR, 20, 0, none⟩) none []
        fresh_ledger).attr_chg_prop.p P_M_CONSTR_UNI = 0x25 ∧
      (check_change_attribute (sample_env false)
        (sample_template "a" (sample_attribute (simple_domain DB_TYPE_INTEGER))
          [⟨some "u_a_b", SM_CONSTRAINT_UNIQUE, [some "a", some "b"], false, none, none,
            none, none⟩])
        (sample_definition "a" PT_TYPE_VARCHAR ⟨DB_TYPE_VARCHAR, 20, 0, none⟩) none []
        fresh_ledger).change_mode = SM_ATTR_CHG_WITH_ROW_UPDATE) ∧
    check_att_chg_allowed false "a" PT_TYPE_VARCHAR
      (check_change_attribute (sample_env false)
        (sample_template "a" (sample_attribute (simple_domain DB_TYPE_INTEGER))
          [⟨some "u_a_b", SM_CONSTRAINT_UNIQUE, [some "a", some "b"], false, none, none,
            none, none⟩])
        (sample_definition "a" PT_TYPE_VARCHAR ⟨DB_TYPE_VARCHAR, 20, 0, none⟩) none []
        fresh_ledger).attr_chg_prop SM_ATTR_CHG_WITH_ROW_UPDATE false
      = ⟨NO_ERROR, true, none⟩ :=
  ⟨by decide, by decide,
    (check_change_attribute_upgrade (sample_env false) false "a"
      (sample_definition "a" PT_TYPE_VARCHAR ⟨DB_TYPE_VARCHAR, 20, 0, none⟩) PT_TYPE_VARCHAR
      (check_change_attribute (sample_env false)
        (sample_template "a" (sample_attribute (simple_domain DB_TYPE_INTEGER))
          [⟨some "u_a_b", SM_CONSTRAINT_UNIQUE, [some "a", some "b"], false, none, none,
            none, none⟩])
        (sample_definition "a" PT_TYPE_VARCHAR ⟨DB_TYPE_VARCHAR, 20, 0, none⟩) none []
        fresh_ledger).attr_chg_prop
      false (by decide) (by decide) (by decide) (by decide) (by decide) (by decide)
      (by decide) (by decide)).2.2.1⟩

/-- C7: for every ledger whose type entry carries `ATT_CHG_TYPE_NOT_SUPPORTED`
or `ATT_CHG_TYPE_NOT_SUPPORTED_WITH_CFG`, `check_att_chg_allowed` returns an
error at every strategy; once the partition, foreign-key, NOT NULL and
auto-increment blocks have passed, that error is
`ER_ALTER_CHANGE_TYPE_NOT_SUPP` (for NOT_SUPPORTED), respectively
`ER_ALTER_CHANGE_TYPE_UPGRADE_CFG` (for NOT_SUPPORTED_WITH_CFG alone), with
`new_attempt = false`. Consequently `check_change_attribute` never returns
`NO_ERROR` for such a ledger. -/
theorem check_att_chg_allowed_type_not_supported (env : Env) (strict : Bool)
    (attr_name : String) (attribute_node : PT_ATTR_DEF) (t : PT_TYPE_ENUM)
    (a : SM_ATTR_PROP_CHG) (chg_how : SM_ATTR_CHG_SOL) (log : Bool)
    (hty : is_att_prop_set (a.p P_TYPE) ATT_CHG_TYPE_NOT_SUPPORTED = true
      ∨ is_att_prop_set (a.p P_TYPE) ATT_CHG_TYPE_NOT_SUPPORTED_WITH_CFG = true) :
    (check_att_chg_allowed strict attr_name t a chg_how log).error ≠ NO_ERROR ∧
    (check_partitions a = .ok () → check_foreign_key a = .ok () →
      check_not_null strict t a = .ok () → check_auto_incr a chg_how = .ok () →
      (check_att_chg_allowed strict attr_name t a chg_how log).error =
        (if is_att_prop_set (a.p P_TYPE) ATT_CHG_TYPE_NOT_SUPPORTED = true
          then ER_ALTER_CHANGE_TYPE_NOT_SUPP else ER_ALTER_CHANGE_TYPE_UPGRADE_CFG) ∧
      (check_att_chg_allowed strict attr_name t a chg_how log).new_attempt = false) ∧
    (check_change_attribute_on_map env attr_name attribute_node a).error ≠ NO_ERROR := by
  have hdeny : ∀ m, check_type_change a m =
      .error (if is_att_prop_set (a.p P_TYPE) ATT_CHG_TYPE_NOT_SUPPORTED = true
        then ER_ALTER_CHANGE_TYPE_NOT_SUPP else ER_ALTER_CHANGE_TYPE_UPGRADE_CFG, false) := by
    intro m
    cases h1 : is_att_prop_set (a.p P_TYPE) ATT_CHG_TYPE_NOT_SUPPORTED
    · have h2 : is_att_prop_set (a.p P_TYPE) ATT_CHG_TYPE_NOT_SUPPORTED_WITH_CFG = true := by
        rcases hty with h | h
        · rw [h1] at h; cases h
        · exact h
      simpa using (check_type_change_not_supported a m).2 h1 h2
    · simpa using (check_type_change_not_supported a m).1 h1
  have herr : ∀ s n ty m l, (check_att_chg_allowed s n ty a m l).error ≠ NO_ERROR := by
    intro s n ty m l h
    rw [check_att_chg_allowed_no_error_iff, check_att_chg_allowed_checks_ok_iff] at h
    rw [hdeny m] at h
    cases h.2.2.2.2.1
  refine ⟨herr _ _ _ _ _, ?_, ?_⟩
  · intro g1 g2 g3 g4
    have : check_att_chg_allowed_checks strict t a chg_how =
        .error (if is_att_prop_set (a.p P_TYPE) ATT_CHG_TYPE_NOT_SUPPORTED = true
          then ER_ALTER_CHANGE_TYPE_NOT_SUPP else ER_ALTER_CHANGE_TYPE_UPGRADE_CFG, false) := by
      rw [check_att_chg_allowed_checks_error_iff]
      exact Or.inr ⟨g1, Or.inr ⟨g2, Or.inr ⟨g3, Or.inr ⟨g4, Or.inl (hdeny _)⟩⟩⟩⟩
    exact check_att_chg_allowed_of_error strict attr_name t a chg_how log _ _ this
  · have hge : ATT_CHG_PROPERTY_DIFF ≤ a.p P_TYPE := by
      rcases hty with h | h
      · exact le_trans (by decide) (le_of_is_att_prop_set _ _ h)
      · exact le_trans (by decide) (le_of_is_att_prop_set _ _ h)
    have hneeded := is_att_change_needed_of_ge a P_TYPE hge
    unfold check_change_attribute_on_map
    split
    · simp
    · split
      · rename_i h; simp [hneeded] at h
      · split
        · simp
        · exact check_change_attribute_escalate_error env attr_name _ a
            (fun m l => herr _ _ _ m l)

/-- C7 (witness): the ledger of INTEGER to DATE on an unconstrained plain
attribute (type entry `PRESENT_OLD | PRESENT_NEW | DIFF | NOT_SUPPORTED`),
checked at BestEffort. -/
theorem check_att_chg_allowed_type_not_supported_witness :
    (is_att_prop_set
        ((sample_ledger (fun i => if i = P_TYPE then 0x4023 else 0x10) ID_ATTRIBUTE false).p
          P_TYPE) ATT_CHG_TYPE_NOT_SUPPORTED = true
      ∨ is_att_prop_set
        ((sample_ledger (fun i => if i = P_TYPE then 0x4023 else 0x10) ID_ATTRIBUTE false).p
          P_TYPE) ATT_CHG_TYPE_NOT_SUPPORTED_WITH_CFG = true) ∧
      (check_att_chg_allowed false "a" PT_TYPE_DATE
        (sample_ledger (fun i => if i = P_TYPE then 0x4023 else 0x10) ID_ATTRIBUTE false)
        SM_ATTR_CHG_BEST_EFFORT true).error = ER_ALTER_CHANGE_TYPE_NOT_SUPP ∧
      (check_att_chg_allowed false "a" PT_TYPE_DATE
        (sample_ledger (fun i => if i = P_TYPE then 0x4023 else 0x10) ID_ATTRIBUTE false)
        SM_ATTR_CHG_BEST_EFFORT true).new_attempt = false :=
  ⟨Or.inl (by decide),
    (check_att_chg_allowed_type_not_supported (sample_env false) false "a"
      (sample_definition "a" PT_TYPE_DATE (simple_domain DB_TYPE_DATE)) PT_TYPE_DATE
      (sample_ledger (fun i => if i = P_TYPE then 0x4023 else 0x10) ID_ATTRIBUTE false)
      SM_ATTR_CHG_BEST_EFFORT true (Or.inl (by decide))).2.1 rfl rfl rfl rfl⟩

/-- C8: if `check_att_chg_allowed` returns `NO_ERROR` at SchemaOnly for a plain
attribute, then the type entry carries none of UPGRADE, NEED_ROW_CHECK,
PSEUDO_UPGRADE, NOT_SUPPORTED, NOT_SUPPORTED_WITH_CFG, and if it carries DIFF
it also carries PREC_INCR or SET_CLS_COMPAT: SchemaOnly is granted only for
the type classes Unchanged, PrecisionIncrease and SetOrClassCompatible. -/
theorem check_att_chg_allowed_only_schema_type (strict : Bool) (attr_name : String)
    (t : PT_TYPE_ENUM) (a : SM_ATTR_PROP_CHG) (log : Bool)
    (hns : a.name_space = ID_ATTRIBUTE)
    (hok : (check_att_chg_allowed strict attr_name t a SM_ATTR_CHG_ONLY_SCHEMA log).error
      = NO_ERROR) :
    is_att_prop_set (a.p P_TYPE) ATT_CHG_TYPE_UPGRADE = false ∧
      is_att_prop_set (a.p P_TYPE) ATT_CHG_TYPE_NEED_ROW_CHECK = false ∧
      is_att_prop_set (a.p P_TYPE) ATT_CHG_TYPE_PSEUDO_UPGRADE = false ∧
      is_att_prop_set (a.p P_TYPE) ATT_CHG_TYPE_NOT_SUPPORTED = false ∧
      is_att_prop_set (a.p P_TYPE) ATT_CHG_TYPE_NOT_SUPPORTED_WITH_CFG = false ∧
      (is_att_prop_set (a.p P_TYPE) ATT_CHG_PROPERTY_DIFF = true →
        is_att_prop_set (a.p P_TYPE) ATT_CHG_TYPE_PREC_INCR = true
          ∨ is_att_prop_set (a.p P_TYPE) ATT_CHG_TYPE_SET_CLS_COMPAT = true) := by
  rw [check_att_chg_allowed_no_error_iff, check_att_chg_allowed_checks_ok_iff] at hok
  have hty := hok.2.2.2.2.1
  rw [check_type_change_only_schema a hns] at hty
  cases h1 : is_att_prop_set (a.p P_TYPE) ATT_CHG_TYPE_NOT_SUPPORTED <;>
    cases h2 : is_att_prop_set (a.p P_TYPE) ATT_CHG_TYPE_NOT_SUPPORTED_WITH_CFG <;>
    cases h3 : is_att_prop_set (a.p P_TYPE) ATT_CHG_TYPE_NEED_ROW_CHECK <;>
    cases h4 : is_att_prop_set (a.p P_TYPE) ATT_CHG_TYPE_PSEUDO_UPGRADE <;>
    cases h5 : is_att_prop_set (a.p P_TYPE) ATT_CHG_TYPE_UPGRADE <;>
    cases h6 : is_att_prop_set (a.p P_TYPE) ATT_CHG_PROPERTY_DIFF <;>
    cases h7 : is_att_prop_set (a.p P_TYPE) ATT_CHG_TYPE_PREC_INCR <;>
    cases h8 : is_att_prop_set (a.p P_TYPE) ATT_CHG_TYPE_SET_CLS_COMPAT <;>
    simp [h1, h2, h3, h4, h5, h6, h7, h8] at hty ⊢

/-- C8 (witness): the ledger of a precision increase on an unconstrained plain
attribute (type entry `PRESENT_OLD | PRESENT_NEW | PREC_INCR`), which
SchemaOnly accepts. -/
theorem check_att_chg_allowed_only_schema_type_witness :
    (sample_ledger (fun i => if i = P_TYPE then 0x103 else 0x10) ID_ATTRIBUTE false).name_space
        = ID_ATTRIBUTE ∧
      (check_att_chg_allowed false "a" PT_TYPE_VARCHAR
        (sample_ledger (fun i => if i = P_TYPE then 0x103 else 0x10) ID_ATTRIBUTE false)
        SM_ATTR_CHG_ONLY_SCHEMA false).error = NO_ERROR ∧
      is_att_prop_set
        ((sample_ledger (fun i => if i = P_TYPE then 0x103 else 0x10) ID_ATTRIBUTE false).p
          P_TYPE) ATT_CHG_TYPE_UPGRADE = false :=
  ⟨rfl, by decide,
    (check_att_chg_allowed_only_schema_type false "a" PT_TYPE_VARCHAR
      (sample_ledger (fun i => if i = P_TYPE then 0x103 else 0x10) ID_ATTRIBUTE false) false
      rfl (by decide)).1⟩

/-- C9 (amended): under SchemaOnly, for an attribute whose type entry has DIFF,
`check_att_chg_allowed` denies whenever a single-column UNIQUE or a
single-column PRIMARY KEY is kept (its entry has both PRESENT_OLD and
PRESENT_NEW), or a multi-column UNIQUE or a non-unique INDEX is present in the
old schema (its entry has PRESENT_OLD). -/
theorem check_att_chg_allowed_only_schema_index (strict : Bool) (attr_name : String)
    (t : PT_TYPE_ENUM) (a : SM_ATTR_PROP_CHG) (log : Bool)
    (hdiff : is_att_prop_set (a.p P_TYPE) ATT_CHG_PROPERTY_DIFF = true)
    (hidx : is_att_prop_set (a.p P_S_CONSTR_UNI)
          (ATT_CHG_PROPERTY_PRESENT_OLD ||| ATT_CHG_PROPERTY_PRESENT_NEW) = true
      ∨ is_att_prop_set (a.p P_M_CONSTR_UNI) ATT_CHG_PROPERTY_PRESENT_OLD = true
      ∨ is_att_prop_set (a.p P_S_CONSTR_PK)
          (ATT_CHG_PROPERTY_PRESENT_OLD ||| ATT_CHG_PROPERTY_PRESENT_NEW) = true
      ∨ is_att_prop_set (a.p P_CONSTR_NON_UNI) ATT_CHG_PROPERTY_PRESENT_OLD = true) :
    (check_att_chg_allowed strict attr_name t a SM_ATTR_CHG_ONLY_SCHEMA log).error
      ≠ NO_ERROR := by
  intro hok
  rw [check_att_chg_allowed_no_error_iff, check_att_chg_allowed_checks_ok_iff] at hok
  have hc := hok.2.2.2.2.2.1
  rw [check_schema_only_constraints_eq] at hc
  simp only [if_true] at hc
  rcases hidx with h | h | h | h <;> (repeat' split at hc) <;> simp_all

/-- C9 (witness): an attribute whose type entry is
`PRESENT_OLD | PRESENT_NEW | DIFF | SET_CLS_COMPAT` and that keeps its
single-column UNIQUE constraint (entry `PRESENT_OLD | PRESENT_NEW |
UNCHANGED`). -/
theorem check_att_chg_allowed_only_schema_index_witness :
    is_att_prop_set
        ((sample_ledger (fun i => if i = P_TYPE then 0x223 else if i = P_S_CONSTR_UNI
          then 0x13 else 0x10) ID_ATTRIBUTE false).p P_TYPE) ATT_CHG_PROPERTY_DIFF = true ∧
      is_att_prop_set
        ((sample_ledger (fun i => if i = P_TYPE then 0x223 else if i = P_S_CONSTR_UNI
          then 0x13 else 0x10) ID_ATTRIBUTE false).p P_S_CONSTR_UNI)
        (ATT_CHG_PROPERTY_PRESENT_OLD ||| ATT_CHG_PROPERTY_PRESENT_NEW) = true ∧
      (check_att_chg_allowed false "a" PT_TYPE_OBJECT
        (sample_ledger (fun i => if i = P_TYPE then 0x223 else if i = P_S_CONSTR_UNI
          then 0x13 else 0x10) ID_ATTRIBUTE false) SM_ATTR_CHG_ONLY_SCHEMA false).error
        ≠ NO_ERROR :=
  ⟨by decide, by decide,
    check_att_chg_allowed_only_schema_index false "a" PT_TYPE_OBJECT
      (sample_ledger (fun i => if i = P_TYPE then 0x223 else if i = P_S_CONSTR_UNI
        then 0x13 else 0x10) ID_ATTRIBUTE false) false (by decide) (Or.inl (by decide))⟩

/-- C9 (counterexample): an OBJECT attribute `a` of class 2 with a
single-column UNIQUE constraint, changed by `MODIFY a <class 1>` to a
superclass without restating UNIQUE. The ledger built is that of a plain
attribute, its type entry has DIFF (`0x223`) and the single-column UNIQUE entry
has PRESENT_OLD (`0x5`); yet `check_att_chg_allowed` returns `NO_ERROR` at
SchemaOnly, and the planner stays there. -/
theorem check_att_chg_allowed_unique_dropped :
    (check_change_attribute (sample_env false)
        (sample_template "a" (sample_attribute ⟨DB_TYPE_OBJECT, 0, 0, some 2⟩)
          [⟨some "u_a", SM_CONSTRAINT_UNIQUE, [some "a"], false, none, none, none, none⟩])
        (sample_definition "a" PT_TYPE_OBJECT ⟨DB_TYPE_OBJECT, 0, 0, some 1⟩) none []
        fresh_ledger).attr_chg_prop.name_space = ID_ATTRIBUTE ∧
      is_att_prop_set ((check_change_attribute (sample_env false)
        (sample_template "a" (sample_attribute ⟨DB_TYPE_OBJECT, 0, 0, some 2⟩)
          [⟨some "u_a", SM_CONSTRAINT_UNIQUE, [some "a"], false, none, none, none, none⟩])
        (sample_definition "a" PT_TYPE_OBJECT ⟨DB_TYPE_OBJECT, 0, 0, some 1⟩) none []
        fresh_ledger).attr_chg_prop.p P_TYPE) ATT_CHG_PROPERTY_DIFF = true ∧
      is_att_prop_set ((check_change_attribute (sample_env false)
        (sample_template "a" (sample_attribute ⟨DB_TYPE_OBJECT, 0, 0, some 2⟩)
          [⟨some "u_a", SM_CONSTRAINT_UNIQUE, [some "a"], false, none, none, none, none⟩])
        (sample_definition "a" PT_TYPE_OBJECT ⟨DB_TYPE_OBJECT, 0, 0, some 1⟩) none []
        fresh_ledger).attr_chg_prop.p P_S_CONSTR_UNI) ATT_CHG_PROPERTY_PRESENT_OLD = true ∧
      (check_att_chg_allowed false "a" PT_TYPE_OBJECT
        (check_change_attribute (sample_env false)
          (sample_template "a" (sample_attribute ⟨DB_TYPE_OBJECT, 0, 0, some 2⟩)
            [⟨some "u_a", SM_CONSTRAINT_UNIQUE, [some "a"], false, none, none, none, none⟩])
          (sample_definition "a" PT_TYPE_OBJECT ⟨DB_TYPE_OBJECT, 0, 0, some 1⟩) none []
          fresh_ledger).attr_chg_prop SM_ATTR_CHG_ONLY_SCHEMA false).error = NO_ERROR ∧
      (check_change_attribute (sample_env false)
        (sample_template "a" (sample_attribute ⟨DB_TYPE_OBJECT, 0, 0, some 2⟩)
          [⟨some "u_a", SM_CONSTRAINT_UNIQUE, [some "a"], false, none, none, none, none⟩])
        (sample_definition "a" PT_TYPE_OBJECT ⟨DB_TYPE_OBJECT, 0, 0, some 1⟩) none []
        fresh_ledger).change_mode = SM_ATTR_CHG_ONLY_SCHEMA ∧
      (check_change_attribute (sample_env false)
        (sample_template "a" (sample_attribute ⟨DB_TYPE_OBJECT, 0, 0, some 2⟩)
          [⟨some "u_a", SM_CONSTRAINT_UNIQUE, [some "a"], false, none, none, none, none⟩])
        (sample_definition "a" PT_TYPE_OBJECT ⟨DB_TYPE_OBJECT, 0, 0, some 1⟩) none []
        fresh_ledger).error = NO_ERROR := by
  decide

/-- C10: for every strategy and every ledger whose partition-key and
foreign-key entries are UNCHANGED and whose NOT NULL entry has GAINED: if the
new type is BLOB or CLOB, `check_att_chg_allowed` returns
`ER_SM_NOT_NULL_NOT_ALLOWED` with `new_attempt = false`; otherwise, if the
attribute is a class attribute, it returns `ER_SM_INVALID_CONSTRAINT` with
`new_attempt = false`. The escalation of `check_change_attribute` therefore
makes exactly one checker call, at SchemaOnly, and returns that error; whatever
path the planner takes on such a ledger, it makes at most one checker call and
grants no strategy. -/
theorem check_att_chg_allowed_not_null_gained (env : Env) (strict : Bool)
    (attr_name : String) (attribute_node : PT_ATTR_DEF) (t : PT_TYPE_ENUM)
    (a : SM_ATTR_PROP_CHG) (chg_how : SM_ATTR_CHG_SOL) (log : Bool)
    (hpart : a.p P_IS_PARTITION_COL = ATT_CHG_PROPERTY_UNCHANGED)
    (hfk : a.p P_CONSTR_FK = ATT_CHG_PROPERTY_UNCHANGED)
    (hnn : is_att_prop_set (a.p P_NOT_NULL) ATT_CHG_PROPERTY_GAINED = true)
    (hcase : (t = PT_TYPE_BLOB ∨ t = PT_TYPE_CLOB) ∨ a.name_space = ID_CLASS_ATTRIBUTE) :
    (check_att_chg_allowed strict attr_name t a chg_how log).error =
        (if t = PT_TYPE_BLOB ∨ t = PT_TYPE_CLOB then ER_SM_NOT_NULL_NOT_ALLOWED
          else ER_SM_INVALID_CONSTRAINT) ∧
      (check_att_chg_allowed strict attr_name t a chg_how log).new_attempt = false ∧
      (check_change_attribute_escalate env attr_name t a).error =
        (if t = PT_TYPE_BLOB ∨ t = PT_TYPE_CLOB then ER_SM_NOT_NULL_NOT_ALLOWED
          else ER_SM_INVALID_CONSTRAINT) ∧
      (check_change_attribute_escalate env attr_name t a).change_mode
        = SM_ATTR_CHG_ONLY_SCHEMA ∧
      (check_change_attribute_escalate env attr_name t a).checker_calls.map
        (fun c => c.chg_how) = [SM_ATTR_CHG_ONLY_SCHEMA] ∧
      (t = attribute_node.type_enum →
        (check_change_attribute_on_map env attr_name attribute_node a).checker_calls.length
          ≤ 1 ∧
        ((check_change_attribute_on_map env attr_name attribute_node a).error = NO_ERROR →
          (check_change_attribute_on_map env attr_name attribute_node a).change_mode
            = SM_ATTR_CHG_NOT_NEEDED)) := by
  have hne : (if t = PT_TYPE_BLOB ∨ t = PT_TYPE_CLOB then ER_SM_NOT_NULL_NOT_ALLOWED
      else ER_SM_INVALID_CONSTRAINT) ≠ NO_ERROR := by
    split <;> simp
  have hc : ∀ s m, check_att_chg_allowed_checks s t a m =
      .error (if t = PT_TYPE_BLOB ∨ t = PT_TYPE_CLOB then ER_SM_NOT_NULL_NOT_ALLOWED
        else ER_SM_INVALID_CONSTRAINT, false) := by
    intro s m
    rw [check_att_chg_allowed_checks_error_iff]
    refine Or.inr ⟨(check_partitions_ok_iff a).2 hpart,
      Or.inr ⟨(check_foreign_key_ok_iff a).2 hfk, Or.inl ?_⟩⟩
    rw [check_not_null_eq]
    by_cases hb : t = PT_TYPE_BLOB ∨ t = PT_TYPE_CLOB
    · simp [hnn, hb]
    · have hcl : a.name_space = ID_CLASS_ATTRIBUTE := hcase.resolve_left hb
      simp [hnn, hb, hcl]
  have h1 := fun s m l => check_att_chg_allowed_of_error s attr_name t a m l _ _ (hc s m)
  have h3 := check_change_attribute_escalate_stop env attr_name t a (h1 _ _ _).2
  refine ⟨(h1 _ _ _).1, (h1 _ _ _).2, ?_, ?_, ?_, ?_⟩
  · rw [h3]; exact (h1 _ _ _).1
  · rw [h3]
  · rw [h3]; rfl
  · intro ht
    subst ht
    unfold check_change_attribute_on_map
    constructor
    · split
      · simp
      · split
        · simp
        · split
          · simp
          · rw [h3]; simp
    · split
      · simp
      · split
        · simp
        · split
          · simp
          · rw [h3]
            intro h4
            have : (check_att_chg_allowed env.PRM_ALTER_TABLE_CHANGE_TYPE_STRICT attr_name
              attribute_node.type_enum a SM_ATTR_CHG_ONLY_SCHEMA false).error = NO_ERROR := h4
            rw [(h1 _ _ _).1] at this
            exact absurd this hne

/-- C10 (witness): NOT NULL gained (entry `PRESENT_NEW | GAINED`) on a BLOB
column, checked at BestEffort. -/
theorem check_att_chg_allowed_not_null_gained_witness :
    (sample_ledger (fun i => if i = P_NOT_NULL then 0xA else 0x10) ID_ATTRIBUTE false).p
        P_IS_PARTITION_COL = ATT_CHG_PROPERTY_UNCHANGED ∧
      (sample_ledger (fun i => if i = P_NOT_NULL then 0xA else 0x10) ID_ATTRIBUTE false).p
        P_CONSTR_FK = ATT_CHG_PROPERTY_UNCHANGED ∧
      is_att_prop_set
        ((sample_ledger (fun i => if i = P_NOT_NULL then 0xA else 0x10) ID_ATTRIBUTE false).p
          P_NOT_NULL) ATT_CHG_PROPERTY_GAINED = true ∧
      (check_att_chg_allowed false "a" PT_TYPE_BLOB
        (sample_ledger (fun i => if i = P_NOT_NULL then 0xA else 0x10) ID_ATTRIBUTE false)
        SM_ATTR_CHG_BEST_EFFORT true).error = ER_SM_NOT_NULL_NOT_ALLOWED ∧
      (check_att_chg_allowed false "a" PT_TYPE_BLOB
        (sample_ledger (fun i => if i = P_NOT_NULL then 0xA else 0x10) ID_ATTRIBUTE false)
        SM_ATTR_CHG_BEST_EFFORT true).new_attempt = false :=
  have h := check_att_chg_allowed_not_null_gained (sample_env false) false "a"
    (sample_definition "a" PT_TYPE_BLOB (simple_domain DB_TYPE_BLOB)) PT_TYPE_BLOB
    (sample_ledger (fun i => if i = P_NOT_NULL then 0xA else 0x10) ID_ATTRIBUTE false)
    SM_ATTR_CHG_BEST_EFFORT true (by decide) (by decide) (by decide) (Or.inl (Or.inl rfl))
  ⟨by decide, by decide, by decide, h.1, h.2.1⟩

/-- C11: under permissive configuration, for every strategy and every ledger
whose partition-key and foreign-key entries are UNCHANGED and whose NOT NULL
entry has GAINED, on an attribute that is not a class attribute and a type
other than BLOB and CLOB, `check_att_chg_allowed` returns
`ER_ALTER_CHANGE_HARD_DEFAULT_NOT_EXIST` if and only if
`get_hard_default_for_type t` is NULL, and then with `new_attempt = false`.
That is the case exactly for the types outside the twenty that have a hard
default; the hard default of INTEGER is `"0"`. Under strict configuration this
error is never returned, whatever the request. -/
theorem check_att_chg_allowed_hard_default (att_name : String) (t : PT_TYPE_ENUM)
    (a : SM_ATTR_PROP_CHG) (chg_how : SM_ATTR_CHG_SOL) (log : Bool)
    (hpart : a.p P_IS_PARTITION_COL = ATT_CHG_PROPERTY_UNCHANGED)
    (hfk : a.p P_CONSTR_FK = ATT_CHG_PROPERTY_UNCHANGED)
    (hnn : is_att_prop_set (a.p P_NOT_NULL) ATT_CHG_PROPERTY_GAINED = true)
    (hns : a.name_space ≠ ID_CLASS_ATTRIBUTE)
    (ht : t ≠ PT_TYPE_BLOB ∧ t ≠ PT_TYPE_CLOB) :
    ((check_att_chg_allowed false att_name t a chg_how log).error
        = ER_ALTER_CHANGE_HARD_DEFAULT_NOT_EXIST ↔ get_hard_default_for_type t = none) ∧
      ((check_att_chg_allowed false att_name t a chg_how log).error
          = ER_ALTER_CHANGE_HARD_DEFAULT_NOT_EXIST →
        (check_att_chg_allowed false att_name t a chg_how log).new_attempt = false) ∧
      (get_hard_default_for_type t = none ↔
        t ∉ [PT_TYPE_INTEGER, PT_TYPE_SMALLINT, PT_TYPE_BIGINT, PT_TYPE_NUMERIC,
          PT_TYPE_FLOAT, PT_TYPE_DOUBLE, PT_TYPE_MONETARY, PT_TYPE_TIMESTAMP, PT_TYPE_DATE,
          PT_TYPE_TIME, PT_TYPE_DATETIME, PT_TYPE_CHAR, PT_TYPE_VARCHAR, PT_TYPE_NCHAR,
          PT_TYPE_VARNCHAR, PT_TYPE_SET, PT_TYPE_MULTISET, PT_TYPE_SEQUENCE, PT_TYPE_BIT,
          PT_TYPE_VARBIT]) ∧
      get_hard_default_for_type PT_TYPE_INTEGER = some "0" ∧
      (∀ (n : String) (t2 : PT_TYPE_ENUM) (b : SM_ATTR_PROP_CHG) (m : SM_ATTR_CHG_SOL)
          (l : Bool),
        (check_att_chg_allowed true n t2 b m l).error
          ≠ ER_ALTER_CHANGE_HARD_DEFAULT_NOT_EXIST) := by
  have hchecks := fun na => check_att_chg_allowed_checks_hard_default_permissive t a
    chg_how na hpart hfk hnn hns ht
  refine ⟨?_, ?_, get_hard_default_for_type_eq_none_iff t, rfl, ?_⟩
  · rw [check_att_chg_allowed_error_iff _ _ _ _ _ _ _ (by simp)]
    constructor
    · rintro ⟨na, h⟩
      exact ((hchecks na).1 h).1
    · intro h
      exact ⟨false, (hchecks false).2 ⟨h, rfl⟩⟩
  · intro h
    have h2 := (check_att_chg_allowed_denial_iff false att_name t a chg_how log
      ER_ALTER_CHANGE_HARD_DEFAULT_NOT_EXIST _ (by simp)).1 ⟨h, rfl⟩
    exact ((hchecks _).1 h2).2
  · intro n t2 b m l h
    obtain ⟨na, h2⟩ := (check_att_chg_allowed_error_iff true n t2 b m l _ (by simp)).1 h
    exact check_att_chg_allowed_checks_hard_default_strict t2 b m na h2

/-- C11 (witness): NOT NULL gained on a plain OBJECT attribute, which has no
hard default, is denied at BestEffort under permissive configuration. -/
theorem check_att_chg_allowed_hard_default_witness :
    get_hard_default_for_type PT_TYPE_OBJECT = none ∧
      (check_att_chg_allowed false "a" PT_TYPE_OBJECT
        (sample_ledger (fun i => if i = P_NOT_NULL then 0xA else 0x10) ID_ATTRIBUTE false)
        SM_ATTR_CHG_BEST_EFFORT true).error = ER_ALTER_CHANGE_HARD_DEFAULT_NOT_EXIST ∧
      (check_att_chg_allowed false "a" PT_TYPE_OBJECT
        (sample_ledger (fun i => if i = P_NOT_NULL then 0xA else 0x10) ID_ATTRIBUTE false)
        SM_ATTR_CHG_BEST_EFFORT true).new_attempt = false :=
  have h := check_att_chg_allowed_hard_default "a" PT_TYPE_OBJECT
    (sample_ledger (fun i => if i = P_NOT_NULL then 0xA else 0x10) ID_ATTRIBUTE false)
    SM_ATTR_CHG_BEST_EFFORT true (by decide) (by decide) (by decide) (by decide)
    ⟨by decide, by decide⟩
  ⟨rfl, h.1.2 rfl, h.2.1 (h.1.2 rfl)⟩

/-- C12 (amended): the hard-default requirement applies with or without a
literal default. `check_att_chg_allowed` does not read the `P_DEFAULT_VALUE`
entry: two ledgers that differ only in that entry get the same result. So under
permissive configuration, with partition-key and foreign-key entries UNCHANGED,
gaining NOT NULL on an attribute that is not a class attribute, of a type
without hard default other than BLOB and CLOB, is denied with
`ER_ALTER_CHANGE_HARD_DEFAULT_NOT_EXIST` and `new_attempt = false` at every
strategy, whatever the default-value entry of the ledger is; under strict
configuration it is never denied with this error. -/
theorem check_att_chg_allowed_default_ignored (strict : Bool) (att_name : String)
    (t : PT_TYPE_ENUM) (a b : SM_ATTR_PROP_CHG) (chg_how : SM_ATTR_CHG_SOL) (log : Bool)
    (hsame : ∀ i, i ≠ P_DEFAULT_VALUE → a.p i = b.p i)
    (hns : a.name_space = b.name_space)
    (hsub : a.class_has_subclass = b.class_has_subclass) :
    check_att_chg_allowed strict att_name t a chg_how log
        = check_att_chg_allowed strict att_name t b chg_how log ∧
      (a.p P_IS_PARTITION_COL = ATT_CHG_PROPERTY_UNCHANGED →
        a.p P_CONSTR_FK = ATT_CHG_PROPERTY_UNCHANGED →
        is_att_prop_set (a.p P_NOT_NULL) ATT_CHG_PROPERTY_GAINED = true →
        a.name_space ≠ ID_CLASS_ATTRIBUTE → t ≠ PT_TYPE_BLOB → t ≠ PT_TYPE_CLOB →
        get_hard_default_for_type t = none →
          (check_att_chg_allowed false att_name t a chg_how log).error
            = ER_ALTER_CHANGE_HARD_DEFAULT_NOT_EXIST ∧
          (check_att_chg_allowed false att_name t a chg_how log).new_attempt = false ∧
          (check_att_chg_allowed false att_name t b chg_how log).error
            = ER_ALTER_CHANGE_HARD_DEFAULT_NOT_EXIST ∧
          (check_att_chg_allowed false att_name t b chg_how log).new_attempt = false) ∧
      (check_att_chg_allowed true att_name t a chg_how log).error
        ≠ ER_ALTER_CHANGE_HARD_DEFAULT_NOT_EXIST ∧
      (check_att_chg_allowed true att_name t b chg_how log).error
        ≠ ER_ALTER_CHANGE_HARD_DEFAULT_NOT_EXIST := by
  have heq : ∀ s, check_att_chg_allowed s att_name t a chg_how log
      = check_att_chg_allowed s att_name t b chg_how log := by
    intro s
    unfold check_att_chg_allowed
    rw [check_att_chg_allowed_checks_default_indep s t a b chg_how hsame hns hsub]
  have hstrict : ∀ c : SM_ATTR_PROP_CHG,
      (check_att_chg_allowed true att_name t c chg_how log).error
        ≠ ER_ALTER_CHANGE_HARD_DEFAULT_NOT_EXIST := by
    intro c h
    obtain ⟨na, h2⟩ := (check_att_chg_allowed_error_iff true att_name t c chg_how log _
      (by simp)).1 h
    exact check_att_chg_allowed_checks_hard_default_strict t c chg_how na h2
  refine ⟨heq strict, ?_, hstrict a, hstrict b⟩
  intro hpart hfk hnn hnc hb hc hd
  have h := (check_att_chg_allowed_denial_iff false att_name t a chg_how log
    ER_ALTER_CHANGE_HARD_DEFAULT_NOT_EXIST false (by simp)).2
    ((check_att_chg_allowed_checks_hard_default_permissive t a chg_how false hpart hfk hnn
      hnc ⟨hb, hc⟩).2 ⟨hd, rfl⟩)
  refine ⟨h.1, h.2, ?_, ?_⟩
  · rw [← heq false]; exact h.1
  · rw [← heq false]; exact h.2

/-- C12 (amended), on a plain OBJECT attribute that gains NOT NULL: the ledger
of the request with a DEFAULT clause and the one without get the same verdict
at WithRowUpdate under permissive configuration. -/
theorem check_att_chg_allowed_default_ignored_witness :
    check_att_chg_allowed false "a" PT_TYPE_OBJECT
        (sample_ledger (fun i => if i = P_NOT_NULL ∨ i = P_DEFAULT_VALUE then 0xA else 0x10)
          ID_ATTRIBUTE false)
        SM_ATTR_CHG_WITH_ROW_UPDATE false
      = check_att_chg_allowed false "a" PT_TYPE_OBJECT
        (sample_ledger (fun i => if i = P_NOT_NULL then 0xA else 0x10) ID_ATTRIBUTE false)
        SM_ATTR_CHG_WITH_ROW_UPDATE false ∧
      (check_att_chg_allowed false "a" PT_TYPE_OBJECT
        (sample_ledger (fun i => if i = P_NOT_NULL ∨ i = P_DEFAULT_VALUE then 0xA else 0x10)
          ID_ATTRIBUTE false)
        SM_ATTR_CHG_WITH_ROW_UPDATE false).error = ER_ALTER_CHANGE_HARD_DEFAULT_NOT_EXIST :=
  have h := check_att_chg_allowed_default_ignored false "a" PT_TYPE_OBJECT
    (sample_ledger (fun i => if i = P_NOT_NULL ∨ i = P_DEFAULT_VALUE then 0xA else 0x10)
          ID_ATTRIBUTE false)
    (sample_ledger (fun i => if i = P_NOT_NULL then 0xA else 0x10) ID_ATTRIBUTE false)
    SM_ATTR_CHG_WITH_ROW_UPDATE false
    (by intro i hi; simp [sample_ledger, hi]) rfl rfl
  ⟨h.1, (h.2.1 (by decide) (by decide) (by decide) (by decide) (by decide) (by decide)
    rfl).1⟩

/-- C12 (counterexample): `MODIFY a OBJECT DEFAULT v NOT NULL` on a plain
OBJECT attribute without constraints, under permissive configuration. The
request supplies a default value (the default-value entry has `PRESENT_NEW`)
and OBJECT has no hard default; the checker denies the ledger with
`ER_ALTER_CHANGE_HARD_DEFAULT_NOT_EXIST` at every strategy and the planner
returns that error. -/
theorem check_att_chg_allowed_hard_default_with_default :
    get_hard_default_for_type PT_TYPE_OBJECT = none ∧
      is_att_prop_set ((check_change_attribute (sample_env false)
        (sample_template "a" (sample_attribute (simple_domain DB_TYPE_OBJECT)) [])
        (sample_definition_with_default "a" PT_TYPE_OBJECT (simple_domain DB_TYPE_OBJECT))
        none [⟨PT_CONSTRAIN_NOT_NULL, ["a"]⟩] fresh_ledger).attr_chg_prop.p P_DEFAULT_VALUE)
        ATT_CHG_PROPERTY_PRESENT_NEW = true ∧
      is_att_prop_set ((check_change_attribute (sample_env false)
        (sample_template "a" (sample_attribute (simple_domain DB_TYPE_OBJECT)) [])
        (sample_definition_with_default "a" PT_TYPE_OBJECT (simple_domain DB_TYPE_OBJECT))
        none [⟨PT_CONSTRAIN_NOT_NULL, ["a"]⟩] fresh_ledger).attr_chg_prop.p P_NOT_NULL)
        ATT_CHG_PROPERTY_GAINED = true ∧
      (check_att_chg_allowed false "a" PT_TYPE_OBJECT
        (check_change_attribute (sample_env false)
        (sample_template "a" (sample_attribute (simple_domain DB_TYPE_OBJECT)) [])
        (sample_definition_with_default "a" PT_TYPE_OBJECT (simple_domain DB_TYPE_OBJECT))
        none [⟨PT_CONSTRAIN_NOT_NULL, ["a"]⟩] fresh_ledger).attr_chg_prop
        SM_ATTR_CHG_ONLY_SCHEMA false).error = ER_ALTER_CHANGE_HARD_DEFAULT_NOT_EXIST ∧
      (check_att_chg_allowed false "a" PT_TYPE_OBJECT
        (check_change_attribute (sample_env false)
        (sample_template "a" (sample_attribute (simple_domain DB_TYPE_OBJECT)) [])
        (sample_definition_with_default "a" PT_TYPE_OBJECT (simple_domain DB_TYPE_OBJECT))
        none [⟨PT_CONSTRAIN_NOT_NULL, ["a"]⟩] fresh_ledger).attr_chg_prop
        SM_ATTR_CHG_WITH_ROW_UPDATE false).error = ER_ALTER_CHANGE_HARD_DEFAULT_NOT_EXIST ∧
      (check_att_chg_allowed false "a" PT_TYPE_OBJECT
        (check_change_attribute (sample_env false)
        (sample_template "a" (sample_attribute (simple_domain DB_TYPE_OBJECT)) [])
        (sample_definition_with_default "a" PT_TYPE_OBJECT (simple_domain DB_TYPE_OBJECT))
        none [⟨PT_CONSTRAIN_NOT_NULL, ["a"]⟩] fresh_ledger).attr_chg_prop
        SM_ATTR_CHG_BEST_EFFORT true).error = ER_ALTER_CHANGE_HARD_DEFAULT_NOT_EXIST ∧
      (check_change_attribute (sample_env false)
        (sample_template "a" (sample_attribute (simple_domain DB_TYPE_OBJECT)) [])
        (sample_definition_with_default "a" PT_TYPE_OBJECT (simple_domain DB_TYPE_OBJECT))
        none [⟨PT_CONSTRAIN_NOT_NULL, ["a"]⟩] fresh_ledger).error = ER_ALTER_CHANGE_HARD_DEFAULT_NOT_EXIST := by
  decide

/-- C13: for every ledger in which a single-column primary key is present
(`PRESENT_OLD` or `PRESENT_NEW` on `P_S_CONSTR_PK`) and a multi-column primary
key is present (`PRESENT_OLD` or `PRESENT_NEW` on `P_M_CONSTR_PK`),
`check_att_chg_allowed` returns an error at every strategy; once the blocks
before it have passed (partition key, foreign key, NOT NULL, AUTO_INCREMENT,
type and the schema-only constraints) that error is
`ER_ALTER_CHANGE_MULTIPLE_PK` with `new_attempt = false`. The escalation of
`check_change_attribute` therefore ends with an error whatever the new type
is; after the builder, `check_change_attribute` returns an error whenever the
ledger needs a change (as it does when the multi-column entry lacks UNCHANGED,
the value the builder gives to a present multi-column key) and grants no
strategy in any case. -/
theorem check_att_chg_allowed_multiple_pk (env : Env) (strict : Bool) (attr_name : String)
    (attribute_node : PT_ATTR_DEF) (t : PT_TYPE_ENUM) (a : SM_ATTR_PROP_CHG)
    (chg_how : SM_ATTR_CHG_SOL) (log : Bool)
    (hs : is_att_prop_set (a.p P_S_CONSTR_PK) ATT_CHG_PROPERTY_PRESENT_OLD = true
      ∨ is_att_prop_set (a.p P_S_CONSTR_PK) ATT_CHG_PROPERTY_PRESENT_NEW = true)
    (hm : is_att_prop_set (a.p P_M_CONSTR_PK) ATT_CHG_PROPERTY_PRESENT_OLD = true
      ∨ is_att_prop_set (a.p P_M_CONSTR_PK) ATT_CHG_PROPERTY_PRESENT_NEW = true) :
    (check_att_chg_allowed strict attr_name t a chg_how log).error ≠ NO_ERROR ∧
      (check_partitions a = .ok () → check_foreign_key a = .ok () →
        check_not_null strict t a = .ok () → check_auto_incr a chg_how = .ok () →
        check_type_change a chg_how = .ok () →
        check_schema_only_constraints a chg_how = .ok () →
        (check_att_chg_allowed strict attr_name t a chg_how log).error
          = ER_ALTER_CHANGE_MULTIPLE_PK ∧
        (check_att_chg_allowed strict attr_name t a chg_how log).new_attempt = false) ∧
      (check_change_attribute_escalate env attr_name t a).error ≠ NO_ERROR ∧
      ((check_change_attribute_on_map env attr_name attribute_node a).error = NO_ERROR →
        (check_change_attribute_on_map env attr_name attribute_node a).change_mode
          = SM_ATTR_CHG_NOT_NEEDED ∧ is_att_change_needed a = false) ∧
      (is_att_change_needed a = true →
        (check_change_attribute_on_map env attr_name attribute_node a).error ≠ NO_ERROR) ∧
      (is_att_prop_set (a.p P_M_CONSTR_PK) ATT_CHG_PROPERTY_UNCHANGED = false →
        (check_change_attribute_on_map env attr_name attribute_node a).error ≠ NO_ERROR) := by
  have hdeny := check_multiple_pk_of_both a hs hm
  have herr : ∀ s n ty m l, (check_att_chg_allowed s n ty a m l).error ≠ NO_ERROR := by
    intro s n ty m l h
    rw [check_att_chg_allowed_no_error_iff, check_att_chg_allowed_checks_ok_iff] at h
    rw [hdeny] at h
    cases h.2.2.2.2.2.2.1
  have hmap := check_change_attribute_on_map_of_denied env attr_name attribute_node a
    (fun m l => herr _ _ _ m l)
  refine ⟨herr _ _ _ _ _, ?_, ?_, hmap.1, hmap.2, ?_⟩
  · intro g1 g2 g3 g4 g5 g6
    have : check_att_chg_allowed_checks strict t a chg_how =
        .error (ER_ALTER_CHANGE_MULTIPLE_PK, false) := by
      rw [check_att_chg_allowed_checks_error_iff]
      exact Or.inr ⟨g1, Or.inr ⟨g2, Or.inr ⟨g3, Or.inr ⟨g4, Or.inr ⟨g5, Or.inr ⟨g6,
        Or.inl hdeny⟩⟩⟩⟩⟩⟩
    exact check_att_chg_allowed_of_error strict attr_name t a chg_how log _ _ this
  · exact check_change_attribute_escalate_error env attr_name t a (fun m l => herr _ _ _ m l)
  · intro hu
    exact hmap.2 (is_att_change_needed_of_not_unchanged a P_M_CONSTR_PK hu)

/-- C13 (witness): the ledger of `MODIFY a BIGINT PRIMARY KEY` on an INTEGER
attribute `a` of the primary key `(a, b)`: the single-column key is gained
(`PRESENT_NEW | GAINED`), the multi-column key is present in the old schema
(`PRESENT_OLD | LOST`). The request itself, run through
`check_change_attribute`, ends with `ER_ALTER_CHANGE_MULTIPLE_PK`. -/
theorem check_att_chg_allowed_multiple_pk_witness :
    (check_att_chg_allowed false "a" PT_TYPE_BIGINT
        (sample_ledger (fun i => if i = P_S_CONSTR_PK then 0xA else if i = P_M_CONSTR_PK then 0x5
          else 0x10) ID_ATTRIBUTE false)
        SM_ATTR_CHG_BEST_EFFORT true).error = ER_ALTER_CHANGE_MULTIPLE_PK ∧
      (check_att_chg_allowed false "a" PT_TYPE_BIGINT
        (sample_ledger (fun i => if i = P_S_CONSTR_PK then 0xA else if i = P_M_CONSTR_PK then 0x5
          else 0x10) ID_ATTRIBUTE false)
        SM_ATTR_CHG_BEST_EFFORT true).new_attempt = false ∧
      (check_change_attribute_on_map (sample_env false) "a"
        (sample_definition "a" PT_TYPE_BIGINT (simple_domain DB_TYPE_BIGINT))
        (sample_ledger (fun i => if i = P_S_CONSTR_PK then 0xA else if i = P_M_CONSTR_PK then 0x5
          else 0x10) ID_ATTRIBUTE false)).error ≠ NO_ERROR ∧
      (check_change_attribute (sample_env false)
        (sample_template "a" (sample_attribute (simple_domain DB_TYPE_INTEGER))
          [sample_constraint SM_CONSTRAINT_PRIMARY_KEY ["a", "b"]])
        (sample_definition "a" PT_TYPE_BIGINT (simple_domain DB_TYPE_BIGINT))
        none [⟨PT_CONSTRAIN_PRIMARY_KEY, ["a"]⟩] fresh_ledger).error = ER_ALTER_CHANGE_MULTIPLE_PK :=
  have h := check_att_chg_allowed_multiple_pk (sample_env false) false "a"
    (sample_definition "a" PT_TYPE_BIGINT (simple_domain DB_TYPE_BIGINT)) PT_TYPE_BIGINT
    (sample_ledger (fun i => if i = P_S_CONSTR_PK then 0xA else if i = P_M_CONSTR_PK then 0x5
          else 0x10) ID_ATTRIBUTE false)
    SM_ATTR_CHG_BEST_EFFORT true (Or.inr (by decide)) (Or.inl (by decide))
  ⟨(h.2.1 rfl rfl rfl rfl rfl rfl).1, (h.2.1 rfl rfl rfl rfl rfl rfl).2,
    h.2.2.2.2.2 (by decide), by decide⟩

/-- C14 (amended): for every ledger with `class_has_subclass = true` in which
one of the entries for name, ordering, type, NOT NULL, CHECK, deferrable,
AUTO_INCREMENT, single-column PRIMARY KEY, single-column UNIQUE, foreign key or
partition key lacks UNCHANGED, `check_att_chg_allowed` returns an error at
every strategy; once the blocks before the subclass check have passed, that
error is `ER_ALTER_CHANGE_CLASS_HIERARCHY` with `new_attempt = false`. The
entries for the multi-column PRIMARY KEY, the multi-column UNIQUE and the
non-unique index are not read by the subclass check. A ledger of a class with
subclasses is accepted at SchemaOnly, whatever its default-value entry is, when
the partition-key and foreign-key entries are exactly UNCHANGED, every entry
but the default-value one carries UNCHANGED, is below DIFF and lacks GAINED,
not both primary keys are present, and the attribute is a plain one or its new
definition has no single-column UNIQUE or PRIMARY KEY. The flag is set by
`check_change_attribute` exactly for a class that has users and is not a
partition. -/
theorem check_att_chg_allowed_class_hierarchy (strict : Bool) (attr_name : String)
    (t : PT_TYPE_ENUM) (a : SM_ATTR_PROP_CHG) (chg_how : SM_ATTR_CHG_SOL) (log : Bool)
    (hsub : a.class_has_subclass = true) :
    ((∃ i ∈ [P_NAME, P_ORDER, P_TYPE, P_NOT_NULL, P_CONSTR_CHECK, P_DEFFERABLE, P_AUTO_INCR,
          P_S_CONSTR_PK, P_S_CONSTR_UNI, P_CONSTR_FK, P_IS_PARTITION_COL],
        is_att_prop_set (a.p i) ATT_CHG_PROPERTY_UNCHANGED = false) →
      (check_att_chg_allowed strict attr_name t a chg_how log).error ≠ NO_ERROR ∧
      (check_partitions a = .ok () → check_foreign_key a = .ok () →
        check_not_null strict t a = .ok () → check_auto_incr a chg_how = .ok () →
        check_type_change a chg_how = .ok () →
        check_schema_only_constraints a chg_how = .ok () → check_multiple_pk a = .ok () →
        (check_att_chg_allowed strict attr_name t a chg_how log).error
          = ER_ALTER_CHANGE_CLASS_HIERARCHY ∧
        (check_att_chg_allowed strict attr_name t a chg_how log).new_attempt = false)) ∧
    (a.p P_IS_PARTITION_COL = ATT_CHG_PROPERTY_UNCHANGED →
      a.p P_CONSTR_FK = ATT_CHG_PROPERTY_UNCHANGED →
      (∀ i, i ≠ P_DEFAULT_VALUE →
        is_att_prop_set (a.p i) ATT_CHG_PROPERTY_UNCHANGED = true
          ∧ a.p i < ATT_CHG_PROPERTY_DIFF
          ∧ is_att_prop_set (a.p i) ATT_CHG_PROPERTY_GAINED = false) →
      ((is_att_prop_set (a.p P_S_CONSTR_PK) ATT_CHG_PROPERTY_PRESENT_OLD
          || is_att_prop_set (a.p P_S_CONSTR_PK) ATT_CHG_PROPERTY_PRESENT_NEW)
        && (is_att_prop_set (a.p P_M_CONSTR_PK) ATT_CHG_PROPERTY_PRESENT_OLD
          || is_att_prop_set (a.p P_M_CONSTR_PK) ATT_CHG_PROPERTY_PRESENT_NEW)) = false →
      (a.name_space = ID_ATTRIBUTE
        ∨ (is_att_prop_set (a.p P_S_CONSTR_UNI) ATT_CHG_PROPERTY_PRESENT_NEW = false
          ∧ is_att_prop_set (a.p P_S_CONSTR_PK) ATT_CHG_PROPERTY_PRESENT_NEW = false)) →
      check_att_chg_allowed strict attr_name t a SM_ATTR_CHG_ONLY_SCHEMA log
        = ⟨NO_ERROR, true, none⟩) ∧
    (∀ (ctemplate : DB_CTMPL) (attribute_node : PT_ATTR_DEF) (a0 : SM_ATTR_PROP_CHG)
        (cls : SM_CLASS), ctemplate.current = some cls → a0.class_has_subclass = false →
      ((check_change_attribute_init ctemplate attribute_node a0).class_has_subclass = true ↔
        (cls.users_not_null = true ∧ ctemplate.partition_of = false))) := by
  refine ⟨?_, ?_, ?_⟩
  · rintro ⟨i, hi, hu⟩
    have hblock : check_partitions a ≠ .ok () ∨ check_foreign_key a ≠ .ok ()
        ∨ check_subclasses a = .error (ER_ALTER_CHANGE_CLASS_HIERARCHY, false) := by
      simp only [List.mem_cons, List.mem_singleton, List.not_mem_nil, or_false] at hi
      have hne : a.p i ≠ ATT_CHG_PROPERTY_UNCHANGED := by
        intro h
        rw [h] at hu
        exact absurd hu (by decide)
      rcases hi with h | h | h | h | h | h | h | h | h | h | h
      iterate 9
        exact Or.inr (Or.inr (check_subclasses_of_changed a hsub i (by simp [h]) hu))
      · subst h
        exact Or.inr (Or.inl (fun g => hne ((check_foreign_key_ok_iff a).1 g)))
      · subst h
        exact Or.inl (fun g => hne ((check_partitions_ok_iff a).1 g))
    constructor
    · intro h
      rw [check_att_chg_allowed_no_error_iff, check_att_chg_allowed_checks_ok_iff] at h
      rcases hblock with hb | hb | hb
      · exact hb h.1
      · exact hb h.2.1
      · rw [hb] at h
        cases h.2.2.2.2.2.2.2
    · intro g1 g2 g3 g4 g5 g6 g7
      rcases hblock with hb | hb | hb
      · exact absurd g1 hb
      · exact absurd g2 hb
      · have : check_att_chg_allowed_checks strict t a chg_how =
            .error (ER_ALTER_CHANGE_CLASS_HIERARCHY, false) := by
          rw [check_att_chg_allowed_checks_error_iff]
          exact Or.inr ⟨g1, Or.inr ⟨g2, Or.inr ⟨g3, Or.inr ⟨g4, Or.inr ⟨g5, Or.inr ⟨g6,
            Or.inr ⟨g7, hb⟩⟩⟩⟩⟩⟩⟩
        exact check_att_chg_allowed_of_error strict attr_name t a chg_how log _ _ this
  · intro hpart hfk hrest hpk hcls
    apply check_att_chg_allowed_of_ok
    refine check_att_chg_allowed_checks_default_only strict t a hpart hfk hrest ?_ hcls
    rw [check_multiple_pk_eq, hpk]
    rfl
  · intro ctemplate attribute_node a0 cls hcur h0
    unfold check_change_attribute_init
    simp only [hcur]
    cases cls.users_not_null <;> cases ctemplate.partition_of <;> simp [h0]

/-- C14 (amended), on a plain attribute of a class with subclasses whose
default value is gained (`PRESENT_NEW | GAINED`) and nothing else changes: the
ledger is accepted at SchemaOnly; so is the request `MODIFY a INTEGER DEFAULT v`
run through `check_change_attribute`. -/
theorem check_att_chg_allowed_class_hierarchy_witness :
    check_att_chg_allowed false "a" PT_TYPE_INTEGER
        (sample_ledger (fun i => if i = P_DEFAULT_VALUE then 0xA else 0x10) ID_ATTRIBUTE true)
        SM_ATTR_CHG_ONLY_SCHEMA false = ⟨NO_ERROR, true, none⟩ ∧
      (check_change_attribute (sample_env false)
        (sample_template_with_subclasses "a" (sample_attribute (simple_domain DB_TYPE_INTEGER))
          [])
        (sample_definition_with_default "a" PT_TYPE_INTEGER (simple_domain DB_TYPE_INTEGER))
        none [] fresh_ledger).attr_chg_prop.class_has_subclass = true ∧
      (check_change_attribute (sample_env false)
        (sample_template_with_subclasses "a" (sample_attribute (simple_domain DB_TYPE_INTEGER))
          [])
        (sample_definition_with_default "a" PT_TYPE_INTEGER (simple_domain DB_TYPE_INTEGER))
        none [] fresh_ledger).error = NO_ERROR ∧
      (check_change_attribute (sample_env false)
        (sample_template_with_subclasses "a" (sample_attribute (simple_domain DB_TYPE_INTEGER))
          [])
        (sample_definition_with_default "a" PT_TYPE_INTEGER (simple_domain DB_TYPE_INTEGER))
        none [] fresh_ledger).change_mode = SM_ATTR_CHG_ONLY_SCHEMA :=
  have h := check_att_chg_allowed_class_hierarchy false "a" PT_TYPE_INTEGER
    (sample_ledger (fun i => if i = P_DEFAULT_VALUE then 0xA else 0x10) ID_ATTRIBUTE true)
    SM_ATTR_CHG_ONLY_SCHEMA false rfl
  ⟨h.2.1 (by decide) (by decide)
    (by intro i hi; simp only [sample_ledger, hi, if_false]; decide) (by decide)
    (Or.inl rfl), by decide, by decide, by decide⟩

/-- C14 (counterexample): `MODIFY a INTEGER` on an INTEGER attribute `a` that
has a non-unique index, in a class with subclasses. The entry of the
non-unique index lacks UNCHANGED (it is `PRESENT_OLD | LOST`, the index has no
counterpart in the definition), a property other than the default value; yet
`check_att_chg_allowed` accepts the ledger at SchemaOnly and the planner
returns `NO_ERROR`. A ledger whose foreign-key entry is present on both sides
(`PRESENT_OLD | PRESENT_NEW | UNCHANGED`) and whose only entry without
UNCHANGED is the default value is denied at SchemaOnly. -/
theorem check_att_chg_allowed_index_in_hierarchy :
    (check_change_attribute (sample_env false)
        (sample_template_with_subclasses "a" (sample_attribute (simple_domain DB_TYPE_INTEGER))
          [sample_constraint SM_CONSTRAINT_INDEX ["a"]])
        (sample_definition "a" PT_TYPE_INTEGER (simple_domain DB_TYPE_INTEGER))
        none [] fresh_ledger).attr_chg_prop.class_has_subclass = true ∧
      is_att_prop_set ((check_change_attribute (sample_env false)
        (sample_template_with_subclasses "a" (sample_attribute (simple_domain DB_TYPE_INTEGER))
          [sample_constraint SM_CONSTRAINT_INDEX ["a"]])
        (sample_definition "a" PT_TYPE_INTEGER (simple_domain DB_TYPE_INTEGER))
        none [] fresh_ledger).attr_chg_prop.p P_CONSTR_NON_UNI)
        ATT_CHG_PROPERTY_UNCHANGED = false ∧
      (check_att_chg_allowed false "a" PT_TYPE_INTEGER
        (check_change_attribute (sample_env false)
        (sample_template_with_subclasses "a" (sample_attribute (simple_domain DB_TYPE_INTEGER))
          [sample_constraint SM_CONSTRAINT_INDEX ["a"]])
        (sample_definition "a" PT_TYPE_INTEGER (simple_domain DB_TYPE_INTEGER))
        none [] fresh_ledger).attr_chg_prop
        SM_ATTR_CHG_ONLY_SCHEMA false).error = NO_ERROR ∧
      (check_change_attribute (sample_env false)
        (sample_template_with_subclasses "a" (sample_attribute (simple_domain DB_TYPE_INTEGER))
          [sample_constraint SM_CONSTRAINT_INDEX ["a"]])
        (sample_definition "a" PT_TYPE_INTEGER (simple_domain DB_TYPE_INTEGER))
        none [] fresh_ledger).error = NO_ERROR ∧
      (check_change_attribute (sample_env false)
        (sample_template_with_subclasses "a" (sample_attribute (simple_domain DB_TYPE_INTEGER))
          [sample_constraint SM_CONSTRAINT_INDEX ["a"]])
        (sample_definition "a" PT_TYPE_INTEGER (simple_domain DB_TYPE_INTEGER))
        none [] fresh_ledger).change_mode = SM_ATTR_CHG_ONLY_SCHEMA ∧
      (check_att_chg_allowed false "a" PT_TYPE_INTEGER
        (sample_ledger (fun i => if i = P_DEFAULT_VALUE then 0xA
          else if i = P_CONSTR_FK then 0x13 else 0x10) ID_ATTRIBUTE true)
        SM_ATTR_CHG_ONLY_SCHEMA false).error = ER_ALTER_CHANGE_FK := by
  decide

/-- C15: `check_att_chg_allowed` returns `ER_ALTER_CHANGE_TYPE_WITH_AUTO_INCR`
exactly when the strategy is SchemaOnly, the partition-key, foreign-key and
NOT NULL blocks have passed, AUTO_INCREMENT is GAINED on an attribute that is
neither a class nor a shared attribute (a plain one) and the type entry has
DIFF; it then leaves `new_attempt` true. At WithRowUpdate and BestEffort the
AUTO_INCREMENT block passes on such an attribute whatever the type entry is,
and the code is never returned. -/
theorem check_att_chg_allowed_type_with_auto_incr (strict : Bool) (attr_name : String)
    (t : PT_TYPE_ENUM) (a : SM_ATTR_PROP_CHG) (chg_how : SM_ATTR_CHG_SOL) (log : Bool) :
    ((check_att_chg_allowed strict attr_name t a chg_how log).error
        = ER_ALTER_CHANGE_TYPE_WITH_AUTO_INCR ↔
      chg_how = SM_ATTR_CHG_ONLY_SCHEMA ∧
      a.p P_IS_PARTITION_COL = ATT_CHG_PROPERTY_UNCHANGED ∧
      a.p P_CONSTR_FK = ATT_CHG_PROPERTY_UNCHANGED ∧
      check_not_null strict t a = .ok () ∧
      is_att_prop_set (a.p P_AUTO_INCR) ATT_CHG_PROPERTY_GAINED = true ∧
      a.name_space ≠ ID_CLASS_ATTRIBUTE ∧ a.name_space ≠ ID_SHARED_ATTRIBUTE ∧
      is_att_prop_set (a.p P_TYPE) ATT_CHG_PROPERTY_DIFF = true) ∧
    ((check_att_chg_allowed strict attr_name t a chg_how log).error
        = ER_ALTER_CHANGE_TYPE_WITH_AUTO_INCR →
      (check_att_chg_allowed strict attr_name t a chg_how log).new_attempt = true) ∧
    (a.name_space = ID_ATTRIBUTE →
      a.name_space ≠ ID_CLASS_ATTRIBUTE ∧ a.name_space ≠ ID_SHARED_ATTRIBUTE) ∧
    (chg_how ≠ SM_ATTR_CHG_ONLY_SCHEMA →
      (check_att_chg_allowed strict attr_name t a chg_how log).error
        ≠ ER_ALTER_CHANGE_TYPE_WITH_AUTO_INCR ∧
      (a.name_space ≠ ID_CLASS_ATTRIBUTE → a.name_space ≠ ID_SHARED_ATTRIBUTE →
        check_auto_incr a chg_how = .ok ())) := by
  have key : ∀ na, check_att_chg_allowed_checks strict t a chg_how
      = .error (ER_ALTER_CHANGE_TYPE_WITH_AUTO_INCR, na) ↔
      (chg_how = SM_ATTR_CHG_ONLY_SCHEMA ∧
        a.p P_IS_PARTITION_COL = ATT_CHG_PROPERTY_UNCHANGED ∧
        a.p P_CONSTR_FK = ATT_CHG_PROPERTY_UNCHANGED ∧
        check_not_null strict t a = .ok () ∧
        is_att_prop_set (a.p P_AUTO_INCR) ATT_CHG_PROPERTY_GAINED = true ∧
        a.name_space ≠ ID_CLASS_ATTRIBUTE ∧ a.name_space ≠ ID_SHARED_ATTRIBUTE ∧
        is_att_prop_set (a.p P_TYPE) ATT_CHG_PROPERTY_DIFF = true) ∧ na = true := by
    intro na
    rw [check_att_chg_allowed_checks_auto_incr_iff, check_auto_incr_type_iff,
      check_partitions_ok_iff, check_foreign_key_ok_iff]
    tauto
  have hiff := check_att_chg_allowed_error_iff strict attr_name t a chg_how log
    ER_ALTER_CHANGE_TYPE_WITH_AUTO_INCR (by simp)
  refine ⟨?_, ?_, ?_, ?_⟩
  · rw [hiff]
    constructor
    · rintro ⟨na, h⟩
      exact ((key na).1 h).1
    · intro h
      exact ⟨true, (key true).2 ⟨h, rfl⟩⟩
  · intro h
    have h2 := (check_att_chg_allowed_denial_iff strict attr_name t a chg_how log
      ER_ALTER_CHANGE_TYPE_WITH_AUTO_INCR _ (by simp)).1 ⟨h, rfl⟩
    exact ((key _).1 h2).2
  · intro h
    rw [h]
    exact ⟨by decide, by decide⟩
  · intro hm
    constructor
    · intro h
      obtain ⟨na, h2⟩ := hiff.1 h
      exact hm ((key na).1 h2).1.1
    · intro h1 h2
      rw [check_auto_incr_eq]
      simp [h1, h2, hm]

/-- C15 (witness): AUTO_INCREMENT gained together with INTEGER to BIGINT on a
plain attribute (entries `PRESENT_NEW | GAINED` and
`PRESENT_OLD | PRESENT_NEW | DIFF | UPGRADE`): denied at SchemaOnly with
`new_attempt = true`, accepted at WithRowUpdate and at BestEffort. -/
theorem check_att_chg_allowed_type_with_auto_incr_witness :
    (check_att_chg_allowed false "a" PT_TYPE_BIGINT
        (sample_ledger (fun i => if i = P_AUTO_INCR then 0xA else if i = P_TYPE then 0x423
          else 0x10) ID_ATTRIBUTE false)
        SM_ATTR_CHG_ONLY_SCHEMA false).error = ER_ALTER_CHANGE_TYPE_WITH_AUTO_INCR ∧
      (check_att_chg_allowed false "a" PT_TYPE_BIGINT
        (sample_ledger (fun i => if i = P_AUTO_INCR then 0xA else if i = P_TYPE then 0x423
          else 0x10) ID_ATTRIBUTE false)
        SM_ATTR_CHG_ONLY_SCHEMA false).new_attempt = true ∧
      (check_att_chg_allowed false "a" PT_TYPE_BIGINT
        (sample_ledger (fun i => if i = P_AUTO_INCR then 0xA else if i = P_TYPE then 0x423
          else 0x10) ID_ATTRIBUTE false)
        SM_ATTR_CHG_WITH_ROW_UPDATE false).error = NO_ERROR ∧
      (check_att_chg_allowed false "a" PT_TYPE_BIGINT
        (sample_ledger (fun i => if i = P_AUTO_INCR then 0xA else if i = P_TYPE then 0x423
          else 0x10) ID_ATTRIBUTE false)
        SM_ATTR_CHG_BEST_EFFORT true).error = NO_ERROR :=
  have h := check_att_chg_allowed_type_with_auto_incr false "a" PT_TYPE_BIGINT
    (sample_ledger (fun i => if i = P_AUTO_INCR then 0xA else if i = P_TYPE then 0x423
          else 0x10) ID_ATTRIBUTE false)
    SM_ATTR_CHG_ONLY_SCHEMA false
  have h1 := h.1.2 ⟨rfl, by decide, by decide, rfl, by decide, by decide, by decide,
    by decide⟩
  ⟨h1, h.2.1 h1, by decide, by decide⟩

/-- C16: for an attribute whose name space is not `ID_ATTRIBUTE` (a class or
shared attribute), with the partition-key and foreign-key entries UNCHANGED,
the NOT NULL block and the subclass block passing, AUTO_INCREMENT not gained
and no UNIQUE, PRIMARY KEY or index entry present on either side,
`check_att_chg_allowed` at SchemaOnly returns `NO_ERROR` (with `new_attempt`
true and nothing logged) for every type entry that lacks NOT_SUPPORTED and
NOT_SUPPORTED_WITH_CFG, whatever other flags it carries. The escalation then
consists of the single call at SchemaOnly and grants SchemaOnly, and every
checker call made by the planner on such a ledger is made at SchemaOnly: the
WithRowUpdate and BestEffort branches are not reached. -/
theorem check_att_chg_allowed_class_shared (env : Env) (attr_name : String)
    (attribute_node : PT_ATTR_DEF) (a : SM_ATTR_PROP_CHG) (log : Bool)
    (hns : a.name_space ≠ ID_ATTRIBUTE)
    (hpart : a.p P_IS_PARTITION_COL = ATT_CHG_PROPERTY_UNCHANGED)
    (hfk : a.p P_CONSTR_FK = ATT_CHG_PROPERTY_UNCHANGED)
    (hnn : check_not_null env.PRM_ALTER_TABLE_CHANGE_TYPE_STRICT attribute_node.type_enum a
      = .ok ())
    (hai : is_att_prop_set (a.p P_AUTO_INCR) ATT_CHG_PROPERTY_GAINED = false)
    (hidx : ∀ i ∈ [P_S_CONSTR_UNI, P_M_CONSTR_UNI, P_S_CONSTR_PK, P_M_CONSTR_PK,
        P_CONSTR_NON_UNI],
      is_att_prop_set (a.p i) ATT_CHG_PROPERTY_PRESENT_OLD = false
        ∧ is_att_prop_set (a.p i) ATT_CHG_PROPERTY_PRESENT_NEW = false)
    (hsub : check_subclasses a = .ok ())
    (hns1 : is_att_prop_set (a.p P_TYPE) ATT_CHG_TYPE_NOT_SUPPORTED = false)
    (hns2 : is_att_prop_set (a.p P_TYPE) ATT_CHG_TYPE_NOT_SUPPORTED_WITH_CFG = false) :
    check_att_chg_allowed env.PRM_ALTER_TABLE_CHANGE_TYPE_STRICT attr_name
        attribute_node.type_enum a SM_ATTR_CHG_ONLY_SCHEMA log = ⟨NO_ERROR, true, none⟩ ∧
    check_change_attribute_escalate env attr_name attribute_node.type_enum a =
      ⟨NO_ERROR, SM_ATTR_CHG_ONLY_SCHEMA, a,
        [⟨SM_ATTR_CHG_ONLY_SCHEMA, false, ⟨NO_ERROR, true, none⟩⟩]⟩ ∧
    (∀ c ∈ (check_change_attribute_on_map env attr_name attribute_node a).checker_calls,
      c.chg_how = SM_ATTR_CHG_ONLY_SCHEMA) ∧
    ((check_change_attribute_on_map env attr_name attribute_node a).change_mode
        = SM_ATTR_CHG_NOT_NEEDED
      ∨ (check_change_attribute_on_map env attr_name attribute_node a).change_mode
        = SM_ATTR_CHG_ONLY_SCHEMA) := by
  have hok := check_att_chg_allowed_checks_not_plain env.PRM_ALTER_TABLE_CHANGE_TYPE_STRICT
    attribute_node.type_enum a hns hpart hfk hnn hai hidx hsub hns1 hns2
  have hres := fun l => check_att_chg_allowed_of_ok env.PRM_ALTER_TABLE_CHANGE_TYPE_STRICT
    attr_name attribute_node.type_enum a SM_ATTR_CHG_ONLY_SCHEMA l hok
  have hesc : check_change_attribute_escalate env attr_name attribute_node.type_enum a =
      ⟨NO_ERROR, SM_ATTR_CHG_ONLY_SCHEMA, a,
        [⟨SM_ATTR_CHG_ONLY_SCHEMA, false, ⟨NO_ERROR, true, none⟩⟩]⟩ := by
    unfold check_change_attribute_escalate
    simp [hres false]
  refine ⟨hres log, hesc, ?_, ?_⟩
  · unfold check_change_attribute_on_map
    split_ifs
    · simp
    · simp
    · simp
    · rw [hesc]
      simp
  · unfold check_change_attribute_on_map
    have h1 := hidx P_S_CONSTR_UNI (by simp)
    have h2 := hidx P_M_CONSTR_UNI (by simp)
    have h3 := hidx P_S_CONSTR_PK (by simp)
    have h4 := hidx P_M_CONSTR_PK (by simp)
    have h5 := hidx P_CONSTR_NON_UNI (by simp)
    split_ifs with g1 g2 g3
    · exact Or.inr rfl
    · exact Or.inl rfl
    · exact Or.inr rfl
    · rw [hesc]
      exact Or.inr rfl

/-- C16 (witness): a class attribute whose type entry is
`PRESENT_OLD | PRESENT_NEW | DIFF | NEED_ROW_CHECK` and whose other entries are
UNCHANGED is accepted at SchemaOnly; the request `MODIFY CLASS a INTEGER` on a
BIGINT attribute, run through `check_change_attribute`, yields a type entry
with NEED_ROW_CHECK and is granted SchemaOnly after one checker call. -/
theorem check_att_chg_allowed_class_shared_witness :
    check_att_chg_allowed false "a" PT_TYPE_INTEGER
        (sample_ledger (fun i => if i = P_TYPE then 0x823 else 0x10) ID_CLASS_ATTRIBUTE false)
        SM_ATTR_CHG_ONLY_SCHEMA false = ⟨NO_ERROR, true, none⟩ ∧
      check_change_attribute_escalate (sample_env false) "a" PT_TYPE_INTEGER
        (sample_ledger (fun i => if i = P_TYPE then 0x823 else 0x10) ID_CLASS_ATTRIBUTE false) =
        ⟨NO_ERROR, SM_ATTR_CHG_ONLY_SCHEMA,
          sample_ledger (fun i => if i = P_TYPE then 0x823 else 0x10) ID_CLASS_ATTRIBUTE false,
          [⟨SM_ATTR_CHG_ONLY_SCHEMA, false, ⟨NO_ERROR, true, none⟩⟩]⟩ ∧
      (check_change_attribute (sample_env false)
        (sample_template "a"
          { sample_attribute (simple_domain DB_TYPE_BIGINT) with
            name_space := ID_CLASS_ATTRIBUTE } [])
        { sample_definition "a" PT_TYPE_INTEGER (simple_domain DB_TYPE_INTEGER) with
          attr_type := PT_META_ATTR }
        none [] fresh_ledger).attr_chg_prop.name_space = ID_CLASS_ATTRIBUTE ∧
      is_att_prop_set ((check_change_attribute (sample_env false)
        (sample_template "a"
          { sample_attribute (simple_domain DB_TYPE_BIGINT) with
            name_space := ID_CLASS_ATTRIBUTE } [])
        { sample_definition "a" PT_TYPE_INTEGER (simple_domain DB_TYPE_INTEGER) with
          attr_type := PT_META_ATTR }
        none [] fresh_ledger).attr_chg_prop.p P_TYPE)
        ATT_CHG_TYPE_NEED_ROW_CHECK = true ∧
      (check_change_attribute (sample_env false)
        (sample_template "a"
          { sample_attribute (simple_domain DB_TYPE_BIGINT) with
            name_space := ID_CLASS_ATTRIBUTE } [])
        { sample_definition "a" PT_TYPE_INTEGER (simple_domain DB_TYPE_INTEGER) with
          attr_type := PT_META_ATTR }
        none [] fresh_ledger).error = NO_ERROR ∧
      (check_change_attribute (sample_env false)
        (sample_template "a"
          { sample_attribute (simple_domain DB_TYPE_BIGINT) with
            name_space := ID_CLASS_ATTRIBUTE } [])
        { sample_definition "a" PT_TYPE_INTEGER (simple_domain DB_TYPE_INTEGER) with
          attr_type := PT_META_ATTR }
        none [] fresh_ledger).change_mode = SM_ATTR_CHG_ONLY_SCHEMA ∧
      (check_change_attribute (sample_env false)
        (sample_template "a"
          { sample_attribute (simple_domain DB_TYPE_BIGINT) with
            name_space := ID_CLASS_ATTRIBUTE } [])
        { sample_definition "a" PT_TYPE_INTEGER (simple_domain DB_TYPE_INTEGER) with
          attr_type := PT_META_ATTR }
        none [] fresh_ledger).checker_calls.length = 1 :=
  have h := check_att_chg_allowed_class_shared (sample_env false) "a"
    (sample_definition "a" PT_TYPE_INTEGER (simple_domain DB_TYPE_INTEGER))
    (sample_ledger (fun i => if i = P_TYPE then 0x823 else 0x10) ID_CLASS_ATTRIBUTE false)
    false (by decide) (by decide) (by decide) rfl (by decide) (by decide) rfl
    (by decide) (by decide)
  ⟨h.1, h.2.1, by decide, by decide, by decide, by decide, by decide⟩

/-- C17: the code and `new_attempt` returned by `check_att_chg_allowed` are a
function of the strict-mode setting, the new type, the ledger and the strategy
only (they are the outcome of `check_att_chg_allowed_checks`, which takes
nothing else): two calls with the same values of these return the same code
and the same `new_attempt`, whatever `att_name` and `log_error_allowed` are.
The ledger is an input only (a `const` pointer in the source): every call the
escalation makes is on the same ledger, which is the one it leaves. -/
theorem check_att_chg_allowed_verdict (env : Env) (strict : Bool) (n1 n2 : String)
    (t : PT_TYPE_ENUM) (a : SM_ATTR_PROP_CHG) (m : SM_ATTR_CHG_SOL) (l1 l2 : Bool) :
    ((check_att_chg_allowed strict n1 t a m l1).error
        = (check_att_chg_allowed strict n2 t a m l2).error ∧
      (check_att_chg_allowed strict n1 t a m l1).new_attempt
        = (check_att_chg_allowed strict n2 t a m l2).new_attempt) ∧
    ((check_att_chg_allowed strict n1 t a m l1).error,
        (check_att_chg_allowed strict n1 t a m l1).new_attempt)
      = (match check_att_chg_allowed_checks strict t a m with
          | .ok _ => (NO_ERROR, true)
          | .error e => e) ∧
    (check_change_attribute_escalate env n1 t a).attr_chg_prop = a ∧
    (∀ c ∈ (check_change_attribute_escalate env n1 t a).checker_calls,
      c.result = check_att_chg_allowed env.PRM_ALTER_TABLE_CHANGE_TYPE_STRICT n1 t a
        c.chg_how c.log_error_allowed) := by
  refine ⟨check_att_chg_allowed_verdict_indep strict n1 n2 t a m l1 l2, ?_,
    check_change_attribute_escalate_ledger env n1 t a, ?_⟩
  · unfold check_att_chg_allowed
    cases check_att_chg_allowed_checks strict t a m with
    | ok u => rfl
    | error e => rfl
  · unfold check_change_attribute_escalate
    simp only
    split
    · split
      · intro c hc
        simp only [List.mem_cons, List.mem_singleton, List.not_mem_nil, or_false] at hc
        rcases hc with rfl | rfl | rfl <;> rfl
      · intro c hc
        simp only [List.mem_cons, List.mem_singleton, List.not_mem_nil, or_false] at hc
        rcases hc with rfl | rfl <;> rfl
    · intro c hc
      simp only [List.mem_singleton] at hc
      subst hc
      rfl

/-- C17, on a plain attribute whose type entry is
`PRESENT_OLD | PRESENT_NEW | DIFF | UPGRADE`: the call at SchemaOnly under the
name `a` without logging and the call under the name `b` with logging return
the same code, `ER_ALTER_CHANGE_TYPE_UPGRADE_CFG`, and the same `new_attempt`;
only what is logged differs. -/
theorem check_att_chg_allowed_verdict_witness :
    (check_att_chg_allowed false "a" PT_TYPE_BIGINT
        (sample_ledger (fun i => if i = P_TYPE then 0x423 else 0x10) ID_ATTRIBUTE false)
        SM_ATTR_CHG_ONLY_SCHEMA false).error
      = (check_att_chg_allowed false "b" PT_TYPE_BIGINT
        (sample_ledger (fun i => if i = P_TYPE then 0x423 else 0x10) ID_ATTRIBUTE false)
        SM_ATTR_CHG_ONLY_SCHEMA true).error ∧
    (check_att_chg_allowed false "a" PT_TYPE_BIGINT
        (sample_ledger (fun i => if i = P_TYPE then 0x423 else 0x10) ID_ATTRIBUTE false)
        SM_ATTR_CHG_ONLY_SCHEMA false).new_attempt
      = (check_att_chg_allowed false "b" PT_TYPE_BIGINT
        (sample_ledger (fun i => if i = P_TYPE then 0x423 else 0x10) ID_ATTRIBUTE false)
        SM_ATTR_CHG_ONLY_SCHEMA true).new_attempt ∧
    (check_att_chg_allowed false "a" PT_TYPE_BIGINT
        (sample_ledger (fun i => if i = P_TYPE then 0x423 else 0x10) ID_ATTRIBUTE false)
        SM_ATTR_CHG_ONLY_SCHEMA false).error = ER_ALTER_CHANGE_TYPE_UPGRADE_CFG ∧
    (check_att_chg_allowed false "a" PT_TYPE_BIGINT
        (sample_ledger (fun i => if i = P_TYPE then 0x423 else 0x10) ID_ATTRIBUTE false)
        SM_ATTR_CHG_ONLY_SCHEMA false).logged = none ∧
    (check_att_chg_allowed false "b" PT_TYPE_BIGINT
        (sample_ledger (fun i => if i = P_TYPE then 0x423 else 0x10) ID_ATTRIBUTE false)
        SM_ATTR_CHG_ONLY_SCHEMA true).logged
      = some (ER_ALTER_CHANGE_TYPE_UPGRADE_CFG, ErArg.att_name "b") :=
  have h := check_att_chg_allowed_verdict (sample_env false) false "a" "b" PT_TYPE_BIGINT
    (sample_ledger (fun i => if i = P_TYPE then 0x423 else 0x10) ID_ATTRIBUTE false)
    SM_ATTR_CHG_ONLY_SCHEMA false true
  ⟨h.1.1, h.1.2, by decide, by decide, by decide⟩

/-- C18 (amended): `build_att_type_change_map` returns `NO_ERROR` for every
pair of domains, every ledger and both configurations. For every pair other
than two OBJECT domains of the same class it ORs exactly one of the seven
type-class flags into the type entry, so that an entry that carried none of
them carries that one and no other; for two OBJECT domains of the same class
it ORs none and clears DIFF. Its assertions hold exactly when a requested
VARCHAR or VARNCHAR precision is the maximum one, the floating one or not
negative, a current CHAR, VARCHAR, NCHAR, VARNCHAR, BIT or VARBIT type is not
changed to itself, and two OBJECT domains are both classes and differ in
class. -/
theorem build_att_type_change_map_total (env : Env) (db_is_class : Option Nat → Int)
    (curr_domain req_domain : TP_DOMAIN) (a : SM_ATTR_PROP_CHG) :
    (build_att_type_change_map env curr_domain req_domain a).1 = NO_ERROR ∧
    (¬(curr_domain.type = DB_TYPE_OBJECT ∧ req_domain.type = DB_TYPE_OBJECT
        ∧ req_domain.class_mop = curr_domain.class_mop) →
      ∃ flag ∈ [ATT_CHG_TYPE_PREC_INCR, ATT_CHG_TYPE_SET_CLS_COMPAT, ATT_CHG_TYPE_UPGRADE,
          ATT_CHG_TYPE_NEED_ROW_CHECK, ATT_CHG_TYPE_PSEUDO_UPGRADE,
          ATT_CHG_TYPE_NOT_SUPPORTED_WITH_CFG, ATT_CHG_TYPE_NOT_SUPPORTED],
        type_change_flag env curr_domain req_domain = some flag ∧
        build_att_type_change_map env curr_domain req_domain a
          = (NO_ERROR, or_type a flag) ∧
        (a.p P_TYPE < ATT_CHG_TYPE_PREC_INCR →
          ∀ g ∈ [ATT_CHG_TYPE_PREC_INCR, ATT_CHG_TYPE_SET_CLS_COMPAT, ATT_CHG_TYPE_UPGRADE,
          ATT_CHG_TYPE_NEED_ROW_CHECK, ATT_CHG_TYPE_PSEUDO_UPGRADE,
          ATT_CHG_TYPE_NOT_SUPPORTED_WITH_CFG, ATT_CHG_TYPE_NOT_SUPPORTED],
            is_att_prop_set
              ((build_att_type_change_map env curr_domain req_domain a).2.p P_TYPE) g
              = decide (g = flag))) ∧
    (curr_domain.type = DB_TYPE_OBJECT ∧ req_domain.type = DB_TYPE_OBJECT
        ∧ req_domain.class_mop = curr_domain.class_mop →
      type_change_flag env curr_domain req_domain = none ∧
      build_att_type_change_map env curr_domain req_domain a
        = (NO_ERROR, a.set P_TYPE (and_not (a.p P_TYPE) ATT_CHG_PROPERTY_DIFF)) ∧
      build_att_type_change_map_asserts env db_is_class curr_domain req_domain = false) ∧
    (build_att_type_change_map_asserts env db_is_class curr_domain req_domain = true ↔
      (req_domain.type = DB_TYPE_VARCHAR →
        req_domain.precision = env.DB_MAX_VARCHAR_PRECISION
          ∨ req_domain.precision = env.TP_FLOATING_PRECISION_VALUE
          ∨ 0 ≤ req_domain.precision) ∧
      (req_domain.type = DB_TYPE_VARNCHAR →
        req_domain.precision = env.DB_MAX_VARNCHAR_PRECISION
          ∨ req_domain.precision = env.TP_FLOATING_PRECISION_VALUE
          ∨ 0 ≤ req_domain.precision) ∧
      (curr_domain.type ∈ [DB_TYPE_CHAR, DB_TYPE_VARCHAR, DB_TYPE_NCHAR, DB_TYPE_VARNCHAR,
          DB_TYPE_BIT, DB_TYPE_VARBIT] → req_domain.type ≠ curr_domain.type) ∧
      (curr_domain.type = DB_TYPE_OBJECT → req_domain.type = DB_TYPE_OBJECT →
        db_is_class curr_domain.class_mop ≠ 0 ∧ db_is_class req_domain.class_mop ≠ 0
          ∧ req_domain.class_mop ≠ curr_domain.class_mop)) := by
  refine ⟨?_, ?_, ?_, build_att_type_change_map_asserts_iff env db_is_class curr_domain
    req_domain⟩
  · unfold build_att_type_change_map
    cases type_change_flag env curr_domain req_domain <;> rfl
  · intro hne
    rcases type_change_flag_cases env curr_domain req_domain with h | ⟨-, flag, hmem, hflag⟩
    · exact absurd ⟨h.1, h.2.1, h.2.2.1⟩ hne
    · have hmem7 : flag ∈ [ATT_CHG_TYPE_PREC_INCR, ATT_CHG_TYPE_SET_CLS_COMPAT, ATT_CHG_TYPE_UPGRADE,
          ATT_CHG_TYPE_NEED_ROW_CHECK, ATT_CHG_TYPE_PSEUDO_UPGRADE,
          ATT_CHG_TYPE_NOT_SUPPORTED_WITH_CFG, ATT_CHG_TYPE_NOT_SUPPORTED] := by
        simp only [List.mem_cons, List.mem_singleton, List.not_mem_nil, or_false] at hmem ⊢
        tauto
      have hb : build_att_type_change_map env curr_domain req_domain a
          = (NO_ERROR, or_type a flag) := by
        unfold build_att_type_change_map
        rw [hflag]
      refine ⟨flag, hmem7, hflag, hb, ?_⟩
      intro hx g hg
      rw [hb]
      exact is_att_prop_set_or_type_class_flag (a.p P_TYPE) flag g hx hmem7 hg
  · intro hsame
    rcases type_change_flag_cases env curr_domain req_domain with h | ⟨hne, -⟩
    · refine ⟨h.2.2.2, ?_, ?_⟩
      · unfold build_att_type_change_map
        rw [h.2.2.2]
      · cases hs : build_att_type_change_map_asserts env db_is_class curr_domain req_domain
        · rfl
        · rw [build_att_type_change_map_asserts_iff] at hs
          exact absurd hsame.2.2 (hs.2.2.2 hsame.1 hsame.2.1).2.2
    · exact absurd hsame hne

/-- C18 (amended), on INTEGER to BIGINT with the type entry
`PRESENT_OLD | PRESENT_NEW | DIFF`: `NO_ERROR`, the assertions hold, and UPGRADE
is the one flag ORed. -/
theorem build_att_type_change_map_total_witness :
    (build_att_type_change_map (sample_env false) (simple_domain DB_TYPE_INTEGER)
        (simple_domain DB_TYPE_BIGINT)
        (sample_ledger (fun _ => 0x23) ID_ATTRIBUTE false)).1 = NO_ERROR ∧
      build_att_type_change_map_asserts (sample_env false) (fun _ => 1)
        (simple_domain DB_TYPE_INTEGER) (simple_domain DB_TYPE_BIGINT) = true ∧
      (build_att_type_change_map (sample_env false) (simple_domain DB_TYPE_INTEGER)
        (simple_domain DB_TYPE_BIGINT)
        (sample_ledger (fun _ => 0x23) ID_ATTRIBUTE false)).2.p P_TYPE = 0x423 ∧
      ∃ flag ∈ [ATT_CHG_TYPE_PREC_INCR, ATT_CHG_TYPE_SET_CLS_COMPAT, ATT_CHG_TYPE_UPGRADE,
          ATT_CHG_TYPE_NEED_ROW_CHECK, ATT_CHG_TYPE_PSEUDO_UPGRADE,
          ATT_CHG_TYPE_NOT_SUPPORTED_WITH_CFG, ATT_CHG_TYPE_NOT_SUPPORTED],
        type_change_flag (sample_env false) (simple_domain DB_TYPE_INTEGER)
            (simple_domain DB_TYPE_BIGINT) = some flag ∧
          build_att_type_change_map (sample_env false) (simple_domain DB_TYPE_INTEGER)
            (simple_domain DB_TYPE_BIGINT) (sample_ledger (fun _ => 0x23) ID_ATTRIBUTE false)
            = (NO_ERROR, or_type (sample_ledger (fun _ => 0x23) ID_ATTRIBUTE false) flag) ∧
          ((sample_ledger (fun _ => 0x23) ID_ATTRIBUTE false).p P_TYPE
              < ATT_CHG_TYPE_PREC_INCR →
            ∀ g ∈ [ATT_CHG_TYPE_PREC_INCR, ATT_CHG_TYPE_SET_CLS_COMPAT, ATT_CHG_TYPE_UPGRADE,
          ATT_CHG_TYPE_NEED_ROW_CHECK, ATT_CHG_TYPE_PSEUDO_UPGRADE,
          ATT_CHG_TYPE_NOT_SUPPORTED_WITH_CFG, ATT_CHG_TYPE_NOT_SUPPORTED],
              is_att_prop_set
                ((build_att_type_change_map (sample_env false)
                  (simple_domain DB_TYPE_INTEGER) (simple_domain DB_TYPE_BIGINT)
                  (sample_ledger (fun _ => 0x23) ID_ATTRIBUTE false)).2.p P_TYPE) g
                = decide (g = flag)) :=
  have h := build_att_type_change_map_total (sample_env false) (fun _ => 1)
    (simple_domain DB_TYPE_INTEGER) (simple_domain DB_TYPE_BIGINT)
    (sample_ledger (fun _ => 0x23) ID_ATTRIBUTE false)
  ⟨h.1, h.2.2.2.2 ⟨by decide, by decide, by decide, by decide⟩, by decide,
    h.2.1 (by decide)⟩

/-- C18 (counterexample): two OBJECT domains of the same class. The assertion
of line 13634 fails, no flag is ORed, and the type entry
`PRESENT_OLD | PRESENT_NEW | DIFF` ends as `PRESENT_OLD | PRESENT_NEW`, with
none of the seven type-class flags. An assertion also fails for CHAR to CHAR
and for a requested VARCHAR of precision -5. -/
theorem build_att_type_change_map_same_class :
    build_att_type_change_map_asserts (sample_env false) (fun _ => 1)
        ⟨DB_TYPE_OBJECT, 0, 0, some 1⟩ ⟨DB_TYPE_OBJECT, 0, 0, some 1⟩ = false ∧
      type_change_flag (sample_env false) ⟨DB_TYPE_OBJECT, 0, 0, some 1⟩
        ⟨DB_TYPE_OBJECT, 0, 0, some 1⟩ = none ∧
      (build_att_type_change_map (sample_env false) ⟨DB_TYPE_OBJECT, 0, 0, some 1⟩
        ⟨DB_TYPE_OBJECT, 0, 0, some 1⟩
        (sample_ledger (fun _ => 0x23) ID_ATTRIBUTE false)).2.p P_TYPE = 0x3 ∧
      (∀ g ∈ [ATT_CHG_TYPE_PREC_INCR, ATT_CHG_TYPE_SET_CLS_COMPAT, ATT_CHG_TYPE_UPGRADE,
          ATT_CHG_TYPE_NEED_ROW_CHECK, ATT_CHG_TYPE_PSEUDO_UPGRADE,
          ATT_CHG_TYPE_NOT_SUPPORTED_WITH_CFG, ATT_CHG_TYPE_NOT_SUPPORTED],
        is_att_prop_set
          ((build_att_type_change_map (sample_env false) ⟨DB_TYPE_OBJECT, 0, 0, some 1⟩
            ⟨DB_TYPE_OBJECT, 0, 0, some 1⟩
            (sample_ledger (fun _ => 0x23) ID_ATTRIBUTE false)).2.p P_TYPE) g = false) ∧
      build_att_type_change_map_asserts (sample_env false) (fun _ => 1)
        ⟨DB_TYPE_CHAR, 10, 0, none⟩ ⟨DB_TYPE_CHAR, 20, 0, none⟩ = false ∧
      build_att_type_change_map_asserts (sample_env false) (fun _ => 1)
        (simple_domain DB_TYPE_INTEGER) ⟨DB_TYPE_VARCHAR, -5, 0, none⟩ = false := by
  decide

/-- C19: `build_att_type_change_map` ORs exactly ATT_CHG_TYPE_NOT_SUPPORTED
and returns `NO_ERROR` for every current type without `case` label (any type
other than SHORT, INTEGER, BIGINT, NUMERIC, FLOAT, DOUBLE, MONETARY, TIME,
DATE, DATETIME, TIMESTAMP, CHAR, VARCHAR, NCHAR, VARNCHAR, BIT, VARBIT and
OBJECT) and for every current type paired with a new type that has no `case`
label of its own under it; an entry that carried no type-class flag then
carries NOT_SUPPORTED and no other of the seven. -/
theorem build_att_type_change_map_not_supported (env : Env)
    (curr_domain req_domain : TP_DOMAIN) (a : SM_ATTR_PROP_CHG)
    (h : curr_domain.type ∉ [DB_TYPE_SHORT, DB_TYPE_INTEGER, DB_TYPE_BIGINT, DB_TYPE_NUMERIC,
      DB_TYPE_FLOAT, DB_TYPE_DOUBLE, DB_TYPE_MONETARY, DB_TYPE_TIME, DB_TYPE_DATE,
      DB_TYPE_DATETIME, DB_TYPE_TIMESTAMP, DB_TYPE_CHAR, DB_TYPE_VARCHAR, DB_TYPE_NCHAR,
      DB_TYPE_VARNCHAR, DB_TYPE_BIT, DB_TYPE_VARBIT, DB_TYPE_OBJECT]
      ∨ req_domain.type ∉ explicit_cases curr_domain.type) :
    type_change_flag env curr_domain req_domain = some ATT_CHG_TYPE_NOT_SUPPORTED ∧
    build_att_type_change_map env curr_domain req_domain a
      = (NO_ERROR, or_type a ATT_CHG_TYPE_NOT_SUPPORTED) ∧
    (a.p P_TYPE < ATT_CHG_TYPE_PREC_INCR →
      ∀ g ∈ [ATT_CHG_TYPE_PREC_INCR, ATT_CHG_TYPE_SET_CLS_COMPAT, ATT_CHG_TYPE_UPGRADE,
          ATT_CHG_TYPE_NEED_ROW_CHECK, ATT_CHG_TYPE_PSEUDO_UPGRADE,
          ATT_CHG_TYPE_NOT_SUPPORTED_WITH_CFG, ATT_CHG_TYPE_NOT_SUPPORTED],
        is_att_prop_set ((build_att_type_change_map env curr_domain req_domain a).2.p P_TYPE) g
          = decide (g = ATT_CHG_TYPE_NOT_SUPPORTED)) := by
  have hnot : req_domain.type ∉ explicit_cases curr_domain.type := by
    rcases h with h | h
    · rw [explicit_cases_eq_nil _ h]
      exact List.not_mem_nil _
    · exact h
  have hflag := type_change_flag_default env curr_domain req_domain hnot
  have hb : build_att_type_change_map env curr_domain req_domain a
      = (NO_ERROR, or_type a ATT_CHG_TYPE_NOT_SUPPORTED) := by
    unfold build_att_type_change_map
    rw [hflag]
  refine ⟨hflag, hb, ?_⟩
  intro hx g hg
  rw [hb]
  exact is_att_prop_set_or_type_class_flag (a.p P_TYPE) _ g hx (by simp) hg

/-- C19 (witness): BLOB to INTEGER (a current type without `case`), and the
pairs TIME to DATE, CHAR to NCHAR, INTEGER to DATE and BIT to CHAR (new types
without `case` under the current type) are NOT_SUPPORTED. -/
theorem build_att_type_change_map_not_supported_witness :
    type_change_flag (sample_env false) (simple_domain DB_TYPE_BLOB)
        (simple_domain DB_TYPE_INTEGER) = some ATT_CHG_TYPE_NOT_SUPPORTED ∧
      type_change_flag (sample_env false) (simple_domain DB_TYPE_CLOB)
        ⟨DB_TYPE_VARCHAR, 100, 0, none⟩ = some ATT_CHG_TYPE_NOT_SUPPORTED ∧
      type_change_flag (sample_env false) (simple_domain DB_TYPE_TIME)
        (simple_domain DB_TYPE_DATE) = some ATT_CHG_TYPE_NOT_SUPPORTED ∧
      type_change_flag (sample_env false) ⟨DB_TYPE_CHAR, 10, 0, none⟩
        ⟨DB_TYPE_NCHAR, 10, 0, none⟩ = some ATT_CHG_TYPE_NOT_SUPPORTED ∧
      type_change_flag (sample_env false) (simple_domain DB_TYPE_INTEGER)
        (simple_domain DB_TYPE_DATE) = some ATT_CHG_TYPE_NOT_SUPPORTED ∧
      type_change_flag (sample_env false) ⟨DB_TYPE_BIT, 8, 0, none⟩
        ⟨DB_TYPE_CHAR, 8, 0, none⟩ = some ATT_CHG_TYPE_NOT_SUPPORTED ∧
      (build_att_type_change_map (sample_env false) (simple_domain DB_TYPE_TIME)
        (simple_domain DB_TYPE_DATE)
        (sample_ledger (fun _ => 0x23) ID_ATTRIBUTE false)).2.p P_TYPE = 0x4023 :=
  ⟨(build_att_type_change_map_not_supported (sample_env false) (simple_domain DB_TYPE_BLOB)
      (simple_domain DB_TYPE_INTEGER) (sample_ledger (fun _ => 0x23) ID_ATTRIBUTE false)
      (Or.inl (by decide))).1,
    (build_att_type_change_map_not_supported (sample_env false) (simple_domain DB_TYPE_CLOB)
      ⟨DB_TYPE_VARCHAR, 100, 0, none⟩ (sample_ledger (fun _ => 0x23) ID_ATTRIBUTE false)
      (Or.inl (by decide))).1,
    (build_att_type_change_map_not_supported (sample_env false) (simple_domain DB_TYPE_TIME)
      (simple_domain DB_TYPE_DATE) (sample_ledger (fun _ => 0x23) ID_ATTRIBUTE false)
      (Or.inr (by decide))).1,
    (build_att_type_change_map_not_supported (sample_env false) ⟨DB_TYPE_CHAR, 10, 0, none⟩
      ⟨DB_TYPE_NCHAR, 10, 0, none⟩ (sample_ledger (fun _ => 0x23) ID_ATTRIBUTE false)
      (Or.inr (by decide))).1,
    (build_att_type_change_map_not_supported (sample_env false)
      (simple_domain DB_TYPE_INTEGER) (simple_domain DB_TYPE_DATE)
      (sample_ledger (fun _ => 0x23) ID_ATTRIBUTE false) (Or.inr (by decide))).1,
    (build_att_type_change_map_not_supported (sample_env false) ⟨DB_TYPE_BIT, 8, 0, none⟩
      ⟨DB_TYPE_CHAR, 8, 0, none⟩ (sample_ledger (fun _ => 0x23) ID_ATTRIBUTE false)
      (Or.inr (by decide))).1,
    by decide⟩

/-- C20 (amended): along the chain SMALLINT, INTEGER, BIGINT,
(FLOAT, DOUBLE, MONETARY), `build_att_type_change_map` classifies as Upgrade
every conversion from SMALLINT to a later type and the conversions from
INTEGER to BIGINT, DOUBLE and MONETARY; it classifies as NeedRowCheck the
conversions from INTEGER to FLOAT and from BIGINT to FLOAT, DOUBLE and
MONETARY, and every conversion in the opposite direction along the chain. -/
theorem build_att_type_change_map_numeric_chain (env : Env)
    (curr_domain req_domain : TP_DOMAIN) (a : SM_ATTR_PROP_CHG) :
    ((curr_domain.type, req_domain.type) ∈
        [(DB_TYPE_SHORT, DB_TYPE_INTEGER), (DB_TYPE_SHORT, DB_TYPE_BIGINT),
        (DB_TYPE_SHORT, DB_TYPE_FLOAT), (DB_TYPE_SHORT, DB_TYPE_DOUBLE),
        (DB_TYPE_SHORT, DB_TYPE_MONETARY), (DB_TYPE_INTEGER, DB_TYPE_BIGINT),
        (DB_TYPE_INTEGER, DB_TYPE_DOUBLE), (DB_TYPE_INTEGER, DB_TYPE_MONETARY)] →
      type_change_flag env curr_domain req_domain = some ATT_CHG_TYPE_UPGRADE ∧
      build_att_type_change_map env curr_domain req_domain a
        = (NO_ERROR, or_type a ATT_CHG_TYPE_UPGRADE)) ∧
    ((curr_domain.type, req_domain.type) ∈
        [(DB_TYPE_INTEGER, DB_TYPE_FLOAT), (DB_TYPE_BIGINT, DB_TYPE_FLOAT),
        (DB_TYPE_BIGINT, DB_TYPE_DOUBLE), (DB_TYPE_BIGINT, DB_TYPE_MONETARY)] →
      type_change_flag env curr_domain req_domain = some ATT_CHG_TYPE_NEED_ROW_CHECK ∧
      build_att_type_change_map env curr_domain req_domain a
        = (NO_ERROR, or_type a ATT_CHG_TYPE_NEED_ROW_CHECK)) ∧
    ((curr_domain.type, req_domain.type) ∈
        [(DB_TYPE_INTEGER, DB_TYPE_SHORT), (DB_TYPE_BIGINT, DB_TYPE_SHORT),
        (DB_TYPE_BIGINT, DB_TYPE_INTEGER), (DB_TYPE_FLOAT, DB_TYPE_SHORT),
        (DB_TYPE_FLOAT, DB_TYPE_INTEGER), (DB_TYPE_FLOAT, DB_TYPE_BIGINT),
        (DB_TYPE_DOUBLE, DB_TYPE_SHORT), (DB_TYPE_DOUBLE, DB_TYPE_INTEGER),
        (DB_TYPE_DOUBLE, DB_TYPE_BIGINT), (DB_TYPE_MONETARY, DB_TYPE_SHORT),
        (DB_TYPE_MONETARY, DB_TYPE_INTEGER), (DB_TYPE_MONETARY, DB_TYPE_BIGINT)] →
      type_change_flag env curr_domain req_domain = some ATT_CHG_TYPE_NEED_ROW_CHECK ∧
      build_att_type_change_map env curr_domain req_domain a
        = (NO_ERROR, or_type a ATT_CHG_TYPE_NEED_ROW_CHECK)) := by
  obtain ⟨ct, cp, cs, cm⟩ := curr_domain
  obtain ⟨rt, rp, rs, rm⟩ := req_domain
  refine ⟨?_, ?_, ?_⟩
  all_goals
    intro h
    simp only [List.mem_cons, List.mem_singleton, List.not_mem_nil, or_false,
      Prod.mk.injEq] at h
    repeat' rcases h with ⟨rfl, rfl⟩ | h
    all_goals first | exact ⟨rfl, rfl⟩ | (subst_vars; exact ⟨rfl, rfl⟩)

/-- C20 (amended), on SMALLINT to BIGINT (Upgrade), BIGINT to DOUBLE
(NeedRowCheck) and BIGINT to INTEGER (NeedRowCheck). -/
theorem build_att_type_change_map_numeric_chain_witness :
    type_change_flag (sample_env false) (simple_domain DB_TYPE_SHORT)
        (simple_domain DB_TYPE_BIGINT) = some ATT_CHG_TYPE_UPGRADE ∧
      type_change_flag (sample_env false) (simple_domain DB_TYPE_BIGINT)
        (simple_domain DB_TYPE_DOUBLE) = some ATT_CHG_TYPE_NEED_ROW_CHECK ∧
      type_change_flag (sample_env false) (simple_domain DB_TYPE_BIGINT)
        (simple_domain DB_TYPE_INTEGER) = some ATT_CHG_TYPE_NEED_ROW_CHECK ∧
      (build_att_type_change_map (sample_env false) (simple_domain DB_TYPE_SHORT)
        (simple_domain DB_TYPE_BIGINT)
        (sample_ledger (fun _ => 0x23) ID_ATTRIBUTE false)).2.p P_TYPE = 0x423 :=
  ⟨((build_att_type_change_map_numeric_chain (sample_env false)
      (simple_domain DB_TYPE_SHORT) (simple_domain DB_TYPE_BIGINT)
      (sample_ledger (fun _ => 0x23) ID_ATTRIBUTE false)).1 (by decide)).1,
    ((build_att_type_change_map_numeric_chain (sample_env false)
      (simple_domain DB_TYPE_BIGINT) (simple_domain DB_TYPE_DOUBLE)
      (sample_ledger (fun _ => 0x23) ID_ATTRIBUTE false)).2.1 (by decide)).1,
    ((build_att_type_change_map_numeric_chain (sample_env false)
      (simple_domain DB_TYPE_BIGINT) (simple_domain DB_TYPE_INTEGER)
      (sample_ledger (fun _ => 0x23) ID_ATTRIBUTE false)).2.2 (by decide)).1,
    by decide⟩

/-- C20 (counterexample): INTEGER to FLOAT, a conversion to a later type in the
chain, is classified NeedRowCheck: the flag ORed is NEED_ROW_CHECK, and the
type entry `PRESENT_OLD | PRESENT_NEW | DIFF` ends with NEED_ROW_CHECK and
without UPGRADE. So are BIGINT to DOUBLE and BIGINT to MONETARY. -/
theorem build_att_type_change_map_integer_to_float :
    type_change_flag (sample_env false) (simple_domain DB_TYPE_INTEGER)
        (simple_domain DB_TYPE_FLOAT) = some ATT_CHG_TYPE_NEED_ROW_CHECK ∧
      (build_att_type_change_map (sample_env false) (simple_domain DB_TYPE_INTEGER)
        (simple_domain DB_TYPE_FLOAT)
        (sample_ledger (fun _ => 0x23) ID_ATTRIBUTE false)).2.p P_TYPE = 0x823 ∧
      is_att_prop_set
        ((build_att_type_change_map (sample_env false) (simple_domain DB_TYPE_INTEGER)
          (simple_domain DB_TYPE_FLOAT)
          (sample_ledger (fun _ => 0x23) ID_ATTRIBUTE false)).2.p P_TYPE)
        ATT_CHG_TYPE_UPGRADE = false ∧
      is_att_prop_set
        ((build_att_type_change_map (sample_env false) (simple_domain DB_TYPE_INTEGER)
          (simple_domain DB_TYPE_FLOAT)
          (sample_ledger (fun _ => 0x23) ID_ATTRIBUTE false)).2.p P_TYPE)
        ATT_CHG_TYPE_NEED_ROW_CHECK = true ∧
      type_change_flag (sample_env false) (simple_domain DB_TYPE_BIGINT)
        (simple_domain DB_TYPE_DOUBLE) = some ATT_CHG_TYPE_NEED_ROW_CHECK ∧
      type_change_flag (sample_env false) (simple_domain DB_TYPE_BIGINT)
        (simple_domain DB_TYPE_MONETARY) = some ATT_CHG_TYPE_NEED_ROW_CHECK := by
  decide

/-- C21: for a source type T among SMALLINT, INTEGER and BIGINT with digit
count d(T) = TP_SMALLINT_PRECISION, TP_INTEGER_PRECISION, TP_BIGINT_PRECISION,
`build_att_type_change_map` classifies T to NUMERIC(p,s) as Upgrade if and
only if p - s >= d(T), and as NeedRowCheck otherwise; it classifies
NUMERIC(p,s) to T as Upgrade if and only if s = 0 and p < d(T), and as
NeedRowCheck otherwise. -/
theorem build_att_type_change_map_integer_numeric (env : Env)
    (curr_domain req_domain : TP_DOMAIN) (a : SM_ATTR_PROP_CHG) :
    ∀ Td ∈ [(DB_TYPE_SHORT, env.TP_SMALLINT_PRECISION),
        (DB_TYPE_INTEGER, env.TP_INTEGER_PRECISION),
        (DB_TYPE_BIGINT, env.TP_BIGINT_PRECISION)],
      (curr_domain.type = Td.1 → req_domain.type = DB_TYPE_NUMERIC →
        build_att_type_change_map env curr_domain req_domain a
          = (NO_ERROR, or_type a
              (if req_domain.precision - req_domain.scale ≥ Td.2 then ATT_CHG_TYPE_UPGRADE
                else ATT_CHG_TYPE_NEED_ROW_CHECK)) ∧
        (type_change_flag env curr_domain req_domain = some ATT_CHG_TYPE_UPGRADE ↔
          req_domain.precision - req_domain.scale ≥ Td.2) ∧
        (type_change_flag env curr_domain req_domain = some ATT_CHG_TYPE_NEED_ROW_CHECK ↔
          ¬ req_domain.precision - req_domain.scale ≥ Td.2)) ∧
      (curr_domain.type = DB_TYPE_NUMERIC → req_domain.type = Td.1 →
        build_att_type_change_map env curr_domain req_domain a
          = (NO_ERROR, or_type a
              (if curr_domain.precision < Td.2 ∧ curr_domain.scale = 0
                then ATT_CHG_TYPE_UPGRADE else ATT_CHG_TYPE_NEED_ROW_CHECK)) ∧
        (type_change_flag env curr_domain req_domain = some ATT_CHG_TYPE_UPGRADE ↔
          (curr_domain.precision < Td.2 ∧ curr_domain.scale = 0)) ∧
        (type_change_flag env curr_domain req_domain = some ATT_CHG_TYPE_NEED_ROW_CHECK ↔
          ¬(curr_domain.precision < Td.2 ∧ curr_domain.scale = 0))) := by
  obtain ⟨ct, cp, cs, cm⟩ := curr_domain
  obtain ⟨rt, rp, rs, rm⟩ := req_domain
  have h1 := type_change_flag_integer_to_numeric env cp cs cm rp rs rm
  have h2 := type_change_flag_numeric_to_integer env cp cs cm rp rs rm
  have hne : ATT_CHG_TYPE_UPGRADE ≠ ATT_CHG_TYPE_NEED_ROW_CHECK := by decide
  intro Td hTd
  simp only [List.mem_cons, List.mem_singleton, List.not_mem_nil, or_false] at hTd
  rcases hTd with rfl | rfl | rfl
  · refine ⟨?_, ?_⟩
    · rintro rfl rfl
      exact build_att_type_change_map_of_ite env _ _ a _ _ _ hne h1.1
    · rintro rfl rfl
      exact build_att_type_change_map_of_ite env _ _ a _ _ _ hne h2.1
  · refine ⟨?_, ?_⟩
    · rintro rfl rfl
      exact build_att_type_change_map_of_ite env _ _ a _ _ _ hne h1.2.1
    · rintro rfl rfl
      exact build_att_type_change_map_of_ite env _ _ a _ _ _ hne h2.2.1
  · refine ⟨?_, ?_⟩
    · rintro rfl rfl
      exact build_att_type_change_map_of_ite env _ _ a _ _ _ hne h1.2.2
    · rintro rfl rfl
      exact build_att_type_change_map_of_ite env _ _ a _ _ _ hne h2.2.2

/-- C21, on INTEGER to NUMERIC(12,2), which covers ten integer digits
(Upgrade), and on NUMERIC(10,0) to INTEGER, whose precision is not below ten
(NeedRowCheck). -/
theorem build_att_type_change_map_integer_numeric_witness :
    type_change_flag (sample_env false) (simple_domain DB_TYPE_INTEGER)
        ⟨DB_TYPE_NUMERIC, 12, 2, none⟩ = some ATT_CHG_TYPE_UPGRADE ∧
      type_change_flag (sample_env false) ⟨DB_TYPE_NUMERIC, 10, 0, none⟩
        (simple_domain DB_TYPE_INTEGER) = some ATT_CHG_TYPE_NEED_ROW_CHECK :=
  ⟨((build_att_type_change_map_integer_numeric (sample_env false)
      (simple_domain DB_TYPE_INTEGER) ⟨DB_TYPE_NUMERIC, 12, 2, none⟩
      (sample_ledger (fun _ => 0x23) ID_ATTRIBUTE false)
      (DB_TYPE_INTEGER, (sample_env false).TP_INTEGER_PRECISION) (by simp)).1 rfl rfl).2.1.2
      (by decide),
    ((build_att_type_change_map_integer_numeric (sample_env false)
      ⟨DB_TYPE_NUMERIC, 10, 0, none⟩ (simple_domain DB_TYPE_INTEGER)
      (sample_ledger (fun _ => 0x23) ID_ATTRIBUTE false)
      (DB_TYPE_INTEGER, (sample_env false).TP_INTEGER_PRECISION) (by simp)).2 rfl rfl).2.2.2
      (by decide)⟩

/-- C22: with TP_SMALLINT_PRECISION = 5, TP_INTEGER_PRECISION = 10,
TP_BIGINT_PRECISION = 19 and the two's-complement 16-, 32- and 64-bit ranges,
a conversion that `build_att_type_change_map` classifies as Upgrade is
lossless in both directions: from an integer type to NUMERIC(p,s), every
value of the source range has magnitude below 10^(p-s); from NUMERIC(p,s) to
an integer type, s = 0 and every integer of magnitude at most 10^p - 1 lies in
the range of the target type. -/
theorem build_att_type_change_map_upgrade_lossless (env : Env)
    (curr_domain req_domain : TP_DOMAIN)
    (h5 : env.TP_SMALLINT_PRECISION = 5) (h10 : env.TP_INTEGER_PRECISION = 10)
    (h19 : env.TP_BIGINT_PRECISION = 19)
    (hup : type_change_flag env curr_domain req_domain = some ATT_CHG_TYPE_UPGRADE) :
    (∀ lo hi : Int, integer_range curr_domain.type = some (lo, hi) →
      req_domain.type = DB_TYPE_NUMERIC →
      ∀ v : Int, lo ≤ v → v ≤ hi →
        |v| < 10 ^ (req_domain.precision - req_domain.scale).toNat) ∧
    (∀ lo hi : Int, curr_domain.type = DB_TYPE_NUMERIC →
      integer_range req_domain.type = some (lo, hi) →
      curr_domain.scale = 0 ∧ 10 ^ curr_domain.precision.toNat - 1 ≤ hi ∧
        ∀ v : Int, |v| ≤ 10 ^ curr_domain.precision.toNat - 1 → lo ≤ v ∧ v ≤ hi) := by
  obtain ⟨ct, cp, cs, cm⟩ := curr_domain
  obtain ⟨rt, rp, rs, rm⟩ := req_domain
  have h1 := type_change_flag_integer_to_numeric env cp cs cm rp rs rm
  have h2 := type_change_flag_numeric_to_integer env cp cs cm rp rs rm
  have hne : ATT_CHG_TYPE_NEED_ROW_CHECK ≠ ATT_CHG_TYPE_UPGRADE := by decide
  constructor
  · intro lo hi hr hreq v hlo hhi
    simp only at hreq hr
    subst hreq
    show |v| < 10 ^ (rp - rs).toNat
    cases ct <;> simp only [integer_range, reduceCtorEq, Option.some.injEq,
      Prod.mk.injEq] at hr
    · obtain ⟨rfl, rfl⟩ := hr
      rw [h1.2.1, h10] at hup
      split_ifs at hup with hge
      · have := ten_pow_le_of_le 10 (rp - rs) (by simpa using hge)
        norm_num at this
        rw [abs_lt]
        constructor <;> omega
      · exact absurd (Option.some.inj hup) hne
    · obtain ⟨rfl, rfl⟩ := hr
      rw [h1.1, h5] at hup
      split_ifs at hup with hge
      · have := ten_pow_le_of_le 5 (rp - rs) (by simpa using hge)
        norm_num at this
        rw [abs_lt]
        constructor <;> omega
      · exact absurd (Option.some.inj hup) hne
    · obtain ⟨rfl, rfl⟩ := hr
      rw [h1.2.2, h19] at hup
      split_ifs at hup with hge
      · have := ten_pow_le_of_le 19 (rp - rs) (by simpa using hge)
        norm_num at this
        rw [abs_lt]
        constructor <;> omega
      · exact absurd (Option.some.inj hup) hne
  · intro lo hi hcur hr
    simp only at hcur hr
    subst hcur
    show cs = 0 ∧ 10 ^ cp.toNat - 1 ≤ hi
      ∧ ∀ v : Int, |v| ≤ 10 ^ cp.toNat - 1 → lo ≤ v ∧ v ≤ hi
    cases rt <;> simp only [integer_range, reduceCtorEq, Option.some.injEq,
      Prod.mk.injEq] at hr
    · obtain ⟨rfl, rfl⟩ := hr
      rw [h2.2.1, h10] at hup
      split_ifs at hup with hlt
      · have := ten_pow_le_of_lt 9 cp (by have := hlt.1; omega)
        norm_num at this
        refine ⟨hlt.2, by omega, ?_⟩
        intro v hv
        rw [abs_le] at hv
        constructor <;> omega
      · exact absurd (Option.some.inj hup) hne
    · obtain ⟨rfl, rfl⟩ := hr
      rw [h2.1, h5] at hup
      split_ifs at hup with hlt
      · have := ten_pow_le_of_lt 4 cp (by have := hlt.1; omega)
        norm_num at this
        refine ⟨hlt.2, by omega, ?_⟩
        intro v hv
        rw [abs_le] at hv
        constructor <;> omega
      · exact absurd (Option.some.inj hup) hne
    · obtain ⟨rfl, rfl⟩ := hr
      rw [h2.2.2, h19] at hup
      split_ifs at hup with hlt
      · have := ten_pow_le_of_lt 18 cp (by have := hlt.1; omega)
        norm_num at this
        refine ⟨hlt.2, by omega, ?_⟩
        intro v hv
        rw [abs_le] at hv
        constructor <;> omega
      · exact absurd (Option.some.inj hup) hne

/-- C22, on INTEGER to NUMERIC(12,2) and on NUMERIC(9,0) to INTEGER, both
classified Upgrade: the least INTEGER value has magnitude below 10^10, and
10^9 - 1 does not exceed the greatest INTEGER value. -/
theorem build_att_type_change_map_upgrade_lossless_witness :
    |(-2147483648 : Int)| < 10 ^ ((12 : Int) - 2).toNat ∧
      ((0 : Int) = 0 ∧ (10 : Int) ^ (9 : Int).toNat - 1 ≤ 2147483647) :=
  ⟨(build_att_type_change_map_upgrade_lossless (sample_env false)
      (simple_domain DB_TYPE_INTEGER) ⟨DB_TYPE_NUMERIC, 12, 2, none⟩ rfl rfl rfl
      (by decide)).1 (-2147483648) 2147483647 rfl rfl (-2147483648) (by decide) (by decide),
    ((build_att_type_change_map_upgrade_lossless (sample_env false)
      ⟨DB_TYPE_NUMERIC, 9, 0, none⟩ (simple_domain DB_TYPE_INTEGER) rfl rfl rfl
      (by decide)).2 (-2147483648) 2147483647 rfl rfl).1,
    ((build_att_type_change_map_upgrade_lossless (sample_env false)
      ⟨DB_TYPE_NUMERIC, 9, 0, none⟩ (simple_domain DB_TYPE_INTEGER) rfl rfl rfl
      (by decide)).2 (-2147483648) 2147483647 rfl rfl).2.1⟩

/-- C23 (amended): for a requested character type (CHAR, NCHAR, VARCHAR,
VARNCHAR), with the requested precision taken after the floating-precision
value of a VARCHAR or VARNCHAR request is replaced by the maximum,
`build_att_type_change_map` classifies a temporal source type (TIME, DATE,
DATETIME, TIMESTAMP) as Upgrade if the requested precision is at least the
fixed width of the source type and as NotSupported otherwise; SMALLINT,
INTEGER and BIGINT as Upgrade if the requested precision is at least the digit
count of the source type plus one and as NeedRowCheck otherwise; NUMERIC as
Upgrade if the requested precision is at least the current precision plus two
and as NeedRowCheck otherwise; FLOAT, DOUBLE and MONETARY as Upgrade if the
request is a VARCHAR or VARNCHAR of maximum (or floating) precision and as
NeedRowCheck otherwise, in particular for every CHAR and NCHAR request. -/
theorem build_att_type_change_map_to_char (env : Env) (curr_domain req_domain : TP_DOMAIN)
    (hreq : req_domain.type ∈ [DB_TYPE_CHAR, DB_TYPE_NCHAR, DB_TYPE_VARCHAR,
      DB_TYPE_VARNCHAR]) :
    (∀ Tw ∈ [(DB_TYPE_TIME, env.TP_TIME_AS_CHAR_LENGTH),
        (DB_TYPE_DATE, env.TP_DATE_AS_CHAR_LENGTH),
        (DB_TYPE_DATETIME, env.TP_DATETIME_AS_CHAR_LENGTH),
        (DB_TYPE_TIMESTAMP, env.TP_TIMESTAMP_AS_CHAR_LENGTH)],
      curr_domain.type = Tw.1 →
      type_change_flag env curr_domain req_domain =
        if (req_prec_and_max env req_domain.type req_domain.precision).1 ≥ Tw.2
        then some ATT_CHG_TYPE_UPGRADE else some ATT_CHG_TYPE_NOT_SUPPORTED) ∧
    (∀ Td ∈ [(DB_TYPE_SHORT, env.TP_SMALLINT_PRECISION),
        (DB_TYPE_INTEGER, env.TP_INTEGER_PRECISION),
        (DB_TYPE_BIGINT, env.TP_BIGINT_PRECISION)],
      curr_domain.type = Td.1 →
      type_change_flag env curr_domain req_domain =
        if (req_prec_and_max env req_domain.type req_domain.precision).1 ≥ Td.2 + 1
        then some ATT_CHG_TYPE_UPGRADE else some ATT_CHG_TYPE_NEED_ROW_CHECK) ∧
    (curr_domain.type = DB_TYPE_NUMERIC →
      type_change_flag env curr_domain req_domain =
        if (req_prec_and_max env req_domain.type req_domain.precision).1
            ≥ curr_domain.precision + 2
        then some ATT_CHG_TYPE_UPGRADE else some ATT_CHG_TYPE_NEED_ROW_CHECK) ∧
    (curr_domain.type ∈ [DB_TYPE_FLOAT, DB_TYPE_DOUBLE, DB_TYPE_MONETARY] →
      type_change_flag env curr_domain req_domain =
        if (req_prec_and_max env req_domain.type req_domain.precision).2 = true
        then some ATT_CHG_TYPE_UPGRADE else some ATT_CHG_TYPE_NEED_ROW_CHECK) ∧
    (req_domain.type ∈ [DB_TYPE_CHAR, DB_TYPE_NCHAR] →
      req_prec_and_max env req_domain.type req_domain.precision
        = (req_domain.precision, false)) ∧
    (req_domain.precision ≠ env.TP_FLOATING_PRECISION_VALUE →
      (req_prec_and_max env req_domain.type req_domain.precision).1
        = req_domain.precision) := by
  obtain ⟨ct, cp, cs, cm⟩ := curr_domain
  obtain ⟨rt, rp, rs, rm⟩ := req_domain
  simp only [List.mem_cons, List.mem_singleton, List.not_mem_nil, or_false] at hreq
  refine ⟨?_, ?_, ?_, ?_, ?_, req_prec_and_max_fst env rt rp⟩
  · intro Tw hTw
    simp only [List.mem_cons, List.mem_singleton, List.not_mem_nil, or_false] at hTw
    rcases hTw with rfl | rfl | rfl | rfl <;> rintro rfl <;>
      rcases hreq with rfl | rfl | rfl | rfl <;> rfl
  · intro Td hTd
    simp only [List.mem_cons, List.mem_singleton, List.not_mem_nil, or_false] at hTd
    rcases hTd with rfl | rfl | rfl <;> rintro rfl <;>
      rcases hreq with rfl | rfl | rfl | rfl <;> rfl
  · rintro rfl
    rcases hreq with rfl | rfl | rfl | rfl <;> rfl
  · intro hc
    simp only [List.mem_cons, List.mem_singleton, List.not_mem_nil, or_false] at hc
    rcases hc with rfl | rfl | rfl <;> rcases hreq with rfl | rfl | rfl | rfl <;> rfl
  · intro hc
    simp only [List.mem_cons, List.mem_singleton, List.not_mem_nil, or_false] at hc
    rcases hc with rfl | rfl <;> rfl

/-- C23 (amended), on TIME to CHAR(11) and CHAR(10) (the width of TIME is 11:
Upgrade, NotSupported), INTEGER to VARCHAR(11) and CHAR(5) (ten digits and
one: Upgrade, NeedRowCheck) and DOUBLE to a VARCHAR of floating precision and
to VARCHAR(100) (Upgrade, NeedRowCheck). -/
theorem build_att_type_change_map_to_char_witness :
    type_change_flag (sample_env false) (simple_domain DB_TYPE_TIME)
        ⟨DB_TYPE_CHAR, 11, 0, none⟩ = some ATT_CHG_TYPE_UPGRADE ∧
      type_change_flag (sample_env false) (simple_domain DB_TYPE_TIME)
        ⟨DB_TYPE_CHAR, 10, 0, none⟩ = some ATT_CHG_TYPE_NOT_SUPPORTED ∧
      type_change_flag (sample_env false) (simple_domain DB_TYPE_INTEGER)
        ⟨DB_TYPE_VARCHAR, 11, 0, none⟩ = some ATT_CHG_TYPE_UPGRADE ∧
      type_change_flag (sample_env false) (simple_domain DB_TYPE_INTEGER)
        ⟨DB_TYPE_CHAR, 5, 0, none⟩ = some ATT_CHG_TYPE_NEED_ROW_CHECK ∧
      type_change_flag (sample_env false) (simple_domain DB_TYPE_DOUBLE)
        ⟨DB_TYPE_VARCHAR, -1, 0, none⟩ = some ATT_CHG_TYPE_UPGRADE ∧
      type_change_flag (sample_env false) (simple_domain DB_TYPE_DOUBLE)
        ⟨DB_TYPE_VARCHAR, 100, 0, none⟩ = some ATT_CHG_TYPE_NEED_ROW_CHECK :=
  ⟨((build_att_type_change_map_to_char (sample_env false) (simple_domain DB_TYPE_TIME)
      ⟨DB_TYPE_CHAR, 11, 0, none⟩ (by decide)).1
      (DB_TYPE_TIME, (sample_env false).TP_TIME_AS_CHAR_LENGTH) (by simp) rfl).trans
      (by decide),
    ((build_att_type_change_map_to_char (sample_env false) (simple_domain DB_TYPE_TIME)
      ⟨DB_TYPE_CHAR, 10, 0, none⟩ (by decide)).1
      (DB_TYPE_TIME, (sample_env false).TP_TIME_AS_CHAR_LENGTH) (by simp) rfl).trans
      (by decide),
    ((build_att_type_change_map_to_char (sample_env false) (simple_domain DB_TYPE_INTEGER)
      ⟨DB_TYPE_VARCHAR, 11, 0, none⟩ (by decide)).2.1
      (DB_TYPE_INTEGER, (sample_env false).TP_INTEGER_PRECISION) (by simp) rfl).trans
      (by decide),
    ((build_att_type_change_map_to_char (sample_env false) (simple_domain DB_TYPE_INTEGER)
      ⟨DB_TYPE_CHAR, 5, 0, none⟩ (by decide)).2.1
      (DB_TYPE_INTEGER, (sample_env false).TP_INTEGER_PRECISION) (by simp) rfl).trans
      (by decide),
    ((build_att_type_change_map_to_char (sample_env false) (simple_domain DB_TYPE_DOUBLE)
      ⟨DB_TYPE_VARCHAR, -1, 0, none⟩ (by decide)).2.2.2.1 (by decide)).trans (by decide),
    ((build_att_type_change_map_to_char (sample_env false) (simple_domain DB_TYPE_DOUBLE)
      ⟨DB_TYPE_VARCHAR, 100, 0, none⟩ (by decide)).2.2.2.1 (by decide)).trans (by decide)⟩

/-- C23 (counterexample): INTEGER to CHAR(5), a requested precision below the
width of an INTEGER, is classified NeedRowCheck and not NotSupported, and the
request `MODIFY a CHAR(5)` on an INTEGER attribute is granted at BestEffort;
FLOAT to CHAR(100) and DOUBLE to VARCHAR(100) are classified NeedRowCheck and
not Upgrade; NUMERIC(4,0) to CHAR(5), below its precision plus two, is
NeedRowCheck. -/
theorem build_att_type_change_map_integer_to_short_char :
    type_change_flag (sample_env false) (simple_domain DB_TYPE_INTEGER)
        ⟨DB_TYPE_CHAR, 5, 0, none⟩ = some ATT_CHG_TYPE_NEED_ROW_CHECK ∧
      is_att_prop_set ((check_change_attribute (sample_env false)
        (sample_template "a" (sample_attribute (simple_domain DB_TYPE_INTEGER)) [])
        (sample_definition "a" PT_TYPE_CHAR ⟨DB_TYPE_CHAR, 5, 0, none⟩)
        none [] fresh_ledger).attr_chg_prop.p P_TYPE)
        ATT_CHG_TYPE_NOT_SUPPORTED = false ∧
      (check_change_attribute (sample_env false)
        (sample_template "a" (sample_attribute (simple_domain DB_TYPE_INTEGER)) [])
        (sample_definition "a" PT_TYPE_CHAR ⟨DB_TYPE_CHAR, 5, 0, none⟩)
        none [] fresh_ledger).error = NO_ERROR ∧
      (check_change_attribute (sample_env false)
        (sample_template "a" (sample_attribute (simple_domain DB_TYPE_INTEGER)) [])
        (sample_definition "a" PT_TYPE_CHAR ⟨DB_TYPE_CHAR, 5, 0, none⟩)
        none [] fresh_ledger).change_mode = SM_ATTR_CHG_BEST_EFFORT ∧
      type_change_flag (sample_env false) (simple_domain DB_TYPE_FLOAT)
        ⟨DB_TYPE_CHAR, 100, 0, none⟩ = some ATT_CHG_TYPE_NEED_ROW_CHECK ∧
      type_change_flag (sample_env false) (simple_domain DB_TYPE_DOUBLE)
        ⟨DB_TYPE_VARCHAR, 100, 0, none⟩ = some ATT_CHG_TYPE_NEED_ROW_CHECK ∧
      type_change_flag (sample_env false) ⟨DB_TYPE_NUMERIC, 4, 0, none⟩
        ⟨DB_TYPE_CHAR, 5, 0, none⟩ = some ATT_CHG_TYPE_NEED_ROW_CHECK := by
  decide

/-- C24: for every current type among CHAR, VARCHAR, NCHAR and VARNCHAR and
every new type among SMALLINT, INTEGER, BIGINT, NUMERIC, FLOAT, DOUBLE,
MONETARY, DATE, TIME, DATETIME and TIMESTAMP, whatever the precisions, the
scales, the classes and the configuration, `build_att_type_change_map` ORs
NEED_ROW_CHECK and returns `NO_ERROR`. -/
theorem build_att_type_change_map_char_to_other (env : Env)
    (curr_domain req_domain : TP_DOMAIN) (a : SM_ATTR_PROP_CHG)
    (hcur : curr_domain.type ∈ [DB_TYPE_CHAR, DB_TYPE_VARCHAR, DB_TYPE_NCHAR,
      DB_TYPE_VARNCHAR])
    (hreq : req_domain.type ∈ [DB_TYPE_SHORT, DB_TYPE_INTEGER, DB_TYPE_BIGINT,
      DB_TYPE_NUMERIC, DB_TYPE_FLOAT, DB_TYPE_DOUBLE, DB_TYPE_MONETARY, DB_TYPE_DATE,
      DB_TYPE_TIME, DB_TYPE_DATETIME, DB_TYPE_TIMESTAMP]) :
    type_change_flag env curr_domain req_domain = some ATT_CHG_TYPE_NEED_ROW_CHECK ∧
      build_att_type_change_map env curr_domain req_domain a
        = (NO_ERROR, or_type a ATT_CHG_TYPE_NEED_ROW_CHECK) := by
  obtain ⟨ct, cp, cs, cm⟩ := curr_domain
  obtain ⟨rt, rp, rs, rm⟩ := req_domain
  simp only [List.mem_cons, List.mem_singleton, List.not_mem_nil, or_false] at hcur hreq
  rcases hcur with rfl | rfl | rfl | rfl <;>
    rcases hreq with rfl | rfl | rfl | rfl | rfl | rfl | rfl | rfl | rfl | rfl | rfl <;>
    exact ⟨rfl, rfl⟩

/-- C24, on VARCHAR(10) to INTEGER under the strict configuration and on
NCHAR(3) to DATE under the permissive one. -/
theorem build_att_type_change_map_char_to_other_witness :
    type_change_flag (sample_env true) ⟨DB_TYPE_VARCHAR, 10, 0, none⟩
        (simple_domain DB_TYPE_INTEGER) = some ATT_CHG_TYPE_NEED_ROW_CHECK ∧
      (build_att_type_change_map (sample_env false) ⟨DB_TYPE_NCHAR, 3, 0, none⟩
        (simple_domain DB_TYPE_DATE)
        (sample_ledger (fun _ => 0x23) ID_ATTRIBUTE false)).2.p P_TYPE = 0x823 :=
  ⟨(build_att_type_change_map_char_to_other (sample_env true)
      ⟨DB_TYPE_VARCHAR, 10, 0, none⟩ (simple_domain DB_TYPE_INTEGER)
      (sample_ledger (fun _ => 0x23) ID_ATTRIBUTE false) (by decide) (by decide)).1,
    by
      rw [(build_att_type_change_map_char_to_other (sample_env false)
        ⟨DB_TYPE_NCHAR, 3, 0, none⟩ (simple_domain DB_TYPE_DATE)
        (sample_ledger (fun _ => 0x23) ID_ATTRIBUTE false) (by decide) (by decide)).2]
      decide⟩

/-- C25: `build_att_type_change_map` classifies DATETIME to TIME, DATETIME to
DATE, TIMESTAMP to TIME and TIMESTAMP to DATE as PseudoUpgrade; DATE to
DATETIME, DATE to TIMESTAMP, DATETIME to TIMESTAMP and TIMESTAMP to DATETIME as
Upgrade; and TIME to DATE, DATETIME and TIMESTAMP as NotSupported. -/
theorem build_att_type_change_map_temporal (env : Env)
    (curr_domain req_domain : TP_DOMAIN) (a : SM_ATTR_PROP_CHG) :
    ((curr_domain.type, req_domain.type) ∈
        [(DB_TYPE_DATETIME, DB_TYPE_TIME), (DB_TYPE_DATETIME, DB_TYPE_DATE),
          (DB_TYPE_TIMESTAMP, DB_TYPE_TIME), (DB_TYPE_TIMESTAMP, DB_TYPE_DATE)] →
      type_change_flag env curr_domain req_domain = some ATT_CHG_TYPE_PSEUDO_UPGRADE ∧
      build_att_type_change_map env curr_domain req_domain a
        = (NO_ERROR, or_type a ATT_CHG_TYPE_PSEUDO_UPGRADE)) ∧
    ((curr_domain.type, req_domain.type) ∈
        [(DB_TYPE_DATE, DB_TYPE_DATETIME), (DB_TYPE_DATE, DB_TYPE_TIMESTAMP),
          (DB_TYPE_DATETIME, DB_TYPE_TIMESTAMP), (DB_TYPE_TIMESTAMP, DB_TYPE_DATETIME)] →
      type_change_flag env curr_domain req_domain = some ATT_CHG_TYPE_UPGRADE ∧
      build_att_type_change_map env curr_domain req_domain a
        = (NO_ERROR, or_type a ATT_CHG_TYPE_UPGRADE)) ∧
    ((curr_domain.type, req_domain.type) ∈
        [(DB_TYPE_TIME, DB_TYPE_DATE), (DB_TYPE_TIME, DB_TYPE_DATETIME),
          (DB_TYPE_TIME, DB_TYPE_TIMESTAMP)] →
      type_change_flag env curr_domain req_domain = some ATT_CHG_TYPE_NOT_SUPPORTED ∧
      build_att_type_change_map env curr_domain req_domain a
        = (NO_ERROR, or_type a ATT_CHG_TYPE_NOT_SUPPORTED)) := by
  obtain ⟨ct, cp, cs, cm⟩ := curr_domain
  obtain ⟨rt, rp, rs, rm⟩ := req_domain
  refine ⟨?_, ?_, ?_⟩
  all_goals
    intro h
    simp only [List.mem_cons, List.mem_singleton, List.not_mem_nil, or_false,
      Prod.mk.injEq] at h
    repeat' rcases h with ⟨rfl, rfl⟩ | h
    all_goals first | exact ⟨rfl, rfl⟩ | (subst_vars; exact ⟨rfl, rfl⟩)

/-- C25, on TIMESTAMP to DATE (PseudoUpgrade), DATE to DATETIME (Upgrade) and
TIME to DATETIME (NotSupported). -/
theorem build_att_type_change_map_temporal_witness :
    type_change_flag (sample_env false) (simple_domain DB_TYPE_TIMESTAMP)
        (simple_domain DB_TYPE_DATE) = some ATT_CHG_TYPE_PSEUDO_UPGRADE ∧
      type_change_flag (sample_env false) (simple_domain DB_TYPE_DATE)
        (simple_domain DB_TYPE_DATETIME) = some ATT_CHG_TYPE_UPGRADE ∧
      type_change_flag (sample_env false) (simple_domain DB_TYPE_TIME)
        (simple_domain DB_TYPE_DATETIME) = some ATT_CHG_TYPE_NOT_SUPPORTED :=
  ⟨((build_att_type_change_map_temporal (sample_env false)
      (simple_domain DB_TYPE_TIMESTAMP) (simple_domain DB_TYPE_DATE)
      (sample_ledger (fun _ => 0x23) ID_ATTRIBUTE false)).1 (by decide)).1,
    ((build_att_type_change_map_temporal (sample_env false)
      (simple_domain DB_TYPE_DATE) (simple_domain DB_TYPE_DATETIME)
      (sample_ledger (fun _ => 0x23) ID_ATTRIBUTE false)).2.1 (by decide)).1,
    ((build_att_type_change_map_temporal (sample_env false)
      (simple_domain DB_TYPE_TIME) (simple_domain DB_TYPE_DATETIME)
      (sample_ledger (fun _ => 0x23) ID_ATTRIBUTE false)).2.2 (by decide)).1⟩

/-- C26 (amended): in the special case TYPE of `build_attr_change_map`, a
change within one character or bit type that matches neither exactly nor as a
string domain and does not raise the precision gets DIFF and, for the
fixed-length types CHAR, NCHAR and BIT under strict configuration,
NOT_SUPPORTED_WITH_CFG; in every other case (VARCHAR, VARNCHAR and VARBIT
under both configurations, and every type under the permissive one)
NEED_ROW_CHECK. A ledger with that type entry is, in the first case, rejected
at every strategy; in the second, for a plain attribute, a successful
escalation ends at BestEffort. So VARCHAR(10) to VARCHAR(5) is NeedRowCheck
and ends at BestEffort under both configurations. -/
theorem special_case_type_precision_decrease (env : Env)
    (attr_db_domain att_domain : TP_DOMAIN) (a L : SM_ATTR_PROP_CHG) (attr_name : String)
    (t : PT_TYPE_ENUM)
    (hty : attr_db_domain.type = att_domain.type)
    (hcb : TP_IS_CHAR_BIT_TYPE attr_db_domain.type = true)
    (hex : env.tp_domain_match attr_db_domain att_domain TP_EXACT_MATCH = false)
    (hstr : env.tp_domain_match attr_db_domain att_domain TP_STR_MATCH = false)
    (hle : attr_db_domain.precision ≤ att_domain.precision)
    (hL : L.p P_TYPE = (special_case_type env attr_db_domain att_domain a).2.p P_TYPE) :
    special_case_type env attr_db_domain att_domain a =
      (NO_ERROR, or_p (or_p (clear_p a P_TYPE ATT_CHG_PROPERTY_UNCHANGED) P_TYPE
          ATT_CHG_PROPERTY_DIFF) P_TYPE
        (if QSTR_IS_FIXED_LENGTH attr_db_domain.type = true
            ∧ env.PRM_ALTER_TABLE_CHANGE_TYPE_STRICT = true
          then ATT_CHG_TYPE_NOT_SUPPORTED_WITH_CFG else ATT_CHG_TYPE_NEED_ROW_CHECK)) ∧
    (attr_db_domain.type ∈ [DB_TYPE_VARCHAR, DB_TYPE_VARNCHAR, DB_TYPE_VARBIT]
        ∨ env.PRM_ALTER_TABLE_CHANGE_TYPE_STRICT = false →
      is_att_prop_set (L.p P_TYPE) ATT_CHG_TYPE_NEED_ROW_CHECK = true ∧
      (L.name_space = ID_ATTRIBUTE →
        (check_change_attribute_escalate env attr_name t L).error = NO_ERROR →
        (check_change_attribute_escalate env attr_name t L).change_mode
          = SM_ATTR_CHG_BEST_EFFORT)) ∧
    (attr_db_domain.type ∈ [DB_TYPE_CHAR, DB_TYPE_NCHAR, DB_TYPE_BIT] →
      env.PRM_ALTER_TABLE_CHANGE_TYPE_STRICT = true →
      is_att_prop_set (L.p P_TYPE) ATT_CHG_TYPE_NOT_SUPPORTED_WITH_CFG = true ∧
      ∀ m l, (check_att_chg_allowed env.PRM_ALTER_TABLE_CHANGE_TYPE_STRICT attr_name t L
        m l).error ≠ NO_ERROR) := by
  have hres : special_case_type env attr_db_domain att_domain a =
      (NO_ERROR, or_p (or_p (clear_p a P_TYPE ATT_CHG_PROPERTY_UNCHANGED) P_TYPE
          ATT_CHG_PROPERTY_DIFF) P_TYPE
        (if QSTR_IS_FIXED_LENGTH attr_db_domain.type = true
            ∧ env.PRM_ALTER_TABLE_CHANGE_TYPE_STRICT = true
          then ATT_CHG_TYPE_NOT_SUPPORTED_WITH_CFG else ATT_CHG_TYPE_NEED_ROW_CHECK)) := by
    unfold special_case_type
    have hgt : ¬ attr_db_domain.precision > att_domain.precision := not_lt.mpr hle
    simp only [hex, hstr, TP_DOMAIN_TYPE, hty, hcb, Bool.false_eq_true, if_false, true_and,
      hgt]
    rw [← hty, hcb]
    simp only [if_true, and_self]
    split_ifs <;> rfl
  rw [hres] at hL
  simp only [or_p_p, if_true] at hL
  refine ⟨hres, ?_, ?_⟩
  · intro hv
    have hnrc : is_att_prop_set (L.p P_TYPE) ATT_CHG_TYPE_NEED_ROW_CHECK = true := by
      rw [hL]
      have hc : ¬(QSTR_IS_FIXED_LENGTH attr_db_domain.type = true
          ∧ env.PRM_ALTER_TABLE_CHANGE_TYPE_STRICT = true) := by
        rcases hv with hv | hv
        · simp only [List.mem_cons, List.mem_singleton, List.not_mem_nil, or_false] at hv
          rcases hv with h | h | h <;> simp [h, QSTR_IS_FIXED_LENGTH]
        · simp [hv]
      rw [if_neg hc]
      exact is_att_prop_set_or_self _ _
    refine ⟨hnrc, fun hns hok => ?_⟩
    exact (check_change_attribute_escalate_best_effort_iff env attr_name t L hns hok).2
      (Or.inl hnrc)
  · intro hv hs
    have hcfg : is_att_prop_set (L.p P_TYPE) ATT_CHG_TYPE_NOT_SUPPORTED_WITH_CFG = true := by
      rw [hL]
      have hc : QSTR_IS_FIXED_LENGTH attr_db_domain.type = true
          ∧ env.PRM_ALTER_TABLE_CHANGE_TYPE_STRICT = true := by
        simp only [List.mem_cons, List.mem_singleton, List.not_mem_nil, or_false] at hv
        rcases hv with h | h | h <;> simp [h, QSTR_IS_FIXED_LENGTH, hs]
      rw [if_pos hc]
      exact is_att_prop_set_or_self _ _
    exact ⟨hcfg, fun m l =>
      check_att_chg_allowed_of_not_supported_with_cfg _ attr_name t L m l hcfg⟩

/-- C26 (amended), under strict configuration: VARCHAR(10) to VARCHAR(5) gets
the type entry `PRESENT_OLD | PRESENT_NEW | DIFF | NEED_ROW_CHECK` and a ledger
with that entry ends at BestEffort; CHAR(10) to CHAR(5) gets
`PRESENT_OLD | PRESENT_NEW | DIFF | NOT_SUPPORTED_WITH_CFG` and is rejected at
BestEffort, and the request `MODIFY a CHAR(5)` fails with
`ER_ALTER_CHANGE_TYPE_UPGRADE_CFG`. -/
theorem special_case_type_precision_decrease_witness :
    (special_case_type (sample_env true) ⟨DB_TYPE_VARCHAR, 5, 0, none⟩
        ⟨DB_TYPE_VARCHAR, 10, 0, none⟩ (sample_ledger (fun _ => 0x13) ID_ATTRIBUTE false)).2.p
        P_TYPE = 0x823 ∧
      (check_change_attribute_escalate (sample_env true) "a" PT_TYPE_VARCHAR
        (sample_ledger (fun i => if i = P_TYPE then 0x823 else 0x10) ID_ATTRIBUTE false)).change_mode
        = SM_ATTR_CHG_BEST_EFFORT ∧
      (special_case_type (sample_env true) ⟨DB_TYPE_CHAR, 5, 0, none⟩
        ⟨DB_TYPE_CHAR, 10, 0, none⟩ (sample_ledger (fun _ => 0x13) ID_ATTRIBUTE false)).2.p
        P_TYPE = 0x2023 ∧
      (check_att_chg_allowed true "a" PT_TYPE_CHAR
        (sample_ledger (fun i => if i = P_TYPE then 0x2023 else 0x10) ID_ATTRIBUTE false)
        SM_ATTR_CHG_BEST_EFFORT true).error ≠ NO_ERROR ∧
      (check_change_attribute (sample_env true)
        (sample_template "a" (sample_attribute ⟨DB_TYPE_CHAR, 10, 0, none⟩) [])
        (sample_definition "a" PT_TYPE_CHAR ⟨DB_TYPE_CHAR, 5, 0, none⟩)
        none [] fresh_ledger).error = ER_ALTER_CHANGE_TYPE_UPGRADE_CFG :=
  ⟨by decide,
    ((special_case_type_precision_decrease (sample_env true) ⟨DB_TYPE_VARCHAR, 5, 0, none⟩
      ⟨DB_TYPE_VARCHAR, 10, 0, none⟩ (sample_ledger (fun _ => 0x13) ID_ATTRIBUTE false)
      (sample_ledger (fun i => if i = P_TYPE then 0x823 else 0x10) ID_ATTRIBUTE false)
      "a" PT_TYPE_VARCHAR rfl rfl (by decide) (by decide) (by decide) (by decide)).2.1
      (Or.inl (by decide))).2 rfl (by decide),
    by decide,
    ((special_case_type_precision_decrease (sample_env true) ⟨DB_TYPE_CHAR, 5, 0, none⟩
      ⟨DB_TYPE_CHAR, 10, 0, none⟩ (sample_ledger (fun _ => 0x13) ID_ATTRIBUTE false)
      (sample_ledger (fun i => if i = P_TYPE then 0x2023 else 0x10) ID_ATTRIBUTE false)
      "a" PT_TYPE_CHAR rfl rfl (by decide) (by decide) (by decide) (by decide)).2.2
      (by decide) rfl).2 SM_ATTR_CHG_BEST_EFFORT true,
    by decide⟩

/-- C26 (counterexample): under strict configuration the request
`MODIFY a VARCHAR(5)` on a VARCHAR(10) attribute. `build_attr_change_map`
leaves the type entry `PRESENT_OLD | PRESENT_NEW | DIFF | NEED_ROW_CHECK`,
without NOT_SUPPORTED_WITH_CFG, and the planner returns `NO_ERROR` at
BestEffort: the request is not rejected. -/
theorem check_change_attribute_varchar_decrease_strict :
    (sample_env true).PRM_ALTER_TABLE_CHANGE_TYPE_STRICT = true ∧
      (check_change_attribute (sample_env true)
        (sample_template "a" (sample_attribute ⟨DB_TYPE_VARCHAR, 10, 0, none⟩) [])
        (sample_definition "a" PT_TYPE_VARCHAR ⟨DB_TYPE_VARCHAR, 5, 0, none⟩)
        none [] fresh_ledger).attr_chg_prop.p P_TYPE = 0x823 ∧
      is_att_prop_set ((check_change_attribute (sample_env true)
        (sample_template "a" (sample_attribute ⟨DB_TYPE_VARCHAR, 10, 0, none⟩) [])
        (sample_definition "a" PT_TYPE_VARCHAR ⟨DB_TYPE_VARCHAR, 5, 0, none⟩)
        none [] fresh_ledger).attr_chg_prop.p P_TYPE)
        ATT_CHG_TYPE_NEED_ROW_CHECK = true ∧
      is_att_prop_set ((check_change_attribute (sample_env true)
        (sample_template "a" (sample_attribute ⟨DB_TYPE_VARCHAR, 10, 0, none⟩) [])
        (sample_definition "a" PT_TYPE_VARCHAR ⟨DB_TYPE_VARCHAR, 5, 0, none⟩)
        none [] fresh_ledger).attr_chg_prop.p P_TYPE)
        ATT_CHG_TYPE_NOT_SUPPORTED_WITH_CFG = false ∧
      (check_change_attribute (sample_env true)
        (sample_template "a" (sample_attribute ⟨DB_TYPE_VARCHAR, 10, 0, none⟩) [])
        (sample_definition "a" PT_TYPE_VARCHAR ⟨DB_TYPE_VARCHAR, 5, 0, none⟩)
        none [] fresh_ledger).error = NO_ERROR ∧
      (check_change_attribute (sample_env true)
        (sample_template "a" (sample_attribute ⟨DB_TYPE_VARCHAR, 10, 0, none⟩) [])
        (sample_definition "a" PT_TYPE_VARCHAR ⟨DB_TYPE_VARCHAR, 5, 0, none⟩)
        none [] fresh_ledger).change_mode = SM_ATTR_CHG_BEST_EFFORT := by
  decide

/-- C27 (amended): for every conversion within a character family across the
fixed/variable divide (CHAR to VARCHAR, VARCHAR to CHAR, NCHAR to VARNCHAR,
VARNCHAR to NCHAR) whose requested precision (after the floating-precision
value of a VARCHAR or VARNCHAR request is replaced by the maximum) is greater
than or equal to the current precision, `build_att_type_change_map` ORs
UPGRADE; it never ORs PREC_INCR, for any pair of domains. -/
theorem build_att_type_change_map_fixed_variable (env : Env)
    (curr_domain req_domain : TP_DOMAIN) (a : SM_ATTR_PROP_CHG)
    (hpair : (curr_domain.type, req_domain.type) ∈
      [(DB_TYPE_CHAR, DB_TYPE_VARCHAR), (DB_TYPE_VARCHAR, DB_TYPE_CHAR),
        (DB_TYPE_NCHAR, DB_TYPE_VARNCHAR), (DB_TYPE_VARNCHAR, DB_TYPE_NCHAR)])
    (hge : (req_prec_and_max env req_domain.type req_domain.precision).1
      ≥ curr_domain.precision) :
    type_change_flag env curr_domain req_domain = some ATT_CHG_TYPE_UPGRADE ∧
      build_att_type_change_map env curr_domain req_domain a
        = (NO_ERROR, or_type a ATT_CHG_TYPE_UPGRADE) ∧
      (∀ c r : TP_DOMAIN, type_change_flag env c r ≠ some ATT_CHG_TYPE_PREC_INCR) ∧
      (req_domain.precision ≠ env.TP_FLOATING_PRECISION_VALUE →
        (req_prec_and_max env req_domain.type req_domain.precision).1
          = req_domain.precision) := by
  have hflag : type_change_flag env curr_domain req_domain = some ATT_CHG_TYPE_UPGRADE := by
    obtain ⟨ct, cp, cs, cm⟩ := curr_domain
    obtain ⟨rt, rp, rs, rm⟩ := req_domain
    have h := type_change_flag_fixed_variable env cp cs cm rp rs rm
    simp only [List.mem_cons, List.mem_singleton, List.not_mem_nil, or_false,
      Prod.mk.injEq] at hpair
    rcases hpair with ⟨rfl, rfl⟩ | ⟨rfl, rfl⟩ | ⟨rfl, rfl⟩ | ⟨rfl, rfl⟩
    · rw [h.1, if_pos hge]
    · rw [h.2.2.2.1, if_pos (by simpa [req_prec_and_max] using hge)]
    · rw [h.2.1, if_pos hge]
    · rw [h.2.2.2.2.1, if_pos (by simpa [req_prec_and_max] using hge)]
  refine ⟨hflag, ?_, type_change_flag_ne_prec_incr env, ?_⟩
  · unfold build_att_type_change_map
    rw [hflag]
  · intro h
    unfold req_prec_and_max
    split_ifs <;> simp_all

/-- C27 (amended), on CHAR(10) to VARCHAR(20) and on VARNCHAR(8) to NCHAR(8). -/
theorem build_att_type_change_map_fixed_variable_witness :
    type_change_flag (sample_env false) ⟨DB_TYPE_CHAR, 10, 0, none⟩
        ⟨DB_TYPE_VARCHAR, 20, 0, none⟩ = some ATT_CHG_TYPE_UPGRADE ∧
      type_change_flag (sample_env true) ⟨DB_TYPE_VARNCHAR, 8, 0, none⟩
        ⟨DB_TYPE_NCHAR, 8, 0, none⟩ = some ATT_CHG_TYPE_UPGRADE :=
  ⟨(build_att_type_change_map_fixed_variable (sample_env false) ⟨DB_TYPE_CHAR, 10, 0, none⟩
      ⟨DB_TYPE_VARCHAR, 20, 0, none⟩ (sample_ledger (fun _ => 0x23) ID_ATTRIBUTE false)
      (by decide) (by decide)).1,
    (build_att_type_change_map_fixed_variable (sample_env true)
      ⟨DB_TYPE_VARNCHAR, 8, 0, none⟩ ⟨DB_TYPE_NCHAR, 8, 0, none⟩
      (sample_ledger (fun _ => 0x23) ID_ATTRIBUTE false) (by decide) (by decide)).1⟩

/-- C27 (counterexample): CHAR(10) to VARCHAR(20), a requested precision above
the current one. The flag ORed is UPGRADE; the type entry
`PRESENT_OLD | PRESENT_NEW | DIFF` ends with UPGRADE and without PREC_INCR, and
the request `MODIFY a VARCHAR(20)` on a CHAR(10) attribute is granted at
WithRowUpdate, not at SchemaOnly. -/
theorem build_att_type_change_map_char_to_varchar :
    type_change_flag (sample_env false) ⟨DB_TYPE_CHAR, 10, 0, none⟩
        ⟨DB_TYPE_VARCHAR, 20, 0, none⟩ = some ATT_CHG_TYPE_UPGRADE ∧
      (build_att_type_change_map (sample_env false) ⟨DB_TYPE_CHAR, 10, 0, none⟩
        ⟨DB_TYPE_VARCHAR, 20, 0, none⟩
        (sample_ledger (fun _ => 0x23) ID_ATTRIBUTE false)).2.p P_TYPE = 0x423 ∧
      is_att_prop_set ((check_change_attribute (sample_env false)
        (sample_template "a" (sample_attribute ⟨DB_TYPE_CHAR, 10, 0, none⟩) [])
        (sample_definition "a" PT_TYPE_VARCHAR ⟨DB_TYPE_VARCHAR, 20, 0, none⟩)
        none [] fresh_ledger).attr_chg_prop.p P_TYPE)
        ATT_CHG_TYPE_PREC_INCR = false ∧
      is_att_prop_set ((check_change_attribute (sample_env false)
        (sample_template "a" (sample_attribute ⟨DB_TYPE_CHAR, 10, 0, none⟩) [])
        (sample_definition "a" PT_TYPE_VARCHAR ⟨DB_TYPE_VARCHAR, 20, 0, none⟩)
        none [] fresh_ledger).attr_chg_prop.p P_TYPE)
        ATT_CHG_TYPE_UPGRADE = true ∧
      (check_change_attribute (sample_env false)
        (sample_template "a" (sample_attribute ⟨DB_TYPE_CHAR, 10, 0, none⟩) [])
        (sample_definition "a" PT_TYPE_VARCHAR ⟨DB_TYPE_VARCHAR, 20, 0, none⟩)
        none [] fresh_ledger).error = NO_ERROR ∧
      (check_change_attribute (sample_env false)
        (sample_template "a" (sample_attribute ⟨DB_TYPE_CHAR, 10, 0, none⟩) [])
        (sample_definition "a" PT_TYPE_VARCHAR ⟨DB_TYPE_VARCHAR, 20, 0, none⟩)
        none [] fresh_ledger).change_mode = SM_ATTR_CHG_WITH_ROW_UPDATE := by
  decide

/-- C28: for a precision-decreasing conversion, the requested precision (the
one the comparison reads: the floating-precision value of a VARCHAR or
VARNCHAR request stands for the maximum) being lower than the current one,
`build_att_type_change_map` classifies CHAR to VARCHAR, NCHAR to VARNCHAR and
BIT to VARBIT as NotSupportedWithConfig under strict configuration and as
NeedRowCheck under the permissive one, and VARCHAR to CHAR, VARNCHAR to NCHAR
and VARBIT to BIT as NeedRowCheck under both. The requested precision is the
precision of the requested domain unless that is the floating-precision value
of a VARCHAR or VARNCHAR request. -/
theorem build_att_type_change_map_precision_decrease (env : Env)
    (curr_domain req_domain : TP_DOMAIN) (a : SM_ATTR_PROP_CHG)
    (hlt : (req_prec_and_max env req_domain.type req_domain.precision).1
      < curr_domain.precision) :
    ((curr_domain.type, req_domain.type) ∈
        [(DB_TYPE_CHAR, DB_TYPE_VARCHAR), (DB_TYPE_NCHAR, DB_TYPE_VARNCHAR),
          (DB_TYPE_BIT, DB_TYPE_VARBIT)] →
      type_change_flag env curr_domain req_domain
        = some (if env.PRM_ALTER_TABLE_CHANGE_TYPE_STRICT = true
            then ATT_CHG_TYPE_NOT_SUPPORTED_WITH_CFG else ATT_CHG_TYPE_NEED_ROW_CHECK) ∧
      build_att_type_change_map env curr_domain req_domain a
        = (NO_ERROR, or_type a (if env.PRM_ALTER_TABLE_CHANGE_TYPE_STRICT = true
            then ATT_CHG_TYPE_NOT_SUPPORTED_WITH_CFG else ATT_CHG_TYPE_NEED_ROW_CHECK))) ∧
    ((curr_domain.type, req_domain.type) ∈
        [(DB_TYPE_VARCHAR, DB_TYPE_CHAR), (DB_TYPE_VARNCHAR, DB_TYPE_NCHAR),
          (DB_TYPE_VARBIT, DB_TYPE_BIT)] →
      type_change_flag env curr_domain req_domain = some ATT_CHG_TYPE_NEED_ROW_CHECK ∧
      build_att_type_change_map env curr_domain req_domain a
        = (NO_ERROR, or_type a ATT_CHG_TYPE_NEED_ROW_CHECK)) ∧
    ((req_domain.type ≠ DB_TYPE_VARCHAR ∧ req_domain.type ≠ DB_TYPE_VARNCHAR)
        ∨ req_domain.precision ≠ env.TP_FLOATING_PRECISION_VALUE →
      (req_prec_and_max env req_domain.type req_domain.precision).1
        = req_domain.precision) := by
  obtain ⟨ct, cp, cs, cm⟩ := curr_domain
  obtain ⟨rt, rp, rs, rm⟩ := req_domain
  have h := type_change_flag_fixed_variable env cp cs cm rp rs rm
  have hbuild : ∀ (c r : TP_DOMAIN) (f : Nat), type_change_flag env c r = some f →
      type_change_flag env c r = some f ∧
        build_att_type_change_map env c r a = (NO_ERROR, or_type a f) := by
    intro c r f hf
    refine ⟨hf, ?_⟩
    unfold build_att_type_change_map
    rw [hf]
  refine ⟨?_, ?_, ?_⟩
  · intro hpair
    simp only [List.mem_cons, List.mem_singleton, List.not_mem_nil, or_false,
      Prod.mk.injEq] at hpair
    apply hbuild
    rcases hpair with ⟨rfl, rfl⟩ | ⟨rfl, rfl⟩ | ⟨rfl, rfl⟩
    · rw [h.1, if_neg (not_le.mpr hlt)]
      split_ifs <;> rfl
    · rw [h.2.1, if_neg (not_le.mpr hlt)]
      split_ifs <;> rfl
    · rw [h.2.2.1, if_neg (by simpa [req_prec_and_max] using hlt)]
      split_ifs <;> rfl
  · intro hpair
    simp only [List.mem_cons, List.mem_singleton, List.not_mem_nil, or_false,
      Prod.mk.injEq] at hpair
    apply hbuild
    rcases hpair with ⟨rfl, rfl⟩ | ⟨rfl, rfl⟩ | ⟨rfl, rfl⟩
    · rw [h.2.2.2.1, if_neg (by simpa [req_prec_and_max] using hlt)]
    · rw [h.2.2.2.2.1, if_neg (by simpa [req_prec_and_max] using hlt)]
    · rw [h.2.2.2.2.2, if_neg (by simpa [req_prec_and_max] using hlt)]
  · intro hv
    show (req_prec_and_max env rt rp).1 = rp
    unfold req_prec_and_max
    rcases hv with ⟨h1, h2⟩ | h1
    · simp only at h1 h2
      simp [h1, h2]
    · simp only at h1
      split_ifs <;> simp_all

/-- C28, on CHAR(10) to VARCHAR(5) under both configurations and on VARBIT(16)
to BIT(8) under the strict one. -/
theorem build_att_type_change_map_precision_decrease_witness :
    type_change_flag (sample_env true) ⟨DB_TYPE_CHAR, 10, 0, none⟩
        ⟨DB_TYPE_VARCHAR, 5, 0, none⟩ = some ATT_CHG_TYPE_NOT_SUPPORTED_WITH_CFG ∧
      type_change_flag (sample_env false) ⟨DB_TYPE_CHAR, 10, 0, none⟩
        ⟨DB_TYPE_VARCHAR, 5, 0, none⟩ = some ATT_CHG_TYPE_NEED_ROW_CHECK ∧
      type_change_flag (sample_env true) ⟨DB_TYPE_VARBIT, 16, 0, none⟩
        ⟨DB_TYPE_BIT, 8, 0, none⟩ = some ATT_CHG_TYPE_NEED_ROW_CHECK :=
  ⟨((build_att_type_change_map_precision_decrease (sample_env true)
      ⟨DB_TYPE_CHAR, 10, 0, none⟩ ⟨DB_TYPE_VARCHAR, 5, 0, none⟩
      (sample_ledger (fun _ => 0x23) ID_ATTRIBUTE false) (by decide)).1 (by decide)).1,
    ((build_att_type_change_map_precision_decrease (sample_env false)
      ⟨DB_TYPE_CHAR, 10, 0, none⟩ ⟨DB_TYPE_VARCHAR, 5, 0, none⟩
      (sample_ledger (fun _ => 0x23) ID_ATTRIBUTE false) (by decide)).1 (by decide)).1,
    ((build_att_type_change_map_precision_decrease (sample_env true)
      ⟨DB_TYPE_VARBIT, 16, 0, none⟩ ⟨DB_TYPE_BIT, 8, 0, none⟩
      (sample_ledger (fun _ => 0x23) ID_ATTRIBUTE false) (by decide)).2.1 (by decide)).1⟩

/-- C29 (amended): the bit types follow the character rule on the requested
precision that the comparison reads. For all current and requested precisions
and both configurations, VARBIT(c) to BIT(r) gets the same type class as
VARCHAR(c) to CHAR(r), and BIT(c) to VARBIT(r) the same as CHAR(c) to
VARCHAR(r) whenever r is not the floating-precision value; in general
CHAR(c) to VARCHAR(r) gets the class of BIT(c) to VARBIT(r'), where r' is r
after the floating-precision value is replaced by the maximum VARCHAR
precision. -/
theorem build_att_type_change_map_bit_as_char (env : Env) (c r cs rs cs2 rs2 : Int)
    (cm rm cm2 rm2 : Option Nat) :
    type_change_flag env ⟨DB_TYPE_VARBIT, c, cs, cm⟩ ⟨DB_TYPE_BIT, r, rs, rm⟩
        = type_change_flag env ⟨DB_TYPE_VARCHAR, c, cs2, cm2⟩ ⟨DB_TYPE_CHAR, r, rs2, rm2⟩ ∧
    (r ≠ env.TP_FLOATING_PRECISION_VALUE →
      type_change_flag env ⟨DB_TYPE_BIT, c, cs, cm⟩ ⟨DB_TYPE_VARBIT, r, rs, rm⟩
        = type_change_flag env ⟨DB_TYPE_CHAR, c, cs2, cm2⟩
            ⟨DB_TYPE_VARCHAR, r, rs2, rm2⟩) ∧
    type_change_flag env ⟨DB_TYPE_BIT, c, cs, cm⟩
        ⟨DB_TYPE_VARBIT, (req_prec_and_max env DB_TYPE_VARCHAR r).1, rs, rm⟩
      = type_change_flag env ⟨DB_TYPE_CHAR, c, cs2, cm2⟩ ⟨DB_TYPE_VARCHAR, r, rs2, rm2⟩ := by
  refine ⟨rfl, ?_, rfl⟩
  intro h
  have h1 := (type_change_flag_fixed_variable env c cs cm r rs rm).2.2.1
  have h2 := (type_change_flag_fixed_variable env c cs2 cm2 r rs2 rm2).1
  have h3 : (req_prec_and_max env DB_TYPE_VARCHAR r).1 = r := by
    unfold req_prec_and_max
    split_ifs <;> simp_all
  rw [h1, h2, h3]

/-- C29 (amended), on precisions 10 and 5 under strict configuration: BIT(10)
to VARBIT(5) and CHAR(10) to VARCHAR(5) are both NotSupportedWithConfig. -/
theorem build_att_type_change_map_bit_as_char_witness :
    type_change_flag (sample_env true) ⟨DB_TYPE_BIT, 10, 0, none⟩
        ⟨DB_TYPE_VARBIT, 5, 0, none⟩
      = type_change_flag (sample_env true) ⟨DB_TYPE_CHAR, 10, 0, none⟩
        ⟨DB_TYPE_VARCHAR, 5, 0, none⟩ ∧
    type_change_flag (sample_env true) ⟨DB_TYPE_BIT, 10, 0, none⟩
        ⟨DB_TYPE_VARBIT, 5, 0, none⟩ = some ATT_CHG_TYPE_NOT_SUPPORTED_WITH_CFG :=
  ⟨(build_att_type_change_map_bit_as_char (sample_env true) 10 5 0 0 0 0 none none none
      none).2.1 (by decide), by decide⟩

/-- C29 (counterexample): current precision 10 and requested precision -1, the
floating-precision value. CHAR(10) to VARCHAR(-1) is compared as the maximum
precision and classified Upgrade; BIT(10) to VARBIT(-1) is compared as -1 and
classified NeedRowCheck under permissive configuration and
NotSupportedWithConfig under strict configuration. -/
theorem build_att_type_change_map_floating_precision :
    (sample_env false).TP_FLOATING_PRECISION_VALUE = -1 ∧
      type_change_flag (sample_env false) ⟨DB_TYPE_CHAR, 10, 0, none⟩
        ⟨DB_TYPE_VARCHAR, -1, 0, none⟩ = some ATT_CHG_TYPE_UPGRADE ∧
      type_change_flag (sample_env false) ⟨DB_TYPE_BIT, 10, 0, none⟩
        ⟨DB_TYPE_VARBIT, -1, 0, none⟩ = some ATT_CHG_TYPE_NEED_ROW_CHECK ∧
      type_change_flag (sample_env true) ⟨DB_TYPE_CHAR, 10, 0, none⟩
        ⟨DB_TYPE_VARCHAR, -1, 0, none⟩ = some ATT_CHG_TYPE_UPGRADE ∧
      type_change_flag (sample_env true) ⟨DB_TYPE_BIT, 10, 0, none⟩
        ⟨DB_TYPE_VARBIT, -1, 0, none⟩ = some ATT_CHG_TYPE_NOT_SUPPORTED_WITH_CFG ∧
      build_att_type_change_map_asserts (sample_env false) (fun _ => 1)
        ⟨DB_TYPE_CHAR, 10, 0, none⟩ ⟨DB_TYPE_VARCHAR, -1, 0, none⟩ = true ∧
      build_att_type_change_map_asserts (sample_env false) (fun _ => 1)
        ⟨DB_TYPE_BIT, 10, 0, none⟩ ⟨DB_TYPE_VARBIT, -1, 0, none⟩ = true := by
  decide

/-- C30 (amended): for an OBJECT current domain, `build_att_type_change_map`
ORs SET_CLS_COMPAT if and only if the new domain is an OBJECT of a different
class of which the old class is a subclass (`db_is_subclass` is not 0); it ORs
NOT_SUPPORTED for a new type other than OBJECT and for a different class of
which the old class is not a subclass; for an OBJECT of the same class it ORs
no flag and clears DIFF. -/
theorem build_att_type_change_map_object (env : Env) (curr_domain req_domain : TP_DOMAIN)
    (a : SM_ATTR_PROP_CHG) (hcur : curr_domain.type = DB_TYPE_OBJECT) :
    (type_change_flag env curr_domain req_domain = some ATT_CHG_TYPE_SET_CLS_COMPAT ↔
      (req_domain.type = DB_TYPE_OBJECT ∧ req_domain.class_mop ≠ curr_domain.class_mop
        ∧ env.db_is_subclass curr_domain.class_mop req_domain.class_mop ≠ 0)) ∧
    (req_domain.type ≠ DB_TYPE_OBJECT
        ∨ (req_domain.class_mop ≠ curr_domain.class_mop
          ∧ env.db_is_subclass curr_domain.class_mop req_domain.class_mop = 0) →
      type_change_flag env curr_domain req_domain = some ATT_CHG_TYPE_NOT_SUPPORTED ∧
      build_att_type_change_map env curr_domain req_domain a
        = (NO_ERROR, or_type a ATT_CHG_TYPE_NOT_SUPPORTED)) ∧
    (req_domain.type = DB_TYPE_OBJECT → req_domain.class_mop ≠ curr_domain.class_mop →
      env.db_is_subclass curr_domain.class_mop req_domain.class_mop ≠ 0 →
      build_att_type_change_map env curr_domain req_domain a
        = (NO_ERROR, or_type a ATT_CHG_TYPE_SET_CLS_COMPAT)) ∧
    (req_domain.type = DB_TYPE_OBJECT → req_domain.class_mop = curr_domain.class_mop →
      type_change_flag env curr_domain req_domain = none ∧
      build_att_type_change_map env curr_domain req_domain a
        = (NO_ERROR, a.set P_TYPE (and_not (a.p P_TYPE) ATT_CHG_PROPERTY_DIFF))) := by
  obtain ⟨ct, cp, cs, cm⟩ := curr_domain
  obtain ⟨rt, rp, rs, rm⟩ := req_domain
  simp only at hcur
  subst hcur
  have hflag : type_change_flag env ⟨DB_TYPE_OBJECT, cp, cs, cm⟩ ⟨rt, rp, rs, rm⟩ =
      if rt ≠ DB_TYPE_OBJECT then some ATT_CHG_TYPE_NOT_SUPPORTED
      else if rm ≠ cm then
        if env.db_is_subclass cm rm = 0 then some ATT_CHG_TYPE_NOT_SUPPORTED
        else some ATT_CHG_TYPE_SET_CLS_COMPAT
      else none := rfl
  have hne : ATT_CHG_TYPE_NOT_SUPPORTED ≠ ATT_CHG_TYPE_SET_CLS_COMPAT := by decide
  unfold build_att_type_change_map
  rw [hflag]
  by_cases h1 : rt = DB_TYPE_OBJECT <;> by_cases h2 : rm = cm <;>
    by_cases h3 : env.db_is_subclass cm rm = 0 <;> simp [h1, h2, h3, hne]

/-- C30 (amended), with class 2 a subclass of class 1: OBJECT of class 2 to
OBJECT of class 1 is SetOrClassCompatible, OBJECT of class 1 to OBJECT of
class 2 and OBJECT to INTEGER are NotSupported. -/
theorem build_att_type_change_map_object_witness :
    type_change_flag (sample_env false) ⟨DB_TYPE_OBJECT, 0, 0, some 2⟩
        ⟨DB_TYPE_OBJECT, 0, 0, some 1⟩ = some ATT_CHG_TYPE_SET_CLS_COMPAT ∧
      type_change_flag (sample_env false) ⟨DB_TYPE_OBJECT, 0, 0, some 1⟩
        ⟨DB_TYPE_OBJECT, 0, 0, some 2⟩ = some ATT_CHG_TYPE_NOT_SUPPORTED ∧
      type_change_flag (sample_env false) ⟨DB_TYPE_OBJECT, 0, 0, some 1⟩
        (simple_domain DB_TYPE_INTEGER) = some ATT_CHG_TYPE_NOT_SUPPORTED :=
  ⟨(build_att_type_change_map_object (sample_env false) ⟨DB_TYPE_OBJECT, 0, 0, some 2⟩
      ⟨DB_TYPE_OBJECT, 0, 0, some 1⟩ (sample_ledger (fun _ => 0x23) ID_ATTRIBUTE false)
      rfl).1.2 ⟨rfl, by decide, by decide⟩,
    ((build_att_type_change_map_object (sample_env false) ⟨DB_TYPE_OBJECT, 0, 0, some 1⟩
      ⟨DB_TYPE_OBJECT, 0, 0, some 2⟩ (sample_ledger (fun _ => 0x23) ID_ATTRIBUTE false)
      rfl).2.1 (Or.inr ⟨by decide, by decide⟩)).1,
    ((build_att_type_change_map_object (sample_env false) ⟨DB_TYPE_OBJECT, 0, 0, some 1⟩
      (simple_domain DB_TYPE_INTEGER) (sample_ledger (fun _ => 0x23) ID_ATTRIBUTE false)
      rfl).2.1 (Or.inl (by decide))).1⟩

/-- C30 (counterexample): an OBJECT domain changed to an OBJECT domain of the
same class. No flag is ORed: the type entry `PRESENT_OLD | PRESENT_NEW | DIFF`
ends as `PRESENT_OLD | PRESENT_NEW`, without SET_CLS_COMPAT and without
NOT_SUPPORTED. -/
theorem build_att_type_change_map_object_same_class :
    type_change_flag (sample_env false) ⟨DB_TYPE_OBJECT, 0, 0, some 7⟩
        ⟨DB_TYPE_OBJECT, 0, 0, some 7⟩ = none ∧
      type_change_flag (sample_env false) ⟨DB_TYPE_OBJECT, 0, 0, some 7⟩
        ⟨DB_TYPE_OBJECT, 0, 0, some 7⟩ ≠ some ATT_CHG_TYPE_SET_CLS_COMPAT ∧
      (build_att_type_change_map (sample_env false) ⟨DB_TYPE_OBJECT, 0, 0, some 7⟩
        ⟨DB_TYPE_OBJECT, 0, 0, some 7⟩
        (sample_ledger (fun _ => 0x23) ID_ATTRIBUTE false)).2.p P_TYPE = 0x3 ∧
      is_att_prop_set
        ((build_att_type_change_map (sample_env false) ⟨DB_TYPE_OBJECT, 0, 0, some 7⟩
          ⟨DB_TYPE_OBJECT, 0, 0, some 7⟩
          (sample_ledger (fun _ => 0x23) ID_ATTRIBUTE false)).2.p P_TYPE)
        ATT_CHG_TYPE_SET_CLS_COMPAT = false ∧
      is_att_prop_set
        ((build_att_type_change_map (sample_env false) ⟨DB_TYPE_OBJECT, 0, 0, some 7⟩
          ⟨DB_TYPE_OBJECT, 0, 0, some 7⟩
          (sample_ledger (fun _ => 0x23) ID_ATTRIBUTE false)).2.p P_TYPE)
        ATT_CHG_TYPE_NOT_SUPPORTED = false := by
  decide

/-- C33 (amended): in the ledger that a successful `build_attr_change_map`
leaves when `pt_node_to_db_domain` returned a domain (`hdom`: the early return
of `er_errid ()` for a NULL domain, lines 12774-12779, is not `NO_ERROR`), every entry other than the type entry, the entry of UNIQUE on multiple
columns and the name entry of a MODIFY clause carries exactly one of the four
resolution flags, the one that the rule gives on the presence flags of the
entry: absent on both sides, or present on both and not differing, UNCHANGED;
present only in the new definition, GAINED; present only in the old schema,
LOST; present on both sides and differing, DIFF. AUTO_INCREMENT and the
default value always count as differing, the name differs when the two names
do, and no other property is compared. The name entry of a MODIFY clause
carries LOST and UNCHANGED. The entry of UNIQUE on multiple columns carries
UNCHANGED alone when no such constraint is present, and otherwise LOST
together with DIFF or UNCHANGED, as the type entry has DIFF or not. The type
entry carries UNCHANGED alone when the domains match exactly, and otherwise
DIFF alone or none of the four. `hfind` and `hkey` say of the lookup and of the
partition key read what the C tests `error != NO_ERROR` (lines 12459-12465 and
12762-12766) give: a code returned for their failure is not `NO_ERROR`. -/
theorem build_attr_change_map_resolution (env : Env) (ctemplate : DB_CTMPL)
    (attr_def : PT_ATTR_DEF) (attr_old_name : Option String)
    (constraints : List PT_CONSTRAINT) (a L : SM_ATTR_PROP_CHG)
    (hfind : ∀ n b e, ctemplate.smt_find_attribute n b = .error e → e ≠ NO_ERROR)
    (hkey : ∀ e, ctemplate.do_get_partition_keycol = .error e → e ≠ NO_ERROR)
    (hdom : attr_def.pt_node_to_db_domain = none → attr_def.er_errid ≠ NO_ERROR)
    (h : build_attr_change_map env ctemplate attr_def attr_old_name constraints a
      = (NO_ERROR, L)) :
    (∀ i, i ≠ P_TYPE → i ≠ P_M_CONSTR_UNI → (i = P_NAME → attr_old_name.isSome = true) →
      resolution_flags (L.p i) =
        resolution_rule (is_att_prop_set (L.p i) ATT_CHG_PROPERTY_PRESENT_OLD)
          (is_att_prop_set (L.p i) ATT_CHG_PROPERTY_PRESENT_NEW)
          (decide (i = P_AUTO_INCR) || decide (i = P_DEFAULT_VALUE)
            || (decide (i = P_NAME) && attr_old_name.any fun old_name =>
              decide (env.intl_identifier_casecmp old_name attr_def.attr_name ≠ 0)))) ∧
    (attr_old_name = none →
      L.p P_NAME = ATT_CHG_PROPERTY_PRESENT_OLD ||| ATT_CHG_PROPERTY_LOST
        ||| ATT_CHG_PROPERTY_UNCHANGED) ∧
    (resolution_flags (L.p P_M_CONSTR_UNI) =
      if is_att_prop_set (L.p P_M_CONSTR_UNI) ATT_CHG_PROPERTY_PRESENT_OLD = true then
        ATT_CHG_PROPERTY_LOST |||
          (if is_att_prop_set (L.p P_TYPE) ATT_CHG_PROPERTY_DIFF = true
            then ATT_CHG_PROPERTY_DIFF else ATT_CHG_PROPERTY_UNCHANGED)
      else ATT_CHG_PROPERTY_UNCHANGED) ∧
    (∃ att d,
      ctemplate.smt_find_attribute (attr_old_name.getD attr_def.attr_name)
        (decide (a.name_space = ID_CLASS_ATTRIBUTE)) = .ok att ∧
      attr_def.pt_node_to_db_domain = some d ∧
      (env.tp_domain_match d att.domain TP_EXACT_MATCH = true →
        resolution_flags (L.p P_TYPE) = ATT_CHG_PROPERTY_UNCHANGED) ∧
      (env.tp_domain_match d att.domain TP_EXACT_MATCH = false →
        resolution_flags (L.p P_TYPE) = ATT_CHG_PROPERTY_DIFF
          ∨ resolution_flags (L.p P_TYPE) = 0)) := by
  obtain ⟨att, d, hatt, hd, hname, hgen, hai, hdef, hmuni, htype⟩ :=
    build_attr_change_map_entries env ctemplate attr_def attr_old_name constraints a L
      hfind hkey hdom h
  have hplain : ∀ v ∈ [0x10, 0x5, 0xA, 0x13], resolution_flags v =
      resolution_rule (is_att_prop_set v ATT_CHG_PROPERTY_PRESENT_OLD)
        (is_att_prop_set v ATT_CHG_PROPERTY_PRESENT_NEW) false := by decide
  have hboth : ∀ v ∈ [0x10, 0x5, 0xA, 0x23], resolution_flags v =
      resolution_rule (is_att_prop_set v ATT_CHG_PROPERTY_PRESENT_OLD)
        (is_att_prop_set v ATT_CHG_PROPERTY_PRESENT_NEW) true := by decide
  refine ⟨?_, ?_, ?_, att, d, hatt, hd, ?_, ?_⟩
  · intro i h2 h3 hmodify
    by_cases h1 : i = P_NAME
    · subst h1
      rw [hname]
      cases attr_old_name with
      | none => simp at hmodify
      | some old_name =>
        simp only [Option.elim, Option.any_some]
        by_cases hc : env.intl_identifier_casecmp old_name attr_def.attr_name = 0
        · have hb : decide (env.intl_identifier_casecmp old_name attr_def.attr_name ≠ 0)
              = false := by simp [hc]
          rw [if_pos hc, hb]
          decide
        · have hb : decide (env.intl_identifier_casecmp old_name attr_def.attr_name ≠ 0)
              = true := by simp [hc]
          rw [if_neg hc, hb]
          decide
    by_cases h4 : i = P_AUTO_INCR
    · subst h4
      simpa using hboth _ hai
    by_cases h5 : i = P_DEFAULT_VALUE
    · subst h5
      simpa using hboth _ hdef
    simpa [h1, h4, h5] using hplain _ (hgen i h1 h2 h3 h4 h5)
  · intro hnone
    rw [hname, hnone]
    rfl
  · rcases hmuni with hm | ⟨hm, ht⟩ | ⟨hm, ht⟩
    · rw [hm]
      rfl
    · rw [hm, ht]
      rfl
    · rw [hm, ht]
      rfl
  · intro hmatch
    rcases htype with ⟨-, ht⟩ | ⟨hf, -⟩
    · rw [ht]
      rfl
    · rw [hmatch] at hf
      cases hf
  · intro hmatch
    rcases htype with ⟨ht, -⟩ | ⟨-, ht⟩
    · rw [hmatch] at ht
      cases ht
    · revert ht
      generalize L.p P_TYPE = v
      intro ht
      have hlist : ∀ w ∈ [0x103, 0x423, 0x2023, 0x823, 0x803, 0x203, 0x3, 0x223, 0x1023,
          0x4023], resolution_flags w = ATT_CHG_PROPERTY_DIFF ∨ resolution_flags w = 0 := by
        decide
      exact hlist v ht

/-- C33 (amended, witness): the request `CHANGE a b BIGINT DEFAULT value` on an
INTEGER attribute that has a default value succeeds; its default entry,
present on both sides, carries DIFF alone, and its NOT NULL entry, absent on
both sides, carries UNCHANGED alone. -/
theorem build_attr_change_map_resolution_witness :
    (build_attr_change_map (sample_env false)
        (sample_template "a" (sample_attribute_with_default (simple_domain DB_TYPE_INTEGER)) [])
        (sample_definition_with_default "b" PT_TYPE_BIGINT (simple_domain DB_TYPE_BIGINT))
        (some "a") [] fresh_ledger).1 = NO_ERROR ∧
      resolution_flags ((build_attr_change_map (sample_env false)
        (sample_template "a" (sample_attribute_with_default (simple_domain DB_TYPE_INTEGER)) [])
        (sample_definition_with_default "b" PT_TYPE_BIGINT (simple_domain DB_TYPE_BIGINT))
        (some "a") [] fresh_ledger).2.p P_DEFAULT_VALUE) = ATT_CHG_PROPERTY_DIFF ∧
      resolution_flags ((build_attr_change_map (sample_env false)
        (sample_template "a" (sample_attribute_with_default (simple_domain DB_TYPE_INTEGER)) [])
        (sample_definition_with_default "b" PT_TYPE_BIGINT (simple_domain DB_TYPE_BIGINT))
        (some "a") [] fresh_ledger).2.p P_NOT_NULL) = ATT_CHG_PROPERTY_UNCHANGED :=
  have key := (build_attr_change_map_resolution (sample_env false)
      (sample_template "a" (sample_attribute_with_default (simple_domain DB_TYPE_INTEGER)) [])
      (sample_definition_with_default "b" PT_TYPE_BIGINT (simple_domain DB_TYPE_BIGINT))
      (some "a") [] fresh_ledger _
      (by
        intro n b e h
        simp only [sample_template] at h
        split_ifs at h
        cases h
        simp)
      (by
        intro e h
        cases h
        simp)
      (by
        intro h
        cases h)
      (Prod.ext rfl rfl)).1
  ⟨rfl, key P_DEFAULT_VALUE (by decide) (by decide) (by decide),
    key P_NOT_NULL (by decide) (by decide) (by decide)⟩

/-- C33 (counterexample): the request `MODIFY a INTEGER` on an INTEGER
attribute succeeds and leaves the name entry, present in the old schema only,
with two resolution flags, LOST and UNCHANGED. The same request for which
`pt_node_to_db_domain` returns NULL while `er_errid ()` is `NO_ERROR` returns
`NO_ERROR` before the consolidation, and the entry of NOT NULL carries none of
the four resolution flags. -/
theorem build_attr_change_map_modify_name :
    (build_attr_change_map (sample_env false)
        (sample_template "a" (sample_attribute (simple_domain DB_TYPE_INTEGER)) [])
        (sample_definition "a" PT_TYPE_INTEGER (simple_domain DB_TYPE_INTEGER))
        none [] fresh_ledger).1 = NO_ERROR ∧
      (build_attr_change_map (sample_env false)
        (sample_template "a" (sample_attribute (simple_domain DB_TYPE_INTEGER)) [])
        (sample_definition "a" PT_TYPE_INTEGER (simple_domain DB_TYPE_INTEGER))
        none [] fresh_ledger).2.p P_NAME
        = ATT_CHG_PROPERTY_PRESENT_OLD ||| ATT_CHG_PROPERTY_LOST
          ||| ATT_CHG_PROPERTY_UNCHANGED ∧
      resolution_flags ((build_attr_change_map (sample_env false)
        (sample_template "a" (sample_attribute (simple_domain DB_TYPE_INTEGER)) [])
        (sample_definition "a" PT_TYPE_INTEGER (simple_domain DB_TYPE_INTEGER))
        none [] fresh_ledger).2.p P_NAME)
        = ATT_CHG_PROPERTY_LOST ||| ATT_CHG_PROPERTY_UNCHANGED ∧
      resolution_rule true false false = ATT_CHG_PROPERTY_LOST ∧
      (build_attr_change_map (sample_env false)
        (sample_template "a" (sample_attribute (simple_domain DB_TYPE_INTEGER)) [])
        { sample_definition "a" PT_TYPE_INTEGER (simple_domain DB_TYPE_INTEGER) with
          pt_node_to_db_domain := none, er_errid := NO_ERROR }
        none [] fresh_ledger).1 = NO_ERROR ∧
      resolution_flags ((build_attr_change_map (sample_env false)
        (sample_template "a" (sample_attribute (simple_domain DB_TYPE_INTEGER)) [])
        { sample_definition "a" PT_TYPE_INTEGER (simple_domain DB_TYPE_INTEGER) with
          pt_node_to_db_domain := none, er_errid := NO_ERROR }
        none [] fresh_ledger).2.p P_NOT_NULL) = 0 := by
  decide

/-- C38: `check_att_chg_allowed` logs an error exactly when it denies and
`log_error_allowed` is true or `new_attempt` is false, and the error it logs
is the one it returns. Consequently, when `check_change_attribute` accepts the
request at any strategy, none of its checker calls logged an error (the
denials at the weaker levels were silent), and when the checker rejects the
request, the last checker call logged the error that `check_change_attribute`
returns. Every recorded call is the call of the checker at the recorded
strategy and logging flag on the ledger that the planner leaves. -/
theorem check_change_attribute_logging (env : Env) (ctemplate : DB_CTMPL)
    (attribute_node : PT_ATTR_DEF) (old_name_node : Option String)
    (constraints : List PT_CONSTRAINT) (a a2 : SM_ATTR_PROP_CHG) (strict : Bool)
    (att_name : String) (t : PT_TYPE_ENUM) (chg_how : SM_ATTR_CHG_SOL) (log : Bool) :
    (((check_att_chg_allowed strict att_name t a2 chg_how log).logged.isSome = true ↔
        (check_att_chg_allowed strict att_name t a2 chg_how log).error ≠ NO_ERROR
          ∧ (log = true
            ∨ (check_att_chg_allowed strict att_name t a2 chg_how log).new_attempt = false)) ∧
      (∀ e arg, (check_att_chg_allowed strict att_name t a2 chg_how log).logged
          = some (e, arg) →
        e = (check_att_chg_allowed strict att_name t a2 chg_how log).error)) ∧
    ((check_change_attribute env ctemplate attribute_node old_name_node constraints a).error
        = NO_ERROR →
      ∀ c ∈ (check_change_attribute env ctemplate attribute_node old_name_node constraints
          a).checker_calls, c.result.logged = none) ∧
    ((check_change_attribute env ctemplate attribute_node old_name_node constraints a).error
        ≠ NO_ERROR →
      (check_change_attribute env ctemplate attribute_node old_name_node constraints
        a).checker_calls ≠ [] →
      ∃ last arg,
        (check_change_attribute env ctemplate attribute_node old_name_node constraints
          a).checker_calls.getLast? = some last
        ∧ last.result.error = (check_change_attribute env ctemplate attribute_node
            old_name_node constraints a).error
        ∧ last.result.logged = some ((check_change_attribute env ctemplate attribute_node
            old_name_node constraints a).error, arg)) ∧
    (∀ c ∈ (check_change_attribute env ctemplate attribute_node old_name_node constraints
        a).checker_calls,
      c.result = check_att_chg_allowed env.PRM_ALTER_TABLE_CHANGE_TYPE_STRICT
        (old_name_node.getD attribute_node.attr_name) attribute_node.type_enum
        (check_change_attribute env ctemplate attribute_node old_name_node constraints
          a).attr_chg_prop c.chg_how c.log_error_allowed) := by
  have hl := check_att_chg_allowed_logged strict att_name t a2 chg_how log
  refine ⟨⟨?_, ?_⟩, ?_, ?_, ?_⟩
  · constructor
    · intro hs
      by_cases he : (check_att_chg_allowed strict att_name t a2 chg_how log).error = NO_ERROR
      · rw [hl.1 he] at hs
        simp at hs
      · refine ⟨he, ?_⟩
        by_contra hc
        rw [hl.2.2 he hc] at hs
        simp at hs
    · rintro ⟨he, hc⟩
      obtain ⟨arg, harg⟩ := hl.2.1 he hc
      rw [harg]
      rfl
  · intro e arg hlog
    by_cases he : (check_att_chg_allowed strict att_name t a2 chg_how log).error = NO_ERROR
    · rw [hl.1 he] at hlog
      cases hlog
    · by_cases hc : log = true
          ∨ (check_att_chg_allowed strict att_name t a2 chg_how log).new_attempt = false
      · obtain ⟨arg2, harg⟩ := hl.2.1 he hc
        rw [harg] at hlog
        cases hlog
        rfl
      · rw [hl.2.2 he hc] at hlog
        cases hlog
  · intro h0 c hc
    rcases check_change_attribute_calls env ctemplate attribute_node old_name_node constraints
      a with hnil | ⟨L, hL⟩
    · rw [hnil] at hc
      cases hc
    · rw [hL] at h0 hc
      exact (check_change_attribute_escalate_logged env _ _ L).1 h0 c hc
  · intro hne hcalls
    rcases check_change_attribute_calls env ctemplate attribute_node old_name_node constraints
      a with hnil | ⟨L, hL⟩
    · exact absurd hnil hcalls
    · rw [hL] at hne ⊢
      exact (check_change_attribute_escalate_logged env _ _ L).2.1 hne
  · intro c hc
    rcases check_change_attribute_calls env ctemplate attribute_node old_name_node constraints
      a with hnil | ⟨L, hL⟩
    · rw [hnil] at hc
      cases hc
    · rw [hL] at hc ⊢
      rw [check_change_attribute_escalate_ledger]
      exact (check_change_attribute_escalate_logged env _ _ L).2.2 c hc

/-- C39 (what holds): whenever `check_change_attribute` returns `NO_ERROR` with
the strategy WithRowUpdate, the type entry of the ledger it built carries
`ATT_CHG_TYPE_UPGRADE` or is `PRESENT_OLD | PRESENT_NEW | DIFF |
SET_CLS_COMPAT`; the assertion of `do_change_att_schema_only` on that strategy
holds exactly in the first case. The collaborators are taken to report an
error code when they fail. -/
theorem check_change_attribute_with_row_update (env : Env) (ctemplate : DB_CTMPL)
    (attribute_node : PT_ATTR_DEF) (old_name_node : Option String)
    (constraints : List PT_CONSTRAINT) (a : SM_ATTR_PROP_CHG)
    (hfind : ∀ n b e, ctemplate.smt_find_attribute n b = .error e → e ≠ NO_ERROR)
    (hkey : ∀ e, ctemplate.do_get_partition_keycol = .error e → e ≠ NO_ERROR)
    (hdom : attribute_node.pt_node_to_db_domain = none → attribute_node.er_errid ≠ NO_ERROR)
    (herr : (check_change_attribute env ctemplate attribute_node old_name_node constraints
      a).error = NO_ERROR)
    (hmode : (check_change_attribute env ctemplate attribute_node old_name_node constraints
      a).change_mode = SM_ATTR_CHG_WITH_ROW_UPDATE) :
    (is_att_prop_set ((check_change_attribute env ctemplate attribute_node old_name_node
          constraints a).attr_chg_prop.p P_TYPE) ATT_CHG_TYPE_UPGRADE = true
      ∨ (check_change_attribute env ctemplate attribute_node old_name_node constraints
          a).attr_chg_prop.p P_TYPE
        = ATT_CHG_PROPERTY_PRESENT_OLD ||| ATT_CHG_PROPERTY_PRESENT_NEW
          ||| ATT_CHG_PROPERTY_DIFF ||| ATT_CHG_TYPE_SET_CLS_COMPAT) ∧
    do_change_att_schema_only_asserts
        (check_change_attribute env ctemplate attribute_node old_name_node constraints
          a).attr_chg_prop
        (check_change_attribute env ctemplate attribute_node old_name_node constraints
          a).change_mode
      = is_att_prop_set ((check_change_attribute env ctemplate attribute_node old_name_node
          constraints a).attr_chg_prop.p P_TYPE) ATT_CHG_TYPE_UPGRADE := by
  refine ⟨?_, by rw [hmode]; rfl⟩
  obtain ⟨L, hbuild, hplan⟩ := check_change_attribute_of_mode env ctemplate attribute_node
    old_name_node constraints a (by rw [hmode]; decide) (by rw [hmode]; decide)
  rw [hplan] at herr hmode ⊢
  rw [check_change_attribute_escalate_ledger]
  obtain ⟨att, d, -, -, -, -, -, -, -, htype⟩ :=
    build_attr_change_map_entries env ctemplate attribute_node old_name_node constraints _ L
      hfind hkey hdom hbuild
  have hcases := check_change_attribute_escalate_cases env
    (old_name_node.getD attribute_node.attr_name) attribute_node.type_enum L
  simp only at hcases
  rcases hcases with ⟨-, -, hm⟩ | ⟨hretry, -, he, -⟩ | ⟨-, -, -, hm⟩
  · rw [hm] at hmode
    cases hmode
  · rw [he] at herr
    rw [check_att_chg_allowed_no_error_iff, check_att_chg_allowed_checks_ok_iff] at herr
    have htc := herr.2.2.2.2.1
    rw [check_type_change_with_row_update] at htc
    rw [check_att_chg_allowed_retry_iff] at hretry
    have hflags := check_att_chg_allowed_checks_retry_only_schema _ _ _ _ hretry
    have hlist : ∀ v ∈ [0x13, 0x103, 0x423, 0x2023, 0x823, 0x803, 0x203, 0x3, 0x223, 0x1023,
        0x4023],
        is_att_prop_set v ATT_CHG_TYPE_NOT_SUPPORTED = false →
        is_att_prop_set v ATT_CHG_TYPE_NOT_SUPPORTED_WITH_CFG = false →
        (is_att_prop_set v ATT_CHG_TYPE_NEED_ROW_CHECK
          || is_att_prop_set v ATT_CHG_TYPE_PSEUDO_UPGRADE) = false →
        (is_att_prop_set v ATT_CHG_PROPERTY_DIFF = true
          ∨ is_att_prop_set v ATT_CHG_TYPE_NEED_ROW_CHECK = true
          ∨ is_att_prop_set v ATT_CHG_TYPE_PSEUDO_UPGRADE = true
          ∨ is_att_prop_set v ATT_CHG_TYPE_UPGRADE = true) →
        is_att_prop_set v ATT_CHG_TYPE_UPGRADE = true
          ∨ v = ATT_CHG_PROPERTY_PRESENT_OLD ||| ATT_CHG_PROPERTY_PRESENT_NEW
            ||| ATT_CHG_PROPERTY_DIFF ||| ATT_CHG_TYPE_SET_CLS_COMPAT := by decide
    have hmem : L.p P_TYPE ∈ [0x13, 0x103, 0x423, 0x2023, 0x823, 0x803, 0x203, 0x3, 0x223,
        0x1023, 0x4023] := by
      rcases htype with ⟨-, ht⟩ | ⟨-, ht⟩
      · rw [ht]
        simp
      · exact List.mem_cons_of_mem _ ht
    split_ifs at htc with h1 h2 h3
    exact hlist _ hmem (by simpa using h1) (by simpa using h2) (by simpa using h3) hflags
  · rw [hm] at hmode
    cases hmode

/-- C39 (witness): the request `MODIFY a BIGINT` on an INTEGER attribute is
granted WithRowUpdate and its type entry carries UPGRADE. -/
theorem check_change_attribute_with_row_update_witness :
    (check_change_attribute (sample_env false)
        (sample_template "a" (sample_attribute (simple_domain DB_TYPE_INTEGER)) [])
        (sample_definition "a" PT_TYPE_BIGINT (simple_domain DB_TYPE_BIGINT))
        none [] fresh_ledger).change_mode = SM_ATTR_CHG_WITH_ROW_UPDATE ∧
      is_att_prop_set ((check_change_attribute (sample_env false)
        (sample_template "a" (sample_attribute (simple_domain DB_TYPE_INTEGER)) [])
        (sample_definition "a" PT_TYPE_BIGINT (simple_domain DB_TYPE_BIGINT))
        none [] fresh_ledger).attr_chg_prop.p P_TYPE) ATT_CHG_TYPE_UPGRADE = true ∧
      do_change_att_schema_only_asserts
        (check_change_attribute (sample_env false)
          (sample_template "a" (sample_attribute (simple_domain DB_TYPE_INTEGER)) [])
          (sample_definition "a" PT_TYPE_BIGINT (simple_domain DB_TYPE_BIGINT))
          none [] fresh_ledger).attr_chg_prop
        (check_change_attribute (sample_env false)
          (sample_template "a" (sample_attribute (simple_domain DB_TYPE_INTEGER)) [])
          (sample_definition "a" PT_TYPE_BIGINT (simple_domain DB_TYPE_BIGINT))
          none [] fresh_ledger).change_mode
        = is_att_prop_set ((check_change_attribute (sample_env false)
          (sample_template "a" (sample_attribute (simple_domain DB_TYPE_INTEGER)) [])
          (sample_definition "a" PT_TYPE_BIGINT (simple_domain DB_TYPE_BIGINT))
          none [] fresh_ledger).attr_chg_prop.p P_TYPE) ATT_CHG_TYPE_UPGRADE :=
  ⟨by decide, by decide,
    (check_change_attribute_with_row_update (sample_env false)
      (sample_template "a" (sample_attribute (simple_domain DB_TYPE_INTEGER)) [])
      (sample_definition "a" PT_TYPE_BIGINT (simple_domain DB_TYPE_BIGINT))
      none [] fresh_ledger
      (by
        intro n b e h
        simp only [sample_template] at h
        split_ifs at h
        cases h
        simp)
      (by
        intro e h
        cases h
        simp)
      (by
        intro h
        cases h)
      (by decide) (by decide)).2⟩

/-- C39 (failing input): an OBJECT attribute `a` of class 2 that has a
non-unique index, changed by `MODIFY a <class 1>` to a superclass.
`check_change_attribute` returns `NO_ERROR` with the strategy WithRowUpdate,
the type entry is `PRESENT_OLD | PRESENT_NEW | DIFF | SET_CLS_COMPAT` without
`ATT_CHG_TYPE_UPGRADE`, and the assertion of `do_change_att_schema_only` on
that strategy fails. -/
theorem check_change_attribute_superclass_with_index :
    (check_change_attribute (sample_env false)
        (sample_template "a" (sample_attribute ⟨DB_TYPE_OBJECT, 0, 0, some 2⟩)
          [⟨some "i_a", SM_CONSTRAINT_INDEX, [some "a"], false, none, none, none, none⟩])
        (sample_definition "a" PT_TYPE_OBJECT ⟨DB_TYPE_OBJECT, 0, 0, some 1⟩) none []
        fresh_ledger).error = NO_ERROR ∧
      (check_change_attribute (sample_env false)
        (sample_template "a" (sample_attribute ⟨DB_TYPE_OBJECT, 0, 0, some 2⟩)
          [⟨some "i_a", SM_CONSTRAINT_INDEX, [some "a"], false, none, none, none, none⟩])
        (sample_definition "a" PT_TYPE_OBJECT ⟨DB_TYPE_OBJECT, 0, 0, some 1⟩) none []
        fresh_ledger).change_mode = SM_ATTR_CHG_WITH_ROW_UPDATE ∧
      (check_change_attribute (sample_env false)
        (sample_template "a" (sample_attribute ⟨DB_TYPE_OBJECT, 0, 0, some 2⟩)
          [⟨some "i_a", SM_CONSTRAINT_INDEX, [some "a"], false, none, none, none, none⟩])
        (sample_definition "a" PT_TYPE_OBJECT ⟨DB_TYPE_OBJECT, 0, 0, some 1⟩) none []
        fresh_ledger).attr_chg_prop.p P_TYPE
        = ATT_CHG_PROPERTY_PRESENT_OLD ||| ATT_CHG_PROPERTY_PRESENT_NEW
          ||| ATT_CHG_PROPERTY_DIFF ||| ATT_CHG_TYPE_SET_CLS_COMPAT ∧
      is_att_prop_set ((check_change_attribute (sample_env false)
        (sample_template "a" (sample_attribute ⟨DB_TYPE_OBJECT, 0, 0, some 2⟩)
          [⟨some "i_a", SM_CONSTRAINT_INDEX, [some "a"], false, none, none, none, none⟩])
        (sample_definition "a" PT_TYPE_OBJECT ⟨DB_TYPE_OBJECT, 0, 0, some 1⟩) none []
        fresh_ledger).attr_chg_prop.p P_TYPE) ATT_CHG_TYPE_UPGRADE = false ∧
      do_change_att_schema_only_asserts
        (check_change_attribute (sample_env false)
          (sample_template "a" (sample_attribute ⟨DB_TYPE_OBJECT, 0, 0, some 2⟩)
            [⟨some "i_a", SM_CONSTRAINT_INDEX, [some "a"], false, none, none, none, none⟩])
          (sample_definition "a" PT_TYPE_OBJECT ⟨DB_TYPE_OBJECT, 0, 0, some 1⟩) none []
          fresh_ledger).attr_chg_prop
        (check_change_attribute (sample_env false)
          (sample_template "a" (sample_attribute ⟨DB_TYPE_OBJECT, 0, 0, some 2⟩)
            [⟨some "i_a", SM_CONSTRAINT_INDEX, [some "a"], false, none, none, none, none⟩])
          (sample_definition "a" PT_TYPE_OBJECT ⟨DB_TYPE_OBJECT, 0, 0, some 1⟩) none []
          fresh_ledger).change_mode = false := by
  decide

/-- C34: for every constraint list whose constraint types all lie between 0
and `DB_CONSTRAINT_FOREIGN_KEY`, `sort_constr_info_list` returns `NO_ERROR`
and replaces the list by its stable sort by rank: the result is a permutation
of the input, the ranks do not decrease along it, and the constraints of each
rank keep their input order. The ranks put the non-unique and reverse indexes
first, then the unique and reverse unique ones, then the primary key, then the
foreign key, then NOT NULL. -/
theorem sort_constr_info_list_stable (orig_list : List SM_CONSTRAINT_INFO)
    (hrange : ∀ c ∈ orig_list,
      0 ≤ c.constraint_type ∧ c.constraint_type ≤ DB_CONSTRAINT_FOREIGN_KEY) :
    (sort_constr_info_list orig_list).1 = NO_ERROR ∧
    (sort_constr_info_list orig_list).2.Perm orig_list ∧
    (sort_constr_info_list orig_list).2.Pairwise (fun x y =>
      constr_order x.constraint_type ≤ constr_order y.constraint_type) ∧
    (∀ k : Int,
      (sort_constr_info_list orig_list).2.filter
          (fun c => decide (constr_order c.constraint_type = k)) =
        orig_list.filter (fun c => decide (constr_order c.constraint_type = k))) ∧
    (constr_order DB_CONSTRAINT_INDEX = constr_order DB_CONSTRAINT_REVERSE_INDEX
      ∧ constr_order DB_CONSTRAINT_REVERSE_INDEX < constr_order DB_CONSTRAINT_UNIQUE
      ∧ constr_order DB_CONSTRAINT_UNIQUE = constr_order DB_CONSTRAINT_REVERSE_UNIQUE
      ∧ constr_order DB_CONSTRAINT_REVERSE_UNIQUE < constr_order DB_CONSTRAINT_PRIMARY_KEY
      ∧ constr_order DB_CONSTRAINT_PRIMARY_KEY < constr_order DB_CONSTRAINT_FOREIGN_KEY
      ∧ constr_order DB_CONSTRAINT_FOREIGN_KEY < constr_order DB_CONSTRAINT_NOT_NULL) := by
  obtain ⟨h1, h2, h3, h4⟩ := sort_constr_info_list_spec orig_list hrange
  exact ⟨h1, h2, h3, h4, by decide⟩

/-- C34 (witness): a NOT NULL, a primary key, two unique constraints and an
index, in that order, are sorted into the index, the two unique constraints in
their input order, the primary key and NOT NULL. -/
theorem sort_constr_info_list_stable_witness :
    sort_constr_info_list
        [sample_constraint_info DB_CONSTRAINT_NOT_NULL none ["a"],
          sample_constraint_info DB_CONSTRAINT_PRIMARY_KEY (some "pk") ["a"],
          sample_constraint_info DB_CONSTRAINT_UNIQUE (some "u1") ["a"],
          sample_constraint_info DB_CONSTRAINT_REVERSE_UNIQUE (some "u2") ["a", "b"],
          sample_constraint_info DB_CONSTRAINT_INDEX (some "i") ["a"]] =
      (NO_ERROR,
        [sample_constraint_info DB_CONSTRAINT_INDEX (some "i") ["a"],
          sample_constraint_info DB_CONSTRAINT_UNIQUE (some "u1") ["a"],
          sample_constraint_info DB_CONSTRAINT_REVERSE_UNIQUE (some "u2") ["a", "b"],
          sample_constraint_info DB_CONSTRAINT_PRIMARY_KEY (some "pk") ["a"],
          sample_constraint_info DB_CONSTRAINT_NOT_NULL none ["a"]]) ∧
      (sort_constr_info_list
        [sample_constraint_info DB_CONSTRAINT_NOT_NULL none ["a"],
          sample_constraint_info DB_CONSTRAINT_PRIMARY_KEY (some "pk") ["a"],
          sample_constraint_info DB_CONSTRAINT_UNIQUE (some "u1") ["a"],
          sample_constraint_info DB_CONSTRAINT_REVERSE_UNIQUE (some "u2") ["a", "b"],
          sample_constraint_info DB_CONSTRAINT_INDEX (some "i") ["a"]]).1 = NO_ERROR :=
  ⟨by decide,
    (sort_constr_info_list_stable
      [sample_constraint_info DB_CONSTRAINT_NOT_NULL none ["a"],
        sample_constraint_info DB_CONSTRAINT_PRIMARY_KEY (some "pk") ["a"],
        sample_constraint_info DB_CONSTRAINT_UNIQUE (some "u1") ["a"],
        sample_constraint_info DB_CONSTRAINT_REVERSE_UNIQUE (some "u2") ["a", "b"],
        sample_constraint_info DB_CONSTRAINT_INDEX (some "i") ["a"]]
      (by decide)).1⟩

set_option maxHeartbeats 4000000 in
/-- C40: the classification is monotone in the requested precision. For every
current domain, every target type among CHAR, NCHAR, VARCHAR, VARNCHAR, BIT
and VARBIT and every configuration, when `build_att_type_change_map`
classifies the change as Upgrade at a requested precision `r >= 0`, it
classifies it as Upgrade at every requested precision `r2` with `r <= r2` that
does not exceed the maximum precision of a VARCHAR or VARNCHAR target (for the
other targets no bound is needed). The floating-precision value, a constant
declared outside `execute_schema.c`, is taken to be negative. -/
theorem build_att_type_change_map_monotone (env : Env) (curr_domain req_domain : TP_DOMAIN)
    (r2 : Int) (a : SM_ATTR_PROP_CHG)
    (hfloat : env.TP_FLOATING_PRECISION_VALUE < 0)
    (htype : req_domain.type ∈ [DB_TYPE_CHAR, DB_TYPE_NCHAR, DB_TYPE_VARCHAR,
      DB_TYPE_VARNCHAR, DB_TYPE_BIT, DB_TYPE_VARBIT])
    (hr : 0 ≤ req_domain.precision) (hrr : req_domain.precision ≤ r2)
    (hmax : (req_domain.type = DB_TYPE_VARCHAR → r2 ≤ env.DB_MAX_VARCHAR_PRECISION)
      ∧ (req_domain.type = DB_TYPE_VARNCHAR → r2 ≤ env.DB_MAX_VARNCHAR_PRECISION))
    (hup : type_change_flag env curr_domain req_domain = some ATT_CHG_TYPE_UPGRADE) :
    type_change_flag env curr_domain { req_domain with precision := r2 }
        = some ATT_CHG_TYPE_UPGRADE ∧
      build_att_type_change_map env curr_domain { req_domain with precision := r2 } a
        = (NO_ERROR, or_type a ATT_CHG_TYPE_UPGRADE) := by
  have key : type_change_flag env curr_domain { req_domain with precision := r2 }
      = some ATT_CHG_TYPE_UPGRADE := by
    obtain ⟨ct, cp, cs, cm⟩ := curr_domain
    obtain ⟨rt, rp, rs, rm⟩ := req_domain
    simp only [List.mem_cons, List.mem_singleton, List.not_mem_nil, or_false] at htype
    simp only at hr hrr hmax
    have hne : ATT_CHG_TYPE_NEED_ROW_CHECK ≠ ATT_CHG_TYPE_UPGRADE := by decide
    have hne2 : ATT_CHG_TYPE_NOT_SUPPORTED ≠ ATT_CHG_TYPE_UPGRADE := by decide
    have hne3 : ATT_CHG_TYPE_NOT_SUPPORTED_WITH_CFG ≠ ATT_CHG_TYPE_UPGRADE := by decide
    rcases htype with rfl | rfl | rfl | rfl | rfl | rfl <;> cases ct <;>
      simp only [type_change_flag, req_prec_and_max, TP_DOMAIN_TYPE, reduceCtorEq, if_false,
        if_true, true_implies, false_implies, and_true, true_and] at hup hmax ⊢ <;>
      first
      | rfl
      | (exact absurd (Option.some.inj hup) hne)
      | (exact absurd (Option.some.inj hup) hne2)
      | (split_ifs at hup ⊢ <;>
          first
          | rfl
          | (exact absurd (Option.some.inj hup) hne)
          | (exact absurd (Option.some.inj hup) hne2)
          | (exact absurd (Option.some.inj hup) hne3)
          | (exfalso; simp_all; omega)
          | (exfalso; omega)
          | (exfalso; simp_all))
  refine ⟨key, ?_⟩
  unfold build_att_type_change_map
  rw [key]

/-- C36: the drop and recreate pair is a round trip on the saved constraints.
For a saved list whose constraint types lie between 0 and
`DB_CONSTRAINT_FOREIGN_KEY`, when `do_drop_att_constraints` succeeds on the
list and `do_recreate_att_constraints` succeeds on the list sorted by
`sort_constr_info_list`, both have acted on the same elements, the ones of the
unique family and the non-unique indexes, and on no other: the drops are made
in the order of the list, the sort does not fail and only permutes, and each
element is created again with the constraint type, name, column names in
their order, ascending and descending flags and prefix lengths that the saved
element holds. The part of `do_alter_clause_change_attribute` that runs the
pair (lines 11950-12006) makes, when it succeeds, the drops, then the row
updates, then the creations, and leaves the sorted list. -/
theorem do_drop_recreate_round_trip (w : World) (constr_info : List SM_CONSTRAINT_INFO)
    (t t1 t2 t3 : List Call)
    (hrange : ∀ c ∈ constr_info,
      0 ≤ c.constraint_type ∧ c.constraint_type ≤ DB_CONSTRAINT_FOREIGN_KEY)
    (hdrop : do_drop_att_constraints w constr_info t = (NO_ERROR, t1))
    (hrecreate : do_recreate_att_constraints w (sort_constr_info_list constr_info).2 t2
      = (NO_ERROR, t3)) :
    t1 = t ++ (constr_info.filter fun c =>
          w.SM_IS_CONSTRAINT_UNIQUE_FAMILY c.constraint_type
            || decide (c.constraint_type = DB_CONSTRAINT_INDEX)).map (fun c =>
        if w.SM_IS_CONSTRAINT_UNIQUE_FAMILY c.constraint_type = true then
          Call.sm_drop_constraint c.constraint_type c.name c.att_names
        else Call.sm_drop_index c.name) ∧
    (sort_constr_info_list constr_info).1 = NO_ERROR ∧
    (sort_constr_info_list constr_info).2.Perm constr_info ∧
    t3 = t2 ++ ((sort_constr_info_list constr_info).2.filter fun c =>
          w.SM_IS_CONSTRAINT_UNIQUE_FAMILY c.constraint_type
            || decide (c.constraint_type = DB_CONSTRAINT_INDEX)).map (fun c =>
        if w.SM_IS_CONSTRAINT_UNIQUE_FAMILY c.constraint_type = true then
          Call.sm_add_constraint c.constraint_type c.name c.att_names c.asc_desc
            c.prefix_length c.filter_predicate c.func_index_info
        else
          Call.sm_add_index c.constraint_type c.name c.att_names c.asc_desc
            c.prefix_length c.filter_predicate c.func_index_info) ∧
    (((sort_constr_info_list constr_info).2.filter fun c =>
        w.SM_IS_CONSTRAINT_UNIQUE_FAMILY c.constraint_type
          || decide (c.constraint_type = DB_CONSTRAINT_INDEX)).Perm
      (constr_info.filter fun c =>
        w.SM_IS_CONSTRAINT_UNIQUE_FAMILY c.constraint_type
          || decide (c.constraint_type = DB_CONSTRAINT_INDEX))) ∧
    (∀ (is_srv_update_needed has_partitions : Bool) (att_id : Int)
        (saved : List SM_CONSTRAINT_INFO) (t4 : List Call),
      drop_update_recreate w is_srv_update_needed has_partitions att_id constr_info t
        = (NO_ERROR, saved, t4) →
      saved = (sort_constr_info_list constr_info).2 ∧
      ∃ updates, t4 = t1 ++ updates ++
        ((sort_constr_info_list constr_info).2.filter fun c =>
          w.SM_IS_CONSTRAINT_UNIQUE_FAMILY c.constraint_type
            || decide (c.constraint_type = DB_CONSTRAINT_INDEX)).map (fun c =>
        if w.SM_IS_CONSTRAINT_UNIQUE_FAMILY c.constraint_type = true then
          Call.sm_add_constraint c.constraint_type c.name c.att_names c.asc_desc
            c.prefix_length c.filter_predicate c.func_index_info
        else
          Call.sm_add_index c.constraint_type c.name c.att_names c.asc_desc
            c.prefix_length c.filter_predicate c.func_index_info)) := by
  have hsort := sort_constr_info_list_spec constr_info hrange
  refine ⟨do_drop_att_constraints_ok w _ _ _ hdrop, hsort.1, hsort.2.1,
    do_recreate_att_constraints_ok w _ _ _ hrecreate, hsort.2.1.filter _, ?_⟩
  intro srv hp att_id saved t4 h
  unfold drop_update_recreate at h
  rw [hdrop] at h
  simp only at h
  have hs : sort_constr_info_list constr_info
      = (NO_ERROR, (sort_constr_info_list constr_info).2) := Prod.ext hsort.1 rfl
  generalize hupd : (if srv = true then
      if hp = true then upgrade_partitions w att_id 0 w.user_count t1
      else w.call t1 (Call.do_run_upgrade_instances_domain none att_id)
    else (NO_ERROR, t1)) = u at h
  obtain ⟨eu, tu⟩ := u
  have hext : ∃ updates, tu = t1 ++ updates := by
    have h2 := congrArg Prod.snd hupd
    simp only at h2
    rw [← h2]
    cases srv
    · exact ⟨[], by simp⟩
    · cases hp
      · exact ⟨[_], World.call_snd w _ _⟩
      · exact upgrade_partitions_extends w att_id _ _ _
  obtain ⟨updates, rfl⟩ := hext
  split at h
  · rename_i t5 heq
    obtain ⟨-, rfl⟩ := Prod.mk.inj heq
    rw [hs] at h
    simp only at h
    rcases hr : do_recreate_att_constraints w (sort_constr_info_list constr_info).2
      (t1 ++ updates) with ⟨er, tr⟩
    rw [hr] at h
    simp only [Prod.mk.injEq] at h
    obtain ⟨rfl, rfl, rfl⟩ := h
    exact ⟨rfl, updates, do_recreate_att_constraints_ok w _ _ _ hr⟩
  · rename_i e t5 hne heq
    simp only [Prod.mk.injEq] at h
    exact absurd h.1 hne

/-- C36 (witness): a saved primary key, non-unique index and unique constraint
on two columns, in a world where every call succeeds: the three are dropped in
the order of the list and created again, in the sorted order, with their
types, names and column names. -/
theorem do_drop_recreate_round_trip_witness :
    do_drop_att_constraints
        (sample_world (sample_template "a" (sample_attribute (simple_domain DB_TYPE_INTEGER)) [])
          fun _ => NO_ERROR)
        [sample_constraint_info DB_CONSTRAINT_PRIMARY_KEY (some "pk") ["a"],
          sample_constraint_info DB_CONSTRAINT_INDEX (some "i") ["a"],
          sample_constraint_info DB_CONSTRAINT_UNIQUE (some "u") ["a", "b"]] [] =
      (NO_ERROR,
        [Call.sm_drop_constraint DB_CONSTRAINT_PRIMARY_KEY (some "pk") ["a"],
          Call.sm_drop_index (some "i"),
          Call.sm_drop_constraint DB_CONSTRAINT_UNIQUE (some "u") ["a", "b"]]) ∧
      do_recreate_att_constraints
        (sample_world (sample_template "a" (sample_attribute (simple_domain DB_TYPE_INTEGER)) [])
          fun _ => NO_ERROR)
        (sort_constr_info_list
          [sample_constraint_info DB_CONSTRAINT_PRIMARY_KEY (some "pk") ["a"],
            sample_constraint_info DB_CONSTRAINT_INDEX (some "i") ["a"],
            sample_constraint_info DB_CONSTRAINT_UNIQUE (some "u") ["a", "b"]]).2 [] =
      (NO_ERROR,
        [Call.sm_add_index DB_CONSTRAINT_INDEX (some "i") ["a"] none none none none,
          Call.sm_add_constraint DB_CONSTRAINT_UNIQUE (some "u") ["a", "b"] none none none
            none,
          Call.sm_add_constraint DB_CONSTRAINT_PRIMARY_KEY (some "pk") ["a"] none none none
            none]) ∧
      (sort_constr_info_list
        [sample_constraint_info DB_CONSTRAINT_PRIMARY_KEY (some "pk") ["a"],
          sample_constraint_info DB_CONSTRAINT_INDEX (some "i") ["a"],
          sample_constraint_info DB_CONSTRAINT_UNIQUE (some "u") ["a", "b"]]).1 = NO_ERROR :=
  ⟨by decide, by decide,
    (do_drop_recreate_round_trip
      (sample_world (sample_template "a" (sample_attribute (simple_domain DB_TYPE_INTEGER)) [])
        fun _ => NO_ERROR)
      [sample_constraint_info DB_CONSTRAINT_PRIMARY_KEY (some "pk") ["a"],
        sample_constraint_info DB_CONSTRAINT_INDEX (some "i") ["a"],
        sample_constraint_info DB_CONSTRAINT_UNIQUE (some "u") ["a", "b"]] []
      [Call.sm_drop_constraint DB_CONSTRAINT_PRIMARY_KEY (some "pk") ["a"],
        Call.sm_drop_index (some "i"),
        Call.sm_drop_constraint DB_CONSTRAINT_UNIQUE (some "u") ["a", "b"]] []
      [Call.sm_add_index DB_CONSTRAINT_INDEX (some "i") ["a"] none none none none,
        Call.sm_add_constraint DB_CONSTRAINT_UNIQUE (some "u") ["a", "b"] none none none none,
        Call.sm_add_constraint DB_CONSTRAINT_PRIMARY_KEY (some "pk") ["a"] none none none none]
      (by decide) (by decide) (by decide)).2.1⟩

/-- C35 (amended): for every list of newly gained NOT NULL, UNIQUE and PRIMARY
KEY constraints and every input order, a successful run of the part of
`do_alter_clause_change_attribute` that creates them (lines 12008-12092)
leaves the list sorted by `sort_constr_info_list`, which is its UNIQUE
constraints, then its PRIMARY KEY constraints, then its NOT NULL constraints,
each group in input order, and has created them in that order: UNIQUE first,
then PRIMARY KEY, then NOT NULL. A gained PRIMARY KEY is added before a gained
NOT NULL is established. -/
theorem create_new_constraints_order (env : Env) (w : World) (alter : PT_ALTER)
    (new_constr_info saved : List SM_CONSTRAINT_INFO) (t t2 : List Call)
    (htypes : ∀ c ∈ new_constr_info, c.constraint_type = DB_CONSTRAINT_NOT_NULL
      ∨ c.constraint_type = DB_CONSTRAINT_UNIQUE
      ∨ c.constraint_type = DB_CONSTRAINT_PRIMARY_KEY)
    (h : create_new_constraints env w alter new_constr_info t = (NO_ERROR, saved, t2)) :
    saved = (sort_constr_info_list new_constr_info).2 ∧
    saved =
      new_constr_info.filter (fun c => decide (c.constraint_type = DB_CONSTRAINT_UNIQUE))
      ++ new_constr_info.filter
        (fun c => decide (c.constraint_type = DB_CONSTRAINT_PRIMARY_KEY))
      ++ new_constr_info.filter
        (fun c => decide (c.constraint_type = DB_CONSTRAINT_NOT_NULL)) ∧
    t2 = t ++ saved.flatMap (fun ci =>
      if ci.constraint_type = DB_CONSTRAINT_NOT_NULL then
        (if env.PRM_ALTER_TABLE_CHANGE_TYPE_STRICT = false then
          [Call.db_get_class_name,
            Call.do_run_update_query_for_class w.class_name ci.att_names.head?
              (get_hard_default_for_type alter.attr_def_list.type_enum)]
        else []) ++ [Call.db_constrain_non_null ci.att_names.head?]
      else [Call.db_add_constraint ci.constraint_type ci.att_names]) := by
  have hrange : ∀ c ∈ new_constr_info,
      0 ≤ c.constraint_type ∧ c.constraint_type ≤ DB_CONSTRAINT_FOREIGN_KEY := by
    intro c hc
    rcases htypes c hc with g | g | g <;> rw [g] <;> decide
  obtain ⟨hs1, hperm, hsorted, hstable⟩ := sort_constr_info_list_spec new_constr_info hrange
  have hs : sort_constr_info_list new_constr_info
      = (NO_ERROR, (sort_constr_info_list new_constr_info).2) := Prod.ext hs1 rfl
  have hsaved : saved = (sort_constr_info_list new_constr_info).2
      ∧ add_new_constraints env w alter (sort_constr_info_list new_constr_info).2 t
        = (NO_ERROR, t2) := by
    unfold create_new_constraints at h
    cases hl : new_constr_info with
    | nil =>
      rw [hl] at h
      simp only [Prod.mk.injEq, true_and] at h
      rw [← h.1, ← h.2]
      exact ⟨rfl, rfl⟩
    | cons c rest =>
      rw [hl] at h
      simp only at h
      rw [← hl, hs] at h
      simp only at h
      rcases ha : add_new_constraints env w alter (sort_constr_info_list new_constr_info).2 t
        with ⟨ea, ta⟩
      rw [ha] at h
      simp only [Prod.mk.injEq] at h
      obtain ⟨rfl, rfl, rfl⟩ := h
      rw [← hl]
      exact ⟨rfl, ha⟩
  obtain ⟨hsaved, hadd⟩ := hsaved
  have htypes2 : ∀ c ∈ (sort_constr_info_list new_constr_info).2,
      c.constraint_type = DB_CONSTRAINT_NOT_NULL
        ∨ c.constraint_type = DB_CONSTRAINT_UNIQUE
        ∨ c.constraint_type = DB_CONSTRAINT_PRIMARY_KEY :=
    fun c hc => htypes c (hperm.mem_iff.mp hc)
  have hrank : ∀ (l : List SM_CONSTRAINT_INFO),
      (∀ c ∈ l, c.constraint_type = DB_CONSTRAINT_NOT_NULL
        ∨ c.constraint_type = DB_CONSTRAINT_UNIQUE
        ∨ c.constraint_type = DB_CONSTRAINT_PRIMARY_KEY) →
      ∀ ty ∈ [DB_CONSTRAINT_NOT_NULL, DB_CONSTRAINT_UNIQUE, DB_CONSTRAINT_PRIMARY_KEY],
      l.filter (fun c => decide (c.constraint_type = ty)) =
        l.filter (fun c => decide (constr_order c.constraint_type = constr_order ty)) := by
    intro l hl ty hty
    apply List.filter_congr
    intro c hc
    simp only [List.mem_cons, List.mem_singleton, List.not_mem_nil, or_false] at hty
    rcases hl c hc with g | g | g <;> rcases hty with rfl | rfl | rfl <;> rw [g] <;> decide
  refine ⟨hsaved, ?_, ?_⟩
  · rw [hsaved]
    have key := sorted_new_constraints _ htypes2 hsorted
    rw [hrank _ htypes2 _ (by simp), hrank _ htypes2 _ (by simp), hrank _ htypes2 _ (by simp),
      hstable, hstable, hstable, ← hrank _ htypes _ (by simp), ← hrank _ htypes _ (by simp),
      ← hrank _ htypes _ (by simp)] at key
    exact key
  · rw [hsaved]
    exact add_new_constraints_ok env w alter _ _ _ hadd

/-- C35 (amended, witness): the gained constraints NOT NULL, PRIMARY KEY and
UNIQUE, in that input order, under the strict configuration and in a world
where every call succeeds, are created in the order UNIQUE, PRIMARY KEY, NOT
NULL. -/
theorem create_new_constraints_order_witness :
    create_new_constraints (sample_env true)
        (sample_world (sample_template "a" (sample_attribute (simple_domain DB_TYPE_INTEGER)) [])
          fun _ => NO_ERROR)
        ⟨some "t", sample_definition "a" PT_TYPE_INTEGER (simple_domain DB_TYPE_INTEGER), none,
          []⟩
        [sample_constraint_info DB_CONSTRAINT_NOT_NULL none ["a"],
          sample_constraint_info DB_CONSTRAINT_PRIMARY_KEY none ["a"],
          sample_constraint_info DB_CONSTRAINT_UNIQUE none ["a"]] [] =
      (NO_ERROR,
        [sample_constraint_info DB_CONSTRAINT_UNIQUE none ["a"],
          sample_constraint_info DB_CONSTRAINT_PRIMARY_KEY none ["a"],
          sample_constraint_info DB_CONSTRAINT_NOT_NULL none ["a"]],
        [Call.db_add_constraint DB_CONSTRAINT_UNIQUE ["a"],
          Call.db_add_constraint DB_CONSTRAINT_PRIMARY_KEY ["a"],
          Call.db_constrain_non_null (some "a")]) ∧
      [sample_constraint_info DB_CONSTRAINT_UNIQUE none ["a"],
          sample_constraint_info DB_CONSTRAINT_PRIMARY_KEY none ["a"],
          sample_constraint_info DB_CONSTRAINT_NOT_NULL none ["a"]] =
        (sort_constr_info_list
          [sample_constraint_info DB_CONSTRAINT_NOT_NULL none ["a"],
            sample_constraint_info DB_CONSTRAINT_PRIMARY_KEY none ["a"],
            sample_constraint_info DB_CONSTRAINT_UNIQUE none ["a"]]).2 :=
  ⟨by decide,
    (create_new_constraints_order (sample_env true)
      (sample_world (sample_template "a" (sample_attribute (simple_domain DB_TYPE_INTEGER)) [])
        fun _ => NO_ERROR)
      ⟨some "t", sample_definition "a" PT_TYPE_INTEGER (simple_domain DB_TYPE_INTEGER), none,
        []⟩
      [sample_constraint_info DB_CONSTRAINT_NOT_NULL none ["a"],
        sample_constraint_info DB_CONSTRAINT_PRIMARY_KEY none ["a"],
        sample_constraint_info DB_CONSTRAINT_UNIQUE none ["a"]]
      [sample_constraint_info DB_CONSTRAINT_UNIQUE none ["a"],
        sample_constraint_info DB_CONSTRAINT_PRIMARY_KEY none ["a"],
        sample_constraint_info DB_CONSTRAINT_NOT_NULL none ["a"]] []
      [Call.db_add_constraint DB_CONSTRAINT_UNIQUE ["a"],
        Call.db_add_constraint DB_CONSTRAINT_PRIMARY_KEY ["a"],
        Call.db_constrain_non_null (some "a")]
      (by decide) (by decide)).1⟩

/-- C35 (counterexample): the clause `MODIFY a INTEGER NOT NULL PRIMARY KEY` on
a plain INTEGER attribute `a` of the class `t`, under the strict configuration
and in a world where every call succeeds. `do_alter_clause_change_attribute`
returns `NO_ERROR`; the planner saved the gained NOT NULL before the gained
PRIMARY KEY, and the PRIMARY KEY is added (`db_add_constraint`) before the NOT
NULL is established (`db_constrain_non_null`). -/
theorem do_alter_clause_change_attribute_primary_key_first :
    (check_change_attribute (sample_env true)
        (sample_template "a" (sample_attribute (simple_domain DB_TYPE_INTEGER)) [])
        (sample_definition "a" PT_TYPE_INTEGER (simple_domain DB_TYPE_INTEGER)) none
        [⟨PT_CONSTRAIN_NOT_NULL, ["a"]⟩, ⟨PT_CONSTRAIN_PRIMARY_KEY, ["a"]⟩]
        fresh_ledger).attr_chg_prop.new_constr_info =
      [sample_constraint_info DB_CONSTRAINT_NOT_NULL none ["a"],
        sample_constraint_info DB_CONSTRAINT_PRIMARY_KEY none ["a"]] ∧
      (do_alter_clause_change_attribute (sample_env true)
        (sample_world (sample_template "a" (sample_attribute (simple_domain DB_TYPE_INTEGER)) [])
          fun _ => NO_ERROR)
        ⟨some "t", sample_definition "a" PT_TYPE_INTEGER (simple_domain DB_TYPE_INTEGER), none,
          [⟨PT_CONSTRAIN_NOT_NULL, ["a"]⟩, ⟨PT_CONSTRAIN_PRIMARY_KEY, ["a"]⟩]⟩).map
          ALTER_RESULT.error = some NO_ERROR ∧
      (do_alter_clause_change_attribute (sample_env true)
        (sample_world (sample_template "a" (sample_attribute (simple_domain DB_TYPE_INTEGER)) [])
          fun _ => NO_ERROR)
        ⟨some "t", sample_definition "a" PT_TYPE_INTEGER (simple_domain DB_TYPE_INTEGER), none,
          [⟨PT_CONSTRAIN_NOT_NULL, ["a"]⟩, ⟨PT_CONSTRAIN_PRIMARY_KEY, ["a"]⟩]⟩).map
          ALTER_RESULT.trace =
      some [Call.db_find_class "t", Call.locator_flush_class, Call.locator_fetch_class none,
        Call.dbt_edit_class, Call.tran_savepoint,
        Call.db_set_suppress_repl_on_transaction true,
        Call.do_change_att_schema_only SM_ATTR_CHG_ONLY_SCHEMA, Call.do_check_fk_constraints,
        Call.dbt_finish_class,
        Call.db_add_constraint DB_CONSTRAINT_PRIMARY_KEY ["a"],
        Call.db_constrain_non_null (some "a"),
        Call.sm_free_constraint_info true,
        Call.db_set_suppress_repl_on_transaction false] := by
  decide

/-- C40 (witness): a TIME attribute changed to VARCHAR(11) is an Upgrade, and
so it is when changed to VARCHAR(20). -/
theorem build_att_type_change_map_monotone_witness :
    type_change_flag (sample_env true) (simple_domain DB_TYPE_TIME)
        ⟨DB_TYPE_VARCHAR, 11, 0, none⟩ = some ATT_CHG_TYPE_UPGRADE ∧
      type_change_flag (sample_env true) (simple_domain DB_TYPE_TIME)
        ⟨DB_TYPE_VARCHAR, 20, 0, none⟩ = some ATT_CHG_TYPE_UPGRADE :=
  ⟨by decide,
    (build_att_type_change_map_monotone (sample_env true) (simple_domain DB_TYPE_TIME)
      ⟨DB_TYPE_VARCHAR, 11, 0, none⟩ 20 fresh_ledger (by decide) (by decide) (by decide)
      (by decide) (by decide) (by decide)).1⟩

/-- C37: on every run on which `do_alter_clause_change_attribute` returns, it
has called `tran_abort_upto_savepoint` if and only if `tran_saved` is set at
the label `exit`, the returned code is not `NO_ERROR` and it is not
`ER_LK_UNILATERALLY_ABORTED`, and it has called it at most once; `tran_saved`
is set exactly when the first part of the function reached the savepoint and
`tran_savepoint` returned `NO_ERROR`. When `check_change_attribute` returns an
error, or the strategy `SM_ATTR_CHG_NOT_NEEDED`, the function returns and has
called neither `tran_savepoint` nor `tran_abort_upto_savepoint`. The function
returns on every run but the one that dereferences the NULL `attr_old_name`
(lines 11914-11918): a MODIFY clause, after a successful `tran_savepoint`,
with no row update to follow and a saved constraint that has a function index
expression or a filter predicate. -/
theorem do_alter_clause_change_attribute_rollback (env : Env) (w : World) (alter : PT_ALTER) :
    (∀ r, do_alter_clause_change_attribute env w alter = some r →
      (Call.tran_abort_upto_savepoint ∈ r.trace
        ↔ r.tran_saved = true ∧ r.error ≠ NO_ERROR ∧ r.error ≠ ER_LK_UNILATERALLY_ABORTED)
      ∧ r.trace.count Call.tran_abort_upto_savepoint ≤ 1
      ∧ (r.tran_saved = true
        ↔ ∃ attr_chg_prop change_mode has_partitions t,
          do_alter_clause_change_attribute_plan env w alter
            = .ok (attr_chg_prop, change_mode, has_partitions, t)
          ∧ w.outcome (t ++ [Call.tran_savepoint]) = NO_ERROR))
    ∧ ((check_change_attribute env w.ctemplate alter.attr_def_list alter.attr_old_name
            alter.constraint_list
            (reset_att_property_structure ⟨fun _ => 0, [], [], 0, ID_NULL, false⟩)).error
          ≠ NO_ERROR
        ∨ (check_change_attribute env w.ctemplate alter.attr_def_list alter.attr_old_name
            alter.constraint_list
            (reset_att_property_structure ⟨fun _ => 0, [], [], 0, ID_NULL, false⟩)).change_mode
          = SM_ATTR_CHG_NOT_NEEDED →
      ∃ r, do_alter_clause_change_attribute env w alter = some r
        ∧ r.tran_saved = false
        ∧ Call.tran_savepoint ∉ r.trace
        ∧ Call.tran_abort_upto_savepoint ∉ r.trace)
    ∧ (do_alter_clause_change_attribute env w alter = none →
      alter.attr_old_name = none
        ∧ ∃ attr_chg_prop change_mode has_partitions t,
          do_alter_clause_change_attribute_plan env w alter
            = .ok (attr_chg_prop, change_mode, has_partitions, t)
          ∧ w.outcome (t ++ [Call.tran_savepoint]) = NO_ERROR
          ∧ ((decide (change_mode = SM_ATTR_CHG_WITH_ROW_UPDATE)
                || decide (change_mode = SM_ATTR_CHG_BEST_EFFORT))
              && decide (attr_chg_prop.name_space = ID_ATTRIBUTE)) = false
          ∧ ∃ c ∈ attr_chg_prop.constr_info,
            c.func_index_info ≠ none ∨ c.filter_predicate ≠ none) := by
  have hplan := do_alter_clause_change_attribute_plan_spec env w alter
  have hsave : ∀ state : ALTER_STATE, Call.tran_savepoint ∉ state.trace →
      Call.tran_savepoint ∉ (do_alter_clause_change_attribute_exit state).trace := by
    intro state h
    unfold do_alter_clause_change_attribute_exit
    simp only []
    split_ifs <;> simp_all
  unfold do_alter_clause_change_attribute
  generalize hg : do_alter_clause_change_attribute_plan env w alter = g at hplan
  cases g with
  | error state =>
    obtain ⟨hsaved, hx, hs⟩ := hplan.1 state rfl
    obtain ⟨he, ht, hiff, hcount⟩ := do_alter_clause_change_attribute_exit_spec state hx
    simp only []
    refine ⟨?_, ?_, ?_⟩
    · intro r hr
      cases hr
      refine ⟨?_, hcount, ?_⟩
      · rw [hiff, he, ht]
      · rw [ht, hsaved]
        simp
    · intro _
      refine ⟨_, rfl, ?_, hsave state hs, ?_⟩
      · rw [ht, hsaved]
      · rw [hiff, hsaved]
        simp
    · intro h
      cases h
  | ok r =>
    obtain ⟨attr_chg_prop, change_mode, has_partitions, t⟩ := r
    obtain ⟨hx, hs, herr, hmode, hneeded⟩ := hplan.2 _ _ _ _ rfl
    simp only []
    refine ⟨?_, ?_, ?_⟩
    · intro r hr
      rw [Option.map_eq_some'] at hr
      obtain ⟨state, hstate, rfl⟩ := hr
      obtain ⟨happly, hsaved⟩ := do_alter_clause_change_attribute_apply_spec env w alter
        attr_chg_prop change_mode has_partitions t state hstate hx
      obtain ⟨he, ht, hiff, hcount⟩ := do_alter_clause_change_attribute_exit_spec _ happly
      refine ⟨?_, hcount, ?_⟩
      · rw [hiff, he, ht]
      · rw [ht, hsaved]
        constructor
        · intro h
          exact ⟨_, _, _, _, rfl, h⟩
        · rintro ⟨_, _, _, _, h1, h2⟩
          cases h1
          exact h2
    · rintro (h | h)
      · exact absurd herr h
      · exact absurd (hmode.symm.trans h) hneeded
    · intro h
      rw [Option.map_eq_none'] at h
      obtain ⟨h1, h2, h3, h4⟩ := do_alter_clause_change_attribute_apply_returns env w alter
        attr_chg_prop change_mode has_partitions t h
      exact ⟨h2, _, _, _, _, rfl, h1, h3, h4⟩

/-- C37 (witness): the clause `MODIFY a INTEGER NOT NULL` on a plain INTEGER
attribute, where `do_change_att_schema_only` fails. After `ER_FAILED` the
savepoint is rolled back; after `ER_LK_UNILATERALLY_ABORTED` it is not. The
clause `MODIFY a DATE`, which `check_change_attribute` refuses, reaches
neither the savepoint nor the rollback. The same `MODIFY a INTEGER NOT NULL`
on an attribute that has an index with a filter predicate reads the NULL old
name and has no result. -/
theorem do_alter_clause_change_attribute_rollback_witness :
    (do_alter_clause_change_attribute (sample_env true)
        (sample_world (sample_template "a" (sample_attribute (simple_domain DB_TYPE_INTEGER)) [])
          fun t => if t.getLast? = some (Call.do_change_att_schema_only SM_ATTR_CHG_ONLY_SCHEMA)
            then ER_FAILED else NO_ERROR)
        ⟨some "t", sample_definition "a" PT_TYPE_INTEGER (simple_domain DB_TYPE_INTEGER), none,
          [⟨PT_CONSTRAIN_NOT_NULL, ["a"]⟩]⟩).map ALTER_RESULT.trace =
      some [Call.db_find_class "t", Call.locator_flush_class, Call.locator_fetch_class none,
        Call.dbt_edit_class, Call.tran_savepoint,
        Call.db_set_suppress_repl_on_transaction true,
        Call.do_change_att_schema_only SM_ATTR_CHG_ONLY_SCHEMA, Call.dbt_abort_class,
        Call.tran_abort_upto_savepoint, Call.sm_free_constraint_info true,
        Call.db_set_suppress_repl_on_transaction false] ∧
      (do_alter_clause_change_attribute (sample_env true)
        (sample_world (sample_template "a" (sample_attribute (simple_domain DB_TYPE_INTEGER)) [])
          fun t => if t.getLast? = some (Call.do_change_att_schema_only SM_ATTR_CHG_ONLY_SCHEMA)
            then ER_LK_UNILATERALLY_ABORTED else NO_ERROR)
        ⟨some "t", sample_definition "a" PT_TYPE_INTEGER (simple_domain DB_TYPE_INTEGER), none,
          [⟨PT_CONSTRAIN_NOT_NULL, ["a"]⟩]⟩).map ALTER_RESULT.trace =
      some [Call.db_find_class "t", Call.locator_flush_class, Call.locator_fetch_class none,
        Call.dbt_edit_class, Call.tran_savepoint,
        Call.db_set_suppress_repl_on_transaction true,
        Call.do_change_att_schema_only SM_ATTR_CHG_ONLY_SCHEMA, Call.dbt_abort_class,
        Call.sm_free_constraint_info true,
        Call.db_set_suppress_repl_on_transaction false] ∧
      (do_alter_clause_change_attribute (sample_env true)
        (sample_world (sample_template "a" (sample_attribute (simple_domain DB_TYPE_INTEGER)) [])
          fun _ => NO_ERROR)
        ⟨some "t", sample_definition "a" PT_TYPE_DATE (simple_domain DB_TYPE_DATE), none,
          []⟩).map ALTER_RESULT.trace =
      some [Call.db_find_class "t", Call.locator_flush_class, Call.locator_fetch_class none,
        Call.dbt_edit_class, Call.dbt_abort_class,
        Call.db_set_suppress_repl_on_transaction false] ∧
      (do_alter_clause_change_attribute (sample_env true)
        (sample_world (sample_template "a" (sample_attribute (simple_domain DB_TYPE_INTEGER)) [])
          fun _ => NO_ERROR)
        ⟨some "t", sample_definition "a" PT_TYPE_DATE (simple_domain DB_TYPE_DATE), none,
          []⟩).map ALTER_RESULT.error = some ER_ALTER_CHANGE_TYPE_NOT_SUPP ∧
      (do_alter_clause_change_attribute (sample_env true)
        (sample_world
          (sample_template "a" (sample_attribute (simple_domain DB_TYPE_INTEGER))
            [{ sample_constraint SM_CONSTRAINT_INDEX ["a"] with
                name := some "i_a", filter_predicate := some "a > 0" }])
          fun _ => NO_ERROR)
        ⟨some "t", sample_definition "a" PT_TYPE_INTEGER (simple_domain DB_TYPE_INTEGER), none,
          [⟨PT_CONSTRAIN_NOT_NULL, ["a"]⟩]⟩).isSome = false ∧
      ∃ r, do_alter_clause_change_attribute (sample_env true)
          (sample_world
            (sample_template "a" (sample_attribute (simple_domain DB_TYPE_INTEGER)) [])
            fun _ => NO_ERROR)
          ⟨some "t", sample_definition "a" PT_TYPE_DATE (simple_domain DB_TYPE_DATE), none,
            []⟩ = some r
        ∧ r.tran_saved = false
        ∧ Call.tran_savepoint ∉ r.trace
        ∧ Call.tran_abort_upto_savepoint ∉ r.trace :=
  ⟨by decide, by decide, by decide, by decide, by decide,
    (do_alter_clause_change_attribute_rollback (sample_env true)
      (sample_world (sample_template "a" (sample_attribute (simple_domain DB_TYPE_INTEGER)) [])
        fun _ => NO_ERROR)
      ⟨some "t", sample_definition "a" PT_TYPE_DATE (simple_domain DB_TYPE_DATE), none,
        []⟩).2.1 (Or.inl (by decide))⟩

end Cubrid
